import Mathlib

/-!
Verification development for the core of the "socrates" chess engine.

The definitions below are shallow embeddings of the Rust sources:

* `src/bitsets.rs`                 -- bitboard primitives;
* `src/board.rs`                   -- `BoardGeometry` lookup tables;
* `src/basetypes.rs`               -- basic types and constants;
* `src/basetypes/moves.rs`         -- packed `Move` representation;
* `src/position/board.rs`          -- `ZobristArrays`;
* `src/position/move_generation.rs`-- `Board`: move generation, do/undo,
                                      hashing, digests, legality;
* `src/search/position/mod.rs`     -- `Position`: qsearch, SEE, hashing;
* `src/search/quiescence.rs`       -- trait-default SEE (`evaluate_move`);
* `src/search/mod.rs`              -- `extract_pv` value chopping.

Machine integers (`u64`, `usize`, `u16`) are modelled as `Nat` with
explicit reductions modulo `2 ^ 64` (written `B64`) exactly where the
Rust code wraps.  `i16` values (`Value`) are modelled as `Int`.
Imperative loops of the form `while bb != 0 { bitscan_forward_and_reset }`
enumerate the set bits of a bitboard in increasing order; they are
rendered as folds/maps over `squaresOf bb`, the increasing list of set
bits.  Interior mutability (the lazily-computed checkers cache) is
modelled by recomputing the cached value on demand, which is the value
the cache always holds when it is valid.
-/

namespace Socrates

/-- `2 ^ 64`, the modulus of the 64-bit machine words. -/
def B64 : Nat := 18446744073709551616

/-- The universal bitboard set (`BB_UNIVERSAL_SET` in `position/bitsets.rs`):
all 64 bits set. -/
def BB_UNIVERSAL_SET : Nat := 18446744073709551615

/-- Bitwise complement within 64 bits (Rust `!x` on `u64`). -/
def comp64 (x : Nat) : Nat := Nat.xor BB_UNIVERSAL_SET x

/-- `gen_shift` from `src/bitsets.rs`: shift left for positive `s`,
shift right for negative `s`.  The left shift wraps modulo `2 ^ 64`. -/
def genShift (x : Nat) (s : Int) : Nat :=
  if 0 < s then (x <<< s.toNat) % B64 else x >>> (-s).toNat

/-- `ls1b` from `src/bitsets.rs`: the least significant set bit of `x`
(the two's-complement trick `x & (0 - x)` on `u64`). -/
def ls1b (x : Nat) : Nat := Nat.land x ((B64 - x) % B64)

/-- The De Bruijn multiplication constant from `bitscan_1bit`
(`src/bitsets.rs`). -/
def DEBRUIJN64 : Nat := 0x03f79d71b4cb0a89

/-- The De Bruijn index table from `bitscan_1bit` (`src/bitsets.rs`). -/
def INDEX64 : List Nat :=
  [0, 1, 48, 2, 57, 49, 28, 3, 61, 58, 50, 42, 38, 29, 17, 4, 62,
   55, 59, 36, 53, 51, 43, 22, 45, 39, 33, 30, 24, 18, 12, 5, 63,
   47, 56, 27, 60, 41, 37, 16, 54, 35, 52, 21, 44, 32, 23, 11, 46,
   26, 40, 15, 34, 20, 31, 10, 25, 14, 19, 9, 13, 8, 7, 6]

/-- `bitscan_1bit` from `src/bitsets.rs`: the index of the single set
bit of `b` via De Bruijn multiplication. -/
def bitscan1bit (b : Nat) : Nat :=
  INDEX64.getD (((b * DEBRUIJN64) % B64) >>> 58) 0

/-- `bitscan_forward` from `src/bitsets.rs`. -/
def bitscanForward (b : Nat) : Nat := bitscan1bit (ls1b b)

/-- The increasing list of set-bit indices of a 64-bit bitboard.  This
is the order in which the Rust loops
`while bb != 0 { bitscan_forward_and_reset(&mut bb) }` visit the
members of `bb`. -/
def squaresOf (bb : Nat) : List Nat :=
  (List.range 64).filter (fun i => bb.testBit i)

/-- `pop_count` from `src/bitsets.rs`: number of set bits. -/
def popCount (b : Nat) : Nat := (squaresOf b).length

/-- Sanity: `bitscan_1bit` recovers the exponent of a power of two
(this is the contract the De Bruijn trick implements). -/
theorem bitscan1bit_pow : ∀ i < 64, bitscan1bit (2 ^ i) = i := by decide

-- ======================================================================
-- Basic piece/color/square constants (`src/basetypes.rs`)
-- ======================================================================

def WHITE : Nat := 0
def BLACK : Nat := 1

def KING : Nat := 0
def QUEEN : Nat := 1
def ROOK : Nat := 2
def BISHOP : Nat := 3
def KNIGHT : Nat := 4
def PAWN : Nat := 5
def NO_PIECE : Nat := 6

def QUEENSIDE : Nat := 0
def KINGSIDE : Nat := 1

/-- `rank` from `src/basetypes.rs`. -/
def rankOf (square : Nat) : Nat := square >>> 3

/-- `file` from `src/basetypes.rs`. -/
def fileOf (square : Nat) : Nat := square % 8

-- Square constants (only those used by the embedded code).
def A1 : Nat := 0
def B1 : Nat := 1
def C1 : Nat := 2
def D1 : Nat := 3
def E1 : Nat := 4
def F1 : Nat := 5
def G1 : Nat := 6
def H1 : Nat := 7
def A8 : Nat := 56
def B8 : Nat := 57
def C8 : Nat := 58
def D8 : Nat := 59
def E8 : Nat := 60
def F8 : Nat := 61
def G8 : Nat := 62
def H8 : Nat := 63

-- Bitboard constants (`position/bitsets.rs`).
def BB_EMPTY_SET : Nat := 0
def BB_RANK_1 : Nat := 0xff
def BB_RANK_2 : Nat := 0xff00
def BB_RANK_4 : Nat := 0xff000000
def BB_RANK_5 : Nat := 0xff00000000
def BB_RANK_7 : Nat := 0xff000000000000
def BB_RANK_8 : Nat := 0xff00000000000000
def BB_FILE_A : Nat := 0x0101010101010101
def BB_FILE_H : Nat := 0x8080808080808080
def BB_PAWN_PROMOTION_RANKS : Nat := Nat.lor BB_RANK_1 BB_RANK_8

-- ======================================================================
-- BoardGeometry (`src/board.rs`, `BoardGeometry::new`)
-- ======================================================================

/-- The 10x12 guarded grid from `BoardGeometry::new`: cell `i` holds the
square number, or `0xff` for the guarding band.  `grid_index_from_square`
maps square `s` to cell `(s / 8) * 10 + s % 8 + 21`; this function is the
resulting table. -/
def grid (i : Nat) : Nat :=
  if 21 ≤ i ∧ i < 99 ∧ (i - 21) % 10 < 8 then ((i - 21) / 10) * 8 + (i - 21) % 10
  else 0xff

/-- `grid_index_from_square` from `src/board.rs`. -/
def gridIndex (s : Nat) : Nat := (s / 8) * 10 + s % 8 + 21

/-- `piece_grid_deltas` from `BoardGeometry::new`: the change of grid
index per step, for each of the 8 directions of each piece. -/
def pieceGridDeltas (piece : Nat) : List Int :=
  if piece = QUEEN then [-11, -10, -9, -1, 1, 9, 10, 11]
  else if piece = ROOK then [0, -10, 0, -1, 1, 0, 10, 0]
  else if piece = BISHOP then [-11, 0, -9, 0, 0, 9, 0, 11]
  else if piece = KNIGHT then [-21, -19, -12, -8, 8, 12, 19, 21]
  else if piece = KING then [-11, -10, -9, -1, 1, 9, 10, 11]
  else []

/-- `piece_longrange` from `BoardGeometry::new`. -/
def pieceLongrange (piece : Nat) : Bool :=
  piece ≠ KNIGHT ∧ piece ≠ KING

/-- The squares encountered walking from grid cell `gi` in direction
`delta` until the guard band is hit (the inner ray loop of
`fill_attack_and_blockers_and_beyond_arrays`).  A ray holds at most 7
squares, so fuel 8 never runs out. -/
def raySquares : Nat → Int → Int → List Nat
  | 0, _, _ => []
  | fuel + 1, gi, delta =>
    let gi2 : Int := gi + delta
    let sq := grid gi2.toNat
    if 0 ≤ gi2 ∧ sq ≠ 0xff then sq :: raySquares fuel gi2 delta else []

/-- Fold a list of square indices into a bitboard. -/
def bbOfSquares (l : List Nat) : Nat := l.foldl (fun acc s => Nat.lor acc (1 <<< s)) 0

/-- `BoardGeometry.attacks[piece][square]`: attack set on an empty
board, per `fill_attack_and_blockers_and_beyond_arrays`.  Short-range
pieces take only the first step of each ray. -/
def attacksTable (piece square : Nat) : Nat :=
  (pieceGridDeltas piece).foldl
    (fun acc delta =>
      if delta = 0 then acc
      else
        let ray := raySquares 8 (gridIndex square) delta
        let ray := if pieceLongrange piece then ray else ray.take 1
        Nat.lor acc (bbOfSquares ray))
    0

/-- `BoardGeometry.blockers_and_beyond[piece][square]`: the attack rays
with the outermost square of every ray removed (and empty for
short-range pieces), per `fill_attack_and_blockers_and_beyond_arrays`. -/
def blockersAndBeyond (piece square : Nat) : Nat :=
  (pieceGridDeltas piece).foldl
    (fun acc delta =>
      if delta = 0 then acc
      else
        let ray := raySquares 8 (gridIndex square) delta
        let ray := if pieceLongrange piece then ray.dropLast else []
        Nat.lor acc (bbOfSquares ray))
    0

/-- The grid-index increment joining two collinear squares, per
`fill_squares_between_including_and_squares_behind_blocker_arrays`
(`none` when the squares do not share a line, or coincide). -/
def lineDelta (attacker blocker : Nat) : Option Int :=
  let rankDiff : Int := (rankOf blocker : Int) - (rankOf attacker : Int)
  let fileDiff : Int := (fileOf blocker : Int) - (fileOf attacker : Int)
  if rankDiff = 0 ∧ fileDiff = 0 then none
  else if rankDiff = 0 then some fileDiff.sign
  else if fileDiff = 0 then some (10 * rankDiff.sign)
  else if rankDiff = fileDiff then some (10 * rankDiff.sign + rankDiff.sign)
  else if rankDiff = -fileDiff then some (10 * rankDiff.sign - rankDiff.sign)
  else none

/-- The walk of
`fill_squares_between_including_and_squares_behind_blocker_arrays`:
starting at the attacker cell, collect squares into
"between (including)" until the blocker is met, then into "behind".
Returns `(squares_between_including, squares_behind_blocker)`. -/
def lineWalk : Nat → Int → Int → Nat → Bool → Nat × Nat
  | 0, _, _, _, _ => (0, 0)
  | fuel + 1, gi, delta, blocker, blockerEncountered =>
    let sq := grid gi.toNat
    if 0 ≤ gi ∧ sq ≠ 0xff then
      let rest := lineWalk fuel (gi + delta) delta blocker
        (blockerEncountered ∨ sq = blocker)
      if sq = blocker then (Nat.lor (1 <<< sq) rest.1, rest.2)
      else if blockerEncountered then (rest.1, Nat.lor (1 <<< sq) rest.2)
      else (Nat.lor (1 <<< sq) rest.1, rest.2)
    else (0, 0)

/-- `BoardGeometry.squares_between_including[a][b]`. -/
def squaresBetweenIncluding (a b : Nat) : Nat :=
  match lineDelta a b with
  | none => 0
  | some delta => (lineWalk 8 (gridIndex a) delta b false).1

/-- `BoardGeometry.squares_behind_blocker[a][b]`. -/
def squaresBehindBlocker (a b : Nat) : Nat :=
  match lineDelta a b with
  | none => 0
  | some delta => (lineWalk 8 (gridIndex a) delta b false).2

/-- `BoardGeometry.squares_at_line[a][b]`, per
`fill_squares_at_line_array`. -/
def squaresAtLine (a b : Nat) : Nat :=
  Nat.lor (Nat.lor (squaresBetweenIncluding a b) (squaresBehindBlocker a b))
    (squaresBehindBlocker b a)

/-- `piece_attacks_from` (`src/board.rs`): attacks of a (non-pawn)
piece from `square` under occupancy `occupied` -- the empty-board attack
set, minus everything hidden behind each blocker. -/
def pieceAttacksFrom (piece square occupied : Nat) : Nat :=
  let blockers := Nat.land occupied (blockersAndBeyond piece square)
  (squaresOf blockers).foldl
    (fun attacks blockerSq =>
      Nat.land attacks (comp64 (squaresBehindBlocker square blockerSq)))
    (attacksTable piece square)

-- ======================================================================
-- Castling rights
-- ======================================================================

/-- Modelled from the spec: the `CastlingRights` implementation
(`castling_rights.rs`) is not among the provided sources -- only its
callers and tests are.  Per spec §3 it is a "4-bit mask, one bit per
(color × side)"; the test in `src/basetypes/moves.rs` fixes the layout:
bit `2 * color + side` (queenside = 0, kingside = 1).
`can_castle(color, side)` tests that bit. -/
def canCastle (cr us side : Nat) : Bool := Nat.testBit cr (2 * us + side)

/-- Modelled from the spec: per-square keep-mask for
`CastlingRights::update` -- "clears the bit whose king/rook square was
disturbed" (spec §3).  Disturbing `e1` clears both white bits, `a1` the
white queenside bit, `h1` the white kingside bit; mirrored for black. -/
def castlingKeepMask (square : Nat) : Nat :=
  if square = E1 then 0b1100
  else if square = A1 then 0b1110
  else if square = H1 then 0b1101
  else if square = E8 then 0b0011
  else if square = A8 then 0b1011
  else if square = H8 then 0b0111
  else 0b1111

/-- Modelled from the spec: `CastlingRights::update(orig, dest)` clears
every castling bit whose king/rook square is `orig` or `dest`. -/
def castlingUpdate (cr orig dest : Nat) : Nat :=
  Nat.land (Nat.land cr (castlingKeepMask orig)) (castlingKeepMask dest)

-- ======================================================================
-- Move (`src/basetypes/moves.rs`)
-- ======================================================================

/-!
A `Move` is a packed machine word (spec §3 and `src/basetypes/moves.rs`):
bits 0-1 aux data (promoted piece code), 2-7 destination square,
8-13 origin square, 14-15 move type, 16-19 en-passant file before the
move, 20-23 castling rights before the move, 24-26 played piece,
27-29 captured piece bitwise-inverted, 30-31 move score.  The `moves`
module imported by `position/move_generation.rs` is not among the
provided sources; it matches `src/basetypes/moves.rs` except that its
`Move::new` takes the moving side as an additional (unused for the
packing) first argument.  Since all fields occupy disjoint bit ranges
and all constructors pass in-range values, the source's bitwise-or
packing is rendered as addition, and the mask-and-shift accessors as
shift-and-mod.
-/

abbrev Move := Nat

def MOVE_ENPASSANT : Nat := 0
def MOVE_PROMOTION : Nat := 1
def MOVE_CASTLING : Nat := 2
def MOVE_NORMAL : Nat := 3

/-- The move score assigned by `Move::new` (`src/basetypes/moves.rs`):
captures and queen promotions get the maximal score 3, everything else
(including underpromotions) gets 0. -/
def moveNewScore (moveType capturedPiece promotedPieceCode : Nat) : Nat :=
  if moveType = MOVE_PROMOTION then (if promotedPieceCode = 0 then 3 else 0)
  else if capturedPiece = NO_PIECE then 0 else 3

/-- `Move::new` (`src/basetypes/moves.rs`; the `us` argument mirrors the
call sites in `position/move_generation.rs` and does not enter the
packing).  The captured piece is stored bitwise-inverted in its 3-bit
field (`!captured & 0b111`, i.e. `7 - captured` for in-range values);
aux data holds the promoted piece code for promotions and 0 otherwise. -/
def moveNew (us moveType piece origSquare destSquare capturedPiece
    enPassantFile castling promotedPieceCode : Nat) : Move :=
  let _ := us
  let auxData := if moveType = MOVE_PROMOTION then promotedPieceCode else 0
  moveNewScore moveType capturedPiece promotedPieceCode * 2 ^ 30 +
    (7 - capturedPiece) * 2 ^ 27 + piece * 2 ^ 24 + castling * 2 ^ 20 +
    enPassantFile * 2 ^ 16 + moveType * 2 ^ 14 + origSquare * 2 ^ 8 +
    destSquare * 2 ^ 2 + auxData

/-- `Move::invalid` (`src/basetypes/moves.rs`):
`(!NO_PIECE & 0b111) << 27 | KING << 24`; its digest is 0. -/
def moveInvalid : Move := 1 <<< 27

def mvScore (m : Move) : Nat := m >>> 30
def mvCaptured (m : Move) : Nat := 7 - ((m >>> 27) % 8)
def mvPiece (m : Move) : Nat := (m >>> 24) % 8
def mvCastling (m : Move) : Nat := (m >>> 20) % 16
def mvEpFile (m : Move) : Nat := (m >>> 16) % 16
def mvType (m : Move) : Nat := (m >>> 14) % 4
def mvOrig (m : Move) : Nat := (m >>> 8) % 64
def mvDest (m : Move) : Nat := (m >>> 2) % 64
def mvAux (m : Move) : Nat := m % 4

/-- `Move::digest`: the least significant 16 bits. -/
def mvDigest (m : Move) : Nat := m % 65536

/-- `Move::set_score`. -/
def mvSetScore (m : Move) (score : Nat) : Move := m % 2 ^ 30 + score * 2 ^ 30

/-- `Move::is_null`: origin and destination coincide and the type is
normal. -/
def mvIsNull (m : Move) : Bool := mvOrig m = mvDest m ∧ mvType m = MOVE_NORMAL

/-- `Move::is_pawn_advance_or_capure` (documented semantics of the
branch-free bit trick in `src/basetypes/moves.rs`). -/
def mvIsPawnAdvanceOrCapture (m : Move) : Bool :=
  mvPiece m = PAWN ∨ mvCaptured m ≠ NO_PIECE

/-- `Move::piece_from_aux_data`. -/
def pieceFromAuxData (ppCode : Nat) : Nat :=
  if ppCode = 0 then QUEEN
  else if ppCode = 1 then ROOK
  else if ppCode = 2 then BISHOP
  else KNIGHT

-- Digest field extractors (`src/basetypes/moves.rs`).
def getMoveType (d : Nat) : Nat := (d >>> 14) % 4
def getOrigSquare (d : Nat) : Nat := (d >>> 8) % 64
def getDestSquare (d : Nat) : Nat := (d >>> 2) % 64
def getAuxData (d : Nat) : Nat := d % 4

-- ======================================================================
-- Zobrist tables (`src/position/board.rs`, `ZobristArrays`)
-- ======================================================================

/-- The Zobrist key tables.  In the source the values are produced once
by a seeded PRNG (`ZobristArrays::new`); the claims hold for arbitrary
key values, so the table contents are left abstract here and the
`Board` carries the table it references, exactly as the Rust `Board`
holds a `&'static ZobristArrays`. -/
structure ZobristArrays where
  toMove : Nat
  pieces : Nat → Nat → Nat → Nat
  castling : Nat → Nat
  enPassantRaw : Nat → Nat
  halfmoveClock : Nat → Nat

/-- The en-passant key array: "Only the first 8 indexes ... are
initialized -- the rest remain zero" (`ZobristArrays` in
`src/position/board.rs`). -/
def ZobristArrays.enPassantFile (z : ZobristArrays) (i : Nat) : Nat :=
  if i < 8 then z.enPassantRaw i else 0

/-- `castling_rook_move`, derived in `ZobristArrays::new` from the
piece-square keys of the rook's corner and destination squares. -/
def ZobristArrays.castlingRookMovement (z : ZobristArrays) (us side : Nat) : Nat :=
  if us = WHITE then
    if side = QUEENSIDE then Nat.xor (z.pieces WHITE ROOK A1) (z.pieces WHITE ROOK D1)
    else Nat.xor (z.pieces WHITE ROOK H1) (z.pieces WHITE ROOK F1)
  else
    if side = QUEENSIDE then Nat.xor (z.pieces BLACK ROOK A8) (z.pieces BLACK ROOK D8)
    else Nat.xor (z.pieces BLACK ROOK H8) (z.pieces BLACK ROOK F8)

-- ======================================================================
-- Board (`src/position/move_generation.rs`)
-- ======================================================================

/-- `PiecesPlacement`: one bitboard per piece type (indices 0-5) and one
per color (indices 0-1). -/
structure PiecesPlacement where
  pieceType : Nat → Nat
  color : Nat → Nat

/-- The `Board` of `src/position/move_generation.rs`.  The lazily
cached checkers bitboard (`_checkers`, a `Cell` holding
`BB_UNIVERSAL_SET` when invalid) is not part of the model state: it is
an encapsulated memo of `attacks_to(1 ^ to_move, king_square())`, which
`checkers()` recomputes below, and both `do_move` and `undo_move`
invalidate it. -/
structure Board where
  zobrist : ZobristArrays
  pieces : PiecesPlacement
  toMove : Nat
  castling : Nat
  enPassantFile : Nat
  occupied : Nat

/-- `PAWN_MOVE_SHIFTS` from `src/position/move_generation.rs`:
push, double push, west capture, east capture. -/
def pawnMoveShifts (us i : Nat) : Int :=
  if us = WHITE then [8, 16, 7, 9].getD i 0 else [-8, -16, -9, -7].getD i 0

def PAWN_PUSH : Nat := 0
def PAWN_DOUBLE_PUSH : Nat := 1
def PAWN_WEST_CAPTURE : Nat := 2
def PAWN_EAST_CAPTURE : Nat := 3

def NO_ENPASSANT_FILE : Nat := 8

/-- `CASTLING_ROOK_MASK`: how the rook's bitboard changes during
castling. -/
def castlingRookMask (us side : Nat) : Nat :=
  if us = WHITE then
    if side = QUEENSIDE then Nat.lor (1 <<< A1) (1 <<< D1)
    else Nat.lor (1 <<< H1) (1 <<< F1)
  else
    if side = QUEENSIDE then Nat.lor (1 <<< A8) (1 <<< D8)
    else Nat.lor (1 <<< H8) (1 <<< F8)

/-- `Board::attacks_to`: all pieces and pawns of color `us` attacking
`square` under the current occupancy. -/
def Board.attacksTo (b : Board) (us square : Nat) : Nat :=
  let occupiedByUs := b.pieces.color us
  let squareBB := 1 <<< square
  let pawns := b.pieces.pieceType PAWN
  Nat.lor (Nat.lor (Nat.lor (Nat.lor (Nat.lor
    (Nat.land (Nat.land (pieceAttacksFrom ROOK square b.occupied) occupiedByUs)
      (Nat.lor (b.pieces.pieceType ROOK) (b.pieces.pieceType QUEEN)))
    (Nat.land (Nat.land (pieceAttacksFrom BISHOP square b.occupied) occupiedByUs)
      (Nat.lor (b.pieces.pieceType BISHOP) (b.pieces.pieceType QUEEN))))
    (Nat.land (Nat.land (pieceAttacksFrom KNIGHT square b.occupied) occupiedByUs)
      (b.pieces.pieceType KNIGHT)))
    (Nat.land (Nat.land (pieceAttacksFrom KING square b.occupied) occupiedByUs)
      (b.pieces.pieceType KING)))
    (Nat.land (Nat.land (Nat.land (genShift squareBB (-(pawnMoveShifts us PAWN_EAST_CAPTURE)))
      occupiedByUs) pawns)
      (comp64 (Nat.lor (Nat.lor BB_FILE_H BB_RANK_1) BB_RANK_8))))
    (Nat.land (Nat.land (Nat.land (genShift squareBB (-(pawnMoveShifts us PAWN_WEST_CAPTURE)))
      occupiedByUs) pawns)
      (comp64 (Nat.lor (Nat.lor BB_FILE_A BB_RANK_1) BB_RANK_8)))

/-- `Board::king_square`: the square of the king of the side to move. -/
def Board.kingSquare (b : Board) : Nat :=
  bitscan1bit (Nat.land (b.pieces.pieceType KING) (b.pieces.color b.toMove))

/-- `Board::checkers`: enemy pieces attacking the king of the side to
move (the value the lazy `_checkers` cache holds when valid). -/
def Board.checkers (b : Board) : Nat :=
  b.attacksTo (Nat.xor 1 b.toMove) b.kingSquare

/-- `Board::en_passant_bb`. -/
def Board.enPassantBB (b : Board) : Nat :=
  if b.enPassantFile ≥ NO_ENPASSANT_FILE then 0
  else if b.toMove = WHITE then (1 <<< b.enPassantFile) <<< 40
  else (1 <<< b.enPassantFile) <<< 16

/-- `Board::castling_obstacles`: pieces between the king and the
castling rook, or the universal set when the castling right is absent. -/
def Board.castlingObstacles (b : Board) (side : Nat) : Nat :=
  let between :=
    if b.toMove = WHITE then
      if side = QUEENSIDE then Nat.lor (Nat.lor (1 <<< B1) (1 <<< C1)) (1 <<< D1)
      else Nat.lor (1 <<< F1) (1 <<< G1)
    else
      if side = QUEENSIDE then Nat.lor (Nat.lor (1 <<< B8) (1 <<< C8)) (1 <<< D8)
      else Nat.lor (1 <<< F8) (1 <<< G8)
  if canCastle b.castling b.toMove side then Nat.land b.occupied between
  else BB_UNIVERSAL_SET

/-- `Board::get_piece_type_at`: the piece type on the (singleton)
square `squareBB`, or `NO_PIECE` for an empty square.  The source scans
piece types from `PAWN` down to `KING` and panics when the square is
occupied but on no piece-type bitboard; that unreachable-on-legal-boards
branch is rendered as `NO_PIECE`. -/
def Board.getPieceTypeAt (b : Board) (squareBB : Nat) : Nat :=
  let bb := Nat.land squareBB b.occupied
  if bb = 0 then NO_PIECE
  else if Nat.land bb (b.pieces.pieceType PAWN) ≠ 0 then PAWN
  else if Nat.land bb (b.pieces.pieceType KNIGHT) ≠ 0 then KNIGHT
  else if Nat.land bb (b.pieces.pieceType BISHOP) ≠ 0 then BISHOP
  else if Nat.land bb (b.pieces.pieceType ROOK) ≠ 0 then ROOK
  else if Nat.land bb (b.pieces.pieceType QUEEN) ≠ 0 then QUEEN
  else if Nat.land bb (b.pieces.pieceType KING) ≠ 0 then KING
  else NO_PIECE

/-- `Board::king_would_be_in_check`: whether the king of the side to
move would be in check standing on `square` (own king removed from the
occupancy). -/
def Board.kingWouldBeInCheck (b : Board) (square : Nat) : Bool :=
  let them := Nat.xor 1 b.toMove
  let occupied := Nat.land b.occupied (comp64 (1 <<< b.kingSquare))
  let occupiedByThem := b.pieces.color them
  Nat.land (Nat.land (pieceAttacksFrom ROOK square occupied) occupiedByThem)
    (Nat.lor (b.pieces.pieceType ROOK) (b.pieces.pieceType QUEEN)) ≠ 0 ∨
  Nat.land (Nat.land (pieceAttacksFrom BISHOP square occupied) occupiedByThem)
    (Nat.lor (b.pieces.pieceType BISHOP) (b.pieces.pieceType QUEEN)) ≠ 0 ∨
  Nat.land (Nat.land (pieceAttacksFrom KNIGHT square occupied) occupiedByThem)
    (b.pieces.pieceType KNIGHT) ≠ 0 ∨
  Nat.land (Nat.land (pieceAttacksFrom KING square occupied) occupiedByThem)
    (b.pieces.pieceType KING) ≠ 0 ∨
  Nat.land (Nat.land (Nat.land (genShift (1 <<< square)
      (-(pawnMoveShifts them PAWN_EAST_CAPTURE))) occupiedByThem)
    (b.pieces.pieceType PAWN))
    (comp64 (Nat.lor (Nat.lor BB_FILE_H BB_RANK_1) BB_RANK_8)) ≠ 0 ∨
  Nat.land (Nat.land (Nat.land (genShift (1 <<< square)
      (-(pawnMoveShifts them PAWN_WEST_CAPTURE))) occupiedByThem)
    (b.pieces.pieceType PAWN))
    (comp64 (Nat.lor (Nat.lor BB_FILE_A BB_RANK_1) BB_RANK_8)) ≠ 0

/-- `Board::find_pinned`: pieces of the side to move pinned to their
king. -/
def Board.findPinned (b : Board) : Nat :=
  let kingSquare := b.kingSquare
  let occupiedByThem := b.pieces.color (Nat.xor 1 b.toMove)
  let diagSliders := Nat.land occupiedByThem
    (Nat.lor (b.pieces.pieceType QUEEN) (b.pieces.pieceType BISHOP))
  let straightSliders := Nat.land occupiedByThem
    (Nat.lor (b.pieces.pieceType QUEEN) (b.pieces.pieceType ROOK))
  let pinners := Nat.lor
    (Nat.land diagSliders (pieceAttacksFrom BISHOP kingSquare diagSliders))
    (Nat.land straightSliders (pieceAttacksFrom ROOK kingSquare straightSliders))
  if pinners = 0 then 0
  else
    let occupiedByUs := b.pieces.color b.toMove
    let blockers := Nat.lor (Nat.land occupiedByUs (comp64 (1 <<< kingSquare)))
      (Nat.land occupiedByThem (comp64 pinners))
    let pinnedOrDiscovered := (squaresOf pinners).foldl
      (fun acc pinnerSquare =>
        let blockersGroup := Nat.land blockers (squaresBetweenIncluding kingSquare pinnerSquare)
        if ls1b blockersGroup = blockersGroup then Nat.lor acc blockersGroup else acc)
      0
    Nat.land pinnedOrDiscovered occupiedByUs

/-- `Board::en_passant_special_check_ok`: guards against the rare
horizontal discovered check when both pawns of an en-passant capture
leave the king's rank. -/
def Board.enPassantSpecialCheckOk (b : Board) (origSquare destSquare : Nat) : Bool :=
  let kingSquare := b.kingSquare
  if Nat.land (1 <<< kingSquare) (if b.toMove = WHITE then BB_RANK_5 else BB_RANK_4) = 0 then
    true
  else
    let theTwoPawns := Nat.lor (1 <<< origSquare)
      (genShift (1 <<< destSquare) (-(pawnMoveShifts b.toMove PAWN_PUSH)))
    let occupied := Nat.land b.occupied (comp64 theTwoPawns)
    Nat.land (Nat.land (pieceAttacksFrom ROOK kingSquare occupied)
        (b.pieces.color (Nat.xor 1 b.toMove)))
      (Nat.lor (b.pieces.pieceType ROOK) (b.pieces.pieceType QUEEN)) = 0

/-- `Board::calc_pawn_dest_sets`: the pseudo-legal destination squares
of the pawns in `pawns`, one set per pawn move type (push, double push,
west capture, east capture); knowing the destination and the set index
recovers the origin.  Returned as a function of the set index. -/
def Board.calcPawnDestSets (b : Board) (pawns enPassantBB : Nat) : Nat → Nat :=
  let quiet : Nat → Nat := fun i =>
    if i = PAWN_PUSH ∨ i = PAWN_DOUBLE_PUSH then BB_UNIVERSAL_SET else BB_EMPTY_SET
  let candidates : Nat → Nat := fun i =>
    if i = PAWN_PUSH then comp64 (Nat.lor BB_RANK_1 BB_RANK_8)
    else if i = PAWN_DOUBLE_PUSH then Nat.lor BB_RANK_2 BB_RANK_7
    else if i = PAWN_WEST_CAPTURE then comp64 (Nat.lor (Nat.lor BB_FILE_A BB_RANK_1) BB_RANK_8)
    else comp64 (Nat.lor (Nat.lor BB_FILE_H BB_RANK_1) BB_RANK_8)
  let captureTargets := Nat.lor (b.pieces.color (Nat.xor 1 b.toMove)) enPassantBB
  let base : Nat → Nat := fun i =>
    Nat.land (Nat.land (genShift (Nat.land pawns (candidates i)) (pawnMoveShifts b.toMove i))
        (Nat.xor captureTargets (quiet i)))
      (comp64 (b.pieces.color b.toMove))
  fun i =>
    if i = PAWN_DOUBLE_PUSH then
      Nat.land (base PAWN_DOUBLE_PUSH)
        (genShift (base PAWN_PUSH) (pawnMoveShifts b.toMove PAWN_PUSH))
    else base i

/-- `Board::push_piece_moves_to_stack`: one normal move for every
attacked destination inside `legalDests` (`piece` is not a pawn). -/
def Board.pushPieceMoves (b : Board) (piece origSquare legalDests : Nat) : List Move :=
  let pieceDests := Nat.land legalDests (pieceAttacksFrom piece origSquare b.occupied)
  (squaresOf pieceDests).map (fun destSquare =>
    moveNew b.toMove MOVE_NORMAL piece origSquare destSquare
      (b.getPieceTypeAt (1 <<< destSquare)) b.enPassantFile b.castling 0)

/-- The body of the destination-set scan in
`Board::push_pawn_moves_to_stack` for one destination square of set
`i`: en-passant captures (guarded by the special check), promotions
(all four, or only to queen), or a normal pawn move. -/
def Board.pushPawnMovesAt (b : Board) (enPassantBB : Nat) (onlyQueenPromotions : Bool)
    (i destSquare : Nat) : List Move :=
  let destSquareBB := 1 <<< destSquare
  let origSquare := ((destSquare : Int) - pawnMoveShifts b.toMove i).toNat
  let capturedPiece := b.getPieceTypeAt destSquareBB
  if destSquareBB = enPassantBB then
    if b.enPassantSpecialCheckOk origSquare destSquare then
      [moveNew b.toMove MOVE_ENPASSANT PAWN origSquare destSquare PAWN
        b.enPassantFile b.castling 0]
    else []
  else if Nat.land destSquareBB BB_PAWN_PROMOTION_RANKS ≠ 0 then
    ((if onlyQueenPromotions then [0] else [0, 1, 2, 3]).map (fun p =>
      moveNew b.toMove MOVE_PROMOTION PAWN origSquare destSquare capturedPiece
        b.enPassantFile b.castling p))
  else
    [moveNew b.toMove MOVE_NORMAL PAWN origSquare destSquare capturedPiece
      b.enPassantFile b.castling 0]

/-- `Board::push_pawn_moves_to_stack`: all pseudo-legal moves of the
pawns in `pawns` with destinations inside `legalDests`. -/
def Board.pushPawnMoves (b : Board) (pawns enPassantBB legalDests : Nat)
    (onlyQueenPromotions : Bool) : List Move :=
  let destSets := b.calcPawnDestSets pawns enPassantBB
  ([PAWN_PUSH, PAWN_DOUBLE_PUSH, PAWN_WEST_CAPTURE, PAWN_EAST_CAPTURE].map (fun i =>
    (squaresOf (Nat.land (destSets i) legalDests)).map
      (b.pushPawnMovesAt enPassantBB onlyQueenPromotions i))).flatten.flatten

/-- `Board::generate_moves`: pseudo-legal move generation.  When `all`
is false only captures, pawn promotions to queen and check evasions are
generated.  Every generated non-king move is legal; king moves may
still move into check (castling may pass through an attacked square) --
`do_move` detects those. -/
def Board.generateMoves (b : Board) (all : Bool) : List Move :=
  let kingSquare := b.kingSquare
  let checkers := b.checkers
  let occupiedByUs := b.pieces.color b.toMove
  let occupiedByThem := Nat.xor b.occupied occupiedByUs
  let generateAllMoves := all ∨ checkers ≠ 0
  let legalDests := Nat.land (comp64 occupiedByUs)
    (if ls1b checkers = 0 then BB_UNIVERSAL_SET
     else if ls1b checkers = checkers then
       Nat.lor checkers (squaresBetweenIncluding kingSquare (bitscan1bit checkers))
     else BB_EMPTY_SET)
  let mainMoves :=
    if legalDests ≠ BB_EMPTY_SET then
      let pinned := b.findPinned
      let enPassantBB := b.enPassantBB
      let pieceLegalDests := if generateAllMoves then legalDests else occupiedByThem
      let pieceMoves :=
        ([QUEEN, ROOK, BISHOP, KNIGHT].map (fun piece =>
          (squaresOf (Nat.land (b.pieces.pieceType piece) occupiedByUs)).map
            (fun origSquare =>
              let dests :=
                if Nat.land (1 <<< origSquare) pinned = 0 then pieceLegalDests
                else Nat.land pieceLegalDests (squaresAtLine kingSquare origSquare)
              b.pushPieceMoves piece origSquare dests))).flatten.flatten
      let pawnLegalDests :=
        if generateAllMoves then
          if Nat.land checkers (b.pieces.pieceType PAWN) = 0 then legalDests
          else Nat.lor legalDests enPassantBB
        else Nat.land legalDests
          (Nat.lor (Nat.lor occupiedByThem enPassantBB) BB_PAWN_PROMOTION_RANKS)
      let allPawns := Nat.land (b.pieces.pieceType PAWN) occupiedByUs
      let pinnedPawns := Nat.land allPawns pinned
      let freePawns := Nat.xor allPawns pinnedPawns
      let freePawnMoves :=
        if freePawns ≠ 0 then
          b.pushPawnMoves freePawns enPassantBB pawnLegalDests (!generateAllMoves)
        else []
      let pinnedPawnMoves :=
        ((squaresOf pinnedPawns).map (fun pawnSquare =>
          b.pushPawnMoves (1 <<< pawnSquare) enPassantBB
            (Nat.land pawnLegalDests (squaresAtLine kingSquare pawnSquare))
            (!generateAllMoves))).flatten
      pieceMoves ++ freePawnMoves ++ pinnedPawnMoves
    else []
  let castlingMoves :=
    if generateAllMoves ∧ checkers = 0 then
      ([QUEENSIDE, KINGSIDE].map (fun side =>
        if b.castlingObstacles side = 0 then
          [moveNew b.toMove MOVE_CASTLING KING kingSquare
            (if side = QUEENSIDE then (if b.toMove = WHITE then C1 else C8)
             else (if b.toMove = WHITE then G1 else G8))
            NO_PIECE b.enPassantFile b.castling 0]
        else [])).flatten
    else []
  let kingDests := if generateAllMoves then comp64 occupiedByUs else occupiedByThem
  mainMoves ++ castlingMoves ++ b.pushPieceMoves KING kingSquare kingDests

/-- `Board::null_move`: a normal king "move" with coinciding origin and
destination. -/
def Board.nullMove (b : Board) : Move :=
  moveNew b.toMove MOVE_NORMAL KING b.kingSquare b.kingSquare NO_PIECE
    b.enPassantFile b.castling 0

/-- `Board::try_move_digest`: reconstructs from a 16-bit digest the
pseudo-legal move that `generate_moves` would generate with that
digest, without running the generator; `none` when no such move
exists. -/
def Board.tryMoveDigest (b : Board) (moveDigest : Nat) : Option Move :=
  if moveDigest = 0 then none
  else
    let moveType := getMoveType moveDigest
    let origSquare := getOrigSquare moveDigest
    let destSquare := getDestSquare moveDigest
    let promotedPieceCode := getAuxData moveDigest
    let kingSquare := b.kingSquare
    let checkers := b.checkers
    if moveType = MOVE_CASTLING then
      let side := if destSquare < origSquare then QUEENSIDE else KINGSIDE
      if checkers ≠ 0 ∨ b.castlingObstacles side ≠ 0 ∨ origSquare ≠ kingSquare ∨
          destSquare ≠ (if side = QUEENSIDE then (if b.toMove = WHITE then C1 else C8)
                        else (if b.toMove = WHITE then G1 else G8)) ∨
          promotedPieceCode ≠ 0 then
        none
      else
        some (moveNew b.toMove MOVE_CASTLING KING origSquare destSquare NO_PIECE
          b.enPassantFile b.castling 0)
    else
      let occupiedByUs := b.pieces.color b.toMove
      let origSquareBB := Nat.land occupiedByUs (1 <<< origSquare)
      let destSquareBB := 1 <<< destSquare
      let capturedPiece := b.getPieceTypeAt destSquareBB
      -- Figure out the type of the moved piece (the `'pieces` loop).
      let piece :=
        if Nat.land origSquareBB (b.pieces.pieceType PAWN) ≠ 0 then PAWN
        else if Nat.land origSquareBB (b.pieces.pieceType KNIGHT) ≠ 0 then KNIGHT
        else if Nat.land origSquareBB (b.pieces.pieceType BISHOP) ≠ 0 then BISHOP
        else if Nat.land origSquareBB (b.pieces.pieceType ROOK) ≠ 0 then ROOK
        else if Nat.land origSquareBB (b.pieces.pieceType QUEEN) ≠ 0 then QUEEN
        else if Nat.land origSquareBB (b.pieces.pieceType KING) ≠ 0 then KING
        else NO_PIECE
      if piece = NO_PIECE then none
      else
        -- In double check only king moves are pseudo-legal.
        if piece ≠ KING ∧ ls1b checkers ≠ 0 ∧ ls1b checkers ≠ checkers then none
        else
          let pseudoLegalDests :=
            if piece = KING then comp64 occupiedByUs
            else
              let dests := Nat.land (comp64 occupiedByUs)
                (if ls1b checkers = 0 then BB_UNIVERSAL_SET
                 else Nat.lor checkers
                   (squaresBetweenIncluding kingSquare (bitscan1bit checkers)))
              if Nat.land origSquareBB b.findPinned ≠ 0 then
                Nat.land dests (squaresAtLine kingSquare origSquare)
              else dests
          if piece = PAWN then
            let enPassantBB := b.enPassantBB
            let pseudoLegalDests :=
              if Nat.land checkers (b.pieces.pieceType PAWN) ≠ 0 then
                Nat.lor pseudoLegalDests enPassantBB
              else pseudoLegalDests
            let destSets := b.calcPawnDestSets origSquareBB enPassantBB
            let pseudoLegalDests := Nat.land pseudoLegalDests
              (Nat.lor (Nat.lor (destSets PAWN_PUSH) (destSets PAWN_DOUBLE_PUSH))
                (Nat.lor (destSets PAWN_WEST_CAPTURE) (destSets PAWN_EAST_CAPTURE)))
            if Nat.land pseudoLegalDests destSquareBB = 0 then none
            else if destSquareBB = enPassantBB then
              if moveType ≠ MOVE_ENPASSANT ∨
                  ¬ b.enPassantSpecialCheckOk origSquare destSquare ∨
                  promotedPieceCode ≠ 0 then
                none
              else
                some (moveNew b.toMove moveType PAWN origSquare destSquare PAWN
                  b.enPassantFile b.castling promotedPieceCode)
            else if Nat.land destSquareBB BB_PAWN_PROMOTION_RANKS ≠ 0 then
              if moveType ≠ MOVE_PROMOTION then none
              else
                some (moveNew b.toMove moveType PAWN origSquare destSquare capturedPiece
                  b.enPassantFile b.castling promotedPieceCode)
            else
              if moveType ≠ MOVE_NORMAL ∨ promotedPieceCode ≠ 0 then none
              else
                some (moveNew b.toMove moveType PAWN origSquare destSquare capturedPiece
                  b.enPassantFile b.castling promotedPieceCode)
          else
            let pseudoLegalDests := Nat.land pseudoLegalDests
              (pieceAttacksFrom piece origSquare b.occupied)
            if moveType ≠ MOVE_NORMAL ∨ Nat.land pseudoLegalDests destSquareBB = 0 ∨
                promotedPieceCode ≠ 0 then
              none
            else
              some (moveNew b.toMove moveType piece origSquare destSquare capturedPiece
                b.enPassantFile b.castling promotedPieceCode)

/-- Pointwise update of a piece-type bitboard. -/
def PiecesPlacement.setPieceType (pp : PiecesPlacement) (i v : Nat) : PiecesPlacement :=
  { pp with pieceType := fun j => if j = i then v else pp.pieceType j }

/-- Pointwise update of a color bitboard. -/
def PiecesPlacement.setColor (pp : PiecesPlacement) (i v : Nat) : PiecesPlacement :=
  { pp with color := fun j => if j = i then v else pp.color j }

/-- The mutation part of `Board::do_move` (everything after the three
legality checks): moves the castling rook, empties the origin square,
removes the captured piece, occupies the destination, updates castling
rights, the en-passant file and the side to move, and accumulates the
Zobrist hash delta. -/
def Board.doMoveApplied (b : Board) (m : Move) : Option Nat × Board :=
  let us := b.toMove
  let them := Nat.xor 1 us
  let moveType := mvType m
  let origSquare := mvOrig m
  let destSquare := mvDest m
  let piece := mvPiece m
  let capturedPiece := mvCaptured m
  let side := if destSquare > origSquare then KINGSIDE else QUEENSIDE
  -- Move the rook if the move is castling.
  let p1 :=
    if moveType = MOVE_CASTLING then
      let mask := castlingRookMask us side
      (b.pieces.setPieceType ROOK (Nat.xor (b.pieces.pieceType ROOK) mask)).setColor
        us (Nat.xor (b.pieces.color us) mask)
    else b.pieces
  let hCastlingRook :=
    if moveType = MOVE_CASTLING then b.zobrist.castlingRookMovement us side else 0
  let notOrigBB := comp64 (1 <<< origSquare)
  let destBB := 1 <<< destSquare
  -- Empty the origin square.
  let p2 := (p1.setPieceType piece (Nat.land (p1.pieceType piece) notOrigBB)).setColor
    us (Nat.land (p1.color us) notOrigBB)
  let hOrig := b.zobrist.pieces us piece origSquare
  -- Remove the captured piece (if any).
  let capturedPawnSquare :=
    ((destSquare : Int) + pawnMoveShifts them PAWN_PUSH).toNat
  let p3 :=
    if capturedPiece < NO_PIECE then
      let notCapturedBB :=
        if moveType = MOVE_ENPASSANT then comp64 (1 <<< capturedPawnSquare)
        else comp64 destBB
      (p2.setPieceType capturedPiece
        (Nat.land (p2.pieceType capturedPiece) notCapturedBB)).setColor
        them (Nat.land (p2.color them) notCapturedBB)
    else p2
  let hCaptured :=
    if capturedPiece < NO_PIECE then
      if moveType = MOVE_ENPASSANT then
        b.zobrist.pieces them capturedPiece capturedPawnSquare
      else b.zobrist.pieces them capturedPiece destSquare
    else 0
  -- Occupy the destination square.
  let destPiece := if moveType = MOVE_PROMOTION then pieceFromAuxData (mvAux m) else piece
  let p4 := (p3.setPieceType destPiece (Nat.lor (p3.pieceType destPiece) destBB)).setColor
    us (Nat.lor (p3.color us) destBB)
  let hDest := b.zobrist.pieces us destPiece destSquare
  -- Update castling rights (null moves do not affect castling).
  let newCastling :=
    if origSquare ≠ destSquare then castlingUpdate b.castling origSquare destSquare
    else b.castling
  let hCastling :=
    if origSquare ≠ destSquare then
      Nat.xor (b.zobrist.castling b.castling) (b.zobrist.castling newCastling)
    else 0
  -- Update the en-passant file.
  let hEpOld := b.zobrist.enPassantFile b.enPassantFile
  let isDoublePush :=
    piece = PAWN ∧ ((destSquare : Int) - (origSquare : Int) = 16 ∨
      (destSquare : Int) - (origSquare : Int) = -16)
  let newEpFile := if isDoublePush then fileOf destSquare else NO_ENPASSANT_FILE
  let hEpNew := if isDoublePush then b.zobrist.enPassantFile (fileOf destSquare) else 0
  let h := Nat.xor (Nat.xor (Nat.xor (Nat.xor (Nat.xor (Nat.xor (Nat.xor
    hCastlingRook hOrig) hCaptured) hDest) hCastling) hEpOld) hEpNew) b.zobrist.toMove
  (some h,
    { zobrist := b.zobrist
      pieces := p4
      toMove := them
      castling := newCastling
      enPassantFile := newEpFile
      occupied := Nat.lor (p4.color WHITE) (p4.color BLACK) })

/-- `Board::do_move`: plays `m`.  Returns `(some h, b2)` where `h` is
the Zobrist hash delta and `b2` the updated board, or `(none, b)` --
the board untouched -- when the move is found illegal.  Every legality
check in the source (own king left in check on the destination square,
null move while in check, attacked castling passing square) precedes
the first state mutation, which is what the split into checks and
`doMoveApplied` renders.  The always-enabled entry assertion
`piece < NO_PIECE` is a panic in the source; theorems about `doMove`
carry it as a hypothesis. -/
def Board.doMove (b : Board) (m : Move) : Option Nat × Board :=
  -- Verify if the move will leave the king in check.
  if mvPiece m = KING ∧ mvOrig m ≠ mvDest m ∧ b.kingWouldBeInCheck (mvDest m) then
    (none, b)
  else if mvPiece m = KING ∧ mvOrig m = mvDest m ∧ b.checkers ≠ 0 then
    (none, b)
  -- For castling, verify the king's passing square as well.
  else if mvType m = MOVE_CASTLING ∧
      b.kingWouldBeInCheck ((mvOrig m + mvDest m) >>> 1) then
    (none, b)
  else b.doMoveApplied m

/-- `Board::undo_move`: takes back the move `m`, which must have been
the last move played with `doMove`. -/
def Board.undoMove (b : Board) (m : Move) : Board :=
  let them := b.toMove
  let us := Nat.xor 1 them
  let moveType := mvType m
  let origSquare := mvOrig m
  let destSquare := mvDest m
  let auxData := mvAux m
  let piece := mvPiece m
  let capturedPiece := mvCaptured m
  let origBB := 1 <<< origSquare
  let notDestBB := comp64 (1 <<< destSquare)
  -- Empty the destination square.
  let destPiece := if moveType = MOVE_PROMOTION then pieceFromAuxData auxData else piece
  let p1 := (b.pieces.setPieceType destPiece
    (Nat.land (b.pieces.pieceType destPiece) notDestBB)).setColor
    us (Nat.land (b.pieces.color us) notDestBB)
  -- Put back the captured piece (if any).
  let capturedPawnSquare := ((destSquare : Int) + pawnMoveShifts them PAWN_PUSH).toNat
  let p2 :=
    if capturedPiece < NO_PIECE then
      let capturedBB :=
        if moveType = MOVE_ENPASSANT then 1 <<< capturedPawnSquare
        else 1 <<< destSquare
      (p1.setPieceType capturedPiece
        (Nat.lor (p1.pieceType capturedPiece) capturedBB)).setColor
        them (Nat.lor (p1.color them) capturedBB)
    else p1
  -- Restore the piece on the origin square.
  let p3 := (p2.setPieceType piece (Nat.lor (p2.pieceType piece) origBB)).setColor
    us (Nat.lor (p2.color us) origBB)
  -- Move the rook back if the move is castling.
  let p4 :=
    if moveType = MOVE_CASTLING then
      let side := if destSquare > origSquare then KINGSIDE else QUEENSIDE
      let mask := castlingRookMask us side
      (p3.setPieceType ROOK (Nat.xor (p3.pieceType ROOK) mask)).setColor
        us (Nat.xor (p3.color us) mask)
    else p3
  { zobrist := b.zobrist
    pieces := p4
    toMove := us
    castling := mvCastling m
    enPassantFile := mvEpFile m
    occupied := Nat.lor (p4.color WHITE) (p4.color BLACK) }

/-- `Board::calc_hash`: the from-scratch Zobrist hash -- the xor of the
piece-square keys of all occupied squares, the castling-rights key, the
en-passant-file key, and the side-to-move key when black moves. -/
def Board.calcHash (b : Board) : Nat :=
  let pieceHash :=
    [WHITE, BLACK].foldl (fun acc color =>
      [KING, QUEEN, ROOK, BISHOP, KNIGHT, PAWN].foldl (fun acc piece =>
        (squaresOf (Nat.land (b.pieces.color color) (b.pieces.pieceType piece))).foldl
          (fun acc square => Nat.xor acc (b.zobrist.pieces color piece square)) acc)
        acc) 0
  let h := Nat.xor (Nat.xor pieceHash (b.zobrist.castling b.castling))
    (b.zobrist.enPassantFile b.enPassantFile)
  if b.toMove = BLACK then Nat.xor h b.zobrist.toMove else h

/-- `Board::is_legal`: the board invariants enforced by `create` and
maintained (as debug assertions) by `do_move`/`undo_move`.  The first
fold computes the union of the piece-type bitboards, collapsing to the
universal set when two of them overlap. -/
def Board.isLegal (b : Board) : Bool :=
  if b.toMove > 1 ∨ b.enPassantFile > NO_ENPASSANT_FILE then false
  else
    let us := b.toMove
    let enPassantBB := b.enPassantBB
    let occupied :=
      [KING, QUEEN, ROOK, BISHOP, KNIGHT, PAWN].foldl (fun acc i =>
        let x := b.pieces.pieceType i
        if Nat.land acc x = 0 then Nat.lor acc x else BB_UNIVERSAL_SET) 0
    let them := Nat.xor 1 us
    let oUs := b.pieces.color us
    let oThem := b.pieces.color them
    let ourKingBB := Nat.land (b.pieces.pieceType KING) oUs
    let theirKingBB := Nat.land (b.pieces.pieceType KING) oThem
    let pawns := b.pieces.pieceType PAWN
    occupied ≠ BB_UNIVERSAL_SET ∧ occupied = Nat.lor oUs oThem ∧
    Nat.land oUs oThem = 0 ∧
    popCount ourKingBB = 1 ∧ popCount theirKingBB = 1 ∧
    popCount (Nat.land pawns oUs) ≤ 8 ∧
    popCount (Nat.land pawns oThem) ≤ 8 ∧
    popCount oUs ≤ 16 ∧ popCount oThem ≤ 16 ∧
    b.attacksTo us (bitscanForward theirKingBB) = 0 ∧
    Nat.land pawns BB_PAWN_PROMOTION_RANKS = 0 ∧
    (¬ canCastle b.castling WHITE QUEENSIDE ∨
      (Nat.land (Nat.land (b.pieces.pieceType ROOK) (b.pieces.color WHITE)) (1 <<< A1) ≠ 0 ∧
       Nat.land (Nat.land (b.pieces.pieceType KING) (b.pieces.color WHITE)) (1 <<< E1) ≠ 0)) ∧
    (¬ canCastle b.castling WHITE KINGSIDE ∨
      (Nat.land (Nat.land (b.pieces.pieceType ROOK) (b.pieces.color WHITE)) (1 <<< H1) ≠ 0 ∧
       Nat.land (Nat.land (b.pieces.pieceType KING) (b.pieces.color WHITE)) (1 <<< E1) ≠ 0)) ∧
    (¬ canCastle b.castling BLACK QUEENSIDE ∨
      (Nat.land (Nat.land (b.pieces.pieceType ROOK) (b.pieces.color BLACK)) (1 <<< A8) ≠ 0 ∧
       Nat.land (Nat.land (b.pieces.pieceType KING) (b.pieces.color BLACK)) (1 <<< E8) ≠ 0)) ∧
    (¬ canCastle b.castling BLACK KINGSIDE ∨
      (Nat.land (Nat.land (b.pieces.pieceType ROOK) (b.pieces.color BLACK)) (1 <<< H8) ≠ 0 ∧
       Nat.land (Nat.land (b.pieces.pieceType KING) (b.pieces.color BLACK)) (1 <<< E8) ≠ 0)) ∧
    (enPassantBB = 0 ∨
      (let destSquareBB := genShift enPassantBB (pawnMoveShifts them PAWN_PUSH)
       let origSquareBB := genShift enPassantBB (-(pawnMoveShifts them PAWN_PUSH))
       let ourKingSquare := bitscanForward ourKingBB
       Nat.land destSquareBB (Nat.land pawns oThem) ≠ 0 ∧
       Nat.land enPassantBB (comp64 occupied) ≠ 0 ∧
       Nat.land origSquareBB (comp64 occupied) ≠ 0 ∧
       (let mask := Nat.lor origSquareBB destSquareBB
        let pawns2 := Nat.xor pawns mask
        let oThem2 := Nat.xor oThem mask
        let occupied2 := Nat.xor occupied mask
        Nat.lor (Nat.lor (Nat.lor (Nat.lor
          (Nat.land (Nat.land (pieceAttacksFrom ROOK ourKingSquare occupied2) oThem2)
            (Nat.lor (b.pieces.pieceType ROOK) (b.pieces.pieceType QUEEN)))
          (Nat.land (Nat.land (pieceAttacksFrom BISHOP ourKingSquare occupied2) oThem2)
            (Nat.lor (b.pieces.pieceType BISHOP) (b.pieces.pieceType QUEEN))))
          (Nat.land (Nat.land (pieceAttacksFrom KNIGHT ourKingSquare occupied2) oThem2)
            (b.pieces.pieceType KNIGHT)))
          (Nat.land (Nat.land (genShift ourKingBB (-(pawnMoveShifts them PAWN_EAST_CAPTURE)))
            oThem2) (Nat.land pawns2 (comp64 BB_FILE_H))))
          (Nat.land (Nat.land (genShift ourKingBB (-(pawnMoveShifts them PAWN_WEST_CAPTURE)))
            oThem2) (Nat.land pawns2 (comp64 BB_FILE_A))) = 0))) ∧
    b.occupied = occupied

/-- `Board::create`: builds a board after validating the en-passant
square (it must lie on the proper rank for the side to move) and all
board invariants (`is_legal`); fails with `IllegalPosition` (`none`)
otherwise. -/
def Board.create (z : ZobristArrays) (piecesPlacement : PiecesPlacement)
    (toMove castling : Nat) (enPassantSquare : Option Nat) : Option Board :=
  if toMove ≠ WHITE ∧ toMove ≠ BLACK then none
  else
    let enPassantRank := if toMove = WHITE then 5 else 2
    let enPassantFile? : Option Nat :=
      match enPassantSquare with
      | none => some NO_ENPASSANT_FILE
      | some x => if x ≤ 63 ∧ rankOf x = enPassantRank then some (fileOf x) else none
    match enPassantFile? with
    | none => none
    | some epFile =>
      let b : Board :=
        { zobrist := z
          pieces := piecesPlacement
          toMove := toMove
          castling := castling
          enPassantFile := epFile
          occupied := Nat.lor (piecesPlacement.color WHITE) (piecesPlacement.color BLACK) }
      if b.isLegal then some b else none

-- ======================================================================
-- Decoding lemmas for the packed move representation
-- ======================================================================

theorem doMoveApplied_fst_isSome (b : Board) (m : Move) :
    (b.doMoveApplied m).1.isSome := rfl

theorem mvType_new (us t p o d c ep cr pp : Nat) (ht : t < 4) (ho : o < 64)
    (hd : d < 64) (hpp : pp < 4) : mvType (moveNew us t p o d c ep cr pp) = t := by
  simp only [moveNew, moveNewScore, mvType, MOVE_PROMOTION, NO_PIECE,
    Nat.shiftRight_eq_div_pow]
  split_ifs <;> omega

theorem mvOrig_new (us t p o d c ep cr pp : Nat) (ht : t < 4) (ho : o < 64) (hd : d < 64)
    (hpp : pp < 4) : mvOrig (moveNew us t p o d c ep cr pp) = o := by
  simp only [moveNew, moveNewScore, mvOrig, MOVE_PROMOTION, NO_PIECE,
    Nat.shiftRight_eq_div_pow]
  split_ifs <;> omega

theorem mvDest_new (us t p o d c ep cr pp : Nat) (hd : d < 64) (hpp : pp < 4) :
    mvDest (moveNew us t p o d c ep cr pp) = d := by
  simp only [moveNew, moveNewScore, mvDest, MOVE_PROMOTION, NO_PIECE,
    Nat.shiftRight_eq_div_pow]
  split_ifs <;> omega

theorem mvAux_new (us t p o d c ep cr pp : Nat) (hpp : pp < 4) :
    mvAux (moveNew us t p o d c ep cr pp) = if t = MOVE_PROMOTION then pp else 0 := by
  simp only [moveNew, moveNewScore, mvAux, MOVE_PROMOTION, NO_PIECE,
    Nat.shiftRight_eq_div_pow]
  split_ifs <;> omega

theorem mvPiece_new (us t p o d c ep cr pp : Nat) (ht : t < 4) (hp : p < 8) (ho : o < 64)
    (hd : d < 64) (hep : ep < 16) (hcr : cr < 16) (hpp : pp < 4) :
    mvPiece (moveNew us t p o d c ep cr pp) = p := by
  simp only [moveNew, moveNewScore, mvPiece, MOVE_PROMOTION, NO_PIECE,
    Nat.shiftRight_eq_div_pow]
  split_ifs <;> omega

theorem mvCaptured_new (us t p o d c ep cr pp : Nat) (ht : t < 4) (hp : p < 8) (ho : o < 64)
    (hd : d < 64) (hc : c ≤ 7) (hep : ep < 16) (hcr : cr < 16) (hpp : pp < 4) :
    mvCaptured (moveNew us t p o d c ep cr pp) = c := by
  simp only [moveNew, moveNewScore, mvCaptured, MOVE_PROMOTION, NO_PIECE,
    Nat.shiftRight_eq_div_pow]
  split_ifs <;> omega

theorem mvEpFile_new (us t p o d c ep cr pp : Nat) (ht : t < 4) (ho : o < 64) (hd : d < 64)
    (hep : ep < 16) (hpp : pp < 4) : mvEpFile (moveNew us t p o d c ep cr pp) = ep := by
  simp only [moveNew, moveNewScore, mvEpFile, MOVE_PROMOTION, NO_PIECE,
    Nat.shiftRight_eq_div_pow]
  split_ifs <;> omega

theorem mvCastling_new (us t p o d c ep cr pp : Nat) (ht : t < 4) (ho : o < 64) (hd : d < 64)
    (hep : ep < 16) (hcr : cr < 16) (hpp : pp < 4) :
    mvCastling (moveNew us t p o d c ep cr pp) = cr := by
  simp only [moveNew, moveNewScore, mvCastling, MOVE_PROMOTION, NO_PIECE,
    Nat.shiftRight_eq_div_pow]
  split_ifs <;> omega

/-- `bitscan_1bit` always produces a square index (the De Bruijn table
holds values below 64). -/
theorem bitscan1bit_lt (b : Nat) : bitscan1bit b < 64 := by
  have hall : ∀ x ∈ INDEX64, x < 64 := by decide
  unfold bitscan1bit
  rcases h : INDEX64.get? (((b * DEBRUIJN64) % B64) >>> 58) with _ | x
  · rw [List.getD, h]; decide
  · rw [List.getD, h]; exact hall x (List.get?_mem h)

-- ======================================================================
-- Concrete fixtures used by witnesses and counterexamples
-- ======================================================================

/-- A concrete Zobrist table (the theorems hold for arbitrary key
values; witnesses just need one). -/
def zFix : ZobristArrays :=
  { toMove := 987654321
    pieces := fun c p s => 1000003 * c + 7919 * p + 101 * s + 31
    castling := fun v => 555 * v + 7
    enPassantRaw := fun f => 444 * f + 3
    halfmoveClock := fun h => 222 * h + 1 }

/-- The position `k7/8/8/8/8/8/r7/7K w - -`: white king h1, black rook
a2, black king a8, white to move.  White's king moves to g2 and h2 are
pseudo-legal (the generator emits them) but illegal (the rook guards
rank 2). -/
def bFix : Board :=
  { zobrist := zFix
    pieces :=
      { pieceType := fun p =>
          if p = KING then Nat.lor (1 <<< 7) (1 <<< 56)
          else if p = ROOK then 1 <<< 8
          else 0
        color := fun c =>
          if c = WHITE then 1 <<< 7
          else if c = BLACK then Nat.lor (1 <<< 8) (1 <<< 56)
          else 0 }
    toMove := WHITE
    castling := 0
    enPassantFile := NO_ENPASSANT_FILE
    occupied := Nat.lor (1 <<< 7) (Nat.lor (1 <<< 8) (1 <<< 56)) }

/-- The white king move h1-h2 in `bFix` (pseudo-legal, illegal). -/
def mFix : Move := moveNew WHITE MOVE_NORMAL KING H1 15 NO_PIECE NO_ENPASSANT_FILE 0 0

-- ======================================================================
-- C10: atomicity of an illegal `do_move`
-- ======================================================================

/-- C10.  Whenever `do_move` rejects a move (returns `None`), the board
is left completely unchanged: all three legality checks (own king left
in check, invalid null move, castling passing square attacked) precede
every state mutation. -/
theorem doMove_none_atomic (b : Board) (m : Move)
    (h : (b.doMove m).1 = none) : (b.doMove m).2 = b := by
  unfold Board.doMove at h ⊢
  split_ifs at h ⊢ with h1 h2 h3
  · rfl
  · rfl
  · rfl
  · exact absurd h (by
      simpa [Option.isSome_iff_ne_none] using doMoveApplied_fst_isSome b m)

/-- Witness for C10 at a concrete input: in `bFix` the generated king
move h1-h2 is rejected, and the board comes back unchanged. -/
theorem doMove_none_atomic_witness :
    (bFix.doMove mFix).1 = none ∧ (bFix.doMove mFix).2 = bFix :=
  ⟨by decide, doMove_none_atomic bFix mFix (by decide)⟩

-- ======================================================================
-- C5: when exactly `do_move` reports an illegal move
-- ======================================================================

/-- C5.  `do_move(m)` returns `None` exactly when the move would leave
the mover's own king in check -- for an ordinary king move, when the
king's destination square is attacked (with the king removed from the
occupancy, `king_would_be_in_check`); for a castling move, additionally
when the king's passing square `(orig + dest) / 2` is attacked; and for
the null move returned by `null_move`, exactly when the side to move is
in check (`checkers() != 0`).  The hypothesis `mvPiece m < NO_PIECE`
mirrors the entry assertion of the source; `b.castling < 16` and
`b.enPassantFile < 16` are the 4-bit range invariants of the
`CastlingRights` type and of the `en_passant_file` field. -/
theorem doMove_none_iff (b : Board) (m : Move) (hp : mvPiece m < NO_PIECE)
    (hcr : b.castling < 16) (hep : b.enPassantFile < 16) :
    ((b.doMove m).1 = none ↔
      (mvPiece m = KING ∧ mvOrig m ≠ mvDest m ∧ b.kingWouldBeInCheck (mvDest m)) ∨
      (mvPiece m = KING ∧ mvOrig m = mvDest m ∧ b.checkers ≠ 0) ∨
      (mvType m = MOVE_CASTLING ∧
        b.kingWouldBeInCheck ((mvOrig m + mvDest m) >>> 1))) ∧
    ((b.doMove b.nullMove).1 = none ↔ b.checkers ≠ 0) := by
  have happ : ∀ m2 : Move, (b.doMoveApplied m2).1 ≠ none := fun m2 => by
    simpa [Option.isSome_iff_ne_none] using doMoveApplied_fst_isSome b m2
  constructor
  · unfold Board.doMove
    split_ifs with h1 h2 h3
    · simp_all
    · simp_all
    · simp_all
    · simp only [happ m, false_iff]
      tauto
  · have hks : b.kingSquare < 64 := bitscan1bit_lt _
    have htn : mvType b.nullMove = MOVE_NORMAL :=
      mvType_new _ _ _ _ _ _ _ _ _ (by decide) hks hks (by decide)
    have hpn : mvPiece b.nullMove = KING :=
      mvPiece_new _ _ _ _ _ _ _ _ _ (by decide) (by decide) hks hks hep hcr (by decide)
    have hon : mvOrig b.nullMove = b.kingSquare :=
      mvOrig_new _ _ _ _ _ _ _ _ _ (by decide) hks hks (by decide)
    have hdn : mvDest b.nullMove = b.kingSquare :=
      mvDest_new _ _ _ _ _ _ _ _ _ hks (by decide)
    have hnc : (MOVE_NORMAL : Nat) ≠ MOVE_CASTLING := by decide
    unfold Board.doMove
    split_ifs with h1 h2 h3
    · simp_all
    · simp_all
    · simp_all
    · simp only [happ b.nullMove, false_iff]
      intro hc
      exact h2 ⟨hpn, by rw [hon, hdn], hc⟩

/-- Witness for C5 at concrete inputs: in `bFix` white's castling value
and en-passant file are in range and the king move h1-h2 is rejected
(the rook attacks h2). -/
theorem doMove_none_iff_witness :
    mvPiece mFix < NO_PIECE ∧ bFix.castling < 16 ∧ bFix.enPassantFile < 16 ∧
    ((bFix.doMove bFix.nullMove).1 = none ↔ bFix.checkers ≠ 0) :=
  ⟨by decide, by decide, by decide,
    (doMove_none_iff bFix mFix (by decide) (by decide) (by decide)).2⟩

-- ======================================================================
-- Bound types and the `extract_pv` value chop (`src/search/mod.rs`)
-- ======================================================================

/-- Modelled from the spec: the transposition-table module defining the
bound-type constants is not among the provided sources; spec §3 fixes
`{none = 0, upper = 1, lower = 2, exact = 3}` (bit 0 = "upper bound
valid", bit 1 = "lower bound valid"). -/
def BOUND_NONE : Nat := 0
def BOUND_UPPER : Nat := 1
def BOUND_LOWER : Nat := 2
def BOUND_EXACT : Nat := 3

/-- The value-chopping step of `extract_pv` (`src/search/mod.rs`,
"Chop values under -9999 or over 9999."): two sequential conditional
rewrites of `(leaf_value, bound)` after the transposition-table entry
has been read.  Note that the source's second branch assigns
`leaf_value = 9999` (not `-9999`). -/
def extractPvChop (leafValue : Int) (bound : Nat) : Int × Nat :=
  let s1 : Int × Nat :=
    if leafValue > 9999 then
      (9999, if bound = BOUND_LOWER then BOUND_EXACT else bound)
    else (leafValue, bound)
  if s1.1 < -9999 then
    (9999, if s1.2 = BOUND_UPPER then BOUND_EXACT else s1.2)
  else s1

/-- The negation step preceding the chop: on the opponent's turn the
stored value is negated and upper/lower bounds are swapped
(`extract_pv`, "In half of the cases the value stored in `entry` is
from other side's perspective."). -/
def extractPvAdjust (ourTurn : Bool) (entryValue : Int) (entryBound : Nat) : Int × Nat :=
  if ourTurn then (entryValue, entryBound)
  else
    (-entryValue,
      if entryBound = BOUND_UPPER then BOUND_LOWER
      else if entryBound = BOUND_LOWER then BOUND_UPPER
      else entryBound)

/-- C8.  The claim says every `leaf_value` below `-9999` becomes
`-9999`; the code instead assigns `+9999` in that branch (a sign slip:
a decisively losing score is flipped into a winning one).  Evaluating
the embedded chop at the failing input `leaf_value = -10000` (an
upper-bound entry read on the searcher's own turn): the result is
`(9999, BOUND_EXACT)`, not the claimed `-9999`. -/
theorem extractPvChop_negative_branch_bug :
    extractPvChop (-10000) BOUND_UPPER = (9999, BOUND_EXACT) ∧
    (extractPvChop (-10000) BOUND_UPPER).1 ≠ -9999 ∧
    extractPvChop 10000 BOUND_LOWER = (9999, BOUND_EXACT) := by
  refine ⟨?_, by decide, ?_⟩ <;> rfl

-- ======================================================================
-- Static exchange evaluation (`src/search/position/mod.rs` and the
-- trait default in `src/search/quiescence.rs`)
-- ======================================================================

/-- `PIECE_VALUES` from `src/search/position/mod.rs`:
king 10000, queen 975, rook 500, bishop 325, knight 325, pawn 100,
none 0. -/
def pieceValuesPos (i : Nat) : Int :=
  [(10000 : Int), 975, 500, 325, 325, 100, 0].getD i 0

/-- `PIECE_VALUES` from the trait default in `src/search/quiescence.rs`
(8 entries; the last two are 0). -/
def pieceValues8 (i : Nat) : Int :=
  [(10000 : Int), 975, 500, 325, 325, 100, 0, 0].getD i 0

/-- The x-ray discovery step shared by both SEE implementations: after
`origSquareBB` is vacated, the first slider hidden behind it on the ray
to `destSquare` joins the attackers-and-defenders set (straight sliders
are probed first, then diagonal ones). -/
def Board.seeConsiderXrays (b : Board) (destSquare origSquareBB : Nat) : Nat :=
  let candidates := Nat.land b.occupied
    (squaresBehindBlocker destSquare (bitscanForward origSquareBB))
  let bb := Nat.land (Nat.land (pieceAttacksFrom ROOK destSquare candidates) candidates)
    (Nat.lor (b.pieces.pieceType QUEEN) (b.pieces.pieceType ROOK))
  if bb ≠ 0 then bb
  else
    Nat.land (Nat.land (pieceAttacksFrom BISHOP destSquare candidates) candidates)
      (Nat.lor (b.pieces.pieceType QUEEN) (b.pieces.pieceType BISHOP))

/-- The "least valuable attacker" selection of the SEE exchange loop:
scan piece types from pawn up to king, take the least significant bit
of the first non-empty intersection with `candidates`. -/
def Board.seeLeastValuable (b : Board) (candidates : Nat) : Option (Nat × Nat) :=
  if Nat.land candidates (b.pieces.pieceType PAWN) ≠ 0 then
    some (PAWN, ls1b (Nat.land candidates (b.pieces.pieceType PAWN)))
  else if Nat.land candidates (b.pieces.pieceType KNIGHT) ≠ 0 then
    some (KNIGHT, ls1b (Nat.land candidates (b.pieces.pieceType KNIGHT)))
  else if Nat.land candidates (b.pieces.pieceType BISHOP) ≠ 0 then
    some (BISHOP, ls1b (Nat.land candidates (b.pieces.pieceType BISHOP)))
  else if Nat.land candidates (b.pieces.pieceType ROOK) ≠ 0 then
    some (ROOK, ls1b (Nat.land candidates (b.pieces.pieceType ROOK)))
  else if Nat.land candidates (b.pieces.pieceType QUEEN) ≠ 0 then
    some (QUEEN, ls1b (Nat.land candidates (b.pieces.pieceType QUEEN)))
  else if Nat.land candidates (b.pieces.pieceType KING) ≠ 0 then
    some (KING, ls1b (Nat.land candidates (b.pieces.pieceType KING)))
  else none

/-- The `'exchange` loop of SEE (common to `Position::calc_see` and the
trait default), collecting the speculative gains.  `gains` is the gain
array top-first (`gains.headD 0` is `gain[depth]`); the returned list
is the final gain array, again top-first.  The gain array of the source
has 34 slots, so 33 loop iterations can never be cut short by the
fuel.  `pv` is the piece-value table (the two implementations use
slightly different tables). -/
def Board.seeExchangeLoop (b : Board) (pv : Nat → Int) (destSquare mayXray : Nat) :
    Nat → Nat → Nat → Nat → Nat → List Int → List Int
  | 0, _, _, _, _, gains => gains
  | fuel + 1, attackersAndDefenders, us, piece, origSquareBB, gains =>
    if origSquareBB = 0 then gains
    else
      let current := gains.headD 0
      let speculative := pv piece - current
      if max (-current) speculative < 0 then gains
      else
        let ad := Nat.land attackersAndDefenders (comp64 origSquareBB)
        let ad :=
          if Nat.land origSquareBB mayXray ≠ 0 then
            Nat.lor ad (b.seeConsiderXrays destSquare origSquareBB)
          else ad
        let us2 := Nat.xor us 1
        match b.seeLeastValuable (Nat.land ad (b.pieces.color us2)) with
        | some (p, obb) =>
          b.seeExchangeLoop pv destSquare mayXray fuel ad us2 p obb (speculative :: gains)
        | none => gains

/-- The final negamax walk over the gain array (both SEE
implementations): `gain[depth-1] = -max(-gain[depth-1], gain[depth])`,
from the top down to `gain[0]`.  `gains` is top-first. -/
def seeNegamax (gains : List Int) : Int :=
  match gains with
  | [] => 0
  | g :: rest => rest.foldl (fun acc gPrev => -(max (-gPrev) acc)) g

/-- `Position::calc_see` (`src/search/position/mod.rs`): SEE of the
destination square of `m`, initialized with
`gain[0] = PIECE_VALUES[m.captured_piece()]` (no special treatment of
promotions). -/
def Board.calcSee (b : Board) (m : Move) : Int :=
  let destSquare := mvDest m
  let mayXray := Nat.lor (Nat.lor (b.pieces.pieceType PAWN) (b.pieces.pieceType BISHOP))
    (Nat.lor (b.pieces.pieceType ROOK) (b.pieces.pieceType QUEEN))
  let attackersAndDefenders := Nat.lor (b.attacksTo WHITE destSquare)
    (b.attacksTo BLACK destSquare)
  let gains := b.seeExchangeLoop pieceValuesPos destSquare mayXray 33
    attackersAndDefenders b.toMove (mvPiece m) (1 <<< mvOrig m)
    [pieceValuesPos (mvCaptured m)]
  seeNegamax gains

/-- `Position::evaluate_move` (`src/search/position/mod.rs`): for pawn
promotions SEE is not run at all -- "for them we simply return some
positive value", namely `PIECE_VALUES[PAWN]`; otherwise `calc_see`. -/
def Board.evaluateMovePos (b : Board) (m : Move) : Int :=
  if mvType m = MOVE_PROMOTION then pieceValuesPos PAWN else b.calcSee m

/-- The initialization of the gain array in the trait-default
`MoveGenerator::evaluate_move` (`src/search/quiescence.rs`): for a
promotion, `gain[0] = PIECE_VALUES[captured] + PIECE_VALUES[promoted] -
PIECE_VALUES[PAWN]`; otherwise the captured piece's value. -/
def seeInitialGain (m : Move) : Int :=
  if mvType m = MOVE_PROMOTION then
    pieceValues8 (mvCaptured m) + pieceValues8 (pieceFromAuxData (mvAux m)) -
      pieceValues8 PAWN
  else pieceValues8 (mvCaptured m)

/-- The initial exchanging piece in the trait-default
`MoveGenerator::evaluate_move`: the promoted piece for promotions, the
played piece otherwise. -/
def seeInitialPiece (m : Move) : Nat :=
  if mvType m = MOVE_PROMOTION then pieceFromAuxData (mvAux m) else mvPiece m

/-- The trait-default `MoveGenerator::evaluate_move`
(`src/search/quiescence.rs`): full static exchange evaluation whose
gain sequence starts at `seeInitialGain m`. -/
def Board.evaluateMoveMG (b : Board) (m : Move) : Int :=
  let exchangeSquare := mvDest m
  let mayXray := Nat.lor (Nat.lor (b.pieces.pieceType PAWN) (b.pieces.pieceType BISHOP))
    (Nat.lor (b.pieces.pieceType ROOK) (b.pieces.pieceType QUEEN))
  let attackersAndDefenders := Nat.lor (b.attacksTo WHITE exchangeSquare)
    (b.attacksTo BLACK exchangeSquare)
  let gains := b.seeExchangeLoop pieceValues8 exchangeSquare mayXray 33
    attackersAndDefenders b.toMove (seeInitialPiece m) (1 <<< mvOrig m)
    [seeInitialGain m]
  seeNegamax gains

/-- The position `r6k/1P6/8/8/8/8/8/7K w - -`: white pawn b7 and king
h1, black rook a8 and king h8.  The promotion-capture b7xa8=Q is
legal. -/
def bProm : Board :=
  { zobrist := zFix
    pieces :=
      { pieceType := fun p =>
          if p = KING then Nat.lor (1 <<< 7) (1 <<< 63)
          else if p = ROOK then 1 <<< 56
          else if p = PAWN then 1 <<< 49
          else 0
        color := fun c =>
          if c = WHITE then Nat.lor (1 <<< 7) (1 <<< 49)
          else if c = BLACK then Nat.lor (1 <<< 56) (1 <<< 63)
          else 0 }
    toMove := WHITE
    castling := 0
    enPassantFile := NO_ENPASSANT_FILE
    occupied := Nat.lor (Nat.lor (1 <<< 7) (1 <<< 49)) (Nat.lor (1 <<< 56) (1 <<< 63)) }

/-- The promotion capture b7xa8=Q in `bProm`. -/
def mProm : Move := moveNew WHITE MOVE_PROMOTION PAWN 49 56 ROOK NO_ENPASSANT_FILE 0 0

/-- C9, counterexample.  At the legal, generated promotion capture
b7xa8=Q the `SearchNode` SEE entry point `Position::evaluate_move`
returns the constant `PIECE_VALUES[PAWN] = 100` -- it never starts a
gain sequence for promotions -- whereas the claimed initialization
`value(captured) + value(promoted) - value(pawn)` is `1375` (and the
trait-default `MoveGenerator::evaluate_move` indeed returns 1375
here). -/
theorem evaluateMovePos_promotion_counterexample :
    bProm.isLegal = true ∧ mProm ∈ bProm.generateMoves true ∧
    bProm.evaluateMovePos mProm = 100 ∧
    pieceValuesPos (mvCaptured mProm) +
      pieceValuesPos (pieceFromAuxData (mvAux mProm)) - pieceValuesPos PAWN = 1375 ∧
    bProm.evaluateMovePos mProm ≠
      pieceValuesPos (mvCaptured mProm) +
        pieceValuesPos (pieceFromAuxData (mvAux mProm)) - pieceValuesPos PAWN ∧
    bProm.evaluateMoveMG mProm = 1375 := by
  refine ⟨by decide, by decide, by decide, by decide, by decide, by decide⟩

/-- C9, amended.  For every pawn-promotion move: the trait-default SEE
(`MoveGenerator::evaluate_move`, `src/search/quiescence.rs`) starts its
gain sequence with `gain[0] = value(captured) + value(promoted) -
value(pawn)` and negamaxes the exchange loop from there, while
`Position::evaluate_move` (`src/search/position/mod.rs`) skips SEE for
promotions and returns `PIECE_VALUES[PAWN]`. -/
theorem see_promotion_initialization (b : Board) (m : Move)
    (h : mvType m = MOVE_PROMOTION) :
    seeInitialGain m =
      pieceValues8 (mvCaptured m) + pieceValues8 (pieceFromAuxData (mvAux m)) -
        pieceValues8 PAWN ∧
    b.evaluateMoveMG m = seeNegamax (b.seeExchangeLoop pieceValues8 (mvDest m)
      (Nat.lor (Nat.lor (b.pieces.pieceType PAWN) (b.pieces.pieceType BISHOP))
        (Nat.lor (b.pieces.pieceType ROOK) (b.pieces.pieceType QUEEN))) 33
      (Nat.lor (b.attacksTo WHITE (mvDest m)) (b.attacksTo BLACK (mvDest m)))
      b.toMove (seeInitialPiece m) (1 <<< mvOrig m) [seeInitialGain m]) ∧
    b.evaluateMovePos m = pieceValuesPos PAWN := by
  refine ⟨by simp [seeInitialGain, h], rfl, by simp [Board.evaluateMovePos, h]⟩

/-- Witness for the amended C9 at the concrete promotion capture
b7xa8=Q. -/
theorem see_promotion_initialization_witness :
    mvType mProm = MOVE_PROMOTION ∧ bProm.evaluateMovePos mProm = pieceValuesPos PAWN :=
  ⟨by decide, (see_promotion_initialization bProm mProm (by decide)).2.2⟩

-- ======================================================================
-- The `SearchNode` layer (`src/search/position/mod.rs`, `Position`)
-- ======================================================================

/-- `PositionInfo`: the per-ply undo record -- the halfmove clock
(capped at 99) and the last played move. -/
structure PositionInfo where
  halfmoveClock : Nat
  lastMove : Move

/-- The history-aware `Position` wrapper around the move generator:
the board hash, a drawn-by-repetition-or-rule-50 flag, the state stack
(in push order; the last entry is current), the hashes of all earlier
boards (in push order), and the blended hash of the repeated,
still-reachable pre-root boards. -/
structure PositionNode where
  board : Board
  boardHash : Nat
  halfmoveCount : Nat
  repeatedOrRule50 : Bool
  stateStack : List PositionInfo
  encounteredBoards : List Nat
  repeatedBoardsHash : Nat

/-- `Position::state`: the last entry of the state stack. -/
def PositionNode.state (s : PositionNode) : PositionInfo :=
  s.stateStack.getLastD ⟨0, moveInvalid⟩

/-- `Position::root_is_reachable`: the root position can still be
reached iff no irreversible move separates it from the current one. -/
def PositionNode.rootIsReachable (s : PositionNode) : Bool :=
  s.encounteredBoards.length ≤ s.state.halfmoveClock

/-- `HALFMOVE_CLOCK_THRESHOLD` (`src/search/position/mod.rs`): the
halfmove clock is blended into the hash from this value on. -/
def HALFMOVE_CLOCK_THRESHOLD : Nat := 70

/-- `Position::hash` (`SearchNode::hash`): the constant 1 for all
positions deemed drawn by repetition or rule-50; otherwise the board
hash, xor-blended with the repeated-boards key while the root is still
reachable and with the halfmove-clock key close to the rule-50
limit. -/
def PositionNode.hash (s : PositionNode) : Nat :=
  if s.repeatedOrRule50 then 1
  else
    let hash :=
      if ¬ s.rootIsReachable then s.boardHash
      else Nat.xor s.boardHash s.repeatedBoardsHash
    let halfmoveClock := s.state.halfmoveClock
    if halfmoveClock < HALFMOVE_CLOCK_THRESHOLD then hash
    else Nat.xor hash (s.board.zobrist.halfmoveClock halfmoveClock)

/-- `Position::is_checkmate`: in check and no generated move is
legal. -/
def Board.isCheckmate (b : Board) : Bool :=
  b.checkers ≠ 0 ∧ (b.generateMoves true).all (fun m => (b.doMove m).1 = none)

/-- The backwards repetition scan of `Position::do_move`: stepping two
plies at a time from four plies back, no further than the last
irreversible move, looking for an earlier occurrence of the new board
hash.  An offset `j` back into the history corresponds to the source's
index `i = boards.len() - j`. -/
def repetitionScan (boards : List Nat) (halfmoveClock boardHash : Nat) : Bool :=
  (List.range (halfmoveClock + 1)).any (fun j =>
    4 ≤ j ∧ j % 2 = 0 ∧ j ≤ boards.length ∧
      boards.getD (boards.length - j) 0 = boardHash)

/-- `Position::do_move` (`SearchNode::do_move`): rejects null moves in
drawn positions, delegates to the board's `do_move`, then maintains the
halfmove clock (capped at 99), the played-board history, the
incremental board hash, and the drawn flag: the flag is raised when the
clock has already reached 99 and the move is reversible without
delivering checkmate, or when the repetition scan finds an earlier
occurrence of the new board. -/
def PositionNode.doMove (s : PositionNode) (m : Move) : Bool × PositionNode :=
  if s.repeatedOrRule50 ∧ mvIsNull m then (false, s)
  else
    match s.board.doMove m with
    | (none, _) => (false, s)
    | (some h, b2) =>
      let oldClock := s.state.halfmoveClock
      let halfmoveClock :=
        if mvIsPawnAdvanceOrCapture m then 0
        else if oldClock < 99 then oldClock + 1
        else 99
      let rule50Trigger :=
        ¬ mvIsPawnAdvanceOrCapture m ∧ ¬ oldClock < 99 ∧ ¬ b2.isCheckmate
      let encounteredBoards := s.encounteredBoards ++ [s.boardHash]
      let newBoardHash := Nat.xor s.boardHash h
      let repeatedOrRule50 := (s.repeatedOrRule50 ∨ rule50Trigger) ∨
        (halfmoveClock ≥ 4 ∧ repetitionScan encounteredBoards halfmoveClock newBoardHash)
      (true,
        { s with
          board := b2
          boardHash := newBoardHash
          halfmoveCount := s.halfmoveCount + 1
          repeatedOrRule50 := repeatedOrRule50
          encounteredBoards := encounteredBoards
          stateStack := s.stateStack ++ [⟨halfmoveClock, m⟩] })

/-- C7.  The node hash of every position deemed drawn (by repetition,
or because the halfmove clock had already reached 99 when a reversible,
non-checkmating move was played) is the constant 1; the hash of every
position not so drawn is never 1 by this rule -- it is the board hash,
xor-blended with the repeated-boards key while the root is reachable
and with the halfmove-clock key once the clock reaches the threshold
70. -/
theorem nodeHash_drawn_spec (s : PositionNode) :
    (s.repeatedOrRule50 = true → s.hash = 1) ∧
    (s.repeatedOrRule50 = false →
      s.hash =
        (let base :=
          if ¬ s.rootIsReachable then s.boardHash
          else Nat.xor s.boardHash s.repeatedBoardsHash
         if s.state.halfmoveClock < HALFMOVE_CLOCK_THRESHOLD then base
         else Nat.xor base (s.board.zobrist.halfmoveClock s.state.halfmoveClock))) ∧
    (∀ m, (s.doMove m).1 = true → mvIsPawnAdvanceOrCapture m = false →
      s.state.halfmoveClock = 99 → (s.doMove m).2.board.isCheckmate = false →
      (s.doMove m).2.hash = 1) := by
  refine ⟨fun h => by simp [PositionNode.hash, h], fun h => by simp [PositionNode.hash, h], ?_⟩
  intro m hok hcap hclock hmate
  unfold PositionNode.doMove at hok hmate ⊢
  by_cases h1 : s.repeatedOrRule50 = true ∧ mvIsNull m = true
  · rw [if_pos h1] at hok; simp at hok
  · rw [if_neg h1] at hmate ⊢
    rcases hbd : s.board.doMove m with ⟨hv, b2⟩
    rw [hbd] at hmate
    cases hv with
    | none => rw [if_neg h1, hbd] at hok; simp at hok
    | some v =>
      simp only [hcap, hclock] at hmate ⊢
      simp only [PositionNode.hash]
      simp_all

/-- A node flagged as drawn (for the C7 witness). -/
def sDrawn : PositionNode :=
  { board := bFix
    boardHash := 12345
    halfmoveCount := 0
    repeatedOrRule50 := true
    stateStack := [⟨10, moveInvalid⟩]
    encounteredBoards := []
    repeatedBoardsHash := 0 }

/-- A node whose halfmove clock has reached 99 (for the C7 witness). -/
def sRule50 : PositionNode :=
  { board := bFix
    boardHash := 12345
    halfmoveCount := 120
    repeatedOrRule50 := false
    stateStack := [⟨99, moveInvalid⟩]
    encounteredBoards := List.replicate 99 0
    repeatedBoardsHash := 0 }

/-- The quiet king move h1-g1 in `bFix`. -/
def mKg1 : Move := moveNew WHITE MOVE_NORMAL KING H1 G1 NO_PIECE NO_ENPASSANT_FILE 0 0

/-- Witness for C7 at concrete inputs: a drawn-flagged node hashes to
1, and playing a reversible, non-checkmating move at clock 99 produces
a node that hashes to 1. -/
theorem nodeHash_drawn_spec_witness :
    sDrawn.hash = 1 ∧ (sRule50.doMove mKg1).2.hash = 1 :=
  ⟨(nodeHash_drawn_spec sDrawn).1 rfl,
   (nodeHash_drawn_spec sRule50).2.2 mKg1 (by decide) (by decide) (by decide) (by decide)⟩

-- ======================================================================
-- Quiescence search (`Position::qsearch`, `src/search/position/mod.rs`)
-- ======================================================================

-- Value constants (`src/chesstypes/value.rs`); `Value` is `i16`,
-- modelled as `Int`.
def VALUE_MAX : Int := 32767
def VALUE_MIN : Int := -32767
def VALUE_UNKNOWN : Int := -32768
def VALUE_EVAL_MAX : Int := 29999
def VALUE_EVAL_MIN : Int := -29999

/-- `SEE_EXCHANGE_MAX_PLY` (`src/search/position/mod.rs`). -/
def SEE_EXCHANGE_MAX_PLY : Nat := 2

/-- The final clamp of `qsearch`: the returned lower bound is forced
into `[VALUE_EVAL_MIN, VALUE_EVAL_MAX]`. -/
def clampEval (x : Int) : Int :=
  if x < VALUE_EVAL_MIN then VALUE_EVAL_MIN
  else if x > VALUE_EVAL_MAX then VALUE_EVAL_MAX
  else x

/-- Modelled from the spec: `MoveStack::remove_best` (the move-stack
module is not among the provided sources).  Per spec §4.5 the
quiescence loop iterates "by descending move score"; the packed move
word sorts captures and queen promotions above quiet moves and orders
captures by MVV-LVA, so removing the best move is removing a maximal
packed value. -/
def removeBest (moves : List Move) : Option (Move × List Move) :=
  match moves with
  | [] => none
  | _ =>
    let best := moves.foldl (fun a x => max a x) 0
    some (best, moves.erase best)

/-- The move loop of `Position::qsearch`.  `recurse` is the recursive
quiescence call (already carrying the smaller fuel); `loopFuel` bounds
the list iterations (it starts at the list length, and `removeBest`
shortens the list each round, so it never runs out).  Returns the final
lower bound and the searched-node count of this subtree. -/
def qsearchLoop (recurse : Board → Int → Int → Nat → Nat → Int × Nat) (b : Board)
    (inCheck : Bool) (upperBound obligatoryMaterialGain : Int) (ply : Nat) :
    Nat → List Move → Int → Nat → Nat → Int × Nat
  | 0, _, lowerBound, _, nodes => (lowerBound, nodes)
  | loopFuel + 1, moves, lowerBound, recaptureSquares, nodes =>
    match removeBest moves with
    | none => (lowerBound, nodes)
    | some (m, rest) =>
      let moveType := mvType m
      let destSquareBB := 1 <<< mvDest m
      let capturedPiece := mvCaptured m
      -- Ensure that the immediate material gain from this move is big
      -- enough to warrant trying it.
      let materialGain :=
        if moveType = MOVE_PROMOTION then
          pieceValuesPos capturedPiece +
            pieceValuesPos (pieceFromAuxData (mvAux m)) - pieceValuesPos PAWN
        else pieceValuesPos capturedPiece
      if materialGain < obligatoryMaterialGain then
        qsearchLoop recurse b inCheck upperBound obligatoryMaterialGain ply
          loopFuel rest lowerBound recaptureSquares nodes
      else
      -- Losing exchanges are skipped; even exchanges only during the
      -- first `SEE_EXCHANGE_MAX_PLY` plies (mandatory recaptures, check
      -- evasions, promotions and en-passant captures are always tried).
      if ¬ inCheck ∧ moveType = MOVE_NORMAL ∧
          Nat.land recaptureSquares destSquareBB = 0 ∧
          (b.calcSee m < 0 ∨ (b.calcSee m = 0 ∧ ply ≥ SEE_EXCHANGE_MAX_PLY)) then
        qsearchLoop recurse b inCheck upperBound obligatoryMaterialGain ply
          loopFuel rest lowerBound recaptureSquares nodes
      else
        match b.doMove m with
        | (none, _) =>
          qsearchLoop recurse b inCheck upperBound obligatoryMaterialGain ply
            loopFuel rest lowerBound recaptureSquares nodes
        | (some _, b2) =>
          let r := recurse b2 (-upperBound) (-lowerBound)
            (Nat.xor recaptureSquares destSquareBB) (ply + 1)
          let value := -r.1
          let nodes := nodes + 1 + r.2
          if value ≥ upperBound then (value, nodes)
          else
            qsearchLoop recurse b inCheck upperBound obligatoryMaterialGain ply
              loopFuel rest (if value > lowerBound then value else lowerBound)
              (Nat.land recaptureSquares (comp64 destSquareBB)) nodes

/-- `Position::qsearch`: the quiescence search.  `ev` is the static
evaluator bound to the position (`self.evaluator().evaluate`), `clock`
the node's halfmove clock (both fixed during the whole search, since
only the board-level `do_move` is used inside).  The recursion is
modelled with fuel; exhausted fuel returns the clamped lower bound,
exactly like a position without forcing moves.  Returns
`(value, searched_nodes)`. -/
def qsearch (ev : Board → Nat → Int) (clock : Nat) :
    Nat → Board → Int → Int → Int → Nat → Nat → Int × Nat
  | 0, _, lowerBound, _, _, _, _ => (clampEval lowerBound, 0)
  | fuel + 1, b, lowerBound, upperBound, standPat, recaptureSquares, ply =>
    let inCheck := b.checkers ≠ 0
    -- When in check the static evaluation is useless; otherwise compute
    -- it unless it was supplied by the caller.
    let standPat :=
      if inCheck then lowerBound
      else if standPat = VALUE_UNKNOWN then ev b clock
      else standPat
    if standPat ≥ upperBound then (standPat, 0)
    else
      let lowerBound := if standPat > lowerBound then standPat else lowerBound
      let obligatoryMaterialGain := lowerBound - standPat - 2 * pieceValuesPos PAWN
      let moves := b.generateMoves false
      let r := qsearchLoop
        (fun b2 lb ub rs p => qsearch ev clock fuel b2 lb ub VALUE_UNKNOWN rs p)
        b inCheck upperBound obligatoryMaterialGain ply
        moves.length moves lowerBound recaptureSquares 0
      (clampEval r.1, r.2)

/-- `Position::evaluate_quiescence` (`SearchNode::evaluate_quiescence`):
repeated and rule-50 positions evaluate to `(0, 0)`; otherwise
`qsearch` runs with empty recapture set at ply 0. -/
def PositionNode.evaluateQuiescence (s : PositionNode) (ev : Board → Nat → Int)
    (fuel : Nat) (lowerBound upperBound staticEvaluation : Int) : Int × Nat :=
  if s.repeatedOrRule50 then (0, 0)
  else qsearch ev s.state.halfmoveClock fuel s.board lowerBound upperBound
    staticEvaluation 0 0

/-- C6, counterexample.  With a supplied static evaluation of `30001`
(which no evaluator satisfying its contract would produce) and bounds
`0 < 10`, the early-return path of `qsearch` -- taken when the
stand-pat value already reaches the upper bound -- returns `30001`
unclamped, outside `[VALUE_EVAL_MIN, VALUE_EVAL_MAX]`.  So the claim is
false for an arbitrary supplied static evaluation. -/
theorem qsearch_unclamped_counterexample :
    (0 : Int) < 10 ∧
    (qsearch (fun _ _ => 0) 0 5 bFix 0 10 30001 0 0).1 = 30001 ∧
    ¬ (qsearch (fun _ _ => 0) 0 5 bFix 0 10 30001 0 0).1 ≤ VALUE_EVAL_MAX := by
  refine ⟨by decide, by decide, by decide⟩

/-- C6, amended.  For every position, every fuel, all bounds with
`lower_bound < upper_bound`, and every supplied static evaluation that
respects the `qsearch` precondition (`VALUE_UNKNOWN` or the position's
static evaluation, the evaluator's values lying within
`[VALUE_EVAL_MIN, VALUE_EVAL_MAX]`), the value returned by `qsearch`
lies within `[VALUE_EVAL_MIN, VALUE_EVAL_MAX]` -- the early-return path
then returns the in-range evaluator value, every other path returns the
clamped lower bound; and likewise for `evaluate_quiescence`. -/
theorem qsearch_range (ev : Board → Nat → Int)
    (hev : ∀ b c, VALUE_EVAL_MIN ≤ ev b c ∧ ev b c ≤ VALUE_EVAL_MAX)
    (clock fuel : Nat) (b : Board) (lowerBound upperBound standPat : Int)
    (recaptureSquares ply : Nat) (hlu : lowerBound < upperBound)
    (hsp : standPat = VALUE_UNKNOWN ∨ standPat = ev b clock) :
    (VALUE_EVAL_MIN ≤
        (qsearch ev clock fuel b lowerBound upperBound standPat recaptureSquares ply).1 ∧
      (qsearch ev clock fuel b lowerBound upperBound standPat recaptureSquares ply).1 ≤
        VALUE_EVAL_MAX) ∧
    ∀ s : PositionNode, s.board = b → s.state.halfmoveClock = clock →
      VALUE_EVAL_MIN ≤
          (s.evaluateQuiescence ev fuel lowerBound upperBound standPat).1 ∧
        (s.evaluateQuiescence ev fuel lowerBound upperBound standPat).1 ≤
          VALUE_EVAL_MAX := by
  have hclamp : ∀ x : Int, VALUE_EVAL_MIN ≤ clampEval x ∧ clampEval x ≤ VALUE_EVAL_MAX := by
    intro x
    unfold clampEval VALUE_EVAL_MIN VALUE_EVAL_MAX
    split_ifs <;> omega
  have hmain : ∀ rs p : Nat, VALUE_EVAL_MIN ≤
      (qsearch ev clock fuel b lowerBound upperBound standPat rs p).1 ∧
      (qsearch ev clock fuel b lowerBound upperBound standPat rs p).1 ≤
      VALUE_EVAL_MAX := by
    intro rs p
    have h := hev b clock
    cases fuel with
    | zero => exact hclamp lowerBound
    | succ fuel =>
      cases hsp with
      | inl hsp =>
        rw [hsp]
        simp only [qsearch]
        split_ifs <;> first | omega | exact hev b clock | exact hclamp _
      | inr hsp =>
        rw [hsp]
        simp only [qsearch]
        split_ifs <;> first | omega | exact hev b clock | exact hclamp _
  refine ⟨hmain recaptureSquares ply, fun s hb hc => ?_⟩
  unfold PositionNode.evaluateQuiescence
  split_ifs with hrep
  · exact ⟨by decide, by decide⟩
  · rw [hb, hc]; exact hmain 0 0

/-- The all-zero static evaluator (used by the C6 witness). -/
def evZero : Board → Nat → Int := fun _ _ => 0

theorem evZero_range : ∀ b c, VALUE_EVAL_MIN ≤ evZero b c ∧ evZero b c ≤ VALUE_EVAL_MAX :=
  fun _ _ => by unfold evZero VALUE_EVAL_MIN VALUE_EVAL_MAX; omega

/-- Witness for the amended C6 at concrete inputs: the zero evaluator
satisfies the range contract, the bounds are ordered, and the result at
`bFix` is in range. -/
theorem qsearch_range_witness :
    VALUE_EVAL_MIN ≤ (qsearch evZero 0 5 bFix (-20000) 20000 VALUE_UNKNOWN 0 0).1 ∧
    (qsearch evZero 0 5 bFix (-20000) 20000 VALUE_UNKNOWN 0 0).1 ≤ VALUE_EVAL_MAX :=
  (qsearch_range evZero evZero_range 0 5 bFix (-20000) 20000
    VALUE_UNKNOWN 0 0 (by decide) (Or.inl rfl)).1

-- ======================================================================
-- Bitboard algebra used by the make/unmake and hashing proofs
-- ======================================================================

theorem B64_pow : B64 = 2 ^ 64 := by norm_num [B64]

theorem land_eq (x y : Nat) : Nat.land x y = x &&& y := rfl

theorem lor_eq (x y : Nat) : Nat.lor x y = x ||| y := rfl

theorem xor_eq (x y : Nat) : Nat.xor x y = x ^^^ y := rfl

theorem testBit_ge64 (x i : Nat) (hx : x < B64) (hi : 64 ≤ i) : x.testBit i = false :=
  Nat.testBit_lt_two_pow
    (lt_of_lt_of_le (B64_pow ▸ hx) (Nat.pow_le_pow_right (by norm_num) hi))

theorem testBit_comp64 (x i : Nat) :
    (comp64 x).testBit i = ((decide (i < 64)).xor (x.testBit i)) := by
  unfold comp64 BB_UNIVERSAL_SET
  rw [xor_eq, show (18446744073709551615 : Nat) = 2 ^ 64 - 1 by norm_num,
    Nat.testBit_xor, Nat.testBit_two_pow_sub_one]

/-- Clearing a square bit and setting it back restores a bitboard that
held the bit. -/
theorem clear_set_id (x s : Nat) (hs : s < 64) (hx : x < B64) (hbit : x.testBit s = true) :
    Nat.lor (Nat.land x (comp64 (1 <<< s))) (1 <<< s) = x := by
  apply Nat.eq_of_testBit_eq
  intro i
  rw [lor_eq, land_eq, Nat.testBit_lor, Nat.testBit_land, testBit_comp64,
    Nat.one_shiftLeft, Nat.testBit_two_pow]
  by_cases h : s = i
  · subst h; simp [hbit]
  · by_cases hi : i < 64
    · simp [h, hi]
    · simp [h, testBit_ge64 x i hx (by omega)]

/-- Setting a square bit and clearing it again restores a bitboard that
lacked the bit. -/
theorem set_clear_id (x s : Nat) (hs : s < 64) (hx : x < B64) (hbit : x.testBit s = false) :
    Nat.land (Nat.lor x (1 <<< s)) (comp64 (1 <<< s)) = x := by
  apply Nat.eq_of_testBit_eq
  intro i
  rw [land_eq, lor_eq, Nat.testBit_land, Nat.testBit_lor, testBit_comp64,
    Nat.one_shiftLeft, Nat.testBit_two_pow]
  by_cases h : s = i
  · subst h; simp [hbit, hs]
  · by_cases hi : i < 64
    · simp [h, hi]
    · simp [h, testBit_ge64 x i hx (by omega)]

theorem testBit_clear_ne (x s i : Nat) (hx : x < B64) (h : i ≠ s) :
    (Nat.land x (comp64 (1 <<< s))).testBit i = x.testBit i := by
  rw [land_eq, Nat.testBit_land, testBit_comp64, Nat.one_shiftLeft, Nat.testBit_two_pow]
  by_cases hi : i < 64
  · simp [hi, Ne.symm h]
  · simp [testBit_ge64 x i hx (by omega)]

theorem testBit_clear_self (x s : Nat) (hx : x < B64) :
    (Nat.land x (comp64 (1 <<< s))).testBit s = false := by
  rw [land_eq, Nat.testBit_land, testBit_comp64, Nat.one_shiftLeft, Nat.testBit_two_pow]
  by_cases hs : s < 64
  · simp [hs]
  · simp [hs, testBit_ge64 x s hx (by omega)]

theorem testBit_set_ne (x s i : Nat) (h : i ≠ s) :
    (Nat.lor x (1 <<< s)).testBit i = x.testBit i := by
  rw [lor_eq, Nat.testBit_lor, Nat.one_shiftLeft, Nat.testBit_two_pow]
  simp [Ne.symm h]

theorem testBit_set_self (x s : Nat) : (Nat.lor x (1 <<< s)).testBit s = true := by
  rw [lor_eq, Nat.testBit_lor, Nat.one_shiftLeft, Nat.testBit_two_pow]
  simp

theorem testBit_xor_of_not (x m i : Nat) (h : m.testBit i = false) :
    (Nat.xor x m).testBit i = x.testBit i := by
  rw [xor_eq]; simp [Nat.testBit_xor, h]

theorem clear_lt (x s : Nat) (hx : x < B64) : Nat.land x (comp64 (1 <<< s)) < B64 :=
  lt_of_le_of_lt (land_eq x _ ▸ Nat.and_le_left) hx

theorem set_lt (x s : Nat) (hs : s < 64) (hx : x < B64) : Nat.lor x (1 <<< s) < B64 := by
  rw [B64_pow] at hx ⊢
  rw [lor_eq]
  exact Nat.or_lt_two_pow hx
    (by rw [Nat.one_shiftLeft]; exact Nat.pow_lt_pow_right (by norm_num) hs)

theorem xor_lt (x m : Nat) (hx : x < B64) (hm : m < B64) : Nat.xor x m < B64 := by
  rw [B64_pow] at hx hm ⊢
  rw [xor_eq]
  exact Nat.xor_lt_two_pow hx hm

-- Normal forms for `testBit` through the square-set/square-clear/xor
-- operations, split on whether the probed index is a board bit.

theorem nf_clear (x s i : Nat) (hi : i < 64) :
    (Nat.land x (comp64 (1 <<< s))).testBit i = (x.testBit i && !(decide (s = i))) := by
  rw [land_eq, Nat.testBit_land, testBit_comp64, Nat.one_shiftLeft, Nat.testBit_two_pow]
  simp [hi]

theorem nf_set (x s i : Nat) :
    (Nat.lor x (1 <<< s)).testBit i = (x.testBit i || decide (s = i)) := by
  rw [lor_eq, Nat.testBit_lor, Nat.one_shiftLeft, Nat.testBit_two_pow]

theorem nf_clear_ge (x s i : Nat) (hi : ¬ i < 64) (hs : s < 64) :
    (Nat.land x (comp64 (1 <<< s))).testBit i = false := by
  rw [land_eq, Nat.testBit_land, testBit_comp64, Nat.one_shiftLeft, Nat.testBit_two_pow]
  have h1 : decide (i < 64) = false := by simp [hi]
  have h2 : decide (s = i) = false := by simp; omega
  rw [h1, h2, Bool.xor_false, Bool.and_false]

theorem nf_set_ge (x s i : Nat) (hi : ¬ i < 64) (hs : s < 64) :
    (Nat.lor x (1 <<< s)).testBit i = x.testBit i := by
  rw [lor_eq, Nat.testBit_lor, Nat.one_shiftLeft, Nat.testBit_two_pow]
  simp [show s ≠ i by omega]

theorem nf_xor (x m i : Nat) : (Nat.xor x m).testBit i = (x.testBit i).xor (m.testBit i) := by
  rw [xor_eq, Nat.testBit_xor]

-- Unfolding lemmas for the pointwise placement updates.
theorem setPieceType_pieceType (pp : PiecesPlacement) (i v j : Nat) :
    (pp.setPieceType i v).pieceType j = if j = i then v else pp.pieceType j := rfl

theorem setPieceType_color (pp : PiecesPlacement) (i v j : Nat) :
    (pp.setPieceType i v).color j = pp.color j := rfl

theorem setColor_color (pp : PiecesPlacement) (i v j : Nat) :
    (pp.setColor i v).color j = if j = i then v else pp.color j := rfl

theorem setColor_pieceType (pp : PiecesPlacement) (i v j : Nat) :
    (pp.setColor i v).pieceType j = pp.pieceType j := rfl

-- Unconditional bit-level normal forms (the `decide (i < 64)` factor
-- absorbs the truncation that clearing a square performs on a bitboard).

theorem nf_clear_u (x s i : Nat) :
    (Nat.land x (comp64 (1 <<< s))).testBit i =
      (x.testBit i && ((decide (i < 64)).xor (decide (s = i)))) := by
  rw [land_eq, Nat.testBit_land, testBit_comp64, Nat.one_shiftLeft, Nat.testBit_two_pow]

theorem nf_pow (s i : Nat) : (1 <<< s).testBit i = decide (s = i) := by
  rw [Nat.one_shiftLeft, Nat.testBit_two_pow]

theorem xor1_xor1 (u : Nat) : Nat.xor 1 (Nat.xor 1 u) = u := by
  rw [xor_eq, xor_eq, ← Nat.xor_assoc, Nat.xor_self, Nat.zero_xor]

theorem land_zero_testBit {x y : Nat} (h : Nat.land x y = 0) (i : Nat)
    (hx : x.testBit i = true) : y.testBit i = false := by
  by_contra hy
  have : (Nat.land x y).testBit i = true := by
    rw [land_eq, Nat.testBit_land, hx, Bool.true_and]
    exact Bool.of_not_eq_false hy
  rw [h, Nat.zero_testBit] at this
  exact Bool.false_ne_true this

theorem testBit_lor_left {x y : Nat} {i : Nat} (h : x.testBit i = true) :
    (Nat.lor x y).testBit i = true := by
  rw [lor_eq, Nat.testBit_lor, h, Bool.true_or]

theorem testBit_lor_right {x y : Nat} {i : Nat} (h : y.testBit i = true) :
    (Nat.lor x y).testBit i = true := by
  rw [lor_eq, Nat.testBit_lor, h, Bool.or_true]

theorem testBit_lor_none {x y : Nat} {i : Nat} (hx : x.testBit i = false)
    (hy : y.testBit i = false) : (Nat.lor x y).testBit i = false := by
  rw [lor_eq, Nat.testBit_lor, hx, hy]
  rfl

-- Structure extensionality for the embedded board.

theorem PiecesPlacement.ext_arrays (p q : PiecesPlacement)
    (hpt : ∀ j, p.pieceType j = q.pieceType j)
    (hc : ∀ j, p.color j = q.color j) : p = q := by
  cases p
  cases q
  simp only [PiecesPlacement.mk.injEq]
  exact ⟨funext hpt, funext hc⟩

theorem Board.ext_fields (b1 b2 : Board) (hz : b1.zobrist = b2.zobrist)
    (hp : b1.pieces = b2.pieces) (ht : b1.toMove = b2.toMove)
    (hcr : b1.castling = b2.castling) (he : b1.enPassantFile = b2.enPassantFile)
    (ho : b1.occupied = b2.occupied) : b1 = b2 := by
  cases b1
  cases b2
  simp only [Board.mk.injEq]
  exact ⟨hz, hp, ht, hcr, he, ho⟩

/-- Range invariant carried by the Rust `Bitboard` (`u64`) fields of
`PiecesPlacement`: every bitboard is a 64-bit value.  In the embedding
bitboards are `Nat`, so this is a hypothesis of the roundtrip theorems. -/
def Board.inRange (b : Board) : Prop :=
  (∀ j, j < 6 → b.pieces.pieceType j < B64) ∧
    b.pieces.color WHITE < B64 ∧ b.pieces.color BLACK < B64 ∧ b.castling < 16

instance (b : Board) : Decidable b.inRange := by
  unfold Board.inRange
  exact instDecidableAnd

theorem land_comm' (a b : Nat) : Nat.land a b = Nat.land b a := by
  rw [land_eq, land_eq, Nat.and_comm]

theorem lor_lt (x y : Nat) (hx : x < B64) (hy : y < B64) : Nat.lor x y < B64 := by
  rw [B64_pow] at hx hy ⊢
  rw [lor_eq]
  exact Nat.or_lt_two_pow hx hy

theorem land_univ (t : Nat) (ht : t < B64) : Nat.land BB_UNIVERSAL_SET t = t := by
  apply Nat.eq_of_testBit_eq
  intro i
  rw [land_eq, Nat.testBit_land,
    show BB_UNIVERSAL_SET = 2 ^ 64 - 1 by norm_num [BB_UNIVERSAL_SET],
    Nat.testBit_two_pow_sub_one]
  by_cases hi : i < 64
  · simp [hi]
  · simp [hi, testBit_ge64 t i ht (by omega)]

theorem land_lor_split {a b c : Nat} (h : Nat.land (Nat.lor a b) c = 0) :
    Nat.land a c = 0 ∧ Nat.land b c = 0 := by
  have hbit : ∀ i, ((Nat.lor a b).testBit i && c.testBit i) = false := by
    intro i
    have := congrArg (fun x => x.testBit i) h
    simpa [land_eq, Nat.testBit_land] using this
  constructor <;>
    · apply Nat.eq_of_testBit_eq
      intro i
      have h' := hbit i
      rw [lor_eq, Nat.testBit_lor] at h'
      simp only [land_eq, Nat.testBit_land, Nat.zero_testBit]
      rcases Bool.eq_false_or_eq_true (a.testBit i) with ha | ha <;>
        rcases Bool.eq_false_or_eq_true (b.testBit i) with hb | hb <;>
          simp_all

/-- The union fold of `Board::is_legal` starting from the universal set
stays at the universal set (for 64-bit inputs). -/
theorem foldUnion_univ (f : Nat → Nat) (l : List Nat) (hf : ∀ x ∈ l, f x < B64) :
    l.foldl (fun a i => if Nat.land a (f i) = 0 then Nat.lor a (f i)
      else BB_UNIVERSAL_SET) BB_UNIVERSAL_SET = BB_UNIVERSAL_SET := by
  induction l with
  | nil => rfl
  | cons x l ih =>
    rw [List.foldl_cons]
    have hx := hf x (List.mem_cons_self x l)
    have htail : ∀ y ∈ l, f y < B64 := fun y hy => hf y (List.mem_cons_of_mem x hy)
    by_cases h : Nat.land BB_UNIVERSAL_SET (f x) = 0
    · have hz : f x = 0 := by rw [← land_univ (f x) hx, h]
      rw [if_pos h, hz, lor_eq, Nat.or_zero]
      exact ih htail
    · rw [if_neg h]
      exact ih htail

/-- If the union fold of `Board::is_legal` does not collapse to the
universal set, every input bitboard is contained in the result, the
accumulator is contained in the result and disjoint from every input,
and the inputs are pairwise disjoint. -/
theorem foldUnion_props (f : Nat → Nat) (l : List Nat) (acc : Nat)
    (hacc : acc < B64) (hf : ∀ x ∈ l, f x < B64)
    (hne : l.foldl (fun a i => if Nat.land a (f i) = 0 then Nat.lor a (f i)
      else BB_UNIVERSAL_SET) acc ≠ BB_UNIVERSAL_SET) :
    (∀ s, acc.testBit s = true →
      (l.foldl (fun a i => if Nat.land a (f i) = 0 then Nat.lor a (f i)
        else BB_UNIVERSAL_SET) acc).testBit s = true) ∧
    (∀ x ∈ l, ∀ s, (f x).testBit s = true →
      (l.foldl (fun a i => if Nat.land a (f i) = 0 then Nat.lor a (f i)
        else BB_UNIVERSAL_SET) acc).testBit s = true) ∧
    (∀ x ∈ l, Nat.land acc (f x) = 0) ∧
    List.Pairwise (fun x y => Nat.land (f x) (f y) = 0) l := by
  induction l generalizing acc with
  | nil => exact ⟨fun s h => h, by simp, by simp, List.Pairwise.nil⟩
  | cons x l ih =>
    have hx := hf x (List.mem_cons_self x l)
    have htail : ∀ y ∈ l, f y < B64 := fun y hy => hf y (List.mem_cons_of_mem x hy)
    rw [List.foldl_cons] at hne ⊢
    by_cases h : Nat.land acc (f x) = 0
    · rw [if_pos h] at hne ⊢
      have hacc' : Nat.lor acc (f x) < B64 := lor_lt _ _ hacc hx
      obtain ⟨ihs, ihm, ihd, ihp⟩ := ih (Nat.lor acc (f x)) hacc' htail hne
      refine ⟨?_, ?_, ?_, ?_⟩
      · intro s hs
        exact ihs s (testBit_lor_left hs)
      · intro y hy s hs
        rcases List.mem_cons.mp hy with rfl | hy
        · exact ihs s (testBit_lor_right hs)
        · exact ihm y hy s hs
      · intro y hy
        rcases List.mem_cons.mp hy with rfl | hy
        · exact h
        · exact (land_lor_split (ihd y hy)).1
      · exact List.Pairwise.cons (fun y hy => (land_lor_split (ihd y hy)).2) ihp
    · rw [if_neg h] at hne
      exact absurd (foldUnion_univ f l htail) hne

/-- The facts about a board that `Board::is_legal` guarantees and the
make/unmake roundtrip consumes: a valid side to move and en-passant
file, disjoint color boards whose union is the occupancy, and pairwise
disjoint piece-type boards that the occupancy covers. -/
theorem isLegal_facts (b : Board) (hL : b.isLegal = true) (hR : b.inRange) :
    b.toMove < 2 ∧ b.enPassantFile ≤ 8 ∧
    Nat.land (b.pieces.color b.toMove) (b.pieces.color (Nat.xor 1 b.toMove)) = 0 ∧
    b.occupied =
      Nat.lor (b.pieces.color b.toMove) (b.pieces.color (Nat.xor 1 b.toMove)) ∧
    (∀ j, j < 6 → ∀ s, (b.pieces.pieceType j).testBit s = true →
      b.occupied.testBit s = true) ∧
    (∀ j k, j < 6 → k < 6 → j ≠ k →
      Nat.land (b.pieces.pieceType j) (b.pieces.pieceType k) = 0) := by
  have hmem : ∀ j, j < 6 → j ∈ [KING, QUEEN, ROOK, BISHOP, KNIGHT, PAWN] := by
    intro j hj
    interval_cases j <;> decide
  have hfB : ∀ x ∈ [KING, QUEEN, ROOK, BISHOP, KNIGHT, PAWN],
      b.pieces.pieceType x < B64 := by
    intro x hx
    refine hR.1 x ?_
    simp only [KING, QUEEN, ROOK, BISHOP, KNIGHT, PAWN, List.mem_cons,
      List.not_mem_nil, or_false] at hx
    omega
  simp only [Board.isLegal] at hL
  split_ifs at hL with hrange
  push_neg at hrange
  rw [NO_ENPASSANT_FILE] at hrange
  rw [decide_eq_true_eq] at hL
  obtain ⟨hne, hocc, hdisj, -, -, -, -, -, -, -, -, -, -, -, -, -, hoccEq⟩ := hL
  obtain ⟨-, hsub, -, hpw⟩ :=
    foldUnion_props b.pieces.pieceType [KING, QUEEN, ROOK, BISHOP, KNIGHT, PAWN] 0
      (by norm_num [B64]) hfB hne
  refine ⟨by omega, by omega, hdisj, by rw [hoccEq, hocc], ?_, ?_⟩
  · intro j hj s hs
    rw [hoccEq]
    exact hsub j (hmem j hj) s hs
  · intro j k hj hk hjk
    have hpw' : List.Pairwise
        (fun x y => Nat.land (b.pieces.pieceType x) (b.pieces.pieceType y) = 0)
        [0, 1, 2, 3, 4, 5] := hpw
    simp only [List.pairwise_cons, List.forall_mem_cons] at hpw'
    obtain ⟨⟨h01, h02, h03, h04, h05, -⟩, ⟨h12, h13, h14, h15, -⟩,
      ⟨h23, h24, h25, -⟩, ⟨h34, h35, -⟩, ⟨h45, -⟩, -, -⟩ := hpw'
    interval_cases j <;> interval_cases k <;>
      first
        | omega
        | assumption
        | (rw [land_comm']; assumption)

/-- The shape of the moves `Board::generate_moves` emits (and that
`Board::do_move` relies upon): the packed castling-rights and
en-passant fields snapshot the board, the moved piece stands on the
origin square, the destination does not hold a friendly piece, and the
move type determines the captured-piece data -- a normal move or a
promotion either captures nothing on an empty destination or captures
the enemy piece standing there, an en-passant capture takes the enemy
pawn standing behind the (empty) destination square, and castling is a
king move between its fixed squares with nothing captured. -/
structure MoveWF (b : Board) (m : Move) : Prop where
  cast_eq : mvCastling m = b.castling
  ep_eq : mvEpFile m = b.enPassantFile
  piece_lt : mvPiece m < 6
  orig_pt : (b.pieces.pieceType (mvPiece m)).testBit (mvOrig m) = true
  orig_col : (b.pieces.color b.toMove).testBit (mvOrig m) = true
  dest_not_us : (b.pieces.color b.toMove).testBit (mvDest m) = false
  orig_ne_dest : mvOrig m ≠ mvDest m
  shape :
    ((mvType m = MOVE_NORMAL ∨ (mvType m = MOVE_PROMOTION ∧ mvPiece m = PAWN)) ∧
      (mvCaptured m = NO_PIECE ∧ b.occupied.testBit (mvDest m) = false ∨
       mvCaptured m < 6 ∧
         (b.pieces.pieceType (mvCaptured m)).testBit (mvDest m) = true ∧
         (b.pieces.color (Nat.xor 1 b.toMove)).testBit (mvDest m) = true)) ∨
    (mvType m = MOVE_ENPASSANT ∧ mvPiece m = PAWN ∧ mvCaptured m = PAWN ∧
      b.occupied.testBit (mvDest m) = false ∧
      ((mvDest m : Int) + pawnMoveShifts (Nat.xor 1 b.toMove) PAWN_PUSH).toNat < 64 ∧
      (b.pieces.pieceType PAWN).testBit
        ((mvDest m : Int) + pawnMoveShifts (Nat.xor 1 b.toMove) PAWN_PUSH).toNat = true ∧
      (b.pieces.color (Nat.xor 1 b.toMove)).testBit
        ((mvDest m : Int) + pawnMoveShifts (Nat.xor 1 b.toMove) PAWN_PUSH).toNat = true) ∨
    (mvType m = MOVE_CASTLING ∧ mvPiece m = KING ∧ mvCaptured m = NO_PIECE ∧
      b.occupied.testBit (mvDest m) = false ∧
      ((b.toMove = WHITE ∧ mvOrig m = 4 ∧ (mvDest m = 2 ∨ mvDest m = 6)) ∨
       (b.toMove = BLACK ∧ mvOrig m = 60 ∧ (mvDest m = 58 ∨ mvDest m = 62))) ∧
      b.occupied.testBit ((mvOrig m + mvDest m) >>> 1) = false ∧
      canCastle b.castling b.toMove
        (if mvOrig m < mvDest m then KINGSIDE else QUEENSIDE) = true)

theorem pieceFromAuxData_bounds (a : Nat) :
    1 ≤ pieceFromAuxData a ∧ pieceFromAuxData a ≤ 4 := by
  unfold pieceFromAuxData
  split_ifs <;> simp [QUEEN, ROOK, BISHOP, KNIGHT]

theorem mvOrig_lt (m : Move) : mvOrig m < 64 := by
  unfold mvOrig
  omega

theorem mvDest_lt (m : Move) : mvDest m < 64 := by
  unfold mvDest
  omega

theorem dev_rt (b : Board) (m : Move) (hL : b.isLegal = true) (hR : b.inRange)
    (hWF : MoveWF b m) (htype : mvType m = MOVE_NORMAL)
    (hcap : mvCaptured m = NO_PIECE) (hnocc : b.occupied.testBit (mvDest m) = false) :
    (((b.doMoveApplied m).2).undoMove m).pieces = b.pieces := by
  obtain ⟨htm, hep8, hdisj, hocc, hsub, hptdisj⟩ := isLegal_facts b hL hR
  have ho64 : mvOrig m < 64 := mvOrig_lt m
  have hd64 : mvDest m < 64 := mvDest_lt m
  have hx64 : b.pieces.pieceType (mvPiece m) < B64 := hR.1 _ hWF.piece_lt
  have hcus64 : b.pieces.color b.toMove < B64 := by
    rcases (by omega : b.toMove = 0 ∨ b.toMove = 1) with h | h <;> rw [h]
    · exact hR.2.1
    · exact hR.2.2.1
  have hptd : (b.pieces.pieceType (mvPiece m)).testBit (mvDest m) = false := by
    cases hbit : (b.pieces.pieceType (mvPiece m)).testBit (mvDest m) with
    | false => rfl
    | true =>
      have h2 := hsub (mvPiece m) hWF.piece_lt (mvDest m) hbit
      rw [hnocc] at h2
      exact (Bool.false_ne_true h2).elim
  have horig := hWF.orig_pt
  have horigc := hWF.orig_col
  have hdnu := hWF.dest_not_us
  have hod := hWF.orig_ne_dest
  apply PiecesPlacement.ext_arrays <;> intro j
  · simp only [Board.undoMove, Board.doMoveApplied, htype, hcap,
      MOVE_NORMAL, MOVE_CASTLING, MOVE_PROMOTION, MOVE_ENPASSANT, NO_PIECE, xor1_xor1]
    simp only [Nat.reduceEqDiff, Nat.reduceLT, reduceIte, setPieceType_pieceType,
      setPieceType_color, setColor_pieceType, setColor_color]
    by_cases hj : j = mvPiece m
    · subst hj
      simp only [eq_self_iff_true, reduceIte]
      apply Nat.eq_of_testBit_eq
      intro i
      simp only [nf_set, nf_clear_u]
      by_cases hio : mvOrig m = i <;> by_cases hid : mvDest m = i <;>
        by_cases hi64 : i < 64 <;>
        first
          | omega
          | (have hge : (64 : Nat) ≤ i := by omega
             simp_all [testBit_ge64 _ _ hx64 hge])
          | simp_all
    · simp [hj]
  · simp only [Board.undoMove, Board.doMoveApplied, htype, hcap,
      MOVE_NORMAL, MOVE_CASTLING, MOVE_PROMOTION, MOVE_ENPASSANT, NO_PIECE, xor1_xor1]
    simp only [Nat.reduceEqDiff, Nat.reduceLT, reduceIte, setPieceType_pieceType,
      setPieceType_color, setColor_pieceType, setColor_color]
    by_cases hj : j = b.toMove
    · subst hj
      simp only [eq_self_iff_true, reduceIte]
      apply Nat.eq_of_testBit_eq
      intro i
      simp only [nf_set, nf_clear_u]
      by_cases hio : mvOrig m = i <;> by_cases hid : mvDest m = i <;>
        by_cases hi64 : i < 64 <;>
        first
          | omega
          | (have hge : (64 : Nat) ≤ i := by omega
             simp_all [testBit_ge64 _ _ hcus64 hge])
          | simp_all
    · simp [hj]

theorem dev_rt2 (b : Board) (m : Move) (hL : b.isLegal = true) (hR : b.inRange)
    (hWF : MoveWF b m) (htype : mvType m = MOVE_NORMAL)
    (hcap6 : mvCaptured m < 6)
    (hcapd : (b.pieces.pieceType (mvCaptured m)).testBit (mvDest m) = true)
    (hcapc : (b.pieces.color (Nat.xor 1 b.toMove)).testBit (mvDest m) = true) :
    (((b.doMoveApplied m).2).undoMove m).pieces = b.pieces := by
  obtain ⟨htm, hep8, hdisj, hocc, hsub, hptdisj⟩ := isLegal_facts b hL hR
  have ho64 : mvOrig m < 64 := mvOrig_lt m
  have hd64 : mvDest m < 64 := mvDest_lt m
  have hx64 : b.pieces.pieceType (mvPiece m) < B64 := hR.1 _ hWF.piece_lt
  have hc64 : b.pieces.pieceType (mvCaptured m) < B64 := hR.1 _ hcap6
  have hcus64 : b.pieces.color b.toMove < B64 := by
    rcases (by omega : b.toMove = 0 ∨ b.toMove = 1) with h | h <;> rw [h]
    · exact hR.2.1
    · exact hR.2.2.1
  have hcthem64 : b.pieces.color (Nat.xor 1 b.toMove) < B64 := by
    rcases (by omega : b.toMove = 0 ∨ b.toMove = 1) with h | h <;> rw [h]
    · exact hR.2.2.1
    · exact hR.2.1
  have horig := hWF.orig_pt
  have horigc := hWF.orig_col
  have hdnu := hWF.dest_not_us
  have hod := hWF.orig_ne_dest
  have hust : b.toMove ≠ Nat.xor 1 b.toMove := by
    rcases (by omega : b.toMove = 0 ∨ b.toMove = 1) with h | h <;> rw [h] <;> decide
  have hthemo : (b.pieces.color (Nat.xor 1 b.toMove)).testBit (mvOrig m) = false :=
    land_zero_testBit hdisj _ horigc
  by_cases hcp : mvCaptured m = mvPiece m
  · -- Capturing a piece of the mover's own type.
    apply PiecesPlacement.ext_arrays <;> intro j
    · simp only [Board.undoMove, Board.doMoveApplied, htype, hcp,
        MOVE_NORMAL, MOVE_CASTLING, MOVE_PROMOTION, MOVE_ENPASSANT, NO_PIECE, xor1_xor1]
      simp only [Nat.reduceEqDiff, Nat.reduceLT, reduceIte, if_pos hWF.piece_lt,
        setPieceType_pieceType, setPieceType_color, setColor_pieceType, setColor_color]
      rw [hcp] at hcapd
      by_cases hj : j = mvPiece m
      · subst hj
        simp only [eq_self_iff_true, reduceIte]
        apply Nat.eq_of_testBit_eq
        intro i
        simp only [nf_set, nf_clear_u]
        by_cases hio : mvOrig m = i <;> by_cases hid : mvDest m = i <;>
          by_cases hi64 : i < 64 <;>
          first
            | omega
            | (have hge : (64 : Nat) ≤ i := by omega
               simp_all [testBit_ge64 _ _ hx64 hge])
            | simp_all
      · simp [hj]
    · simp only [Board.undoMove, Board.doMoveApplied, htype, hcp,
        MOVE_NORMAL, MOVE_CASTLING, MOVE_PROMOTION, MOVE_ENPASSANT, NO_PIECE, xor1_xor1]
      simp only [Nat.reduceEqDiff, Nat.reduceLT, reduceIte, if_pos hWF.piece_lt,
        setPieceType_pieceType, setPieceType_color, setColor_pieceType, setColor_color]
      by_cases hj : j = b.toMove
      · subst hj
        simp only [eq_self_iff_true, reduceIte, if_neg hust]
        apply Nat.eq_of_testBit_eq
        intro i
        simp only [nf_set, nf_clear_u]
        by_cases hio : mvOrig m = i <;> by_cases hid : mvDest m = i <;>
          by_cases hi64 : i < 64 <;>
          first
            | omega
            | (have hge : (64 : Nat) ≤ i := by omega
               simp_all [testBit_ge64 _ _ hcus64 hge])
            | simp_all
      · by_cases hj2 : j = Nat.xor 1 b.toMove
        · subst hj2
          simp only [eq_self_iff_true, reduceIte, if_neg (Ne.symm hust)]
          apply Nat.eq_of_testBit_eq
          intro i
          simp only [nf_set, nf_clear_u]
          by_cases hio : mvOrig m = i <;> by_cases hid : mvDest m = i <;>
            by_cases hi64 : i < 64 <;>
            first
              | omega
              | (have hge : (64 : Nat) ≤ i := by omega
                 simp_all [testBit_ge64 _ _ hcthem64 hge])
              | simp_all
        · simp [hj, hj2]
  · -- Capturing a piece of another type.
    have hpd : (b.pieces.pieceType (mvPiece m)).testBit (mvDest m) = false :=
      land_zero_testBit (hptdisj _ _ hcap6 hWF.piece_lt hcp) _ hcapd
    have hco : (b.pieces.pieceType (mvCaptured m)).testBit (mvOrig m) = false :=
      land_zero_testBit (hptdisj _ _ hWF.piece_lt hcap6 (Ne.symm hcp)) _ horig
    apply PiecesPlacement.ext_arrays <;> intro j
    · simp only [Board.undoMove, Board.doMoveApplied, htype,
        MOVE_NORMAL, MOVE_CASTLING, MOVE_PROMOTION, MOVE_ENPASSANT, NO_PIECE, xor1_xor1]
      simp only [Nat.reduceEqDiff, Nat.reduceLT, reduceIte, if_pos hcap6,
        setPieceType_pieceType, setPieceType_color, setColor_pieceType, setColor_color]
      by_cases hj : j = mvPiece m
      · subst hj
        simp only [eq_self_iff_true, reduceIte, if_neg (Ne.symm hcp)]
        apply Nat.eq_of_testBit_eq
        intro i
        simp only [nf_set, nf_clear_u]
        by_cases hio : mvOrig m = i <;> by_cases hid : mvDest m = i <;>
          by_cases hi64 : i < 64 <;>
          first
            | omega
            | (have hge : (64 : Nat) ≤ i := by omega
               simp_all [testBit_ge64 _ _ hx64 hge])
            | simp_all
      · by_cases hj2 : j = mvCaptured m
        · subst hj2
          simp only [eq_self_iff_true, reduceIte, if_neg hj]
          apply Nat.eq_of_testBit_eq
          intro i
          simp only [nf_set, nf_clear_u]
          by_cases hio : mvOrig m = i <;> by_cases hid : mvDest m = i <;>
            by_cases hi64 : i < 64 <;>
            first
              | omega
              | (have hge : (64 : Nat) ≤ i := by omega
                 simp_all [testBit_ge64 _ _ hc64 hge])
              | simp_all
        · simp [hj, hj2]
    · simp only [Board.undoMove, Board.doMoveApplied, htype,
        MOVE_NORMAL, MOVE_CASTLING, MOVE_PROMOTION, MOVE_ENPASSANT, NO_PIECE, xor1_xor1]
      simp only [Nat.reduceEqDiff, Nat.reduceLT, reduceIte, if_pos hcap6,
        setPieceType_pieceType, setPieceType_color, setColor_pieceType, setColor_color]
      by_cases hj : j = b.toMove
      · subst hj
        simp only [eq_self_iff_true, reduceIte, if_neg hust]
        apply Nat.eq_of_testBit_eq
        intro i
        simp only [nf_set, nf_clear_u]
        by_cases hio : mvOrig m = i <;> by_cases hid : mvDest m = i <;>
          by_cases hi64 : i < 64 <;>
          first
            | omega
            | (have hge : (64 : Nat) ≤ i := by omega
               simp_all [testBit_ge64 _ _ hcus64 hge])
            | simp_all
      · by_cases hj2 : j = Nat.xor 1 b.toMove
        · subst hj2
          simp only [eq_self_iff_true, reduceIte, if_neg (Ne.symm hust), if_neg hj]
          apply Nat.eq_of_testBit_eq
          intro i
          simp only [nf_set, nf_clear_u]
          by_cases hio : mvOrig m = i <;> by_cases hid : mvDest m = i <;>
            by_cases hi64 : i < 64 <;>
            first
              | omega
              | (have hge : (64 : Nat) ≤ i := by omega
                 simp_all [testBit_ge64 _ _ hcthem64 hge])
              | simp_all
        · simp [hj, hj2]

set_option maxRecDepth 4000 in
set_option maxHeartbeats 2000000 in
theorem dev_rt3 (b : Board) (m : Move) (hL : b.isLegal = true) (hR : b.inRange)
    (hWF : MoveWF b m) (htype : mvType m = MOVE_PROMOTION) (hpp : mvPiece m = PAWN)
    (hshape : mvCaptured m = NO_PIECE ∧ b.occupied.testBit (mvDest m) = false ∨
      mvCaptured m < 6 ∧
        (b.pieces.pieceType (mvCaptured m)).testBit (mvDest m) = true ∧
        (b.pieces.color (Nat.xor 1 b.toMove)).testBit (mvDest m) = true) :
    (((b.doMoveApplied m).2).undoMove m).pieces = b.pieces := by
  obtain ⟨htm, hep8, hdisj, hocc, hsub, hptdisj⟩ := isLegal_facts b hL hR
  have ho64 : mvOrig m < 64 := mvOrig_lt m
  have hd64 : mvDest m < 64 := mvDest_lt m
  have hdpb := pieceFromAuxData_bounds (mvAux m)
  have hdp6 : pieceFromAuxData (mvAux m) < 6 := by omega
  have hdpp : pieceFromAuxData (mvAux m) ≠ mvPiece m := by rw [hpp, PAWN]; omega
  have hx64 : b.pieces.pieceType (mvPiece m) < B64 := hR.1 _ hWF.piece_lt
  have hdp64 : b.pieces.pieceType (pieceFromAuxData (mvAux m)) < B64 := hR.1 _ hdp6
  have hcus64 : b.pieces.color b.toMove < B64 := by
    rcases (by omega : b.toMove = 0 ∨ b.toMove = 1) with h | h <;> rw [h]
    · exact hR.2.1
    · exact hR.2.2.1
  have hcthem64 : b.pieces.color (Nat.xor 1 b.toMove) < B64 := by
    rcases (by omega : b.toMove = 0 ∨ b.toMove = 1) with h | h <;> rw [h]
    · exact hR.2.2.1
    · exact hR.2.1
  have horig := hWF.orig_pt
  have horigc := hWF.orig_col
  have hdnu := hWF.dest_not_us
  have hod := hWF.orig_ne_dest
  have hust : b.toMove ≠ Nat.xor 1 b.toMove := by
    rcases (by omega : b.toMove = 0 ∨ b.toMove = 1) with h | h <;> rw [h] <;> decide
  have hthemo : (b.pieces.color (Nat.xor 1 b.toMove)).testBit (mvOrig m) = false :=
    land_zero_testBit hdisj _ horigc
  have hdpo : (b.pieces.pieceType (pieceFromAuxData (mvAux m))).testBit (mvOrig m) = false :=
    land_zero_testBit (hptdisj _ _ hWF.piece_lt hdp6 (Ne.symm hdpp)) _ horig
  rcases hshape with ⟨hcap, hnocc⟩ | ⟨hcap6, hcapd, hcapc⟩
  · -- Promotion to an empty square.
    have hnod : ∀ a, a < 6 → (b.pieces.pieceType a).testBit (mvDest m) = false := by
      intro a ha
      cases hbit : (b.pieces.pieceType a).testBit (mvDest m) with
      | false => rfl
      | true =>
        have h2 := hsub a ha _ hbit
        rw [hnocc] at h2
        exact (Bool.false_ne_true h2).elim
    have hpd := hnod _ hWF.piece_lt
    have hdpd := hnod _ hdp6
    have hthemd : (b.pieces.color (Nat.xor 1 b.toMove)).testBit (mvDest m) = false := by
      have h2 : (Nat.lor (b.pieces.color b.toMove)
          (b.pieces.color (Nat.xor 1 b.toMove))).testBit (mvDest m) = false := by
        rw [← hocc]
        exact hnocc
      rw [lor_eq, Nat.testBit_lor] at h2
      exact (Bool.or_eq_false_iff.mp h2).2
    apply PiecesPlacement.ext_arrays <;> intro j <;>
      (simp only [Board.undoMove, Board.doMoveApplied, htype, hcap,
        MOVE_NORMAL, MOVE_CASTLING, MOVE_PROMOTION, MOVE_ENPASSANT, NO_PIECE, xor1_xor1,
         Nat.reduceEqDiff, Nat.reduceLT, reduceIte, setPieceType_pieceType,
         setPieceType_color, setColor_pieceType, setColor_color]
       split_ifs <;>
         first
           | omega
           | rfl
           | (apply Nat.eq_of_testBit_eq
              intro i
              simp only [nf_set, nf_clear_u]
              by_cases hio : mvOrig m = i <;> by_cases hid : mvDest m = i <;>
                by_cases hi64 : i < 64 <;>
                first
                  | omega
                  | (have hge : (64 : Nat) ≤ i := by omega
                     have hgf0 := testBit_ge64 _ _ hx64 hge
                     have hgf1 := testBit_ge64 _ _ hdp64 hge
                     have hgf2 := testBit_ge64 _ _ hcus64 hge
                     have hgf3 := testBit_ge64 _ _ hcthem64 hge
                     simp_all)
                  | simp_all))
  · -- A capturing promotion.
    by_cases hcdp : mvCaptured m = pieceFromAuxData (mvAux m)
    · have hdpd : (b.pieces.pieceType (pieceFromAuxData (mvAux m))).testBit
          (mvDest m) = true := by rw [← hcdp]; exact hcapd
      have hcp : mvCaptured m ≠ mvPiece m := by rw [hcdp]; exact hdpp
      have hpd : (b.pieces.pieceType (mvPiece m)).testBit (mvDest m) = false :=
        land_zero_testBit (hptdisj _ _ hcap6 hWF.piece_lt hcp) _ hcapd
      have hco : (b.pieces.pieceType (mvCaptured m)).testBit (mvOrig m) = false :=
        land_zero_testBit (hptdisj _ _ hWF.piece_lt hcap6 (Ne.symm hcp)) _ horig
      apply PiecesPlacement.ext_arrays <;> intro j <;>
        (simp only [Board.undoMove, Board.doMoveApplied, htype, if_pos hcap6,
          if_pos hdp6, hcdp, if_neg hdpp, if_neg (Ne.symm hdpp), if_neg hust,
          if_neg (Ne.symm hust),
          MOVE_NORMAL, MOVE_CASTLING, MOVE_PROMOTION, MOVE_ENPASSANT, NO_PIECE, xor1_xor1,
           Nat.reduceEqDiff, Nat.reduceLT, reduceIte, setPieceType_pieceType,
           setPieceType_color, setColor_pieceType, setColor_color]
         split_ifs <;>
           first
             | omega
             | rfl
             | (apply Nat.eq_of_testBit_eq
                intro i
                simp only [nf_set, nf_clear_u]
                by_cases hio : mvOrig m = i <;> by_cases hid : mvDest m = i <;>
                  by_cases hi64 : i < 64 <;>
                  first
                    | omega
                    | (have hge : (64 : Nat) ≤ i := by omega
                       have hgf0 := testBit_ge64 _ _ hx64 hge
                       have hgf1 := testBit_ge64 _ _ hdp64 hge
                       have hgf2 := testBit_ge64 _ _ hcus64 hge
                       have hgf3 := testBit_ge64 _ _ hcthem64 hge
                       simp_all)
                    | simp_all))
    · have hdpd : (b.pieces.pieceType (pieceFromAuxData (mvAux m))).testBit
          (mvDest m) = false :=
        land_zero_testBit (hptdisj _ _ hcap6 hdp6 hcdp) _ hcapd
      have hc64 : b.pieces.pieceType (mvCaptured m) < B64 := hR.1 _ hcap6
      by_cases hcp : mvCaptured m = mvPiece m
      · have hpd : (b.pieces.pieceType (mvPiece m)).testBit (mvDest m) = true := by
          rw [← hcp]
          exact hcapd
        apply PiecesPlacement.ext_arrays <;> intro j <;>
          (simp only [Board.undoMove, Board.doMoveApplied, htype, if_pos hcap6,
            hcp, if_pos hWF.piece_lt, if_neg hdpp, if_neg (Ne.symm hdpp), if_neg hust,
            if_neg (Ne.symm hust),
            MOVE_NORMAL, MOVE_CASTLING, MOVE_PROMOTION, MOVE_ENPASSANT, NO_PIECE, xor1_xor1,
             Nat.reduceEqDiff, Nat.reduceLT, reduceIte, setPieceType_pieceType,
             setPieceType_color, setColor_pieceType, setColor_color]
           split_ifs <;>
             first
               | omega
               | rfl
               | (apply Nat.eq_of_testBit_eq
                  intro i
                  simp only [nf_set, nf_clear_u]
                  by_cases hio : mvOrig m = i <;> by_cases hid : mvDest m = i <;>
                    by_cases hi64 : i < 64 <;>
                    first
                      | omega
                      | (have hge : (64 : Nat) ≤ i := by omega
                         have hgf0 := testBit_ge64 _ _ hx64 hge
                         have hgf1 := testBit_ge64 _ _ hdp64 hge
                         have hgf2 := testBit_ge64 _ _ hcus64 hge
                         have hgf3 := testBit_ge64 _ _ hcthem64 hge
                         simp_all)
                      | simp_all))
      · have hpd : (b.pieces.pieceType (mvPiece m)).testBit (mvDest m) = false :=
          land_zero_testBit (hptdisj _ _ hcap6 hWF.piece_lt hcp) _ hcapd
        have hco : (b.pieces.pieceType (mvCaptured m)).testBit (mvOrig m) = false :=
          land_zero_testBit (hptdisj _ _ hWF.piece_lt hcap6 (Ne.symm hcp)) _ horig
        apply PiecesPlacement.ext_arrays <;> intro j <;>
          (simp only [Board.undoMove, Board.doMoveApplied, htype, if_pos hcap6,
            if_neg hcp, if_neg (Ne.symm hcp), if_neg hcdp, if_neg (Ne.symm hcdp),
            if_neg hdpp, if_neg (Ne.symm hdpp), if_neg hust, if_neg (Ne.symm hust),
            MOVE_NORMAL, MOVE_CASTLING, MOVE_PROMOTION, MOVE_ENPASSANT, NO_PIECE, xor1_xor1,
             Nat.reduceEqDiff, Nat.reduceLT, reduceIte, setPieceType_pieceType,
             setPieceType_color, setColor_pieceType, setColor_color]
           split_ifs <;>
             first
               | omega
               | rfl
               | (apply Nat.eq_of_testBit_eq
                  intro i
                  simp only [nf_set, nf_clear_u]
                  by_cases hio : mvOrig m = i <;> by_cases hid : mvDest m = i <;>
                    by_cases hi64 : i < 64 <;>
                    first
                      | omega
                      | (have hge : (64 : Nat) ≤ i := by omega
                         have hgf0 := testBit_ge64 _ _ hx64 hge
                         have hgf1 := testBit_ge64 _ _ hdp64 hge
                         have hgf2 := testBit_ge64 _ _ hcus64 hge
                         have hgf3 := testBit_ge64 _ _ hc64 hge
                         have hgf4 := testBit_ge64 _ _ hcus64 hge
                         have hgf5 := testBit_ge64 _ _ hcthem64 hge
                         simp_all)
                      | simp_all))

theorem xor10 : Nat.xor 1 0 = 1 := rfl

theorem xor11 : Nat.xor 1 1 = 0 := rfl

set_option maxRecDepth 4000 in
set_option maxHeartbeats 2000000 in
theorem dev_rt4 (b : Board) (m : Move) (hL : b.isLegal = true) (hR : b.inRange)
    (hWF : MoveWF b m) (htype : mvType m = MOVE_ENPASSANT) (hpp : mvPiece m = PAWN)
    (hcap : mvCaptured m = PAWN)
    (hnocc : b.occupied.testBit (mvDest m) = false)
    (hcs64 : ((mvDest m : Int) + pawnMoveShifts (Nat.xor 1 b.toMove) PAWN_PUSH).toNat < 64)
    (hpcs : (b.pieces.pieceType PAWN).testBit
      ((mvDest m : Int) + pawnMoveShifts (Nat.xor 1 b.toMove) PAWN_PUSH).toNat = true)
    (hccs : (b.pieces.color (Nat.xor 1 b.toMove)).testBit
      ((mvDest m : Int) + pawnMoveShifts (Nat.xor 1 b.toMove) PAWN_PUSH).toNat = true) :
    (((b.doMoveApplied m).2).undoMove m).pieces = b.pieces := by
  obtain ⟨htm, hep8, hdisj, hocc, hsub, hptdisj⟩ := isLegal_facts b hL hR
  have ho64 : mvOrig m < 64 := mvOrig_lt m
  have hd64 : mvDest m < 64 := mvDest_lt m
  have hx64 : b.pieces.pieceType PAWN < B64 := hR.1 _ (by norm_num [PAWN])
  have hcus64 : b.pieces.color b.toMove < B64 := by
    rcases (by omega : b.toMove = 0 ∨ b.toMove = 1) with h | h <;> rw [h]
    · exact hR.2.1
    · exact hR.2.2.1
  have hcthem64 : b.pieces.color (Nat.xor 1 b.toMove) < B64 := by
    rcases (by omega : b.toMove = 0 ∨ b.toMove = 1) with h | h <;> rw [h]
    · exact hR.2.2.1
    · exact hR.2.1
  have horig : (b.pieces.pieceType PAWN).testBit (mvOrig m) = true := by
    rw [← hpp]
    exact hWF.orig_pt
  have horigc := hWF.orig_col
  have hdnu := hWF.dest_not_us
  have hod := hWF.orig_ne_dest
  have hust : b.toMove ≠ Nat.xor 1 b.toMove := by
    rcases (by omega : b.toMove = 0 ∨ b.toMove = 1) with h | h <;> rw [h] <;> decide
  have hthemo : (b.pieces.color (Nat.xor 1 b.toMove)).testBit (mvOrig m) = false :=
    land_zero_testBit hdisj _ horigc
  have hpd : (b.pieces.pieceType PAWN).testBit (mvDest m) = false := by
    cases hbit : (b.pieces.pieceType PAWN).testBit (mvDest m) with
    | false => rfl
    | true =>
      have h2 := hsub PAWN (by norm_num [PAWN]) _ hbit
      rw [hnocc] at h2
      exact (Bool.false_ne_true h2).elim
  have hthemd : (b.pieces.color (Nat.xor 1 b.toMove)).testBit (mvDest m) = false := by
    have h2 : (Nat.lor (b.pieces.color b.toMove)
        (b.pieces.color (Nat.xor 1 b.toMove))).testBit (mvDest m) = false := by
      rw [← hocc]
      exact hnocc
    rw [lor_eq, Nat.testBit_lor] at h2
    exact (Bool.or_eq_false_iff.mp h2).2
  have huscs : (b.pieces.color b.toMove).testBit
      ((mvDest m : Int) + pawnMoveShifts (Nat.xor 1 b.toMove) PAWN_PUSH).toNat = false :=
    land_zero_testBit (land_comm' _ _ ▸ hdisj) _ hccs
  have hocs : mvOrig m ≠
      ((mvDest m : Int) + pawnMoveShifts (Nat.xor 1 b.toMove) PAWN_PUSH).toNat := by
    intro h
    rw [← h] at hccs
    rw [hccs] at hthemo
    exact Bool.noConfusion hthemo
  have hdcs : mvDest m ≠
      ((mvDest m : Int) + pawnMoveShifts (Nat.xor 1 b.toMove) PAWN_PUSH).toNat := by
    intro h
    rw [← h] at hpcs
    rw [hpcs] at hpd
    exact Bool.noConfusion hpd
  simp only [PAWN] at horig hpcs hpd hx64
  apply PiecesPlacement.ext_arrays <;> intro j <;>
    (simp only [Board.undoMove, Board.doMoveApplied, htype, hcap, hpp,
      if_neg hust, if_neg (Ne.symm hust),
      MOVE_NORMAL, MOVE_CASTLING, MOVE_PROMOTION, MOVE_ENPASSANT, NO_PIECE, PAWN, xor1_xor1,
      Nat.reduceEqDiff, Nat.reduceLT, reduceIte, setPieceType_pieceType,
      setPieceType_color, setColor_pieceType, setColor_color]
     split_ifs <;>
       first
         | omega
         | rfl
         | (apply Nat.eq_of_testBit_eq
            intro i
            simp only [nf_set, nf_clear_u]
            by_cases hio : mvOrig m = i <;> by_cases hid : mvDest m = i <;>
              by_cases hics :
                ((mvDest m : Int) + pawnMoveShifts (Nat.xor 1 b.toMove) PAWN_PUSH).toNat
                  = i <;>
              by_cases hi64 : i < 64 <;>
              first
                | omega
                | (have hge : (64 : Nat) ≤ i := by omega
                   have hgf0 := testBit_ge64 _ _ hx64 hge
                   have hgf1 := testBit_ge64 _ _ hcus64 hge
                   have hgf2 := testBit_ge64 _ _ hcthem64 hge
                   simp_all)
                | simp_all))

set_option maxRecDepth 4000 in
set_option maxHeartbeats 2000000 in
theorem dev_rt5 (b : Board) (m : Move) (hL : b.isLegal = true) (hR : b.inRange)
    (hWF : MoveWF b m) (htype : mvType m = MOVE_CASTLING) (hpk : mvPiece m = KING)
    (hcap : mvCaptured m = NO_PIECE)
    (hnocc : b.occupied.testBit (mvDest m) = false)
    (hshape : (b.toMove = WHITE ∧ mvOrig m = 4 ∧ (mvDest m = 2 ∨ mvDest m = 6)) ∨
      (b.toMove = BLACK ∧ mvOrig m = 60 ∧ (mvDest m = 58 ∨ mvDest m = 62))) :
    (((b.doMoveApplied m).2).undoMove m).pieces = b.pieces := by
  obtain ⟨htm, hep8, hdisj, hocc, hsub, hptdisj⟩ := isLegal_facts b hL hR
  have hk64 : b.pieces.pieceType KING < B64 := hR.1 _ (by norm_num [KING])
  have hr64 : b.pieces.pieceType ROOK < B64 := hR.1 _ (by norm_num [ROOK])
  have hw64 : b.pieces.color WHITE < B64 := hR.2.1
  have hb64 : b.pieces.color BLACK < B64 := hR.2.2.1
  have horig : (b.pieces.pieceType KING).testBit (mvOrig m) = true := by
    rw [← hpk]
    exact hWF.orig_pt
  have horigc := hWF.orig_col
  have hdnu := hWF.dest_not_us
  have hkd : (b.pieces.pieceType KING).testBit (mvDest m) = false := by
    cases hbit : (b.pieces.pieceType KING).testBit (mvDest m) with
    | false => rfl
    | true =>
      have h2 := hsub KING (by norm_num [KING]) _ hbit
      rw [hnocc] at h2
      exact (Bool.false_ne_true h2).elim
  have hthemd : (b.pieces.color (Nat.xor 1 b.toMove)).testBit (mvDest m) = false := by
    have h2 : (Nat.lor (b.pieces.color b.toMove)
        (b.pieces.color (Nat.xor 1 b.toMove))).testBit (mvDest m) = false := by
      rw [← hocc]
      exact hnocc
    rw [lor_eq, Nat.testBit_lor] at h2
    exact (Bool.or_eq_false_iff.mp h2).2
  rcases hshape with ⟨htmv, ho, hd⟩ | ⟨htmv, ho, hd⟩ <;> rcases hd with hd | hd
  · simp only [WHITE] at htmv
    simp only [KING, ROOK] at horig hkd hk64 hr64
    simp only [WHITE, BLACK] at hw64 hb64
    apply PiecesPlacement.ext_arrays <;> intro j <;>
      (simp only [Board.undoMove, Board.doMoveApplied, htype, hcap, hpk, htmv, ho, hd,
        xor1_xor1, xor10, xor11,
        MOVE_NORMAL, MOVE_CASTLING, MOVE_PROMOTION, MOVE_ENPASSANT, NO_PIECE,
        KING, ROOK, WHITE, BLACK, KINGSIDE, QUEENSIDE, castlingRookMask,
        A1, D1, H1, F1, A8, D8, H8, F8,
        Nat.reduceEqDiff, Nat.reduceLT, Nat.reduceGT, reduceIte,
        setPieceType_pieceType, setPieceType_color, setColor_pieceType, setColor_color]
       split_ifs <;>
         first
           | omega
           | rfl
           | (apply Nat.eq_of_testBit_eq
              intro i
              simp only [nf_set, nf_clear_u, nf_xor, nf_pow]
              by_cases hi64 : i < 64
              · by_cases h0i : (0 : Nat) = i <;>
              by_cases h3i : (3 : Nat) = i <;>
              by_cases h4i : (4 : Nat) = i <;>
              by_cases h2i : (2 : Nat) = i <;>
                  first
                    | omega
                    | simp_all [xor10, xor11]
              · have hge : (64 : Nat) ≤ i := by omega
                have hgf0 := testBit_ge64 _ _ hk64 hge
                have hgf1 := testBit_ge64 _ _ hr64 hge
                have hgf2 := testBit_ge64 _ _ hw64 hge
                have hgf3 := testBit_ge64 _ _ hb64 hge
                have hn0 : ¬((0 : Nat) = i) := by omega
                have hn3 : ¬((3 : Nat) = i) := by omega
                have hn4 : ¬((4 : Nat) = i) := by omega
                have hn2 : ¬((2 : Nat) = i) := by omega
                have hni : ¬(i < 64) := by omega
                simp_all))
  · simp only [WHITE] at htmv
    simp only [KING, ROOK] at horig hkd hk64 hr64
    simp only [WHITE, BLACK] at hw64 hb64
    apply PiecesPlacement.ext_arrays <;> intro j <;>
      (simp only [Board.undoMove, Board.doMoveApplied, htype, hcap, hpk, htmv, ho, hd,
        xor1_xor1, xor10, xor11,
        MOVE_NORMAL, MOVE_CASTLING, MOVE_PROMOTION, MOVE_ENPASSANT, NO_PIECE,
        KING, ROOK, WHITE, BLACK, KINGSIDE, QUEENSIDE, castlingRookMask,
        A1, D1, H1, F1, A8, D8, H8, F8,
        Nat.reduceEqDiff, Nat.reduceLT, Nat.reduceGT, reduceIte,
        setPieceType_pieceType, setPieceType_color, setColor_pieceType, setColor_color]
       split_ifs <;>
         first
           | omega
           | rfl
           | (apply Nat.eq_of_testBit_eq
              intro i
              simp only [nf_set, nf_clear_u, nf_xor, nf_pow]
              by_cases hi64 : i < 64
              · by_cases h4i : (4 : Nat) = i <;>
              by_cases h6i : (6 : Nat) = i <;>
              by_cases h7i : (7 : Nat) = i <;>
              by_cases h5i : (5 : Nat) = i <;>
                  first
                    | omega
                    | simp_all [xor10, xor11]
              · have hge : (64 : Nat) ≤ i := by omega
                have hgf0 := testBit_ge64 _ _ hk64 hge
                have hgf1 := testBit_ge64 _ _ hr64 hge
                have hgf2 := testBit_ge64 _ _ hw64 hge
                have hgf3 := testBit_ge64 _ _ hb64 hge
                have hn4 : ¬((4 : Nat) = i) := by omega
                have hn6 : ¬((6 : Nat) = i) := by omega
                have hn7 : ¬((7 : Nat) = i) := by omega
                have hn5 : ¬((5 : Nat) = i) := by omega
                have hni : ¬(i < 64) := by omega
                simp_all))
  · simp only [BLACK] at htmv
    simp only [KING, ROOK] at horig hkd hk64 hr64
    simp only [WHITE, BLACK] at hw64 hb64
    apply PiecesPlacement.ext_arrays <;> intro j <;>
      (simp only [Board.undoMove, Board.doMoveApplied, htype, hcap, hpk, htmv, ho, hd,
        xor1_xor1, xor10, xor11,
        MOVE_NORMAL, MOVE_CASTLING, MOVE_PROMOTION, MOVE_ENPASSANT, NO_PIECE,
        KING, ROOK, WHITE, BLACK, KINGSIDE, QUEENSIDE, castlingRookMask,
        A1, D1, H1, F1, A8, D8, H8, F8,
        Nat.reduceEqDiff, Nat.reduceLT, Nat.reduceGT, reduceIte,
        setPieceType_pieceType, setPieceType_color, setColor_pieceType, setColor_color]
       split_ifs <;>
         first
           | omega
           | rfl
           | (apply Nat.eq_of_testBit_eq
              intro i
              simp only [nf_set, nf_clear_u, nf_xor, nf_pow]
              by_cases hi64 : i < 64
              · by_cases h56i : (56 : Nat) = i <;>
              by_cases h59i : (59 : Nat) = i <;>
              by_cases h60i : (60 : Nat) = i <;>
              by_cases h58i : (58 : Nat) = i <;>
                  first
                    | omega
                    | simp_all [xor10, xor11]
              · have hge : (64 : Nat) ≤ i := by omega
                have hgf0 := testBit_ge64 _ _ hk64 hge
                have hgf1 := testBit_ge64 _ _ hr64 hge
                have hgf2 := testBit_ge64 _ _ hw64 hge
                have hgf3 := testBit_ge64 _ _ hb64 hge
                have hn56 : ¬((56 : Nat) = i) := by omega
                have hn59 : ¬((59 : Nat) = i) := by omega
                have hn60 : ¬((60 : Nat) = i) := by omega
                have hn58 : ¬((58 : Nat) = i) := by omega
                have hni : ¬(i < 64) := by omega
                simp_all))
  · simp only [BLACK] at htmv
    simp only [KING, ROOK] at horig hkd hk64 hr64
    simp only [WHITE, BLACK] at hw64 hb64
    apply PiecesPlacement.ext_arrays <;> intro j <;>
      (simp only [Board.undoMove, Board.doMoveApplied, htype, hcap, hpk, htmv, ho, hd,
        xor1_xor1, xor10, xor11,
        MOVE_NORMAL, MOVE_CASTLING, MOVE_PROMOTION, MOVE_ENPASSANT, NO_PIECE,
        KING, ROOK, WHITE, BLACK, KINGSIDE, QUEENSIDE, castlingRookMask,
        A1, D1, H1, F1, A8, D8, H8, F8,
        Nat.reduceEqDiff, Nat.reduceLT, Nat.reduceGT, reduceIte,
        setPieceType_pieceType, setPieceType_color, setColor_pieceType, setColor_color]
       split_ifs <;>
         first
           | omega
           | rfl
           | (apply Nat.eq_of_testBit_eq
              intro i
              simp only [nf_set, nf_clear_u, nf_xor, nf_pow]
              by_cases hi64 : i < 64
              · by_cases h60i : (60 : Nat) = i <;>
              by_cases h62i : (62 : Nat) = i <;>
              by_cases h63i : (63 : Nat) = i <;>
              by_cases h61i : (61 : Nat) = i <;>
                  first
                    | omega
                    | simp_all [xor10, xor11]
              · have hge : (64 : Nat) ≤ i := by omega
                have hgf0 := testBit_ge64 _ _ hk64 hge
                have hgf1 := testBit_ge64 _ _ hr64 hge
                have hgf2 := testBit_ge64 _ _ hw64 hge
                have hgf3 := testBit_ge64 _ _ hb64 hge
                have hn60 : ¬((60 : Nat) = i) := by omega
                have hn62 : ¬((62 : Nat) = i) := by omega
                have hn63 : ¬((63 : Nat) = i) := by omega
                have hn61 : ¬((61 : Nat) = i) := by omega
                have hni : ¬(i < 64) := by omega
                simp_all))
theorem lor_comm' (a b : Nat) : Nat.lor a b = Nat.lor b a := by
  rw [lor_eq, lor_eq, Nat.or_comm]

/-- The make/unmake roundtrip at the level of the applied mutation: for
a legal, in-range board and a well-formed move, `undo_move` after the
mutation part of `do_move` restores the board exactly. -/
theorem doMoveApplied_undoMove (b : Board) (m : Move) (hL : b.isLegal = true)
    (hR : b.inRange) (hWF : MoveWF b m) :
    ((b.doMoveApplied m).2).undoMove m = b := by
  have hplace : ((((b.doMoveApplied m).2).undoMove m)).pieces = b.pieces := by
    rcases hWF.shape with ⟨hA, hcapd⟩ | hEP | hCast
    · rcases hA with htype | ⟨htype, hpp⟩
      · rcases hcapd with ⟨hcap, hnocc⟩ | ⟨hcap6, hcd, hcc⟩
        · exact dev_rt b m hL hR hWF htype hcap hnocc
        · exact dev_rt2 b m hL hR hWF htype hcap6 hcd hcc
      · exact dev_rt3 b m hL hR hWF htype hpp hcapd
    · obtain ⟨htype, hpp, hcap, hnocc, hcs64, hpcs, hccs⟩ := hEP
      exact dev_rt4 b m hL hR hWF htype hpp hcap hnocc hcs64 hpcs hccs
    · obtain ⟨htype, hpk, hcap, hnocc, hsh, -, -⟩ := hCast
      exact dev_rt5 b m hL hR hWF htype hpk hcap hnocc hsh
  obtain ⟨htm, -, -, hocc, -, -⟩ := isLegal_facts b hL hR
  refine Board.ext_fields _ _ rfl hplace ?_ hWF.cast_eq ?_ ?_
  · show Nat.xor 1 (Nat.xor 1 b.toMove) = b.toMove
    exact xor1_xor1 _
  · exact hWF.ep_eq
  · show Nat.lor ((((b.doMoveApplied m).2).undoMove m).pieces.color WHITE)
      ((((b.doMoveApplied m).2).undoMove m).pieces.color BLACK) = b.occupied
    rw [hplace, hocc]
    rcases (by omega : b.toMove = 0 ∨ b.toMove = 1) with h | h <;> rw [h]
    · rw [xor10]
      rfl
    · rw [xor11]
      exact lor_comm' _ _

-- ======================================================================
-- Toolkit for the generator well-formedness proof
-- ======================================================================

theorem mem_squaresOf {bb s : Nat} :
    s ∈ squaresOf bb ↔ s < 64 ∧ bb.testBit s = true := by
  unfold squaresOf
  rw [List.mem_filter, List.mem_range]

theorem testBit_land_both {x y i : Nat} (h : (Nat.land x y).testBit i = true) :
    x.testBit i = true ∧ y.testBit i = true := by
  rw [land_eq, Nat.testBit_land, Bool.and_eq_true] at h
  exact h

theorem testBit_land_intro {x y i : Nat} (hx : x.testBit i = true)
    (hy : y.testBit i = true) : (Nat.land x y).testBit i = true := by
  rw [land_eq, Nat.testBit_land, hx, hy]
  rfl

theorem testBit_ne_zero {x i : Nat} (h : x.testBit i = true) : x ≠ 0 := by
  intro h0
  rw [h0, Nat.zero_testBit] at h
  exact Bool.noConfusion h

theorem land_singleton_cases {d y : Nat} (h : Nat.land (1 <<< d) y ≠ 0) :
    y.testBit d = true := by
  by_contra hy
  apply h
  apply Nat.eq_of_testBit_eq
  intro i
  rw [land_eq, Nat.testBit_land, nf_pow, Nat.zero_testBit]
  by_cases hdi : d = i
  · subst hdi
    simp [Bool.of_not_eq_true hy]
  · simp [hdi]

theorem land_singleton_intro {d y : Nat} (h : y.testBit d = true) :
    Nat.land (1 <<< d) y ≠ 0 :=
  testBit_ne_zero (testBit_land_intro (by rw [nf_pow]; simp) h)

theorem comp64_bit {x d : Nat} (hd : d < 64) :
    (comp64 x).testBit d = true ↔ x.testBit d = false := by
  rw [testBit_comp64]
  rcases Bool.eq_false_or_eq_true (x.testBit d) with h | h <;> simp [h, hd]

theorem bits_lt_of_lt_B64 {x i : Nat} (hx : x < B64) (h : x.testBit i = true) :
    i < 64 := by
  by_contra hi
  rw [testBit_ge64 x i hx (by omega)] at h
  exact Bool.noConfusion h

/-- The blocker-removal fold of `piece_attacks_from` only shrinks the
attack set. -/
theorem foldl_land_subset (g : Nat → Nat) (l : List Nat) (acc t : Nat)
    (h : (l.foldl (fun a s => Nat.land a (g s)) acc).testBit t = true) :
    acc.testBit t = true := by
  induction l generalizing acc with
  | nil => exact h
  | cons x l ih =>
    rw [List.foldl_cons] at h
    exact (testBit_land_both (ih _ h)).1

/-- The empty-board attack table never contains the origin square, and
is a 64-bit set (checked by evaluation over all pieces and squares). -/
theorem attacksTable_facts :
    ∀ p < 6, ∀ s < 64, (attacksTable p s).testBit s = false ∧
      attacksTable p s < B64 := by decide

theorem pieceAttacksFrom_facts {p s occ t : Nat} (hp : p < 6) (hs : s < 64)
    (h : (pieceAttacksFrom p s occ).testBit t = true) :
    t < 64 ∧ t ≠ s := by
  have htab : (attacksTable p s).testBit t = true := by
    unfold pieceAttacksFrom at h
    exact foldl_land_subset _ _ _ _ h
  obtain ⟨hself, hlt⟩ := attacksTable_facts p hp s hs
  refine ⟨bits_lt_of_lt_B64 hlt htab, ?_⟩
  intro hts
  rw [hts, hself] at htab
  exact Bool.noConfusion htab

theorem genShift_pos_bit (x : Nat) (s : Int) (hs : 0 < s) (i : Nat) :
    (genShift x s).testBit i =
      (decide (i < 64) && (decide (s.toNat ≤ i) && x.testBit (i - s.toNat))) := by
  unfold genShift
  rw [if_pos hs, B64_pow, Nat.testBit_mod_two_pow, Nat.testBit_shiftLeft]

theorem genShift_neg_bit (x : Nat) (s : Int) (hs : ¬ 0 < s) (i : Nat) :
    (genShift x s).testBit i = x.testBit (i + (-s).toNat) := by
  unfold genShift
  rw [if_neg hs, Nat.testBit_shiftRight]
  congr 1
  omega

/-- `(a ∪ c) ⊕ a = c` for disjoint `a`, `c`. -/
theorem xor_lor_cancel {a c : Nat} (h : Nat.land a c = 0) :
    Nat.xor (Nat.lor a c) a = c := by
  apply Nat.eq_of_testBit_eq
  intro i
  rw [nf_xor, lor_eq, Nat.testBit_lor]
  by_cases ha : a.testBit i = true
  · simp [ha, land_zero_testBit h i ha]
  · rw [Bool.not_eq_true] at ha
    simp [ha]

/-- A bitboard with exactly one set bit is the power of two at its
`bitscan_1bit` index. -/
theorem popCount_one_structure {x : Nat} (hx : x < B64) (h : popCount x = 1) :
    bitscan1bit x < 64 ∧ x = 1 <<< bitscan1bit x := by
  unfold popCount at h
  obtain ⟨s, hs⟩ := List.length_eq_one.mp h
  have hmem : s ∈ squaresOf x := by rw [hs]; exact List.mem_singleton_self s
  obtain ⟨hs64, hsbit⟩ := mem_squaresOf.mp hmem
  have honly : ∀ i, x.testBit i = true → i = s := by
    intro i hi
    have hilt : i < 64 := bits_lt_of_lt_B64 hx hi
    have : i ∈ squaresOf x := mem_squaresOf.mpr ⟨hilt, hi⟩
    rw [hs, List.mem_singleton] at this
    exact this
  have hxval : x = 1 <<< s := by
    apply Nat.eq_of_testBit_eq
    intro i
    rw [nf_pow]
    by_cases hb : x.testBit i = true
    · rw [hb, honly i hb]
      simp
    · rw [Bool.not_eq_true] at hb
      rw [hb]
      by_cases hsi : s = i
      · subst hsi
        rw [hsbit] at hb
        exact Bool.noConfusion hb
      · simp [hsi]
  have hscan : bitscan1bit x = s := by
    rw [hxval, Nat.one_shiftLeft]
    exact bitscan1bit_pow s hs64
  rw [hscan, hxval]
  exact ⟨hs64, rfl⟩

/-- If the union fold of `Board::is_legal` did not collapse, every bit
of the result comes from the accumulator or from one of the inputs. -/
theorem foldUnion_covered (f : Nat → Nat) (l : List Nat) (acc : Nat)
    (hacc : acc < B64) (hf : ∀ x ∈ l, f x < B64)
    (hne : l.foldl (fun a i => if Nat.land a (f i) = 0 then Nat.lor a (f i)
      else BB_UNIVERSAL_SET) acc ≠ BB_UNIVERSAL_SET) (s : Nat)
    (h : (l.foldl (fun a i => if Nat.land a (f i) = 0 then Nat.lor a (f i)
      else BB_UNIVERSAL_SET) acc).testBit s = true) :
    acc.testBit s = true ∨ ∃ x ∈ l, (f x).testBit s = true := by
  induction l generalizing acc with
  | nil => exact Or.inl h
  | cons x l ih =>
    have hx := hf x (List.mem_cons_self x l)
    have htail : ∀ y ∈ l, f y < B64 := fun y hy => hf y (List.mem_cons_of_mem x hy)
    rw [List.foldl_cons] at hne h
    by_cases hc : Nat.land acc (f x) = 0
    · rw [if_pos hc] at hne h
      rcases ih (Nat.lor acc (f x)) (lor_lt _ _ hacc hx) htail hne h with h1 | ⟨y, hy, h2⟩
      · rw [lor_eq, Nat.testBit_lor, Bool.or_eq_true] at h1
        rcases h1 with h1 | h1
        · exact Or.inl h1
        · exact Or.inr ⟨x, List.mem_cons_self x l, h1⟩
      · exact Or.inr ⟨y, List.mem_cons_of_mem x hy, h2⟩
    · rw [if_neg hc] at hne
      exact absurd (foldUnion_univ f l htail) hne

/-- Further facts guaranteed by `Board::is_legal`: exactly one king of
the moving side, every occupied square holds a piece, the castling
rights are consistent with the king and rook placement, and a nonzero
en-passant square is empty with the passed enemy pawn behind it. -/
theorem isLegal_facts2 (b : Board) (hL : b.isLegal = true) (hR : b.inRange) :
    popCount (Nat.land (b.pieces.pieceType KING) (b.pieces.color b.toMove)) = 1 ∧
    (∀ s, b.occupied.testBit s = true →
      ∃ c, c < 6 ∧ (b.pieces.pieceType c).testBit s = true) ∧
    (¬ canCastle b.castling WHITE QUEENSIDE ∨
      (Nat.land (Nat.land (b.pieces.pieceType ROOK) (b.pieces.color WHITE)) (1 <<< A1) ≠ 0 ∧
       Nat.land (Nat.land (b.pieces.pieceType KING) (b.pieces.color WHITE)) (1 <<< E1) ≠ 0)) ∧
    (¬ canCastle b.castling WHITE KINGSIDE ∨
      (Nat.land (Nat.land (b.pieces.pieceType ROOK) (b.pieces.color WHITE)) (1 <<< H1) ≠ 0 ∧
       Nat.land (Nat.land (b.pieces.pieceType KING) (b.pieces.color WHITE)) (1 <<< E1) ≠ 0)) ∧
    (¬ canCastle b.castling BLACK QUEENSIDE ∨
      (Nat.land (Nat.land (b.pieces.pieceType ROOK) (b.pieces.color BLACK)) (1 <<< A8) ≠ 0 ∧
       Nat.land (Nat.land (b.pieces.pieceType KING) (b.pieces.color BLACK)) (1 <<< E8) ≠ 0)) ∧
    (¬ canCastle b.castling BLACK KINGSIDE ∨
      (Nat.land (Nat.land (b.pieces.pieceType ROOK) (b.pieces.color BLACK)) (1 <<< H8) ≠ 0 ∧
       Nat.land (Nat.land (b.pieces.pieceType KING) (b.pieces.color BLACK)) (1 <<< E8) ≠ 0)) ∧
    (b.enPassantBB = 0 ∨
      (Nat.land (genShift b.enPassantBB (pawnMoveShifts (Nat.xor 1 b.toMove) PAWN_PUSH))
         (Nat.land (b.pieces.pieceType PAWN) (b.pieces.color (Nat.xor 1 b.toMove))) ≠ 0 ∧
       Nat.land b.enPassantBB (comp64 b.occupied) ≠ 0)) := by
  have hfB : ∀ x ∈ [KING, QUEEN, ROOK, BISHOP, KNIGHT, PAWN],
      b.pieces.pieceType x < B64 := by
    intro x hx
    refine hR.1 x ?_
    simp only [KING, QUEEN, ROOK, BISHOP, KNIGHT, PAWN, List.mem_cons,
      List.not_mem_nil, or_false] at hx
    omega
  simp only [Board.isLegal] at hL
  split_ifs at hL with hrange
  rw [decide_eq_true_eq] at hL
  obtain ⟨hne, hocc, hdisj, hk1, -, -, -, -, -, -, -, hcwq, hcwk, hcbq, hcbk, hep, hoccEq⟩ := hL
  refine ⟨hk1, ?_, hcwq, hcwk, hcbq, hcbk, ?_⟩
  · intro s hs
    rw [hoccEq] at hs
    rcases foldUnion_covered b.pieces.pieceType [KING, QUEEN, ROOK, BISHOP, KNIGHT, PAWN] 0
        (by norm_num [B64]) hfB hne s hs with h0 | ⟨x, hx, hbit⟩
    · rw [Nat.zero_testBit] at h0
      exact Bool.noConfusion h0
    · refine ⟨x, ?_, hbit⟩
      simp only [KING, QUEEN, ROOK, BISHOP, KNIGHT, PAWN, List.mem_cons,
        List.not_mem_nil, or_false] at hx
      omega
  · rcases hep with hep | ⟨hp1, hp2, -, -⟩
    · exact Or.inl hep
    · rw [← hoccEq] at hp2
      exact Or.inr ⟨hp1, hp2⟩

/-- `get_piece_type_at` on an empty square. -/
theorem getPieceTypeAt_empty (b : Board) (d : Nat)
    (h : b.occupied.testBit d = false) : b.getPieceTypeAt (1 <<< d) = NO_PIECE := by
  have h0 : Nat.land (1 <<< d) b.occupied = 0 := by
    apply Nat.eq_of_testBit_eq
    intro i
    rw [land_eq, Nat.testBit_land, nf_pow, Nat.zero_testBit]
    by_cases hdi : d = i
    · subst hdi
      simp [h]
    · simp [hdi]
  simp only [Board.getPieceTypeAt, h0]
  rfl

/-- `get_piece_type_at` on an occupied square of a covered board finds
a piece standing there. -/
theorem getPieceTypeAt_occupied (b : Board) (d : Nat)
    (hocc : b.occupied.testBit d = true)
    (hex : ∃ c, c < 6 ∧ (b.pieces.pieceType c).testBit d = true) :
    b.getPieceTypeAt (1 <<< d) < 6 ∧
      (b.pieces.pieceType (b.getPieceTypeAt (1 <<< d))).testBit d = true := by
  have hbb : Nat.land (1 <<< d) b.occupied = 1 <<< d := by
    apply Nat.eq_of_testBit_eq
    intro i
    rw [land_eq, Nat.testBit_land, nf_pow]
    by_cases hdi : d = i
    · subst hdi
      simp [hocc]
    · simp [hdi]
  have hnz : (1 : Nat) <<< d ≠ 0 := by
    rw [Nat.one_shiftLeft]
    positivity
  simp only [Board.getPieceTypeAt, hbb]
  split_ifs with h0 h1 h2 h3 h4 h5 h6
  · exact absurd h0 hnz
  · exact ⟨by norm_num [PAWN], land_singleton_cases h1⟩
  · exact ⟨by norm_num [KNIGHT], land_singleton_cases h2⟩
  · exact ⟨by norm_num [BISHOP], land_singleton_cases h3⟩
  · exact ⟨by norm_num [ROOK], land_singleton_cases h4⟩
  · exact ⟨by norm_num [QUEEN], land_singleton_cases h5⟩
  · exact ⟨by norm_num [KING], land_singleton_cases h6⟩
  · obtain ⟨c, hc, hbit⟩ := hex
    exfalso
    interval_cases c
    · exact h6 (land_singleton_intro hbit)
    · exact h5 (land_singleton_intro hbit)
    · exact h4 (land_singleton_intro hbit)
    · exact h3 (land_singleton_intro hbit)
    · exact h2 (land_singleton_intro hbit)
    · exact h1 (land_singleton_intro hbit)

theorem exists_testBit {x : Nat} (h : x ≠ 0) : ∃ i, x.testBit i = true := by
  by_contra hc
  push_neg at hc
  apply h
  apply Nat.eq_of_testBit_eq
  intro i
  rw [Nat.zero_testBit]
  exact Bool.not_eq_true _ ▸ hc i

theorem xor_land_sub {x y s : Nat} (h : (Nat.xor x (Nat.land x y)).testBit s = true) :
    x.testBit s = true := by
  rw [nf_xor, land_eq, Nat.testBit_land] at h
  by_cases hx : x.testBit s = true
  · exact hx
  · rw [Bool.not_eq_true] at hx
    rw [hx] at h
    exact Bool.noConfusion h

theorem singleton_testBit {e s : Nat} (h : (1 <<< e).testBit s = true) : s = e := by
  rw [nf_pow] at h
  exact (of_decide_eq_true h).symm

theorem land_lt_left (x y : Nat) (hx : x < B64) : Nat.land x y < B64 :=
  lt_of_le_of_lt (land_eq x y ▸ Nat.and_le_left) hx

/-- A nonzero en-passant bitboard is the singleton of a board square. -/
theorem enPassantBB_structure (b : Board) :
    b.enPassantBB = 0 ∨ ∃ e, e < 64 ∧ b.enPassantBB = 1 <<< e := by
  unfold Board.enPassantBB
  split_ifs with h1 h2
  · exact Or.inl rfl
  · refine Or.inr ⟨b.enPassantFile + 40, ?_, ?_⟩
    · rw [NO_ENPASSANT_FILE] at h1
      omega
    · rw [Nat.shiftLeft_shiftLeft]
  · refine Or.inr ⟨b.enPassantFile + 16, ?_, ?_⟩
    · rw [NO_ENPASSANT_FILE] at h1
      omega
    · rw [Nat.shiftLeft_shiftLeft]

/-- Characterization of membership in a pawn destination set: the pawn
stands on the back-shifted origin square, the destination holds no
friendly piece, and the destination respects the capture/quiet target
mask of the set. -/
theorem calcPawnDestSets_mem (b : Board) (pawns epBB i d : Nat)
    (hpB : pawns < B64) (htm : b.toMove < 2) (hi : i < 4) (hd64 : d < 64)
    (h : (b.calcPawnDestSets pawns epBB i).testBit d = true) :
    ((d : Int) - pawnMoveShifts b.toMove i).toNat < 64 ∧
    pawns.testBit ((d : Int) - pawnMoveShifts b.toMove i).toNat = true ∧
    ((d : Int) - pawnMoveShifts b.toMove i).toNat ≠ d ∧
    (b.pieces.color b.toMove).testBit d = false ∧
    (Nat.xor (Nat.lor (b.pieces.color (Nat.xor 1 b.toMove)) epBB)
      (if i = PAWN_PUSH ∨ i = PAWN_DOUBLE_PUSH then BB_UNIVERSAL_SET
       else BB_EMPTY_SET)).testBit d = true := by
  have hbase : ∀ k, k < 4 →
      ((Nat.land (Nat.land
          (genShift (Nat.land pawns
            (if k = PAWN_PUSH then comp64 (Nat.lor BB_RANK_1 BB_RANK_8)
             else if k = PAWN_DOUBLE_PUSH then Nat.lor BB_RANK_2 BB_RANK_7
             else if k = PAWN_WEST_CAPTURE then
               comp64 (Nat.lor (Nat.lor BB_FILE_A BB_RANK_1) BB_RANK_8)
             else comp64 (Nat.lor (Nat.lor BB_FILE_H BB_RANK_1) BB_RANK_8)))
            (pawnMoveShifts b.toMove k))
          (Nat.xor (Nat.lor (b.pieces.color (Nat.xor 1 b.toMove)) epBB)
            (if k = PAWN_PUSH ∨ k = PAWN_DOUBLE_PUSH then BB_UNIVERSAL_SET
             else BB_EMPTY_SET)))
        (comp64 (b.pieces.color b.toMove))).testBit d = true) →
      ((d : Int) - pawnMoveShifts b.toMove k).toNat < 64 ∧
      pawns.testBit ((d : Int) - pawnMoveShifts b.toMove k).toNat = true ∧
      ((d : Int) - pawnMoveShifts b.toMove k).toNat ≠ d ∧
      (b.pieces.color b.toMove).testBit d = false ∧
      (Nat.xor (Nat.lor (b.pieces.color (Nat.xor 1 b.toMove)) epBB)
        (if k = PAWN_PUSH ∨ k = PAWN_DOUBLE_PUSH then BB_UNIVERSAL_SET
         else BB_EMPTY_SET)).testBit d = true := by
    intro k hk hbit
    obtain ⟨h12, h3⟩ := testBit_land_both hbit
    obtain ⟨h1, h2⟩ := testBit_land_both h12
    have hcu := (comp64_bit hd64).mp h3
    rcases (by omega : b.toMove = 0 ∨ b.toMove = 1) with htmv | htmv <;>
      rw [htmv] at h1 hcu h2 ⊢ <;> interval_cases k <;>
      simp only [pawnMoveShifts, WHITE, PAWN_PUSH, PAWN_DOUBLE_PUSH, PAWN_WEST_CAPTURE,
        PAWN_EAST_CAPTURE, List.getD, List.get?, Option.getD, Nat.reduceEqDiff,
        reduceIte] at h1 ⊢
    · rw [genShift_pos_bit _ _ (by norm_num) d] at h1
      simp only [Bool.and_eq_true, decide_eq_true_eq] at h1
      obtain ⟨-, hle, hX⟩ := h1
      have hP := (testBit_land_both hX).1
      refine ⟨by omega, ?_, by omega, hcu, h2⟩
      convert hP using 2 <;> omega
    · rw [genShift_pos_bit _ _ (by norm_num) d] at h1
      simp only [Bool.and_eq_true, decide_eq_true_eq] at h1
      obtain ⟨-, hle, hX⟩ := h1
      have hP := (testBit_land_both hX).1
      refine ⟨by omega, ?_, by omega, hcu, h2⟩
      convert hP using 2 <;> omega
    · rw [genShift_pos_bit _ _ (by norm_num) d] at h1
      simp only [Bool.and_eq_true, decide_eq_true_eq] at h1
      obtain ⟨-, hle, hX⟩ := h1
      have hP := (testBit_land_both hX).1
      refine ⟨by omega, ?_, by omega, hcu, h2⟩
      convert hP using 2 <;> omega
    · rw [genShift_pos_bit _ _ (by norm_num) d] at h1
      simp only [Bool.and_eq_true, decide_eq_true_eq] at h1
      obtain ⟨-, hle, hX⟩ := h1
      have hP := (testBit_land_both hX).1
      refine ⟨by omega, ?_, by omega, hcu, h2⟩
      convert hP using 2 <;> omega
    · rw [genShift_neg_bit _ _ (by norm_num) d] at h1
      have hP := (testBit_land_both h1).1
      have hb := bits_lt_of_lt_B64 hpB hP
      refine ⟨by omega, ?_, by omega, hcu, h2⟩
      convert hP using 2 <;> omega
    · rw [genShift_neg_bit _ _ (by norm_num) d] at h1
      have hP := (testBit_land_both h1).1
      have hb := bits_lt_of_lt_B64 hpB hP
      refine ⟨by omega, ?_, by omega, hcu, h2⟩
      convert hP using 2 <;> omega
    · rw [genShift_neg_bit _ _ (by norm_num) d] at h1
      have hP := (testBit_land_both h1).1
      have hb := bits_lt_of_lt_B64 hpB hP
      refine ⟨by omega, ?_, by omega, hcu, h2⟩
      convert hP using 2 <;> omega
    · rw [genShift_neg_bit _ _ (by norm_num) d] at h1
      have hP := (testBit_land_both h1).1
      have hb := bits_lt_of_lt_B64 hpB hP
      refine ⟨by omega, ?_, by omega, hcu, h2⟩
      convert hP using 2 <;> omega
  simp only [Board.calcPawnDestSets] at h
  interval_cases i
  · exact hbase 0 (by norm_num) (by
      have h' : ¬ ((0 : Nat) = PAWN_DOUBLE_PUSH) := by norm_num [PAWN_DOUBLE_PUSH]
      rwa [if_neg h'] at h)
  · have h' : ((1 : Nat) = PAWN_DOUBLE_PUSH) := by norm_num [PAWN_DOUBLE_PUSH]
    rw [if_pos h'] at h
    exact hbase 1 (by norm_num) (testBit_land_both h).1
  · exact hbase 2 (by norm_num) (by
      have h' : ¬ ((2 : Nat) = PAWN_DOUBLE_PUSH) := by norm_num [PAWN_DOUBLE_PUSH]
      rwa [if_neg h'] at h)
  · exact hbase 3 (by norm_num) (by
      have h' : ¬ ((3 : Nat) = PAWN_DOUBLE_PUSH) := by norm_num [PAWN_DOUBLE_PUSH]
      rwa [if_neg h'] at h)

/-- Moves emitted by `push_piece_moves_to_stack` are well-formed,
provided the origin holds the moving piece and the destination set
avoids friendly pieces. -/
theorem pushPieceMoves_WF (b : Board) (hL : b.isLegal = true) (hR : b.inRange)
    (piece o dests : Nat) (hp : piece < 6) (ho64 : o < 64)
    (hopt : (b.pieces.pieceType piece).testBit o = true)
    (hoc : (b.pieces.color b.toMove).testBit o = true)
    (hdest : ∀ d, d < 64 → dests.testBit d = true →
      (b.pieces.color b.toMove).testBit d = false)
    (m : Move) (hm : m ∈ b.pushPieceMoves piece o dests) : MoveWF b m := by
  obtain ⟨htm, hep8, hdisj, hocc, hsub, hptdisj⟩ := isLegal_facts b hL hR
  obtain ⟨-, hcov, -, -, -, -, -⟩ := isLegal_facts2 b hL hR
  have hcr16 : b.castling < 16 := hR.2.2.2
  have hep16 : b.enPassantFile < 16 := by omega
  simp only [Board.pushPieceMoves, List.mem_map] at hm
  obtain ⟨d, hdmem, rfl⟩ := hm
  rw [mem_squaresOf] at hdmem
  obtain ⟨hd64, hdbit⟩ := hdmem
  obtain ⟨hdd, hattack⟩ := testBit_land_both hdbit
  obtain ⟨-, hdo⟩ := pieceAttacksFrom_facts hp ho64 hattack
  have hdnu := hdest d hd64 hdd
  have ht4 : MOVE_NORMAL < 4 := by norm_num [MOVE_NORMAL]
  have hp8 : piece < 8 := by omega
  have hpp4 : (0 : Nat) < 4 := by norm_num
  by_cases hco : b.occupied.testBit d = true
  · obtain ⟨hc6, hcbit⟩ := getPieceTypeAt_occupied b d hco (hcov d hco)
    have hctbit : (b.pieces.color (Nat.xor 1 b.toMove)).testBit d = true := by
      rw [hocc, lor_eq, Nat.testBit_lor, hdnu] at hco
      simpa using hco
    have hc7 : b.getPieceTypeAt (1 <<< d) ≤ 7 := by omega
    refine ⟨?_, ?_, ?_, ?_, ?_, ?_, ?_, ?_⟩
    · exact mvCastling_new _ _ _ _ _ _ _ _ _ ht4 ho64 hd64 hep16 hcr16 hpp4
    · exact mvEpFile_new _ _ _ _ _ _ _ _ _ ht4 ho64 hd64 hep16 hpp4
    · rw [mvPiece_new _ _ _ _ _ _ _ _ _ ht4 hp8 ho64 hd64 hep16 hcr16 hpp4]
      exact hp
    · rw [mvPiece_new _ _ _ _ _ _ _ _ _ ht4 hp8 ho64 hd64 hep16 hcr16 hpp4,
        mvOrig_new _ _ _ _ _ _ _ _ _ ht4 ho64 hd64 hpp4]
      exact hopt
    · rw [mvOrig_new _ _ _ _ _ _ _ _ _ ht4 ho64 hd64 hpp4]
      exact hoc
    · rw [mvDest_new _ _ _ _ _ _ _ _ _ hd64 hpp4]
      exact hdnu
    · rw [mvOrig_new _ _ _ _ _ _ _ _ _ ht4 ho64 hd64 hpp4,
        mvDest_new _ _ _ _ _ _ _ _ _ hd64 hpp4]
      exact Ne.symm hdo
    · refine Or.inl ⟨Or.inl (mvType_new _ _ _ _ _ _ _ _ _ ht4 ho64 hd64 hpp4), Or.inr ?_⟩
      rw [mvCaptured_new _ _ _ _ _ _ _ _ _ ht4 hp8 ho64 hd64 hc7 hep16 hcr16 hpp4,
        mvDest_new _ _ _ _ _ _ _ _ _ hd64 hpp4]
      exact ⟨hc6, hcbit, hctbit⟩
  · rw [Bool.not_eq_true] at hco
    have hcap := getPieceTypeAt_empty b d hco
    have hc7 : b.getPieceTypeAt (1 <<< d) ≤ 7 := by rw [hcap, NO_PIECE]; omega
    refine ⟨?_, ?_, ?_, ?_, ?_, ?_, ?_, ?_⟩
    · exact mvCastling_new _ _ _ _ _ _ _ _ _ ht4 ho64 hd64 hep16 hcr16 hpp4
    · exact mvEpFile_new _ _ _ _ _ _ _ _ _ ht4 ho64 hd64 hep16 hpp4
    · rw [mvPiece_new _ _ _ _ _ _ _ _ _ ht4 hp8 ho64 hd64 hep16 hcr16 hpp4]
      exact hp
    · rw [mvPiece_new _ _ _ _ _ _ _ _ _ ht4 hp8 ho64 hd64 hep16 hcr16 hpp4,
        mvOrig_new _ _ _ _ _ _ _ _ _ ht4 ho64 hd64 hpp4]
      exact hopt
    · rw [mvOrig_new _ _ _ _ _ _ _ _ _ ht4 ho64 hd64 hpp4]
      exact hoc
    · rw [mvDest_new _ _ _ _ _ _ _ _ _ hd64 hpp4]
      exact hdnu
    · rw [mvOrig_new _ _ _ _ _ _ _ _ _ ht4 ho64 hd64 hpp4,
        mvDest_new _ _ _ _ _ _ _ _ _ hd64 hpp4]
      exact Ne.symm hdo
    · refine Or.inl ⟨Or.inl (mvType_new _ _ _ _ _ _ _ _ _ ht4 ho64 hd64 hpp4), Or.inl ?_⟩
      rw [mvCaptured_new _ _ _ _ _ _ _ _ _ ht4 hp8 ho64 hd64 hc7 hep16 hcr16 hpp4,
        mvDest_new _ _ _ _ _ _ _ _ _ hd64 hpp4]
      exact ⟨hcap, hco⟩

/-- Builds `MoveWF` for a freshly packed move from facts about the
packing arguments, discharging the field decoding once. -/
theorem MoveWF_of_new (b : Board) (t p o d c ep cr code : Nat)
    (ht : t < 4) (hp8 : p < 8) (ho : o < 64) (hd : d < 64) (hc7 : c ≤ 7)
    (hep : ep < 16) (hcr : cr < 16) (hcode : code < 4)
    (hcr_eq : cr = b.castling) (hep_eq : ep = b.enPassantFile)
    (hp6 : p < 6)
    (hopt : (b.pieces.pieceType p).testBit o = true)
    (hoc : (b.pieces.color b.toMove).testBit o = true)
    (hdnu : (b.pieces.color b.toMove).testBit d = false)
    (hod : o ≠ d)
    (hshape :
      ((t = MOVE_NORMAL ∨ (t = MOVE_PROMOTION ∧ p = PAWN)) ∧
        (c = NO_PIECE ∧ b.occupied.testBit d = false ∨
         c < 6 ∧ (b.pieces.pieceType c).testBit d = true ∧
           (b.pieces.color (Nat.xor 1 b.toMove)).testBit d = true)) ∨
      (t = MOVE_ENPASSANT ∧ p = PAWN ∧ c = PAWN ∧
        b.occupied.testBit d = false ∧
        ((d : Int) + pawnMoveShifts (Nat.xor 1 b.toMove) PAWN_PUSH).toNat < 64 ∧
        (b.pieces.pieceType PAWN).testBit
          ((d : Int) + pawnMoveShifts (Nat.xor 1 b.toMove) PAWN_PUSH).toNat = true ∧
        (b.pieces.color (Nat.xor 1 b.toMove)).testBit
          ((d : Int) + pawnMoveShifts (Nat.xor 1 b.toMove) PAWN_PUSH).toNat = true) ∨
      (t = MOVE_CASTLING ∧ p = KING ∧ c = NO_PIECE ∧
        b.occupied.testBit d = false ∧
        ((b.toMove = WHITE ∧ o = 4 ∧ (d = 2 ∨ d = 6)) ∨
         (b.toMove = BLACK ∧ o = 60 ∧ (d = 58 ∨ d = 62))) ∧
        b.occupied.testBit ((o + d) >>> 1) = false ∧
        canCastle b.castling b.toMove
          (if o < d then KINGSIDE else QUEENSIDE) = true)) :
    MoveWF b (moveNew b.toMove t p o d c ep cr code) := by
  have e1 := mvCastling_new b.toMove t p o d c ep cr code ht ho hd hep hcr hcode
  have e2 := mvEpFile_new b.toMove t p o d c ep cr code ht ho hd hep hcode
  have e3 := mvPiece_new b.toMove t p o d c ep cr code ht hp8 ho hd hep hcr hcode
  have e4 := mvOrig_new b.toMove t p o d c ep cr code ht ho hd hcode
  have e5 := mvDest_new b.toMove t p o d c ep cr code hd hcode
  have e6 := mvType_new b.toMove t p o d c ep cr code ht ho hd hcode
  have e7 := mvCaptured_new b.toMove t p o d c ep cr code ht hp8 ho hd hc7 hep hcr hcode
  refine ⟨?_, ?_, ?_, ?_, ?_, ?_, ?_, ?_⟩
  · rw [e1, hcr_eq]
  · rw [e2, hep_eq]
  · rw [e3]
    exact hp6
  · rw [e3, e4]
    exact hopt
  · rw [e4]
    exact hoc
  · rw [e5]
    exact hdnu
  · rw [e4, e5]
    exact hod
  · rw [e3, e4, e5, e6, e7]
    exact hshape

/-- Moves emitted by the pawn destination scan are well-formed. -/
theorem pushPawnMovesAt_WF (b : Board) (hL : b.isLegal = true) (hR : b.inRange)
    (pawns i d : Nat) (onlyQ : Bool)
    (hsub2 : ∀ s, pawns.testBit s = true →
      (b.pieces.pieceType PAWN).testBit s = true ∧
        (b.pieces.color b.toMove).testBit s = true)
    (hpB : pawns < B64) (hi : i < 4) (hd64 : d < 64)
    (hdset : (b.calcPawnDestSets pawns b.enPassantBB i).testBit d = true)
    (m : Move) (hm : m ∈ b.pushPawnMovesAt b.enPassantBB onlyQ i d) : MoveWF b m := by
  obtain ⟨htm, hep8, hdisj, hocc, hsub, hptdisj⟩ := isLegal_facts b hL hR
  obtain ⟨-, hcov, -, -, -, -, hepf⟩ := isLegal_facts2 b hL hR
  have hcr16 : b.castling < 16 := hR.2.2.2
  have hep16 : b.enPassantFile < 16 := by omega
  obtain ⟨ho64, hopawns, hod, hcud, -⟩ :=
    calcPawnDestSets_mem b pawns b.enPassantBB i d hpB htm hi hd64 hdset
  obtain ⟨hopt, hoc⟩ := hsub2 _ hopawns
  have hP8 : PAWN < 8 := by norm_num [PAWN]
  have hP6 : PAWN < 6 := by norm_num [PAWN]
  have hcap7 : ∀ x : Nat, b.getPieceTypeAt x = NO_PIECE ∨ b.getPieceTypeAt x < 6 →
      b.getPieceTypeAt x ≤ 7 := by
    intro x hx
    rcases hx with hx | hx
    · rw [hx, NO_PIECE]
      omega
    · omega
  simp only [Board.pushPawnMovesAt] at hm
  split_ifs at hm with hEP hChk hPromo hQ
  · -- En-passant capture.
    rw [List.mem_singleton] at hm
    subst hm
    have hepne : b.enPassantBB ≠ 0 := by
      rw [← hEP, Nat.one_shiftLeft]
      positivity
    rcases hepf with h0 | ⟨hp1, hp2⟩
    · exact absurd h0 hepne
    · obtain ⟨t2, ht2⟩ := exists_testBit hp2
      obtain ⟨ht2e, ht2c⟩ := testBit_land_both ht2
      rw [← hEP] at ht2e
      have ht2d := singleton_testBit ht2e
      rw [ht2d] at ht2c
      have hnocc : b.occupied.testBit d = false := (comp64_bit hd64).mp ht2c
      obtain ⟨t1, ht1⟩ := exists_testBit hp1
      obtain ⟨ht1s, ht1p⟩ := testBit_land_both ht1
      obtain ⟨hpcs, hccs⟩ := testBit_land_both ht1p
      have hkey : ((d : Int) + pawnMoveShifts (Nat.xor 1 b.toMove) PAWN_PUSH).toNat = t1 ∧
          ((d : Int) + pawnMoveShifts (Nat.xor 1 b.toMove) PAWN_PUSH).toNat < 64 := by
        rcases (by omega : b.toMove = 0 ∨ b.toMove = 1) with htmv | htmv <;> rw [htmv]
        · rw [show Nat.xor 1 0 = 1 from rfl,
            show pawnMoveShifts 1 PAWN_PUSH = (-8 : Int) from rfl]
          rw [htmv, show Nat.xor 1 0 = 1 from rfl,
            show pawnMoveShifts 1 PAWN_PUSH = (-8 : Int) from rfl, ← hEP,
            genShift_neg_bit _ _ (by norm_num) t1] at ht1s
          have h8 := singleton_testBit ht1s
          omega
        · rw [show Nat.xor 1 1 = 0 from rfl,
            show pawnMoveShifts 0 PAWN_PUSH = (8 : Int) from rfl]
          rw [htmv, show Nat.xor 1 1 = 0 from rfl,
            show pawnMoveShifts 0 PAWN_PUSH = (8 : Int) from rfl, ← hEP,
            genShift_pos_bit _ _ (by norm_num) t1] at ht1s
          simp only [Bool.and_eq_true, decide_eq_true_eq] at ht1s
          obtain ⟨ht164, hle8, ht1s⟩ := ht1s
          have h8 := singleton_testBit ht1s
          omega
      refine MoveWF_of_new b MOVE_ENPASSANT PAWN _ d PAWN _ _ 0
        (by norm_num [MOVE_ENPASSANT]) hP8 ho64 hd64 (by norm_num [PAWN])
        hep16 hcr16 (by norm_num) rfl rfl hP6 hopt hoc hcud hod
        (Or.inr (Or.inl ⟨rfl, rfl, rfl, hnocc, hkey.2, ?_, ?_⟩))
      · rw [hkey.1]
        exact hpcs
      · rw [hkey.1]
        exact hccs
  · exact absurd hm (List.not_mem_nil m)
  · -- Promotions.
    rw [List.mem_map] at hm
    obtain ⟨code, hcodemem, rfl⟩ := hm
    have hcode4 : code < 4 := by
      simp only [List.mem_cons, List.mem_singleton, List.not_mem_nil, or_false] at hcodemem
      omega
    by_cases hco : b.occupied.testBit d = true
    · obtain ⟨hc6, hcbit⟩ := getPieceTypeAt_occupied b d hco (hcov d hco)
      have hctbit : (b.pieces.color (Nat.xor 1 b.toMove)).testBit d = true := by
        rw [hocc, lor_eq, Nat.testBit_lor, hcud] at hco
        simpa using hco
      exact MoveWF_of_new b MOVE_PROMOTION PAWN _ d _ _ _ code
        (by norm_num [MOVE_PROMOTION]) hP8 ho64 hd64 (hcap7 _ (Or.inr hc6))
        hep16 hcr16 hcode4 rfl rfl hP6 hopt hoc hcud hod
        (Or.inl ⟨Or.inr ⟨rfl, rfl⟩, Or.inr ⟨hc6, hcbit, hctbit⟩⟩)
    · rw [Bool.not_eq_true] at hco
      have hcap := getPieceTypeAt_empty b d hco
      exact MoveWF_of_new b MOVE_PROMOTION PAWN _ d _ _ _ code
        (by norm_num [MOVE_PROMOTION]) hP8 ho64 hd64 (hcap7 _ (Or.inl hcap))
        hep16 hcr16 hcode4 rfl rfl hP6 hopt hoc hcud hod
        (Or.inl ⟨Or.inr ⟨rfl, rfl⟩, Or.inl ⟨hcap, hco⟩⟩)
  · -- Promotions.
    rw [List.mem_map] at hm
    obtain ⟨code, hcodemem, rfl⟩ := hm
    have hcode4 : code < 4 := by
      simp only [List.mem_cons, List.mem_singleton, List.not_mem_nil, or_false] at hcodemem
      omega
    by_cases hco : b.occupied.testBit d = true
    · obtain ⟨hc6, hcbit⟩ := getPieceTypeAt_occupied b d hco (hcov d hco)
      have hctbit : (b.pieces.color (Nat.xor 1 b.toMove)).testBit d = true := by
        rw [hocc, lor_eq, Nat.testBit_lor, hcud] at hco
        simpa using hco
      exact MoveWF_of_new b MOVE_PROMOTION PAWN _ d _ _ _ code
        (by norm_num [MOVE_PROMOTION]) hP8 ho64 hd64 (hcap7 _ (Or.inr hc6))
        hep16 hcr16 hcode4 rfl rfl hP6 hopt hoc hcud hod
        (Or.inl ⟨Or.inr ⟨rfl, rfl⟩, Or.inr ⟨hc6, hcbit, hctbit⟩⟩)
    · rw [Bool.not_eq_true] at hco
      have hcap := getPieceTypeAt_empty b d hco
      exact MoveWF_of_new b MOVE_PROMOTION PAWN _ d _ _ _ code
        (by norm_num [MOVE_PROMOTION]) hP8 ho64 hd64 (hcap7 _ (Or.inl hcap))
        hep16 hcr16 hcode4 rfl rfl hP6 hopt hoc hcud hod
        (Or.inl ⟨Or.inr ⟨rfl, rfl⟩, Or.inl ⟨hcap, hco⟩⟩)
  · -- An ordinary pawn move.
    rw [List.mem_singleton] at hm
    subst hm
    by_cases hco : b.occupied.testBit d = true
    · obtain ⟨hc6, hcbit⟩ := getPieceTypeAt_occupied b d hco (hcov d hco)
      have hctbit : (b.pieces.color (Nat.xor 1 b.toMove)).testBit d = true := by
        rw [hocc, lor_eq, Nat.testBit_lor, hcud] at hco
        simpa using hco
      exact MoveWF_of_new b MOVE_NORMAL PAWN _ d _ _ _ 0
        (by norm_num [MOVE_NORMAL]) hP8 ho64 hd64 (hcap7 _ (Or.inr hc6))
        hep16 hcr16 (by norm_num) rfl rfl hP6 hopt hoc hcud hod
        (Or.inl ⟨Or.inl rfl, Or.inr ⟨hc6, hcbit, hctbit⟩⟩)
    · rw [Bool.not_eq_true] at hco
      have hcap := getPieceTypeAt_empty b d hco
      exact MoveWF_of_new b MOVE_NORMAL PAWN _ d _ _ _ 0
        (by norm_num [MOVE_NORMAL]) hP8 ho64 hd64 (hcap7 _ (Or.inl hcap))
        hep16 hcr16 (by norm_num) rfl rfl hP6 hopt hoc hcud hod
        (Or.inl ⟨Or.inl rfl, Or.inl ⟨hcap, hco⟩⟩)

/-- Moves emitted by `push_pawn_moves_to_stack` are well-formed. -/
theorem pushPawnMoves_WF (b : Board) (hL : b.isLegal = true) (hR : b.inRange)
    (pawns legalD : Nat) (onlyQ : Bool)
    (hsub2 : ∀ s, pawns.testBit s = true →
      (b.pieces.pieceType PAWN).testBit s = true ∧
        (b.pieces.color b.toMove).testBit s = true)
    (hpB : pawns < B64)
    (m : Move) (hm : m ∈ b.pushPawnMoves pawns b.enPassantBB legalD onlyQ) :
    MoveWF b m := by
  simp only [Board.pushPawnMoves, List.mem_flatten] at hm
  obtain ⟨l2, hl2, hmm⟩ := hm
  obtain ⟨l1, hl1, hl2m⟩ := hl2
  rw [List.mem_map] at hl1
  obtain ⟨i, hi, rfl⟩ := hl1
  rw [List.mem_map] at hl2m
  obtain ⟨d, hd, rfl⟩ := hl2m
  rw [mem_squaresOf] at hd
  obtain ⟨hd64, hdbit⟩ := hd
  have hi4 : i < 4 := by
    simp only [PAWN_PUSH, PAWN_DOUBLE_PUSH, PAWN_WEST_CAPTURE, PAWN_EAST_CAPTURE,
      List.mem_cons, List.not_mem_nil, or_false] at hi
    omega
  exact pushPawnMovesAt_WF b hL hR pawns i d onlyQ hsub2 hpB hi4 hd64
    (testBit_land_both hdbit).1 m hmm

/-- The square of the moving side's king: the unique set bit of the
king-and-own-color bitboard. -/
theorem kingSquare_facts (b : Board) (hL : b.isLegal = true) (hR : b.inRange) :
    b.kingSquare < 64 ∧
    (b.pieces.pieceType KING).testBit b.kingSquare = true ∧
    (b.pieces.color b.toMove).testBit b.kingSquare = true ∧
    Nat.land (b.pieces.pieceType KING) (b.pieces.color b.toMove) =
      1 <<< b.kingSquare := by
  obtain ⟨hk1, -, -, -, -, -, -⟩ := isLegal_facts2 b hL hR
  have hB : Nat.land (b.pieces.pieceType KING) (b.pieces.color b.toMove) < B64 :=
    land_lt_left _ _ (hR.1 KING (by norm_num [KING]))
  obtain ⟨hlt, hstruct⟩ := popCount_one_structure hB hk1
  have hks : b.kingSquare = bitscan1bit
      (Nat.land (b.pieces.pieceType KING) (b.pieces.color b.toMove)) := rfl
  have hbit : (Nat.land (b.pieces.pieceType KING)
      (b.pieces.color b.toMove)).testBit b.kingSquare = true := by
    rw [hks]
    nth_rewrite 1 [hstruct]
    rw [nf_pow]
    simp
  obtain ⟨h1, h2⟩ := testBit_land_both hbit
  exact ⟨hks ▸ hlt, h1, h2, hks ▸ hstruct⟩

/-- Castling moves emitted by the generator are well-formed. -/
theorem castlingMove_WF (b : Board) (hL : b.isLegal = true) (hR : b.inRange)
    (side : Nat) (hside : side = QUEENSIDE ∨ side = KINGSIDE)
    (hobs : b.castlingObstacles side = 0) :
    MoveWF b (moveNew b.toMove MOVE_CASTLING KING b.kingSquare
      (if side = QUEENSIDE then (if b.toMove = WHITE then C1 else C8)
       else (if b.toMove = WHITE then G1 else G8))
      NO_PIECE b.enPassantFile b.castling 0) := by
  obtain ⟨htm, hep8, hdisj, hocc, hsub, hptdisj⟩ := isLegal_facts b hL hR
  obtain ⟨-, -, hcwq, hcwk, hcbq, hcbk, -⟩ := isLegal_facts2 b hL hR
  have hcr16 : b.castling < 16 := hR.2.2.2
  have hep16 : b.enPassantFile < 16 := by omega
  obtain ⟨hks64, hkpt, hkcol, hkbb⟩ := kingSquare_facts b hL hR
  have hKlt : KING < 8 := by norm_num [KING]
  have hK6 : KING < 6 := by norm_num [KING]
  have hC4 : MOVE_CASTLING < 4 := by norm_num [MOVE_CASTLING]
  have hN7 : NO_PIECE ≤ 7 := by norm_num [NO_PIECE]
  rcases (by omega : b.toMove = 0 ∨ b.toMove = 1) with htmv | htmv <;>
    rcases hside with hsd | hsd
  · -- toMove 0, QUEENSIDE
    simp only [Board.castlingObstacles, htmv, hsd, QUEENSIDE, KINGSIDE, WHITE,
      Nat.reduceEqDiff, reduceIte, B1, C1, D1, F1, G1, B8, C8, D8, F8, G8] at hobs
    split_ifs at hobs with hcc
    swap
    · exact absurd hobs (by norm_num [BB_UNIVERSAL_SET])
    have hcan : canCastle b.castling WHITE QUEENSIDE = true := hcc
    rcases hcwq with hno | ⟨-, hking⟩
    · exact absurd hcan hno
    rw [land_comm'] at hking
    have hkbit := land_singleton_cases hking
    simp only [WHITE, E1, E8] at hkbit
    rw [htmv] at hkbb
    rw [hkbb] at hkbit
    have hk4 : b.kingSquare = 4 := (singleton_testBit hkbit).symm
    rw [land_comm'] at hobs
    have hoccd := land_zero_testBit hobs 2 (by decide)
    have hcolors := hoccd
    rw [hocc, htmv, lor_eq, Nat.testBit_lor] at hcolors
    obtain ⟨hcu2, -⟩ := Bool.or_eq_false_iff.mp hcolors
    simp only [hsd, htmv, QUEENSIDE, KINGSIDE, WHITE, C1, C8, G1, G8,
      Nat.reduceEqDiff, reduceIte]
    refine MoveWF_of_new b MOVE_CASTLING KING b.kingSquare 2 NO_PIECE
      b.enPassantFile b.castling 0 hC4 hKlt hks64 (by norm_num) hN7 hep16 hcr16
      (by norm_num) rfl rfl hK6 hkpt hkcol ?_ ?_
      (Or.inr (Or.inr ⟨rfl, rfl, rfl, hoccd, ?_, ?_, ?_⟩))
    · rw [htmv]
      exact hcu2
    · rw [hk4]
      norm_num
    · exact Or.inl ⟨htmv, hk4, Or.inl rfl⟩
    · have hx := land_zero_testBit hobs 3 (by decide)
      rw [hk4]
      exact hx
    · rw [htmv, hk4]
      exact hcan
  · -- toMove 0, KINGSIDE
    simp only [Board.castlingObstacles, htmv, hsd, QUEENSIDE, KINGSIDE, WHITE,
      Nat.reduceEqDiff, reduceIte, B1, C1, D1, F1, G1, B8, C8, D8, F8, G8] at hobs
    split_ifs at hobs with hcc
    swap
    · exact absurd hobs (by norm_num [BB_UNIVERSAL_SET])
    have hcan : canCastle b.castling WHITE KINGSIDE = true := hcc
    rcases hcwk with hno | ⟨-, hking⟩
    · exact absurd hcan hno
    rw [land_comm'] at hking
    have hkbit := land_singleton_cases hking
    simp only [WHITE, E1, E8] at hkbit
    rw [htmv] at hkbb
    rw [hkbb] at hkbit
    have hk4 : b.kingSquare = 4 := (singleton_testBit hkbit).symm
    rw [land_comm'] at hobs
    have hoccd := land_zero_testBit hobs 6 (by decide)
    have hcolors := hoccd
    rw [hocc, htmv, lor_eq, Nat.testBit_lor] at hcolors
    obtain ⟨hcu2, -⟩ := Bool.or_eq_false_iff.mp hcolors
    simp only [hsd, htmv, QUEENSIDE, KINGSIDE, WHITE, C1, C8, G1, G8,
      Nat.reduceEqDiff, reduceIte]
    refine MoveWF_of_new b MOVE_CASTLING KING b.kingSquare 6 NO_PIECE
      b.enPassantFile b.castling 0 hC4 hKlt hks64 (by norm_num) hN7 hep16 hcr16
      (by norm_num) rfl rfl hK6 hkpt hkcol ?_ ?_
      (Or.inr (Or.inr ⟨rfl, rfl, rfl, hoccd, ?_, ?_, ?_⟩))
    · rw [htmv]
      exact hcu2
    · rw [hk4]
      norm_num
    · exact Or.inl ⟨htmv, hk4, Or.inr rfl⟩
    · have hx := land_zero_testBit hobs 5 (by decide)
      rw [hk4]
      exact hx
    · rw [htmv, hk4]
      exact hcan
  · -- toMove 1, QUEENSIDE
    simp only [Board.castlingObstacles, htmv, hsd, QUEENSIDE, KINGSIDE, WHITE,
      Nat.reduceEqDiff, reduceIte, B1, C1, D1, F1, G1, B8, C8, D8, F8, G8] at hobs
    split_ifs at hobs with hcc
    swap
    · exact absurd hobs (by norm_num [BB_UNIVERSAL_SET])
    have hcan : canCastle b.castling BLACK QUEENSIDE = true := hcc
    rcases hcbq with hno | ⟨-, hking⟩
    · exact absurd hcan hno
    rw [land_comm'] at hking
    have hkbit := land_singleton_cases hking
    simp only [BLACK, E1, E8] at hkbit
    rw [htmv] at hkbb
    rw [hkbb] at hkbit
    have hk4 : b.kingSquare = 60 := (singleton_testBit hkbit).symm
    rw [land_comm'] at hobs
    have hoccd := land_zero_testBit hobs 58 (by decide)
    have hcolors := hoccd
    rw [hocc, htmv, lor_eq, Nat.testBit_lor] at hcolors
    obtain ⟨hcu2, -⟩ := Bool.or_eq_false_iff.mp hcolors
    simp only [hsd, htmv, QUEENSIDE, KINGSIDE, WHITE, C1, C8, G1, G8,
      Nat.reduceEqDiff, reduceIte]
    refine MoveWF_of_new b MOVE_CASTLING KING b.kingSquare 58 NO_PIECE
      b.enPassantFile b.castling 0 hC4 hKlt hks64 (by norm_num) hN7 hep16 hcr16
      (by norm_num) rfl rfl hK6 hkpt hkcol ?_ ?_
      (Or.inr (Or.inr ⟨rfl, rfl, rfl, hoccd, ?_, ?_, ?_⟩))
    · rw [htmv]
      exact hcu2
    · rw [hk4]
      norm_num
    · exact Or.inr ⟨htmv, hk4, Or.inl rfl⟩
    · have hx := land_zero_testBit hobs 59 (by decide)
      rw [hk4]
      exact hx
    · rw [htmv, hk4]
      exact hcan
  · -- toMove 1, KINGSIDE
    simp only [Board.castlingObstacles, htmv, hsd, QUEENSIDE, KINGSIDE, WHITE,
      Nat.reduceEqDiff, reduceIte, B1, C1, D1, F1, G1, B8, C8, D8, F8, G8] at hobs
    split_ifs at hobs with hcc
    swap
    · exact absurd hobs (by norm_num [BB_UNIVERSAL_SET])
    have hcan : canCastle b.castling BLACK KINGSIDE = true := hcc
    rcases hcbk with hno | ⟨-, hking⟩
    · exact absurd hcan hno
    rw [land_comm'] at hking
    have hkbit := land_singleton_cases hking
    simp only [BLACK, E1, E8] at hkbit
    rw [htmv] at hkbb
    rw [hkbb] at hkbit
    have hk4 : b.kingSquare = 60 := (singleton_testBit hkbit).symm
    rw [land_comm'] at hobs
    have hoccd := land_zero_testBit hobs 62 (by decide)
    have hcolors := hoccd
    rw [hocc, htmv, lor_eq, Nat.testBit_lor] at hcolors
    obtain ⟨hcu2, -⟩ := Bool.or_eq_false_iff.mp hcolors
    simp only [hsd, htmv, QUEENSIDE, KINGSIDE, WHITE, C1, C8, G1, G8,
      Nat.reduceEqDiff, reduceIte]
    refine MoveWF_of_new b MOVE_CASTLING KING b.kingSquare 62 NO_PIECE
      b.enPassantFile b.castling 0 hC4 hKlt hks64 (by norm_num) hN7 hep16 hcr16
      (by norm_num) rfl rfl hK6 hkpt hkcol ?_ ?_
      (Or.inr (Or.inr ⟨rfl, rfl, rfl, hoccd, ?_, ?_, ?_⟩))
    · rw [htmv]
      exact hcu2
    · rw [hk4]
      norm_num
    · exact Or.inr ⟨htmv, hk4, Or.inr rfl⟩
    · have hx := land_zero_testBit hobs 61 (by decide)
      rw [hk4]
      exact hx
    · rw [htmv, hk4]
      exact hcan

/-- Every move the generator emits is well-formed. -/
theorem generateMoves_WF (b : Board) (hL : b.isLegal = true) (hR : b.inRange)
    (all : Bool) (m : Move) (hm : m ∈ b.generateMoves all) : MoveWF b m := by
  obtain ⟨htm, hep8, hdisj, hocc, hsub, hptdisj⟩ := isLegal_facts b hL hR
  obtain ⟨hks64, hkpt, hkcol, hkbb⟩ := kingSquare_facts b hL hR
  have hcu64 : b.pieces.color b.toMove < B64 := by
    rcases (by omega : b.toMove = 0 ∨ b.toMove = 1) with h | h <;> rw [h]
    · exact hR.2.1
    · exact hR.2.2.1
  have hPB : b.pieces.pieceType PAWN < B64 := hR.1 PAWN (by norm_num [PAWN])
  have hthem : ∀ d, d < 64 →
      (Nat.xor b.occupied (b.pieces.color b.toMove)).testBit d = true →
      (b.pieces.color b.toMove).testBit d = false := by
    intro d hd hbit
    rw [hocc, xor_lor_cancel hdisj] at hbit
    exact land_zero_testBit (land_comm' _ _ ▸ hdisj) d hbit
  have hld_prop : ∀ x d, d < 64 →
      (Nat.land (comp64 (b.pieces.color b.toMove)) x).testBit d = true →
      (b.pieces.color b.toMove).testBit d = false := by
    intro x d hd hbit
    exact (comp64_bit hd).mp (testBit_land_both hbit).1
  have hallpawns_sub : ∀ s,
      (Nat.land (b.pieces.pieceType PAWN) (b.pieces.color b.toMove)).testBit s = true →
      (b.pieces.pieceType PAWN).testBit s = true ∧
        (b.pieces.color b.toMove).testBit s = true := fun s hs => testBit_land_both hs
  simp only [Board.generateMoves] at hm
  rw [List.mem_append] at hm
  rcases hm with hm | hking
  · rw [List.mem_append] at hm
    rcases hm with hmain | hcast
    · -- mainMoves
      rcases Decidable.em (Nat.land (comp64 (b.pieces.color b.toMove))
          (if ls1b b.checkers = 0 then BB_UNIVERSAL_SET
           else if ls1b b.checkers = b.checkers then
             Nat.lor b.checkers
               (squaresBetweenIncluding b.kingSquare (bitscan1bit b.checkers))
           else BB_EMPTY_SET) ≠ BB_EMPTY_SET) with hld | hld
      swap
      · rw [if_neg hld] at hmain
        exact absurd hmain (List.not_mem_nil m)
      rw [if_pos hld] at hmain
      rw [List.mem_append] at hmain
      rcases hmain with hmain | hpinp
      · rw [List.mem_append] at hmain
        rcases hmain with hpm | hfp
        · -- piece moves
          simp only [List.mem_flatten] at hpm
          obtain ⟨l2, hl2, hmm⟩ := hpm
          obtain ⟨l1, hl1, hl2m⟩ := hl2
          rw [List.mem_map] at hl1
          obtain ⟨piece, hpiece, rfl⟩ := hl1
          rw [List.mem_map] at hl2m
          obtain ⟨o, ho, rfl⟩ := hl2m
          rw [mem_squaresOf] at ho
          obtain ⟨ho64, hobit⟩ := ho
          obtain ⟨hopt, hoc⟩ := testBit_land_both hobit
          have hp6 : piece < 6 := by
            simp only [QUEEN, ROOK, BISHOP, KNIGHT, List.mem_cons,
              List.not_mem_nil, or_false] at hpiece
            omega
          refine pushPieceMoves_WF b hL hR piece o _ hp6 ho64 hopt hoc ?_ m hmm
          intro d hd hbit
          split_ifs at hbit <;>
            first
              | exact hld_prop _ d hd hbit
              | exact hthem d hd hbit
              | exact hld_prop _ d hd (testBit_land_both hbit).1
              | exact hthem d hd (testBit_land_both hbit).1
        · -- free pawn moves
          rcases Decidable.em (Nat.xor
              (Nat.land (b.pieces.pieceType PAWN) (b.pieces.color b.toMove))
              (Nat.land (Nat.land (b.pieces.pieceType PAWN) (b.pieces.color b.toMove))
                b.findPinned) ≠ 0) with hfree | hfree
          swap
          · rw [if_neg hfree] at hfp
            exact absurd hfp (List.not_mem_nil m)
          rw [if_pos hfree] at hfp
          refine pushPawnMoves_WF b hL hR _ _ _ ?_ ?_ m hfp
          · intro s hs
            exact hallpawns_sub s (xor_land_sub hs)
          · exact xor_lt _ _ (land_lt_left _ _ hPB)
              (land_lt_left _ _ (land_lt_left _ _ hPB))
      · -- pinned pawn moves
        simp only [List.mem_flatten] at hpinp
        obtain ⟨l1, hl1, hmm⟩ := hpinp
        rw [List.mem_map] at hl1
        obtain ⟨ps, hps, rfl⟩ := hl1
        rw [mem_squaresOf] at hps
        obtain ⟨hps64, hpsbit⟩ := hps
        refine pushPawnMoves_WF b hL hR _ _ _ ?_ ?_ m hmm
        · intro s hs
          have hsps := singleton_testBit hs
          rw [hsps]
          exact hallpawns_sub ps (testBit_land_both hpsbit).1
        · rw [Nat.one_shiftLeft, B64_pow]
          exact Nat.pow_lt_pow_right (by norm_num) hps64
    · -- castling moves
      rcases Decidable.em ((all = true ∨ b.checkers ≠ 0) ∧ b.checkers = 0)
        with hgen | hgen
      swap
      · rw [if_neg hgen] at hcast
        exact absurd hcast (List.not_mem_nil m)
      rw [if_pos hgen] at hcast
      simp only [List.mem_flatten] at hcast
      obtain ⟨l1, hl1, hmm⟩ := hcast
      rw [List.mem_map] at hl1
      obtain ⟨side, hside, rfl⟩ := hl1
      have hside' : side = QUEENSIDE ∨ side = KINGSIDE := by
        simp only [List.mem_cons, List.not_mem_nil, or_false] at hside
        exact hside
      rcases Decidable.em (b.castlingObstacles side = 0) with hobs | hobs
      swap
      · rw [if_neg hobs] at hmm
        exact absurd hmm (List.not_mem_nil m)
      rw [if_pos hobs] at hmm
      rw [List.mem_singleton] at hmm
      subst hmm
      exact castlingMove_WF b hL hR side hside' hobs
  · -- king moves
    refine pushPieceMoves_WF b hL hR KING b.kingSquare _ (by norm_num [KING])
      hks64 hkpt hkcol ?_ m hking
    intro d hd hbit
    split_ifs at hbit
    · exact (comp64_bit hd).mp hbit
    · exact hthem d hd hbit

-- ======================================================================
-- C1: make/unmake round-trip
-- ======================================================================

/-- C1.  Make/unmake round-trip: for every legal (and machine-range)
board position and every move `m` the generator emits for it (with
either value of the `all` flag), if `do_move(m)` succeeds then
`undo_move(m)` restores the position exactly -- piece placement, side
to move, castling rights, en-passant file and occupancy are all equal
to their values before the move -- and consequently the checkers
bitboard observed through `checkers()` is restored as well. -/
theorem make_unmake_roundtrip (b : Board) (m : Move) (hL : b.isLegal = true)
    (hR : b.inRange) (all : Bool) (hm : m ∈ b.generateMoves all)
    (hsome : (b.doMove m).1 ≠ none) :
    ((b.doMove m).2).undoMove m = b ∧
    (((b.doMove m).2).undoMove m).checkers = b.checkers := by
  have hWF := generateMoves_WF b hL hR all m hm
  unfold Board.doMove at hsome ⊢
  split_ifs at hsome ⊢ with h1 h2 h3
  · exact absurd rfl hsome
  · exact absurd rfl hsome
  · exact absurd rfl hsome
  · have h := doMoveApplied_undoMove b m hL hR hWF
    exact ⟨h, by rw [h]⟩

/-- Witness for C1 at concrete inputs: in `bFix` the generated quiet
king move h1-g1 is accepted by `do_move`, and `undo_move` restores
`bFix` exactly. -/
theorem make_unmake_roundtrip_witness :
    bFix.isLegal = true ∧ bFix.inRange ∧ mKg1 ∈ bFix.generateMoves true ∧
    (bFix.doMove mKg1).1 ≠ none ∧ ((bFix.doMove mKg1).2).undoMove mKg1 = bFix :=
  ⟨by decide, by decide, by decide, by decide,
   (make_unmake_roundtrip bFix mKg1 (by decide) (by decide) true (by decide)
     (by decide)).1⟩

-- ======================================================================
-- Xor-fold toolkit for the Zobrist hash (C2 development)
-- ======================================================================

/-- The xor of `f s` over the set bits `s` of the 64-bit bitboard `x`:
the value each inner loop of `Board::calc_hash` accumulates. -/
def xorFold (f : Nat → Nat) (x : Nat) : Nat :=
  (squaresOf x).foldl (fun a s => Nat.xor a (f s)) 0

theorem xor_lcomm (a b c : Nat) : Nat.xor a (Nat.xor b c) = Nat.xor b (Nat.xor a c) := by
  simp only [xor_eq]
  rw [← Nat.xor_assoc, Nat.xor_comm a b, Nat.xor_assoc]

theorem xor_cancel (a b : Nat) : Nat.xor a (Nat.xor a b) = b := by
  simp only [xor_eq]
  rw [← Nat.xor_assoc, Nat.xor_self, Nat.zero_xor]

theorem foldl_xor_shift (f : Nat → Nat) (l : List Nat) (a : Nat) :
    l.foldl (fun acc s => Nat.xor acc (f s)) a
      = Nat.xor a (l.foldl (fun acc s => Nat.xor acc (f s)) 0) := by
  induction l generalizing a with
  | nil => simp [List.foldl_nil, xor_eq, Nat.xor_zero]
  | cons x xs ih =>
    simp only [List.foldl_cons]
    rw [ih (Nat.xor a (f x)), ih (Nat.xor 0 (f x))]
    simp only [xor_eq]
    rw [Nat.zero_xor, Nat.xor_assoc]

/-- An accumulator-threaded xor loop over one bitboard, rewritten to its
`xorFold`. -/
theorem foldl_to_xorFold (f : Nat → Nat) (x a : Nat) :
    (squaresOf x).foldl (fun acc s => Nat.xor acc (f s)) a = Nat.xor a (xorFold f x) :=
  foldl_xor_shift f (squaresOf x) a

/-- Flipping one listed bit off xors the corresponding key out of a
filtered xor fold. -/
theorem filter_foldl_flip (f : Nat → Nat) (x y s : Nat) (l : List Nat)
    (hnd : l.Nodup) (hmem : s ∈ l)
    (hxy : ∀ i ∈ l, i ≠ s → y.testBit i = x.testBit i)
    (hx : x.testBit s = true) (hy : y.testBit s = false) :
    (l.filter (fun i => y.testBit i)).foldl (fun a i => Nat.xor a (f i)) 0
      = Nat.xor ((l.filter (fun i => x.testBit i)).foldl (fun a i => Nat.xor a (f i)) 0)
        (f s) := by
  induction l with
  | nil => cases hmem
  | cons a l ih =>
    rw [List.nodup_cons] at hnd
    rcases List.mem_cons.mp hmem with rfl | hsl
    · have hfeq : l.filter (fun i => y.testBit i) = l.filter (fun i => x.testBit i) :=
        List.filter_congr (fun i hi => by
          rw [hxy i (List.mem_cons_of_mem _ hi) (fun h => hnd.1 (h ▸ hi))])
      rw [List.filter_cons, List.filter_cons, hx, hy]
      simp only [Bool.false_eq_true, reduceIte]
      rw [hfeq, List.foldl_cons,
        foldl_xor_shift f (List.filter (fun i => x.testBit i) l) (Nat.xor 0 (f s))]
      simp only [xor_eq, Nat.zero_xor]
      rw [Nat.xor_comm (f s) _, Nat.xor_assoc, Nat.xor_self, Nat.xor_zero]
    · have has : a ≠ s := fun h => hnd.1 (h ▸ hsl)
      have hba : y.testBit a = x.testBit a :=
        hxy a (List.mem_cons_self a l) has
      have hxy' : ∀ i ∈ l, i ≠ s → y.testBit i = x.testBit i :=
        fun i hi hne => hxy i (List.mem_cons_of_mem _ hi) hne
      rw [List.filter_cons, List.filter_cons, hba]
      cases hxa : x.testBit a with
      | false =>
        simp only [hxa, Bool.false_eq_true, reduceIte]
        exact ih hnd.2 hsl hxy'
      | true =>
        simp only [hxa, reduceIte]
        rw [List.foldl_cons, List.foldl_cons,
          foldl_xor_shift f (List.filter (fun i => y.testBit i) l) (Nat.xor 0 (f a)),
          foldl_xor_shift f (List.filter (fun i => x.testBit i) l) (Nat.xor 0 (f a)),
          ih hnd.2 hsl hxy']
        simp only [xor_eq, Nat.zero_xor]
        rw [Nat.xor_assoc]

/-- Flipping one bit below 64 xors the key of that bit into the fold. -/
theorem xorFold_flipb (f : Nat → Nat) (x y s : Nat) (hs : s < 64)
    (hxy : ∀ i, i < 64 → i ≠ s → y.testBit i = x.testBit i)
    (hb : y.testBit s = !x.testBit s) :
    xorFold f y = Nat.xor (xorFold f x) (f s) := by
  cases hxs : x.testBit s with
  | true =>
    rw [hxs] at hb
    exact filter_foldl_flip f x y s (List.range 64) (List.nodup_range 64)
      (List.mem_range.mpr hs) (fun i hi hne => hxy i (List.mem_range.mp hi) hne)
      hxs (by simpa using hb)
  | false =>
    have h := filter_foldl_flip f y x s (List.range 64) (List.nodup_range 64)
      (List.mem_range.mpr hs)
      (fun i hi hne => (hxy i (List.mem_range.mp hi) hne).symm)
      (by rw [hb, hxs]; rfl) hxs
    show (squaresOf y).foldl (fun a i => Nat.xor a (f i)) 0
      = Nat.xor ((squaresOf x).foldl (fun a i => Nat.xor a (f i)) 0) (f s)
    have h' : (squaresOf x).foldl (fun a i => Nat.xor a (f i)) 0
        = Nat.xor ((squaresOf y).foldl (fun a i => Nat.xor a (f i)) 0) (f s) := h
    rw [h']
    simp only [xor_eq]
    rw [Nat.xor_assoc, Nat.xor_self, Nat.xor_zero]

/-- A fold over a bitboard only depends on the bits below 64. -/
theorem xorFold_congr (f : Nat → Nat) (x y : Nat)
    (hxy : ∀ i, i < 64 → y.testBit i = x.testBit i) : xorFold f y = xorFold f x := by
  unfold xorFold squaresOf
  congr 1
  exact List.filter_congr (fun i hi => by rw [hxy i (List.mem_range.mp hi)])

/-- Flipping two distinct bits below 64 xors both keys into the fold. -/
theorem xorFold_flip2 (f : Nat → Nat) (x y s t : Nat) (hs : s < 64) (ht : t < 64)
    (hst : s ≠ t)
    (hxy : ∀ i, i < 64 → i ≠ s → i ≠ t → y.testBit i = x.testBit i)
    (hbs : y.testBit s = !x.testBit s) (hbt : y.testBit t = !x.testBit t) :
    xorFold f y = Nat.xor (Nat.xor (xorFold f x) (f s)) (f t) := by
  have hw : ∀ i, (Nat.xor x (1 <<< s)).testBit i
      = ((x.testBit i).xor (decide (s = i))) := fun i => by rw [nf_xor, nf_pow]
  have h1 : xorFold f (Nat.xor x (1 <<< s)) = Nat.xor (xorFold f x) (f s) :=
    xorFold_flipb f x _ s hs
      (fun i hi hne => by
        rw [hw i]
        simp [show ¬(s = i) from fun h => hne h.symm])
      (by rw [hw s]; simp [Bool.xor_true])
  have h2 : xorFold f y = Nat.xor (xorFold f (Nat.xor x (1 <<< s))) (f t) :=
    xorFold_flipb f _ y t ht
      (fun i hi hne => by
        rw [hw i]
        by_cases his : i = s
        · subst his
          rw [hbs]
          simp [Bool.xor_true]
        · rw [hxy i hi his hne]
          simp [show ¬(s = i) from fun h => his h.symm])
      (by
        rw [hw t, hbt]
        simp [show ¬(s = t) from hst])
  rw [h2, h1]

/-- The piece-square part of `Board::calc_hash`: the xor over all
(color, piece) pairs of the xor fold of that pair's Zobrist keys over
its occupied squares, in the loop order of the source. -/
def placementHash (z : ZobristArrays) (pp : PiecesPlacement) : Nat :=
  Nat.xor (Nat.xor (Nat.xor (Nat.xor (Nat.xor (Nat.xor (Nat.xor (Nat.xor (Nat.xor (Nat.xor (Nat.xor (Nat.xor (0)
    (xorFold (z.pieces WHITE KING) (Nat.land (pp.color WHITE) (pp.pieceType KING))))
    (xorFold (z.pieces WHITE QUEEN) (Nat.land (pp.color WHITE) (pp.pieceType QUEEN))))
    (xorFold (z.pieces WHITE ROOK) (Nat.land (pp.color WHITE) (pp.pieceType ROOK))))
    (xorFold (z.pieces WHITE BISHOP) (Nat.land (pp.color WHITE) (pp.pieceType BISHOP))))
    (xorFold (z.pieces WHITE KNIGHT) (Nat.land (pp.color WHITE) (pp.pieceType KNIGHT))))
    (xorFold (z.pieces WHITE PAWN) (Nat.land (pp.color WHITE) (pp.pieceType PAWN))))
    (xorFold (z.pieces BLACK KING) (Nat.land (pp.color BLACK) (pp.pieceType KING))))
    (xorFold (z.pieces BLACK QUEEN) (Nat.land (pp.color BLACK) (pp.pieceType QUEEN))))
    (xorFold (z.pieces BLACK ROOK) (Nat.land (pp.color BLACK) (pp.pieceType ROOK))))
    (xorFold (z.pieces BLACK BISHOP) (Nat.land (pp.color BLACK) (pp.pieceType BISHOP))))
    (xorFold (z.pieces BLACK KNIGHT) (Nat.land (pp.color BLACK) (pp.pieceType KNIGHT))))
    (xorFold (z.pieces BLACK PAWN) (Nat.land (pp.color BLACK) (pp.pieceType PAWN)))

/-- `Board::calc_hash` decomposed into the placement hash and the three
side keys. -/
theorem calcHash_expand (b : Board) :
    b.calcHash =
      if b.toMove = BLACK then
        Nat.xor (Nat.xor (Nat.xor (placementHash b.zobrist b.pieces)
          (b.zobrist.castling b.castling)) (b.zobrist.enPassantFile b.enPassantFile))
          b.zobrist.toMove
      else
        Nat.xor (Nat.xor (placementHash b.zobrist b.pieces)
          (b.zobrist.castling b.castling)) (b.zobrist.enPassantFile b.enPassantFile) := by
  unfold Board.calcHash placementHash
  simp only [List.foldl_cons, List.foldl_nil, foldl_to_xorFold]

theorem xor_comm2 (a b : Nat) : Nat.xor a b = Nat.xor b a := by
  simp only [xor_eq]
  exact Nat.xor_comm a b

theorem xor_assoc2 (a b c : Nat) : Nat.xor (Nat.xor a b) c = Nat.xor a (Nat.xor b c) := by
  simp only [xor_eq]
  exact Nat.xor_assoc a b c

theorem xor_zero2 (a : Nat) : Nat.xor a 0 = a := Nat.xor_zero a

theorem zero_xor2 (a : Nat) : Nat.xor 0 a = a := Nat.zero_xor a

theorem xor_self2 (a : Nat) : Nat.xor a a = 0 := Nat.xor_self a

theorem chainF1_1 (A1 A2 A3 A4 A5 A6 A7 A8 A9 A10 A11 A12 K : Nat) :
    Nat.xor (Nat.xor (Nat.xor (Nat.xor (Nat.xor (Nat.xor (Nat.xor (Nat.xor (Nat.xor (Nat.xor (Nat.xor (Nat.xor (0) (Nat.xor A1 K)) (A2)) (A3)) (A4)) (A5)) (A6)) (A7)) (A8)) (A9)) (A10)) (A11)) (A12)
      = Nat.xor (Nat.xor (Nat.xor (Nat.xor (Nat.xor (Nat.xor (Nat.xor (Nat.xor (Nat.xor (Nat.xor (Nat.xor (Nat.xor (Nat.xor (0) (A1)) (A2)) (A3)) (A4)) (A5)) (A6)) (A7)) (A8)) (A9)) (A10)) (A11)) (A12)) K := by
  simp only [xor_assoc2, xor_comm2, xor_lcomm, xor_zero2, zero_xor2]

theorem chainF2_1 (A1 A2 A3 A4 A5 A6 A7 A8 A9 A10 A11 A12 K L : Nat) :
    Nat.xor (Nat.xor (Nat.xor (Nat.xor (Nat.xor (Nat.xor (Nat.xor (Nat.xor (Nat.xor (Nat.xor (Nat.xor (Nat.xor (0) (Nat.xor (Nat.xor A1 K) L)) (A2)) (A3)) (A4)) (A5)) (A6)) (A7)) (A8)) (A9)) (A10)) (A11)) (A12)
      = Nat.xor (Nat.xor (Nat.xor (Nat.xor (Nat.xor (Nat.xor (Nat.xor (Nat.xor (Nat.xor (Nat.xor (Nat.xor (Nat.xor (Nat.xor (Nat.xor (0) (A1)) (A2)) (A3)) (A4)) (A5)) (A6)) (A7)) (A8)) (A9)) (A10)) (A11)) (A12)) K) L := by
  simp only [xor_assoc2, xor_comm2, xor_lcomm, xor_zero2, zero_xor2]

theorem chainF1_2 (A1 A2 A3 A4 A5 A6 A7 A8 A9 A10 A11 A12 K : Nat) :
    Nat.xor (Nat.xor (Nat.xor (Nat.xor (Nat.xor (Nat.xor (Nat.xor (Nat.xor (Nat.xor (Nat.xor (Nat.xor (Nat.xor (0) (A1)) (Nat.xor A2 K)) (A3)) (A4)) (A5)) (A6)) (A7)) (A8)) (A9)) (A10)) (A11)) (A12)
      = Nat.xor (Nat.xor (Nat.xor (Nat.xor (Nat.xor (Nat.xor (Nat.xor (Nat.xor (Nat.xor (Nat.xor (Nat.xor (Nat.xor (Nat.xor (0) (A1)) (A2)) (A3)) (A4)) (A5)) (A6)) (A7)) (A8)) (A9)) (A10)) (A11)) (A12)) K := by
  simp only [xor_assoc2, xor_comm2, xor_lcomm, xor_zero2, zero_xor2]

theorem chainF2_2 (A1 A2 A3 A4 A5 A6 A7 A8 A9 A10 A11 A12 K L : Nat) :
    Nat.xor (Nat.xor (Nat.xor (Nat.xor (Nat.xor (Nat.xor (Nat.xor (Nat.xor (Nat.xor (Nat.xor (Nat.xor (Nat.xor (0) (A1)) (Nat.xor (Nat.xor A2 K) L)) (A3)) (A4)) (A5)) (A6)) (A7)) (A8)) (A9)) (A10)) (A11)) (A12)
      = Nat.xor (Nat.xor (Nat.xor (Nat.xor (Nat.xor (Nat.xor (Nat.xor (Nat.xor (Nat.xor (Nat.xor (Nat.xor (Nat.xor (Nat.xor (Nat.xor (0) (A1)) (A2)) (A3)) (A4)) (A5)) (A6)) (A7)) (A8)) (A9)) (A10)) (A11)) (A12)) K) L := by
  simp only [xor_assoc2, xor_comm2, xor_lcomm, xor_zero2, zero_xor2]

theorem chainF1_3 (A1 A2 A3 A4 A5 A6 A7 A8 A9 A10 A11 A12 K : Nat) :
    Nat.xor (Nat.xor (Nat.xor (Nat.xor (Nat.xor (Nat.xor (Nat.xor (Nat.xor (Nat.xor (Nat.xor (Nat.xor (Nat.xor (0) (A1)) (A2)) (Nat.xor A3 K)) (A4)) (A5)) (A6)) (A7)) (A8)) (A9)) (A10)) (A11)) (A12)
      = Nat.xor (Nat.xor (Nat.xor (Nat.xor (Nat.xor (Nat.xor (Nat.xor (Nat.xor (Nat.xor (Nat.xor (Nat.xor (Nat.xor (Nat.xor (0) (A1)) (A2)) (A3)) (A4)) (A5)) (A6)) (A7)) (A8)) (A9)) (A10)) (A11)) (A12)) K := by
  simp only [xor_assoc2, xor_comm2, xor_lcomm, xor_zero2, zero_xor2]

theorem chainF2_3 (A1 A2 A3 A4 A5 A6 A7 A8 A9 A10 A11 A12 K L : Nat) :
    Nat.xor (Nat.xor (Nat.xor (Nat.xor (Nat.xor (Nat.xor (Nat.xor (Nat.xor (Nat.xor (Nat.xor (Nat.xor (Nat.xor (0) (A1)) (A2)) (Nat.xor (Nat.xor A3 K) L)) (A4)) (A5)) (A6)) (A7)) (A8)) (A9)) (A10)) (A11)) (A12)
      = Nat.xor (Nat.xor (Nat.xor (Nat.xor (Nat.xor (Nat.xor (Nat.xor (Nat.xor (Nat.xor (Nat.xor (Nat.xor (Nat.xor (Nat.xor (Nat.xor (0) (A1)) (A2)) (A3)) (A4)) (A5)) (A6)) (A7)) (A8)) (A9)) (A10)) (A11)) (A12)) K) L := by
  simp only [xor_assoc2, xor_comm2, xor_lcomm, xor_zero2, zero_xor2]

theorem chainF1_4 (A1 A2 A3 A4 A5 A6 A7 A8 A9 A10 A11 A12 K : Nat) :
    Nat.xor (Nat.xor (Nat.xor (Nat.xor (Nat.xor (Nat.xor (Nat.xor (Nat.xor (Nat.xor (Nat.xor (Nat.xor (Nat.xor (0) (A1)) (A2)) (A3)) (Nat.xor A4 K)) (A5)) (A6)) (A7)) (A8)) (A9)) (A10)) (A11)) (A12)
      = Nat.xor (Nat.xor (Nat.xor (Nat.xor (Nat.xor (Nat.xor (Nat.xor (Nat.xor (Nat.xor (Nat.xor (Nat.xor (Nat.xor (Nat.xor (0) (A1)) (A2)) (A3)) (A4)) (A5)) (A6)) (A7)) (A8)) (A9)) (A10)) (A11)) (A12)) K := by
  simp only [xor_assoc2, xor_comm2, xor_lcomm, xor_zero2, zero_xor2]

theorem chainF2_4 (A1 A2 A3 A4 A5 A6 A7 A8 A9 A10 A11 A12 K L : Nat) :
    Nat.xor (Nat.xor (Nat.xor (Nat.xor (Nat.xor (Nat.xor (Nat.xor (Nat.xor (Nat.xor (Nat.xor (Nat.xor (Nat.xor (0) (A1)) (A2)) (A3)) (Nat.xor (Nat.xor A4 K) L)) (A5)) (A6)) (A7)) (A8)) (A9)) (A10)) (A11)) (A12)
      = Nat.xor (Nat.xor (Nat.xor (Nat.xor (Nat.xor (Nat.xor (Nat.xor (Nat.xor (Nat.xor (Nat.xor (Nat.xor (Nat.xor (Nat.xor (Nat.xor (0) (A1)) (A2)) (A3)) (A4)) (A5)) (A6)) (A7)) (A8)) (A9)) (A10)) (A11)) (A12)) K) L := by
  simp only [xor_assoc2, xor_comm2, xor_lcomm, xor_zero2, zero_xor2]

theorem chainF1_5 (A1 A2 A3 A4 A5 A6 A7 A8 A9 A10 A11 A12 K : Nat) :
    Nat.xor (Nat.xor (Nat.xor (Nat.xor (Nat.xor (Nat.xor (Nat.xor (Nat.xor (Nat.xor (Nat.xor (Nat.xor (Nat.xor (0) (A1)) (A2)) (A3)) (A4)) (Nat.xor A5 K)) (A6)) (A7)) (A8)) (A9)) (A10)) (A11)) (A12)
      = Nat.xor (Nat.xor (Nat.xor (Nat.xor (Nat.xor (Nat.xor (Nat.xor (Nat.xor (Nat.xor (Nat.xor (Nat.xor (Nat.xor (Nat.xor (0) (A1)) (A2)) (A3)) (A4)) (A5)) (A6)) (A7)) (A8)) (A9)) (A10)) (A11)) (A12)) K := by
  simp only [xor_assoc2, xor_comm2, xor_lcomm, xor_zero2, zero_xor2]

theorem chainF2_5 (A1 A2 A3 A4 A5 A6 A7 A8 A9 A10 A11 A12 K L : Nat) :
    Nat.xor (Nat.xor (Nat.xor (Nat.xor (Nat.xor (Nat.xor (Nat.xor (Nat.xor (Nat.xor (Nat.xor (Nat.xor (Nat.xor (0) (A1)) (A2)) (A3)) (A4)) (Nat.xor (Nat.xor A5 K) L)) (A6)) (A7)) (A8)) (A9)) (A10)) (A11)) (A12)
      = Nat.xor (Nat.xor (Nat.xor (Nat.xor (Nat.xor (Nat.xor (Nat.xor (Nat.xor (Nat.xor (Nat.xor (Nat.xor (Nat.xor (Nat.xor (Nat.xor (0) (A1)) (A2)) (A3)) (A4)) (A5)) (A6)) (A7)) (A8)) (A9)) (A10)) (A11)) (A12)) K) L := by
  simp only [xor_assoc2, xor_comm2, xor_lcomm, xor_zero2, zero_xor2]

theorem chainF1_6 (A1 A2 A3 A4 A5 A6 A7 A8 A9 A10 A11 A12 K : Nat) :
    Nat.xor (Nat.xor (Nat.xor (Nat.xor (Nat.xor (Nat.xor (Nat.xor (Nat.xor (Nat.xor (Nat.xor (Nat.xor (Nat.xor (0) (A1)) (A2)) (A3)) (A4)) (A5)) (Nat.xor A6 K)) (A7)) (A8)) (A9)) (A10)) (A11)) (A12)
      = Nat.xor (Nat.xor (Nat.xor (Nat.xor (Nat.xor (Nat.xor (Nat.xor (Nat.xor (Nat.xor (Nat.xor (Nat.xor (Nat.xor (Nat.xor (0) (A1)) (A2)) (A3)) (A4)) (A5)) (A6)) (A7)) (A8)) (A9)) (A10)) (A11)) (A12)) K := by
  simp only [xor_assoc2, xor_comm2, xor_lcomm, xor_zero2, zero_xor2]

theorem chainF2_6 (A1 A2 A3 A4 A5 A6 A7 A8 A9 A10 A11 A12 K L : Nat) :
    Nat.xor (Nat.xor (Nat.xor (Nat.xor (Nat.xor (Nat.xor (Nat.xor (Nat.xor (Nat.xor (Nat.xor (Nat.xor (Nat.xor (0) (A1)) (A2)) (A3)) (A4)) (A5)) (Nat.xor (Nat.xor A6 K) L)) (A7)) (A8)) (A9)) (A10)) (A11)) (A12)
      = Nat.xor (Nat.xor (Nat.xor (Nat.xor (Nat.xor (Nat.xor (Nat.xor (Nat.xor (Nat.xor (Nat.xor (Nat.xor (Nat.xor (Nat.xor (Nat.xor (0) (A1)) (A2)) (A3)) (A4)) (A5)) (A6)) (A7)) (A8)) (A9)) (A10)) (A11)) (A12)) K) L := by
  simp only [xor_assoc2, xor_comm2, xor_lcomm, xor_zero2, zero_xor2]

theorem chainF1_7 (A1 A2 A3 A4 A5 A6 A7 A8 A9 A10 A11 A12 K : Nat) :
    Nat.xor (Nat.xor (Nat.xor (Nat.xor (Nat.xor (Nat.xor (Nat.xor (Nat.xor (Nat.xor (Nat.xor (Nat.xor (Nat.xor (0) (A1)) (A2)) (A3)) (A4)) (A5)) (A6)) (Nat.xor A7 K)) (A8)) (A9)) (A10)) (A11)) (A12)
      = Nat.xor (Nat.xor (Nat.xor (Nat.xor (Nat.xor (Nat.xor (Nat.xor (Nat.xor (Nat.xor (Nat.xor (Nat.xor (Nat.xor (Nat.xor (0) (A1)) (A2)) (A3)) (A4)) (A5)) (A6)) (A7)) (A8)) (A9)) (A10)) (A11)) (A12)) K := by
  simp only [xor_assoc2, xor_comm2, xor_lcomm, xor_zero2, zero_xor2]

theorem chainF2_7 (A1 A2 A3 A4 A5 A6 A7 A8 A9 A10 A11 A12 K L : Nat) :
    Nat.xor (Nat.xor (Nat.xor (Nat.xor (Nat.xor (Nat.xor (Nat.xor (Nat.xor (Nat.xor (Nat.xor (Nat.xor (Nat.xor (0) (A1)) (A2)) (A3)) (A4)) (A5)) (A6)) (Nat.xor (Nat.xor A7 K) L)) (A8)) (A9)) (A10)) (A11)) (A12)
      = Nat.xor (Nat.xor (Nat.xor (Nat.xor (Nat.xor (Nat.xor (Nat.xor (Nat.xor (Nat.xor (Nat.xor (Nat.xor (Nat.xor (Nat.xor (Nat.xor (0) (A1)) (A2)) (A3)) (A4)) (A5)) (A6)) (A7)) (A8)) (A9)) (A10)) (A11)) (A12)) K) L := by
  simp only [xor_assoc2, xor_comm2, xor_lcomm, xor_zero2, zero_xor2]

theorem chainF1_8 (A1 A2 A3 A4 A5 A6 A7 A8 A9 A10 A11 A12 K : Nat) :
    Nat.xor (Nat.xor (Nat.xor (Nat.xor (Nat.xor (Nat.xor (Nat.xor (Nat.xor (Nat.xor (Nat.xor (Nat.xor (Nat.xor (0) (A1)) (A2)) (A3)) (A4)) (A5)) (A6)) (A7)) (Nat.xor A8 K)) (A9)) (A10)) (A11)) (A12)
      = Nat.xor (Nat.xor (Nat.xor (Nat.xor (Nat.xor (Nat.xor (Nat.xor (Nat.xor (Nat.xor (Nat.xor (Nat.xor (Nat.xor (Nat.xor (0) (A1)) (A2)) (A3)) (A4)) (A5)) (A6)) (A7)) (A8)) (A9)) (A10)) (A11)) (A12)) K := by
  simp only [xor_assoc2, xor_comm2, xor_lcomm, xor_zero2, zero_xor2]

theorem chainF2_8 (A1 A2 A3 A4 A5 A6 A7 A8 A9 A10 A11 A12 K L : Nat) :
    Nat.xor (Nat.xor (Nat.xor (Nat.xor (Nat.xor (Nat.xor (Nat.xor (Nat.xor (Nat.xor (Nat.xor (Nat.xor (Nat.xor (0) (A1)) (A2)) (A3)) (A4)) (A5)) (A6)) (A7)) (Nat.xor (Nat.xor A8 K) L)) (A9)) (A10)) (A11)) (A12)
      = Nat.xor (Nat.xor (Nat.xor (Nat.xor (Nat.xor (Nat.xor (Nat.xor (Nat.xor (Nat.xor (Nat.xor (Nat.xor (Nat.xor (Nat.xor (Nat.xor (0) (A1)) (A2)) (A3)) (A4)) (A5)) (A6)) (A7)) (A8)) (A9)) (A10)) (A11)) (A12)) K) L := by
  simp only [xor_assoc2, xor_comm2, xor_lcomm, xor_zero2, zero_xor2]

theorem chainF1_9 (A1 A2 A3 A4 A5 A6 A7 A8 A9 A10 A11 A12 K : Nat) :
    Nat.xor (Nat.xor (Nat.xor (Nat.xor (Nat.xor (Nat.xor (Nat.xor (Nat.xor (Nat.xor (Nat.xor (Nat.xor (Nat.xor (0) (A1)) (A2)) (A3)) (A4)) (A5)) (A6)) (A7)) (A8)) (Nat.xor A9 K)) (A10)) (A11)) (A12)
      = Nat.xor (Nat.xor (Nat.xor (Nat.xor (Nat.xor (Nat.xor (Nat.xor (Nat.xor (Nat.xor (Nat.xor (Nat.xor (Nat.xor (Nat.xor (0) (A1)) (A2)) (A3)) (A4)) (A5)) (A6)) (A7)) (A8)) (A9)) (A10)) (A11)) (A12)) K := by
  simp only [xor_assoc2, xor_comm2, xor_lcomm, xor_zero2, zero_xor2]

theorem chainF2_9 (A1 A2 A3 A4 A5 A6 A7 A8 A9 A10 A11 A12 K L : Nat) :
    Nat.xor (Nat.xor (Nat.xor (Nat.xor (Nat.xor (Nat.xor (Nat.xor (Nat.xor (Nat.xor (Nat.xor (Nat.xor (Nat.xor (0) (A1)) (A2)) (A3)) (A4)) (A5)) (A6)) (A7)) (A8)) (Nat.xor (Nat.xor A9 K) L)) (A10)) (A11)) (A12)
      = Nat.xor (Nat.xor (Nat.xor (Nat.xor (Nat.xor (Nat.xor (Nat.xor (Nat.xor (Nat.xor (Nat.xor (Nat.xor (Nat.xor (Nat.xor (Nat.xor (0) (A1)) (A2)) (A3)) (A4)) (A5)) (A6)) (A7)) (A8)) (A9)) (A10)) (A11)) (A12)) K) L := by
  simp only [xor_assoc2, xor_comm2, xor_lcomm, xor_zero2, zero_xor2]

theorem chainF1_10 (A1 A2 A3 A4 A5 A6 A7 A8 A9 A10 A11 A12 K : Nat) :
    Nat.xor (Nat.xor (Nat.xor (Nat.xor (Nat.xor (Nat.xor (Nat.xor (Nat.xor (Nat.xor (Nat.xor (Nat.xor (Nat.xor (0) (A1)) (A2)) (A3)) (A4)) (A5)) (A6)) (A7)) (A8)) (A9)) (Nat.xor A10 K)) (A11)) (A12)
      = Nat.xor (Nat.xor (Nat.xor (Nat.xor (Nat.xor (Nat.xor (Nat.xor (Nat.xor (Nat.xor (Nat.xor (Nat.xor (Nat.xor (Nat.xor (0) (A1)) (A2)) (A3)) (A4)) (A5)) (A6)) (A7)) (A8)) (A9)) (A10)) (A11)) (A12)) K := by
  simp only [xor_assoc2, xor_comm2, xor_lcomm, xor_zero2, zero_xor2]

theorem chainF2_10 (A1 A2 A3 A4 A5 A6 A7 A8 A9 A10 A11 A12 K L : Nat) :
    Nat.xor (Nat.xor (Nat.xor (Nat.xor (Nat.xor (Nat.xor (Nat.xor (Nat.xor (Nat.xor (Nat.xor (Nat.xor (Nat.xor (0) (A1)) (A2)) (A3)) (A4)) (A5)) (A6)) (A7)) (A8)) (A9)) (Nat.xor (Nat.xor A10 K) L)) (A11)) (A12)
      = Nat.xor (Nat.xor (Nat.xor (Nat.xor (Nat.xor (Nat.xor (Nat.xor (Nat.xor (Nat.xor (Nat.xor (Nat.xor (Nat.xor (Nat.xor (Nat.xor (0) (A1)) (A2)) (A3)) (A4)) (A5)) (A6)) (A7)) (A8)) (A9)) (A10)) (A11)) (A12)) K) L := by
  simp only [xor_assoc2, xor_comm2, xor_lcomm, xor_zero2, zero_xor2]

theorem chainF1_11 (A1 A2 A3 A4 A5 A6 A7 A8 A9 A10 A11 A12 K : Nat) :
    Nat.xor (Nat.xor (Nat.xor (Nat.xor (Nat.xor (Nat.xor (Nat.xor (Nat.xor (Nat.xor (Nat.xor (Nat.xor (Nat.xor (0) (A1)) (A2)) (A3)) (A4)) (A5)) (A6)) (A7)) (A8)) (A9)) (A10)) (Nat.xor A11 K)) (A12)
      = Nat.xor (Nat.xor (Nat.xor (Nat.xor (Nat.xor (Nat.xor (Nat.xor (Nat.xor (Nat.xor (Nat.xor (Nat.xor (Nat.xor (Nat.xor (0) (A1)) (A2)) (A3)) (A4)) (A5)) (A6)) (A7)) (A8)) (A9)) (A10)) (A11)) (A12)) K := by
  simp only [xor_assoc2, xor_comm2, xor_lcomm, xor_zero2, zero_xor2]

theorem chainF2_11 (A1 A2 A3 A4 A5 A6 A7 A8 A9 A10 A11 A12 K L : Nat) :
    Nat.xor (Nat.xor (Nat.xor (Nat.xor (Nat.xor (Nat.xor (Nat.xor (Nat.xor (Nat.xor (Nat.xor (Nat.xor (Nat.xor (0) (A1)) (A2)) (A3)) (A4)) (A5)) (A6)) (A7)) (A8)) (A9)) (A10)) (Nat.xor (Nat.xor A11 K) L)) (A12)
      = Nat.xor (Nat.xor (Nat.xor (Nat.xor (Nat.xor (Nat.xor (Nat.xor (Nat.xor (Nat.xor (Nat.xor (Nat.xor (Nat.xor (Nat.xor (Nat.xor (0) (A1)) (A2)) (A3)) (A4)) (A5)) (A6)) (A7)) (A8)) (A9)) (A10)) (A11)) (A12)) K) L := by
  simp only [xor_assoc2, xor_comm2, xor_lcomm, xor_zero2, zero_xor2]

theorem chainF1_12 (A1 A2 A3 A4 A5 A6 A7 A8 A9 A10 A11 A12 K : Nat) :
    Nat.xor (Nat.xor (Nat.xor (Nat.xor (Nat.xor (Nat.xor (Nat.xor (Nat.xor (Nat.xor (Nat.xor (Nat.xor (Nat.xor (0) (A1)) (A2)) (A3)) (A4)) (A5)) (A6)) (A7)) (A8)) (A9)) (A10)) (A11)) (Nat.xor A12 K)
      = Nat.xor (Nat.xor (Nat.xor (Nat.xor (Nat.xor (Nat.xor (Nat.xor (Nat.xor (Nat.xor (Nat.xor (Nat.xor (Nat.xor (Nat.xor (0) (A1)) (A2)) (A3)) (A4)) (A5)) (A6)) (A7)) (A8)) (A9)) (A10)) (A11)) (A12)) K := by
  simp only [xor_assoc2, xor_comm2, xor_lcomm, xor_zero2, zero_xor2]

theorem chainF2_12 (A1 A2 A3 A4 A5 A6 A7 A8 A9 A10 A11 A12 K L : Nat) :
    Nat.xor (Nat.xor (Nat.xor (Nat.xor (Nat.xor (Nat.xor (Nat.xor (Nat.xor (Nat.xor (Nat.xor (Nat.xor (Nat.xor (0) (A1)) (A2)) (A3)) (A4)) (A5)) (A6)) (A7)) (A8)) (A9)) (A10)) (A11)) (Nat.xor (Nat.xor A12 K) L)
      = Nat.xor (Nat.xor (Nat.xor (Nat.xor (Nat.xor (Nat.xor (Nat.xor (Nat.xor (Nat.xor (Nat.xor (Nat.xor (Nat.xor (Nat.xor (Nat.xor (0) (A1)) (A2)) (A3)) (A4)) (A5)) (A6)) (A7)) (A8)) (A9)) (A10)) (A11)) (A12)) K) L := by
  simp only [xor_assoc2, xor_comm2, xor_lcomm, xor_zero2, zero_xor2]

/-- Changing a placement so that exactly one (color, piece, square) land
bit flips xors that square's Zobrist key into the placement hash. -/
theorem placementHash_flip1 (z : ZobristArrays) (pp pp' : PiecesPlacement)
    (c a s : Nat) (hc : c < 2) (ha : a < 6) (hs : s < 64)
    (hsame : ∀ C P i, C < 2 → P < 6 → i < 64 → ¬(C = c ∧ P = a ∧ i = s) →
      (Nat.land (pp'.color C) (pp'.pieceType P)).testBit i
        = (Nat.land (pp.color C) (pp.pieceType P)).testBit i)
    (hflip : (Nat.land (pp'.color c) (pp'.pieceType a)).testBit s
        = !(Nat.land (pp.color c) (pp.pieceType a)).testBit s) :
    placementHash z pp' = Nat.xor (placementHash z pp) (z.pieces c a s) := by
  rcases (by omega : c = 0 ∨ c = 1) with rfl | rfl <;>
    rcases (by omega : a = 0 ∨ a = 1 ∨ a = 2 ∨ a = 3 ∨ a = 4 ∨ a = 5) with
      rfl | rfl | rfl | rfl | rfl | rfl
  · simp only [placementHash, WHITE, BLACK, KING, QUEEN, ROOK, BISHOP, KNIGHT, PAWN]
    rw [xorFold_flipb (z.pieces 0 0) (Nat.land (pp.color 0) (pp.pieceType 0))
      (Nat.land (pp'.color 0) (pp'.pieceType 0)) s hs
      (fun i hi hne => hsame 0 0 i (by norm_num) (by norm_num) hi (by simp [hne]))
      hflip]
    rw [xorFold_congr (z.pieces 0 1) (Nat.land (pp.color 0) (pp.pieceType 1))
      (Nat.land (pp'.color 0) (pp'.pieceType 1))
      (fun i hi => hsame 0 1 i (by norm_num) (by norm_num) hi (by simp))]
    rw [xorFold_congr (z.pieces 0 2) (Nat.land (pp.color 0) (pp.pieceType 2))
      (Nat.land (pp'.color 0) (pp'.pieceType 2))
      (fun i hi => hsame 0 2 i (by norm_num) (by norm_num) hi (by simp))]
    rw [xorFold_congr (z.pieces 0 3) (Nat.land (pp.color 0) (pp.pieceType 3))
      (Nat.land (pp'.color 0) (pp'.pieceType 3))
      (fun i hi => hsame 0 3 i (by norm_num) (by norm_num) hi (by simp))]
    rw [xorFold_congr (z.pieces 0 4) (Nat.land (pp.color 0) (pp.pieceType 4))
      (Nat.land (pp'.color 0) (pp'.pieceType 4))
      (fun i hi => hsame 0 4 i (by norm_num) (by norm_num) hi (by simp))]
    rw [xorFold_congr (z.pieces 0 5) (Nat.land (pp.color 0) (pp.pieceType 5))
      (Nat.land (pp'.color 0) (pp'.pieceType 5))
      (fun i hi => hsame 0 5 i (by norm_num) (by norm_num) hi (by simp))]
    rw [xorFold_congr (z.pieces 1 0) (Nat.land (pp.color 1) (pp.pieceType 0))
      (Nat.land (pp'.color 1) (pp'.pieceType 0))
      (fun i hi => hsame 1 0 i (by norm_num) (by norm_num) hi (by simp))]
    rw [xorFold_congr (z.pieces 1 1) (Nat.land (pp.color 1) (pp.pieceType 1))
      (Nat.land (pp'.color 1) (pp'.pieceType 1))
      (fun i hi => hsame 1 1 i (by norm_num) (by norm_num) hi (by simp))]
    rw [xorFold_congr (z.pieces 1 2) (Nat.land (pp.color 1) (pp.pieceType 2))
      (Nat.land (pp'.color 1) (pp'.pieceType 2))
      (fun i hi => hsame 1 2 i (by norm_num) (by norm_num) hi (by simp))]
    rw [xorFold_congr (z.pieces 1 3) (Nat.land (pp.color 1) (pp.pieceType 3))
      (Nat.land (pp'.color 1) (pp'.pieceType 3))
      (fun i hi => hsame 1 3 i (by norm_num) (by norm_num) hi (by simp))]
    rw [xorFold_congr (z.pieces 1 4) (Nat.land (pp.color 1) (pp.pieceType 4))
      (Nat.land (pp'.color 1) (pp'.pieceType 4))
      (fun i hi => hsame 1 4 i (by norm_num) (by norm_num) hi (by simp))]
    rw [xorFold_congr (z.pieces 1 5) (Nat.land (pp.color 1) (pp.pieceType 5))
      (Nat.land (pp'.color 1) (pp'.pieceType 5))
      (fun i hi => hsame 1 5 i (by norm_num) (by norm_num) hi (by simp))]
    exact chainF1_1 _ _ _ _ _ _ _ _ _ _ _ _ _
  · simp only [placementHash, WHITE, BLACK, KING, QUEEN, ROOK, BISHOP, KNIGHT, PAWN]
    rw [xorFold_flipb (z.pieces 0 1) (Nat.land (pp.color 0) (pp.pieceType 1))
      (Nat.land (pp'.color 0) (pp'.pieceType 1)) s hs
      (fun i hi hne => hsame 0 1 i (by norm_num) (by norm_num) hi (by simp [hne]))
      hflip]
    rw [xorFold_congr (z.pieces 0 0) (Nat.land (pp.color 0) (pp.pieceType 0))
      (Nat.land (pp'.color 0) (pp'.pieceType 0))
      (fun i hi => hsame 0 0 i (by norm_num) (by norm_num) hi (by simp))]
    rw [xorFold_congr (z.pieces 0 2) (Nat.land (pp.color 0) (pp.pieceType 2))
      (Nat.land (pp'.color 0) (pp'.pieceType 2))
      (fun i hi => hsame 0 2 i (by norm_num) (by norm_num) hi (by simp))]
    rw [xorFold_congr (z.pieces 0 3) (Nat.land (pp.color 0) (pp.pieceType 3))
      (Nat.land (pp'.color 0) (pp'.pieceType 3))
      (fun i hi => hsame 0 3 i (by norm_num) (by norm_num) hi (by simp))]
    rw [xorFold_congr (z.pieces 0 4) (Nat.land (pp.color 0) (pp.pieceType 4))
      (Nat.land (pp'.color 0) (pp'.pieceType 4))
      (fun i hi => hsame 0 4 i (by norm_num) (by norm_num) hi (by simp))]
    rw [xorFold_congr (z.pieces 0 5) (Nat.land (pp.color 0) (pp.pieceType 5))
      (Nat.land (pp'.color 0) (pp'.pieceType 5))
      (fun i hi => hsame 0 5 i (by norm_num) (by norm_num) hi (by simp))]
    rw [xorFold_congr (z.pieces 1 0) (Nat.land (pp.color 1) (pp.pieceType 0))
      (Nat.land (pp'.color 1) (pp'.pieceType 0))
      (fun i hi => hsame 1 0 i (by norm_num) (by norm_num) hi (by simp))]
    rw [xorFold_congr (z.pieces 1 1) (Nat.land (pp.color 1) (pp.pieceType 1))
      (Nat.land (pp'.color 1) (pp'.pieceType 1))
      (fun i hi => hsame 1 1 i (by norm_num) (by norm_num) hi (by simp))]
    rw [xorFold_congr (z.pieces 1 2) (Nat.land (pp.color 1) (pp.pieceType 2))
      (Nat.land (pp'.color 1) (pp'.pieceType 2))
      (fun i hi => hsame 1 2 i (by norm_num) (by norm_num) hi (by simp))]
    rw [xorFold_congr (z.pieces 1 3) (Nat.land (pp.color 1) (pp.pieceType 3))
      (Nat.land (pp'.color 1) (pp'.pieceType 3))
      (fun i hi => hsame 1 3 i (by norm_num) (by norm_num) hi (by simp))]
    rw [xorFold_congr (z.pieces 1 4) (Nat.land (pp.color 1) (pp.pieceType 4))
      (Nat.land (pp'.color 1) (pp'.pieceType 4))
      (fun i hi => hsame 1 4 i (by norm_num) (by norm_num) hi (by simp))]
    rw [xorFold_congr (z.pieces 1 5) (Nat.land (pp.color 1) (pp.pieceType 5))
      (Nat.land (pp'.color 1) (pp'.pieceType 5))
      (fun i hi => hsame 1 5 i (by norm_num) (by norm_num) hi (by simp))]
    exact chainF1_2 _ _ _ _ _ _ _ _ _ _ _ _ _
  · simp only [placementHash, WHITE, BLACK, KING, QUEEN, ROOK, BISHOP, KNIGHT, PAWN]
    rw [xorFold_flipb (z.pieces 0 2) (Nat.land (pp.color 0) (pp.pieceType 2))
      (Nat.land (pp'.color 0) (pp'.pieceType 2)) s hs
      (fun i hi hne => hsame 0 2 i (by norm_num) (by norm_num) hi (by simp [hne]))
      hflip]
    rw [xorFold_congr (z.pieces 0 0) (Nat.land (pp.color 0) (pp.pieceType 0))
      (Nat.land (pp'.color 0) (pp'.pieceType 0))
      (fun i hi => hsame 0 0 i (by norm_num) (by norm_num) hi (by simp))]
    rw [xorFold_congr (z.pieces 0 1) (Nat.land (pp.color 0) (pp.pieceType 1))
      (Nat.land (pp'.color 0) (pp'.pieceType 1))
      (fun i hi => hsame 0 1 i (by norm_num) (by norm_num) hi (by simp))]
    rw [xorFold_congr (z.pieces 0 3) (Nat.land (pp.color 0) (pp.pieceType 3))
      (Nat.land (pp'.color 0) (pp'.pieceType 3))
      (fun i hi => hsame 0 3 i (by norm_num) (by norm_num) hi (by simp))]
    rw [xorFold_congr (z.pieces 0 4) (Nat.land (pp.color 0) (pp.pieceType 4))
      (Nat.land (pp'.color 0) (pp'.pieceType 4))
      (fun i hi => hsame 0 4 i (by norm_num) (by norm_num) hi (by simp))]
    rw [xorFold_congr (z.pieces 0 5) (Nat.land (pp.color 0) (pp.pieceType 5))
      (Nat.land (pp'.color 0) (pp'.pieceType 5))
      (fun i hi => hsame 0 5 i (by norm_num) (by norm_num) hi (by simp))]
    rw [xorFold_congr (z.pieces 1 0) (Nat.land (pp.color 1) (pp.pieceType 0))
      (Nat.land (pp'.color 1) (pp'.pieceType 0))
      (fun i hi => hsame 1 0 i (by norm_num) (by norm_num) hi (by simp))]
    rw [xorFold_congr (z.pieces 1 1) (Nat.land (pp.color 1) (pp.pieceType 1))
      (Nat.land (pp'.color 1) (pp'.pieceType 1))
      (fun i hi => hsame 1 1 i (by norm_num) (by norm_num) hi (by simp))]
    rw [xorFold_congr (z.pieces 1 2) (Nat.land (pp.color 1) (pp.pieceType 2))
      (Nat.land (pp'.color 1) (pp'.pieceType 2))
      (fun i hi => hsame 1 2 i (by norm_num) (by norm_num) hi (by simp))]
    rw [xorFold_congr (z.pieces 1 3) (Nat.land (pp.color 1) (pp.pieceType 3))
      (Nat.land (pp'.color 1) (pp'.pieceType 3))
      (fun i hi => hsame 1 3 i (by norm_num) (by norm_num) hi (by simp))]
    rw [xorFold_congr (z.pieces 1 4) (Nat.land (pp.color 1) (pp.pieceType 4))
      (Nat.land (pp'.color 1) (pp'.pieceType 4))
      (fun i hi => hsame 1 4 i (by norm_num) (by norm_num) hi (by simp))]
    rw [xorFold_congr (z.pieces 1 5) (Nat.land (pp.color 1) (pp.pieceType 5))
      (Nat.land (pp'.color 1) (pp'.pieceType 5))
      (fun i hi => hsame 1 5 i (by norm_num) (by norm_num) hi (by simp))]
    exact chainF1_3 _ _ _ _ _ _ _ _ _ _ _ _ _
  · simp only [placementHash, WHITE, BLACK, KING, QUEEN, ROOK, BISHOP, KNIGHT, PAWN]
    rw [xorFold_flipb (z.pieces 0 3) (Nat.land (pp.color 0) (pp.pieceType 3))
      (Nat.land (pp'.color 0) (pp'.pieceType 3)) s hs
      (fun i hi hne => hsame 0 3 i (by norm_num) (by norm_num) hi (by simp [hne]))
      hflip]
    rw [xorFold_congr (z.pieces 0 0) (Nat.land (pp.color 0) (pp.pieceType 0))
      (Nat.land (pp'.color 0) (pp'.pieceType 0))
      (fun i hi => hsame 0 0 i (by norm_num) (by norm_num) hi (by simp))]
    rw [xorFold_congr (z.pieces 0 1) (Nat.land (pp.color 0) (pp.pieceType 1))
      (Nat.land (pp'.color 0) (pp'.pieceType 1))
      (fun i hi => hsame 0 1 i (by norm_num) (by norm_num) hi (by simp))]
    rw [xorFold_congr (z.pieces 0 2) (Nat.land (pp.color 0) (pp.pieceType 2))
      (Nat.land (pp'.color 0) (pp'.pieceType 2))
      (fun i hi => hsame 0 2 i (by norm_num) (by norm_num) hi (by simp))]
    rw [xorFold_congr (z.pieces 0 4) (Nat.land (pp.color 0) (pp.pieceType 4))
      (Nat.land (pp'.color 0) (pp'.pieceType 4))
      (fun i hi => hsame 0 4 i (by norm_num) (by norm_num) hi (by simp))]
    rw [xorFold_congr (z.pieces 0 5) (Nat.land (pp.color 0) (pp.pieceType 5))
      (Nat.land (pp'.color 0) (pp'.pieceType 5))
      (fun i hi => hsame 0 5 i (by norm_num) (by norm_num) hi (by simp))]
    rw [xorFold_congr (z.pieces 1 0) (Nat.land (pp.color 1) (pp.pieceType 0))
      (Nat.land (pp'.color 1) (pp'.pieceType 0))
      (fun i hi => hsame 1 0 i (by norm_num) (by norm_num) hi (by simp))]
    rw [xorFold_congr (z.pieces 1 1) (Nat.land (pp.color 1) (pp.pieceType 1))
      (Nat.land (pp'.color 1) (pp'.pieceType 1))
      (fun i hi => hsame 1 1 i (by norm_num) (by norm_num) hi (by simp))]
    rw [xorFold_congr (z.pieces 1 2) (Nat.land (pp.color 1) (pp.pieceType 2))
      (Nat.land (pp'.color 1) (pp'.pieceType 2))
      (fun i hi => hsame 1 2 i (by norm_num) (by norm_num) hi (by simp))]
    rw [xorFold_congr (z.pieces 1 3) (Nat.land (pp.color 1) (pp.pieceType 3))
      (Nat.land (pp'.color 1) (pp'.pieceType 3))
      (fun i hi => hsame 1 3 i (by norm_num) (by norm_num) hi (by simp))]
    rw [xorFold_congr (z.pieces 1 4) (Nat.land (pp.color 1) (pp.pieceType 4))
      (Nat.land (pp'.color 1) (pp'.pieceType 4))
      (fun i hi => hsame 1 4 i (by norm_num) (by norm_num) hi (by simp))]
    rw [xorFold_congr (z.pieces 1 5) (Nat.land (pp.color 1) (pp.pieceType 5))
      (Nat.land (pp'.color 1) (pp'.pieceType 5))
      (fun i hi => hsame 1 5 i (by norm_num) (by norm_num) hi (by simp))]
    exact chainF1_4 _ _ _ _ _ _ _ _ _ _ _ _ _
  · simp only [placementHash, WHITE, BLACK, KING, QUEEN, ROOK, BISHOP, KNIGHT, PAWN]
    rw [xorFold_flipb (z.pieces 0 4) (Nat.land (pp.color 0) (pp.pieceType 4))
      (Nat.land (pp'.color 0) (pp'.pieceType 4)) s hs
      (fun i hi hne => hsame 0 4 i (by norm_num) (by norm_num) hi (by simp [hne]))
      hflip]
    rw [xorFold_congr (z.pieces 0 0) (Nat.land (pp.color 0) (pp.pieceType 0))
      (Nat.land (pp'.color 0) (pp'.pieceType 0))
      (fun i hi => hsame 0 0 i (by norm_num) (by norm_num) hi (by simp))]
    rw [xorFold_congr (z.pieces 0 1) (Nat.land (pp.color 0) (pp.pieceType 1))
      (Nat.land (pp'.color 0) (pp'.pieceType 1))
      (fun i hi => hsame 0 1 i (by norm_num) (by norm_num) hi (by simp))]
    rw [xorFold_congr (z.pieces 0 2) (Nat.land (pp.color 0) (pp.pieceType 2))
      (Nat.land (pp'.color 0) (pp'.pieceType 2))
      (fun i hi => hsame 0 2 i (by norm_num) (by norm_num) hi (by simp))]
    rw [xorFold_congr (z.pieces 0 3) (Nat.land (pp.color 0) (pp.pieceType 3))
      (Nat.land (pp'.color 0) (pp'.pieceType 3))
      (fun i hi => hsame 0 3 i (by norm_num) (by norm_num) hi (by simp))]
    rw [xorFold_congr (z.pieces 0 5) (Nat.land (pp.color 0) (pp.pieceType 5))
      (Nat.land (pp'.color 0) (pp'.pieceType 5))
      (fun i hi => hsame 0 5 i (by norm_num) (by norm_num) hi (by simp))]
    rw [xorFold_congr (z.pieces 1 0) (Nat.land (pp.color 1) (pp.pieceType 0))
      (Nat.land (pp'.color 1) (pp'.pieceType 0))
      (fun i hi => hsame 1 0 i (by norm_num) (by norm_num) hi (by simp))]
    rw [xorFold_congr (z.pieces 1 1) (Nat.land (pp.color 1) (pp.pieceType 1))
      (Nat.land (pp'.color 1) (pp'.pieceType 1))
      (fun i hi => hsame 1 1 i (by norm_num) (by norm_num) hi (by simp))]
    rw [xorFold_congr (z.pieces 1 2) (Nat.land (pp.color 1) (pp.pieceType 2))
      (Nat.land (pp'.color 1) (pp'.pieceType 2))
      (fun i hi => hsame 1 2 i (by norm_num) (by norm_num) hi (by simp))]
    rw [xorFold_congr (z.pieces 1 3) (Nat.land (pp.color 1) (pp.pieceType 3))
      (Nat.land (pp'.color 1) (pp'.pieceType 3))
      (fun i hi => hsame 1 3 i (by norm_num) (by norm_num) hi (by simp))]
    rw [xorFold_congr (z.pieces 1 4) (Nat.land (pp.color 1) (pp.pieceType 4))
      (Nat.land (pp'.color 1) (pp'.pieceType 4))
      (fun i hi => hsame 1 4 i (by norm_num) (by norm_num) hi (by simp))]
    rw [xorFold_congr (z.pieces 1 5) (Nat.land (pp.color 1) (pp.pieceType 5))
      (Nat.land (pp'.color 1) (pp'.pieceType 5))
      (fun i hi => hsame 1 5 i (by norm_num) (by norm_num) hi (by simp))]
    exact chainF1_5 _ _ _ _ _ _ _ _ _ _ _ _ _
  · simp only [placementHash, WHITE, BLACK, KING, QUEEN, ROOK, BISHOP, KNIGHT, PAWN]
    rw [xorFold_flipb (z.pieces 0 5) (Nat.land (pp.color 0) (pp.pieceType 5))
      (Nat.land (pp'.color 0) (pp'.pieceType 5)) s hs
      (fun i hi hne => hsame 0 5 i (by norm_num) (by norm_num) hi (by simp [hne]))
      hflip]
    rw [xorFold_congr (z.pieces 0 0) (Nat.land (pp.color 0) (pp.pieceType 0))
      (Nat.land (pp'.color 0) (pp'.pieceType 0))
      (fun i hi => hsame 0 0 i (by norm_num) (by norm_num) hi (by simp))]
    rw [xorFold_congr (z.pieces 0 1) (Nat.land (pp.color 0) (pp.pieceType 1))
      (Nat.land (pp'.color 0) (pp'.pieceType 1))
      (fun i hi => hsame 0 1 i (by norm_num) (by norm_num) hi (by simp))]
    rw [xorFold_congr (z.pieces 0 2) (Nat.land (pp.color 0) (pp.pieceType 2))
      (Nat.land (pp'.color 0) (pp'.pieceType 2))
      (fun i hi => hsame 0 2 i (by norm_num) (by norm_num) hi (by simp))]
    rw [xorFold_congr (z.pieces 0 3) (Nat.land (pp.color 0) (pp.pieceType 3))
      (Nat.land (pp'.color 0) (pp'.pieceType 3))
      (fun i hi => hsame 0 3 i (by norm_num) (by norm_num) hi (by simp))]
    rw [xorFold_congr (z.pieces 0 4) (Nat.land (pp.color 0) (pp.pieceType 4))
      (Nat.land (pp'.color 0) (pp'.pieceType 4))
      (fun i hi => hsame 0 4 i (by norm_num) (by norm_num) hi (by simp))]
    rw [xorFold_congr (z.pieces 1 0) (Nat.land (pp.color 1) (pp.pieceType 0))
      (Nat.land (pp'.color 1) (pp'.pieceType 0))
      (fun i hi => hsame 1 0 i (by norm_num) (by norm_num) hi (by simp))]
    rw [xorFold_congr (z.pieces 1 1) (Nat.land (pp.color 1) (pp.pieceType 1))
      (Nat.land (pp'.color 1) (pp'.pieceType 1))
      (fun i hi => hsame 1 1 i (by norm_num) (by norm_num) hi (by simp))]
    rw [xorFold_congr (z.pieces 1 2) (Nat.land (pp.color 1) (pp.pieceType 2))
      (Nat.land (pp'.color 1) (pp'.pieceType 2))
      (fun i hi => hsame 1 2 i (by norm_num) (by norm_num) hi (by simp))]
    rw [xorFold_congr (z.pieces 1 3) (Nat.land (pp.color 1) (pp.pieceType 3))
      (Nat.land (pp'.color 1) (pp'.pieceType 3))
      (fun i hi => hsame 1 3 i (by norm_num) (by norm_num) hi (by simp))]
    rw [xorFold_congr (z.pieces 1 4) (Nat.land (pp.color 1) (pp.pieceType 4))
      (Nat.land (pp'.color 1) (pp'.pieceType 4))
      (fun i hi => hsame 1 4 i (by norm_num) (by norm_num) hi (by simp))]
    rw [xorFold_congr (z.pieces 1 5) (Nat.land (pp.color 1) (pp.pieceType 5))
      (Nat.land (pp'.color 1) (pp'.pieceType 5))
      (fun i hi => hsame 1 5 i (by norm_num) (by norm_num) hi (by simp))]
    exact chainF1_6 _ _ _ _ _ _ _ _ _ _ _ _ _
  · simp only [placementHash, WHITE, BLACK, KING, QUEEN, ROOK, BISHOP, KNIGHT, PAWN]
    rw [xorFold_flipb (z.pieces 1 0) (Nat.land (pp.color 1) (pp.pieceType 0))
      (Nat.land (pp'.color 1) (pp'.pieceType 0)) s hs
      (fun i hi hne => hsame 1 0 i (by norm_num) (by norm_num) hi (by simp [hne]))
      hflip]
    rw [xorFold_congr (z.pieces 0 0) (Nat.land (pp.color 0) (pp.pieceType 0))
      (Nat.land (pp'.color 0) (pp'.pieceType 0))
      (fun i hi => hsame 0 0 i (by norm_num) (by norm_num) hi (by simp))]
    rw [xorFold_congr (z.pieces 0 1) (Nat.land (pp.color 0) (pp.pieceType 1))
      (Nat.land (pp'.color 0) (pp'.pieceType 1))
      (fun i hi => hsame 0 1 i (by norm_num) (by norm_num) hi (by simp))]
    rw [xorFold_congr (z.pieces 0 2) (Nat.land (pp.color 0) (pp.pieceType 2))
      (Nat.land (pp'.color 0) (pp'.pieceType 2))
      (fun i hi => hsame 0 2 i (by norm_num) (by norm_num) hi (by simp))]
    rw [xorFold_congr (z.pieces 0 3) (Nat.land (pp.color 0) (pp.pieceType 3))
      (Nat.land (pp'.color 0) (pp'.pieceType 3))
      (fun i hi => hsame 0 3 i (by norm_num) (by norm_num) hi (by simp))]
    rw [xorFold_congr (z.pieces 0 4) (Nat.land (pp.color 0) (pp.pieceType 4))
      (Nat.land (pp'.color 0) (pp'.pieceType 4))
      (fun i hi => hsame 0 4 i (by norm_num) (by norm_num) hi (by simp))]
    rw [xorFold_congr (z.pieces 0 5) (Nat.land (pp.color 0) (pp.pieceType 5))
      (Nat.land (pp'.color 0) (pp'.pieceType 5))
      (fun i hi => hsame 0 5 i (by norm_num) (by norm_num) hi (by simp))]
    rw [xorFold_congr (z.pieces 1 1) (Nat.land (pp.color 1) (pp.pieceType 1))
      (Nat.land (pp'.color 1) (pp'.pieceType 1))
      (fun i hi => hsame 1 1 i (by norm_num) (by norm_num) hi (by simp))]
    rw [xorFold_congr (z.pieces 1 2) (Nat.land (pp.color 1) (pp.pieceType 2))
      (Nat.land (pp'.color 1) (pp'.pieceType 2))
      (fun i hi => hsame 1 2 i (by norm_num) (by norm_num) hi (by simp))]
    rw [xorFold_congr (z.pieces 1 3) (Nat.land (pp.color 1) (pp.pieceType 3))
      (Nat.land (pp'.color 1) (pp'.pieceType 3))
      (fun i hi => hsame 1 3 i (by norm_num) (by norm_num) hi (by simp))]
    rw [xorFold_congr (z.pieces 1 4) (Nat.land (pp.color 1) (pp.pieceType 4))
      (Nat.land (pp'.color 1) (pp'.pieceType 4))
      (fun i hi => hsame 1 4 i (by norm_num) (by norm_num) hi (by simp))]
    rw [xorFold_congr (z.pieces 1 5) (Nat.land (pp.color 1) (pp.pieceType 5))
      (Nat.land (pp'.color 1) (pp'.pieceType 5))
      (fun i hi => hsame 1 5 i (by norm_num) (by norm_num) hi (by simp))]
    exact chainF1_7 _ _ _ _ _ _ _ _ _ _ _ _ _
  · simp only [placementHash, WHITE, BLACK, KING, QUEEN, ROOK, BISHOP, KNIGHT, PAWN]
    rw [xorFold_flipb (z.pieces 1 1) (Nat.land (pp.color 1) (pp.pieceType 1))
      (Nat.land (pp'.color 1) (pp'.pieceType 1)) s hs
      (fun i hi hne => hsame 1 1 i (by norm_num) (by norm_num) hi (by simp [hne]))
      hflip]
    rw [xorFold_congr (z.pieces 0 0) (Nat.land (pp.color 0) (pp.pieceType 0))
      (Nat.land (pp'.color 0) (pp'.pieceType 0))
      (fun i hi => hsame 0 0 i (by norm_num) (by norm_num) hi (by simp))]
    rw [xorFold_congr (z.pieces 0 1) (Nat.land (pp.color 0) (pp.pieceType 1))
      (Nat.land (pp'.color 0) (pp'.pieceType 1))
      (fun i hi => hsame 0 1 i (by norm_num) (by norm_num) hi (by simp))]
    rw [xorFold_congr (z.pieces 0 2) (Nat.land (pp.color 0) (pp.pieceType 2))
      (Nat.land (pp'.color 0) (pp'.pieceType 2))
      (fun i hi => hsame 0 2 i (by norm_num) (by norm_num) hi (by simp))]
    rw [xorFold_congr (z.pieces 0 3) (Nat.land (pp.color 0) (pp.pieceType 3))
      (Nat.land (pp'.color 0) (pp'.pieceType 3))
      (fun i hi => hsame 0 3 i (by norm_num) (by norm_num) hi (by simp))]
    rw [xorFold_congr (z.pieces 0 4) (Nat.land (pp.color 0) (pp.pieceType 4))
      (Nat.land (pp'.color 0) (pp'.pieceType 4))
      (fun i hi => hsame 0 4 i (by norm_num) (by norm_num) hi (by simp))]
    rw [xorFold_congr (z.pieces 0 5) (Nat.land (pp.color 0) (pp.pieceType 5))
      (Nat.land (pp'.color 0) (pp'.pieceType 5))
      (fun i hi => hsame 0 5 i (by norm_num) (by norm_num) hi (by simp))]
    rw [xorFold_congr (z.pieces 1 0) (Nat.land (pp.color 1) (pp.pieceType 0))
      (Nat.land (pp'.color 1) (pp'.pieceType 0))
      (fun i hi => hsame 1 0 i (by norm_num) (by norm_num) hi (by simp))]
    rw [xorFold_congr (z.pieces 1 2) (Nat.land (pp.color 1) (pp.pieceType 2))
      (Nat.land (pp'.color 1) (pp'.pieceType 2))
      (fun i hi => hsame 1 2 i (by norm_num) (by norm_num) hi (by simp))]
    rw [xorFold_congr (z.pieces 1 3) (Nat.land (pp.color 1) (pp.pieceType 3))
      (Nat.land (pp'.color 1) (pp'.pieceType 3))
      (fun i hi => hsame 1 3 i (by norm_num) (by norm_num) hi (by simp))]
    rw [xorFold_congr (z.pieces 1 4) (Nat.land (pp.color 1) (pp.pieceType 4))
      (Nat.land (pp'.color 1) (pp'.pieceType 4))
      (fun i hi => hsame 1 4 i (by norm_num) (by norm_num) hi (by simp))]
    rw [xorFold_congr (z.pieces 1 5) (Nat.land (pp.color 1) (pp.pieceType 5))
      (Nat.land (pp'.color 1) (pp'.pieceType 5))
      (fun i hi => hsame 1 5 i (by norm_num) (by norm_num) hi (by simp))]
    exact chainF1_8 _ _ _ _ _ _ _ _ _ _ _ _ _
  · simp only [placementHash, WHITE, BLACK, KING, QUEEN, ROOK, BISHOP, KNIGHT, PAWN]
    rw [xorFold_flipb (z.pieces 1 2) (Nat.land (pp.color 1) (pp.pieceType 2))
      (Nat.land (pp'.color 1) (pp'.pieceType 2)) s hs
      (fun i hi hne => hsame 1 2 i (by norm_num) (by norm_num) hi (by simp [hne]))
      hflip]
    rw [xorFold_congr (z.pieces 0 0) (Nat.land (pp.color 0) (pp.pieceType 0))
      (Nat.land (pp'.color 0) (pp'.pieceType 0))
      (fun i hi => hsame 0 0 i (by norm_num) (by norm_num) hi (by simp))]
    rw [xorFold_congr (z.pieces 0 1) (Nat.land (pp.color 0) (pp.pieceType 1))
      (Nat.land (pp'.color 0) (pp'.pieceType 1))
      (fun i hi => hsame 0 1 i (by norm_num) (by norm_num) hi (by simp))]
    rw [xorFold_congr (z.pieces 0 2) (Nat.land (pp.color 0) (pp.pieceType 2))
      (Nat.land (pp'.color 0) (pp'.pieceType 2))
      (fun i hi => hsame 0 2 i (by norm_num) (by norm_num) hi (by simp))]
    rw [xorFold_congr (z.pieces 0 3) (Nat.land (pp.color 0) (pp.pieceType 3))
      (Nat.land (pp'.color 0) (pp'.pieceType 3))
      (fun i hi => hsame 0 3 i (by norm_num) (by norm_num) hi (by simp))]
    rw [xorFold_congr (z.pieces 0 4) (Nat.land (pp.color 0) (pp.pieceType 4))
      (Nat.land (pp'.color 0) (pp'.pieceType 4))
      (fun i hi => hsame 0 4 i (by norm_num) (by norm_num) hi (by simp))]
    rw [xorFold_congr (z.pieces 0 5) (Nat.land (pp.color 0) (pp.pieceType 5))
      (Nat.land (pp'.color 0) (pp'.pieceType 5))
      (fun i hi => hsame 0 5 i (by norm_num) (by norm_num) hi (by simp))]
    rw [xorFold_congr (z.pieces 1 0) (Nat.land (pp.color 1) (pp.pieceType 0))
      (Nat.land (pp'.color 1) (pp'.pieceType 0))
      (fun i hi => hsame 1 0 i (by norm_num) (by norm_num) hi (by simp))]
    rw [xorFold_congr (z.pieces 1 1) (Nat.land (pp.color 1) (pp.pieceType 1))
      (Nat.land (pp'.color 1) (pp'.pieceType 1))
      (fun i hi => hsame 1 1 i (by norm_num) (by norm_num) hi (by simp))]
    rw [xorFold_congr (z.pieces 1 3) (Nat.land (pp.color 1) (pp.pieceType 3))
      (Nat.land (pp'.color 1) (pp'.pieceType 3))
      (fun i hi => hsame 1 3 i (by norm_num) (by norm_num) hi (by simp))]
    rw [xorFold_congr (z.pieces 1 4) (Nat.land (pp.color 1) (pp.pieceType 4))
      (Nat.land (pp'.color 1) (pp'.pieceType 4))
      (fun i hi => hsame 1 4 i (by norm_num) (by norm_num) hi (by simp))]
    rw [xorFold_congr (z.pieces 1 5) (Nat.land (pp.color 1) (pp.pieceType 5))
      (Nat.land (pp'.color 1) (pp'.pieceType 5))
      (fun i hi => hsame 1 5 i (by norm_num) (by norm_num) hi (by simp))]
    exact chainF1_9 _ _ _ _ _ _ _ _ _ _ _ _ _
  · simp only [placementHash, WHITE, BLACK, KING, QUEEN, ROOK, BISHOP, KNIGHT, PAWN]
    rw [xorFold_flipb (z.pieces 1 3) (Nat.land (pp.color 1) (pp.pieceType 3))
      (Nat.land (pp'.color 1) (pp'.pieceType 3)) s hs
      (fun i hi hne => hsame 1 3 i (by norm_num) (by norm_num) hi (by simp [hne]))
      hflip]
    rw [xorFold_congr (z.pieces 0 0) (Nat.land (pp.color 0) (pp.pieceType 0))
      (Nat.land (pp'.color 0) (pp'.pieceType 0))
      (fun i hi => hsame 0 0 i (by norm_num) (by norm_num) hi (by simp))]
    rw [xorFold_congr (z.pieces 0 1) (Nat.land (pp.color 0) (pp.pieceType 1))
      (Nat.land (pp'.color 0) (pp'.pieceType 1))
      (fun i hi => hsame 0 1 i (by norm_num) (by norm_num) hi (by simp))]
    rw [xorFold_congr (z.pieces 0 2) (Nat.land (pp.color 0) (pp.pieceType 2))
      (Nat.land (pp'.color 0) (pp'.pieceType 2))
      (fun i hi => hsame 0 2 i (by norm_num) (by norm_num) hi (by simp))]
    rw [xorFold_congr (z.pieces 0 3) (Nat.land (pp.color 0) (pp.pieceType 3))
      (Nat.land (pp'.color 0) (pp'.pieceType 3))
      (fun i hi => hsame 0 3 i (by norm_num) (by norm_num) hi (by simp))]
    rw [xorFold_congr (z.pieces 0 4) (Nat.land (pp.color 0) (pp.pieceType 4))
      (Nat.land (pp'.color 0) (pp'.pieceType 4))
      (fun i hi => hsame 0 4 i (by norm_num) (by norm_num) hi (by simp))]
    rw [xorFold_congr (z.pieces 0 5) (Nat.land (pp.color 0) (pp.pieceType 5))
      (Nat.land (pp'.color 0) (pp'.pieceType 5))
      (fun i hi => hsame 0 5 i (by norm_num) (by norm_num) hi (by simp))]
    rw [xorFold_congr (z.pieces 1 0) (Nat.land (pp.color 1) (pp.pieceType 0))
      (Nat.land (pp'.color 1) (pp'.pieceType 0))
      (fun i hi => hsame 1 0 i (by norm_num) (by norm_num) hi (by simp))]
    rw [xorFold_congr (z.pieces 1 1) (Nat.land (pp.color 1) (pp.pieceType 1))
      (Nat.land (pp'.color 1) (pp'.pieceType 1))
      (fun i hi => hsame 1 1 i (by norm_num) (by norm_num) hi (by simp))]
    rw [xorFold_congr (z.pieces 1 2) (Nat.land (pp.color 1) (pp.pieceType 2))
      (Nat.land (pp'.color 1) (pp'.pieceType 2))
      (fun i hi => hsame 1 2 i (by norm_num) (by norm_num) hi (by simp))]
    rw [xorFold_congr (z.pieces 1 4) (Nat.land (pp.color 1) (pp.pieceType 4))
      (Nat.land (pp'.color 1) (pp'.pieceType 4))
      (fun i hi => hsame 1 4 i (by norm_num) (by norm_num) hi (by simp))]
    rw [xorFold_congr (z.pieces 1 5) (Nat.land (pp.color 1) (pp.pieceType 5))
      (Nat.land (pp'.color 1) (pp'.pieceType 5))
      (fun i hi => hsame 1 5 i (by norm_num) (by norm_num) hi (by simp))]
    exact chainF1_10 _ _ _ _ _ _ _ _ _ _ _ _ _
  · simp only [placementHash, WHITE, BLACK, KING, QUEEN, ROOK, BISHOP, KNIGHT, PAWN]
    rw [xorFold_flipb (z.pieces 1 4) (Nat.land (pp.color 1) (pp.pieceType 4))
      (Nat.land (pp'.color 1) (pp'.pieceType 4)) s hs
      (fun i hi hne => hsame 1 4 i (by norm_num) (by norm_num) hi (by simp [hne]))
      hflip]
    rw [xorFold_congr (z.pieces 0 0) (Nat.land (pp.color 0) (pp.pieceType 0))
      (Nat.land (pp'.color 0) (pp'.pieceType 0))
      (fun i hi => hsame 0 0 i (by norm_num) (by norm_num) hi (by simp))]
    rw [xorFold_congr (z.pieces 0 1) (Nat.land (pp.color 0) (pp.pieceType 1))
      (Nat.land (pp'.color 0) (pp'.pieceType 1))
      (fun i hi => hsame 0 1 i (by norm_num) (by norm_num) hi (by simp))]
    rw [xorFold_congr (z.pieces 0 2) (Nat.land (pp.color 0) (pp.pieceType 2))
      (Nat.land (pp'.color 0) (pp'.pieceType 2))
      (fun i hi => hsame 0 2 i (by norm_num) (by norm_num) hi (by simp))]
    rw [xorFold_congr (z.pieces 0 3) (Nat.land (pp.color 0) (pp.pieceType 3))
      (Nat.land (pp'.color 0) (pp'.pieceType 3))
      (fun i hi => hsame 0 3 i (by norm_num) (by norm_num) hi (by simp))]
    rw [xorFold_congr (z.pieces 0 4) (Nat.land (pp.color 0) (pp.pieceType 4))
      (Nat.land (pp'.color 0) (pp'.pieceType 4))
      (fun i hi => hsame 0 4 i (by norm_num) (by norm_num) hi (by simp))]
    rw [xorFold_congr (z.pieces 0 5) (Nat.land (pp.color 0) (pp.pieceType 5))
      (Nat.land (pp'.color 0) (pp'.pieceType 5))
      (fun i hi => hsame 0 5 i (by norm_num) (by norm_num) hi (by simp))]
    rw [xorFold_congr (z.pieces 1 0) (Nat.land (pp.color 1) (pp.pieceType 0))
      (Nat.land (pp'.color 1) (pp'.pieceType 0))
      (fun i hi => hsame 1 0 i (by norm_num) (by norm_num) hi (by simp))]
    rw [xorFold_congr (z.pieces 1 1) (Nat.land (pp.color 1) (pp.pieceType 1))
      (Nat.land (pp'.color 1) (pp'.pieceType 1))
      (fun i hi => hsame 1 1 i (by norm_num) (by norm_num) hi (by simp))]
    rw [xorFold_congr (z.pieces 1 2) (Nat.land (pp.color 1) (pp.pieceType 2))
      (Nat.land (pp'.color 1) (pp'.pieceType 2))
      (fun i hi => hsame 1 2 i (by norm_num) (by norm_num) hi (by simp))]
    rw [xorFold_congr (z.pieces 1 3) (Nat.land (pp.color 1) (pp.pieceType 3))
      (Nat.land (pp'.color 1) (pp'.pieceType 3))
      (fun i hi => hsame 1 3 i (by norm_num) (by norm_num) hi (by simp))]
    rw [xorFold_congr (z.pieces 1 5) (Nat.land (pp.color 1) (pp.pieceType 5))
      (Nat.land (pp'.color 1) (pp'.pieceType 5))
      (fun i hi => hsame 1 5 i (by norm_num) (by norm_num) hi (by simp))]
    exact chainF1_11 _ _ _ _ _ _ _ _ _ _ _ _ _
  · simp only [placementHash, WHITE, BLACK, KING, QUEEN, ROOK, BISHOP, KNIGHT, PAWN]
    rw [xorFold_flipb (z.pieces 1 5) (Nat.land (pp.color 1) (pp.pieceType 5))
      (Nat.land (pp'.color 1) (pp'.pieceType 5)) s hs
      (fun i hi hne => hsame 1 5 i (by norm_num) (by norm_num) hi (by simp [hne]))
      hflip]
    rw [xorFold_congr (z.pieces 0 0) (Nat.land (pp.color 0) (pp.pieceType 0))
      (Nat.land (pp'.color 0) (pp'.pieceType 0))
      (fun i hi => hsame 0 0 i (by norm_num) (by norm_num) hi (by simp))]
    rw [xorFold_congr (z.pieces 0 1) (Nat.land (pp.color 0) (pp.pieceType 1))
      (Nat.land (pp'.color 0) (pp'.pieceType 1))
      (fun i hi => hsame 0 1 i (by norm_num) (by norm_num) hi (by simp))]
    rw [xorFold_congr (z.pieces 0 2) (Nat.land (pp.color 0) (pp.pieceType 2))
      (Nat.land (pp'.color 0) (pp'.pieceType 2))
      (fun i hi => hsame 0 2 i (by norm_num) (by norm_num) hi (by simp))]
    rw [xorFold_congr (z.pieces 0 3) (Nat.land (pp.color 0) (pp.pieceType 3))
      (Nat.land (pp'.color 0) (pp'.pieceType 3))
      (fun i hi => hsame 0 3 i (by norm_num) (by norm_num) hi (by simp))]
    rw [xorFold_congr (z.pieces 0 4) (Nat.land (pp.color 0) (pp.pieceType 4))
      (Nat.land (pp'.color 0) (pp'.pieceType 4))
      (fun i hi => hsame 0 4 i (by norm_num) (by norm_num) hi (by simp))]
    rw [xorFold_congr (z.pieces 0 5) (Nat.land (pp.color 0) (pp.pieceType 5))
      (Nat.land (pp'.color 0) (pp'.pieceType 5))
      (fun i hi => hsame 0 5 i (by norm_num) (by norm_num) hi (by simp))]
    rw [xorFold_congr (z.pieces 1 0) (Nat.land (pp.color 1) (pp.pieceType 0))
      (Nat.land (pp'.color 1) (pp'.pieceType 0))
      (fun i hi => hsame 1 0 i (by norm_num) (by norm_num) hi (by simp))]
    rw [xorFold_congr (z.pieces 1 1) (Nat.land (pp.color 1) (pp.pieceType 1))
      (Nat.land (pp'.color 1) (pp'.pieceType 1))
      (fun i hi => hsame 1 1 i (by norm_num) (by norm_num) hi (by simp))]
    rw [xorFold_congr (z.pieces 1 2) (Nat.land (pp.color 1) (pp.pieceType 2))
      (Nat.land (pp'.color 1) (pp'.pieceType 2))
      (fun i hi => hsame 1 2 i (by norm_num) (by norm_num) hi (by simp))]
    rw [xorFold_congr (z.pieces 1 3) (Nat.land (pp.color 1) (pp.pieceType 3))
      (Nat.land (pp'.color 1) (pp'.pieceType 3))
      (fun i hi => hsame 1 3 i (by norm_num) (by norm_num) hi (by simp))]
    rw [xorFold_congr (z.pieces 1 4) (Nat.land (pp.color 1) (pp.pieceType 4))
      (Nat.land (pp'.color 1) (pp'.pieceType 4))
      (fun i hi => hsame 1 4 i (by norm_num) (by norm_num) hi (by simp))]
    exact chainF1_12 _ _ _ _ _ _ _ _ _ _ _ _ _

/-- Changing a placement so that exactly two (color, piece, square) land
bits of the same pair flip xors both squares' Zobrist keys into the
placement hash. -/
theorem placementHash_flip2 (z : ZobristArrays) (pp pp' : PiecesPlacement)
    (c a s t : Nat) (hc : c < 2) (ha : a < 6) (hs : s < 64) (ht : t < 64)
    (hst : s ≠ t)
    (hsame : ∀ C P i, C < 2 → P < 6 → i < 64 → ¬(C = c ∧ P = a ∧ (i = s ∨ i = t)) →
      (Nat.land (pp'.color C) (pp'.pieceType P)).testBit i
        = (Nat.land (pp.color C) (pp.pieceType P)).testBit i)
    (hflips : (Nat.land (pp'.color c) (pp'.pieceType a)).testBit s
        = !(Nat.land (pp.color c) (pp.pieceType a)).testBit s)
    (hflipt : (Nat.land (pp'.color c) (pp'.pieceType a)).testBit t
        = !(Nat.land (pp.color c) (pp.pieceType a)).testBit t) :
    placementHash z pp' =
      Nat.xor (Nat.xor (placementHash z pp) (z.pieces c a s)) (z.pieces c a t) := by
  rcases (by omega : c = 0 ∨ c = 1) with rfl | rfl <;>
    rcases (by omega : a = 0 ∨ a = 1 ∨ a = 2 ∨ a = 3 ∨ a = 4 ∨ a = 5) with
      rfl | rfl | rfl | rfl | rfl | rfl
  · simp only [placementHash, WHITE, BLACK, KING, QUEEN, ROOK, BISHOP, KNIGHT, PAWN]
    rw [xorFold_flip2 (z.pieces 0 0) (Nat.land (pp.color 0) (pp.pieceType 0))
      (Nat.land (pp'.color 0) (pp'.pieceType 0)) s t hs ht hst
      (fun i hi hne1 hne2 => hsame 0 0 i (by norm_num) (by norm_num) hi (by simp [hne1, hne2]))
      hflips hflipt]
    rw [xorFold_congr (z.pieces 0 1) (Nat.land (pp.color 0) (pp.pieceType 1))
      (Nat.land (pp'.color 0) (pp'.pieceType 1))
      (fun i hi => hsame 0 1 i (by norm_num) (by norm_num) hi (by simp))]
    rw [xorFold_congr (z.pieces 0 2) (Nat.land (pp.color 0) (pp.pieceType 2))
      (Nat.land (pp'.color 0) (pp'.pieceType 2))
      (fun i hi => hsame 0 2 i (by norm_num) (by norm_num) hi (by simp))]
    rw [xorFold_congr (z.pieces 0 3) (Nat.land (pp.color 0) (pp.pieceType 3))
      (Nat.land (pp'.color 0) (pp'.pieceType 3))
      (fun i hi => hsame 0 3 i (by norm_num) (by norm_num) hi (by simp))]
    rw [xorFold_congr (z.pieces 0 4) (Nat.land (pp.color 0) (pp.pieceType 4))
      (Nat.land (pp'.color 0) (pp'.pieceType 4))
      (fun i hi => hsame 0 4 i (by norm_num) (by norm_num) hi (by simp))]
    rw [xorFold_congr (z.pieces 0 5) (Nat.land (pp.color 0) (pp.pieceType 5))
      (Nat.land (pp'.color 0) (pp'.pieceType 5))
      (fun i hi => hsame 0 5 i (by norm_num) (by norm_num) hi (by simp))]
    rw [xorFold_congr (z.pieces 1 0) (Nat.land (pp.color 1) (pp.pieceType 0))
      (Nat.land (pp'.color 1) (pp'.pieceType 0))
      (fun i hi => hsame 1 0 i (by norm_num) (by norm_num) hi (by simp))]
    rw [xorFold_congr (z.pieces 1 1) (Nat.land (pp.color 1) (pp.pieceType 1))
      (Nat.land (pp'.color 1) (pp'.pieceType 1))
      (fun i hi => hsame 1 1 i (by norm_num) (by norm_num) hi (by simp))]
    rw [xorFold_congr (z.pieces 1 2) (Nat.land (pp.color 1) (pp.pieceType 2))
      (Nat.land (pp'.color 1) (pp'.pieceType 2))
      (fun i hi => hsame 1 2 i (by norm_num) (by norm_num) hi (by simp))]
    rw [xorFold_congr (z.pieces 1 3) (Nat.land (pp.color 1) (pp.pieceType 3))
      (Nat.land (pp'.color 1) (pp'.pieceType 3))
      (fun i hi => hsame 1 3 i (by norm_num) (by norm_num) hi (by simp))]
    rw [xorFold_congr (z.pieces 1 4) (Nat.land (pp.color 1) (pp.pieceType 4))
      (Nat.land (pp'.color 1) (pp'.pieceType 4))
      (fun i hi => hsame 1 4 i (by norm_num) (by norm_num) hi (by simp))]
    rw [xorFold_congr (z.pieces 1 5) (Nat.land (pp.color 1) (pp.pieceType 5))
      (Nat.land (pp'.color 1) (pp'.pieceType 5))
      (fun i hi => hsame 1 5 i (by norm_num) (by norm_num) hi (by simp))]
    exact chainF2_1 _ _ _ _ _ _ _ _ _ _ _ _ _ _
  · simp only [placementHash, WHITE, BLACK, KING, QUEEN, ROOK, BISHOP, KNIGHT, PAWN]
    rw [xorFold_flip2 (z.pieces 0 1) (Nat.land (pp.color 0) (pp.pieceType 1))
      (Nat.land (pp'.color 0) (pp'.pieceType 1)) s t hs ht hst
      (fun i hi hne1 hne2 => hsame 0 1 i (by norm_num) (by norm_num) hi (by simp [hne1, hne2]))
      hflips hflipt]
    rw [xorFold_congr (z.pieces 0 0) (Nat.land (pp.color 0) (pp.pieceType 0))
      (Nat.land (pp'.color 0) (pp'.pieceType 0))
      (fun i hi => hsame 0 0 i (by norm_num) (by norm_num) hi (by simp))]
    rw [xorFold_congr (z.pieces 0 2) (Nat.land (pp.color 0) (pp.pieceType 2))
      (Nat.land (pp'.color 0) (pp'.pieceType 2))
      (fun i hi => hsame 0 2 i (by norm_num) (by norm_num) hi (by simp))]
    rw [xorFold_congr (z.pieces 0 3) (Nat.land (pp.color 0) (pp.pieceType 3))
      (Nat.land (pp'.color 0) (pp'.pieceType 3))
      (fun i hi => hsame 0 3 i (by norm_num) (by norm_num) hi (by simp))]
    rw [xorFold_congr (z.pieces 0 4) (Nat.land (pp.color 0) (pp.pieceType 4))
      (Nat.land (pp'.color 0) (pp'.pieceType 4))
      (fun i hi => hsame 0 4 i (by norm_num) (by norm_num) hi (by simp))]
    rw [xorFold_congr (z.pieces 0 5) (Nat.land (pp.color 0) (pp.pieceType 5))
      (Nat.land (pp'.color 0) (pp'.pieceType 5))
      (fun i hi => hsame 0 5 i (by norm_num) (by norm_num) hi (by simp))]
    rw [xorFold_congr (z.pieces 1 0) (Nat.land (pp.color 1) (pp.pieceType 0))
      (Nat.land (pp'.color 1) (pp'.pieceType 0))
      (fun i hi => hsame 1 0 i (by norm_num) (by norm_num) hi (by simp))]
    rw [xorFold_congr (z.pieces 1 1) (Nat.land (pp.color 1) (pp.pieceType 1))
      (Nat.land (pp'.color 1) (pp'.pieceType 1))
      (fun i hi => hsame 1 1 i (by norm_num) (by norm_num) hi (by simp))]
    rw [xorFold_congr (z.pieces 1 2) (Nat.land (pp.color 1) (pp.pieceType 2))
      (Nat.land (pp'.color 1) (pp'.pieceType 2))
      (fun i hi => hsame 1 2 i (by norm_num) (by norm_num) hi (by simp))]
    rw [xorFold_congr (z.pieces 1 3) (Nat.land (pp.color 1) (pp.pieceType 3))
      (Nat.land (pp'.color 1) (pp'.pieceType 3))
      (fun i hi => hsame 1 3 i (by norm_num) (by norm_num) hi (by simp))]
    rw [xorFold_congr (z.pieces 1 4) (Nat.land (pp.color 1) (pp.pieceType 4))
      (Nat.land (pp'.color 1) (pp'.pieceType 4))
      (fun i hi => hsame 1 4 i (by norm_num) (by norm_num) hi (by simp))]
    rw [xorFold_congr (z.pieces 1 5) (Nat.land (pp.color 1) (pp.pieceType 5))
      (Nat.land (pp'.color 1) (pp'.pieceType 5))
      (fun i hi => hsame 1 5 i (by norm_num) (by norm_num) hi (by simp))]
    exact chainF2_2 _ _ _ _ _ _ _ _ _ _ _ _ _ _
  · simp only [placementHash, WHITE, BLACK, KING, QUEEN, ROOK, BISHOP, KNIGHT, PAWN]
    rw [xorFold_flip2 (z.pieces 0 2) (Nat.land (pp.color 0) (pp.pieceType 2))
      (Nat.land (pp'.color 0) (pp'.pieceType 2)) s t hs ht hst
      (fun i hi hne1 hne2 => hsame 0 2 i (by norm_num) (by norm_num) hi (by simp [hne1, hne2]))
      hflips hflipt]
    rw [xorFold_congr (z.pieces 0 0) (Nat.land (pp.color 0) (pp.pieceType 0))
      (Nat.land (pp'.color 0) (pp'.pieceType 0))
      (fun i hi => hsame 0 0 i (by norm_num) (by norm_num) hi (by simp))]
    rw [xorFold_congr (z.pieces 0 1) (Nat.land (pp.color 0) (pp.pieceType 1))
      (Nat.land (pp'.color 0) (pp'.pieceType 1))
      (fun i hi => hsame 0 1 i (by norm_num) (by norm_num) hi (by simp))]
    rw [xorFold_congr (z.pieces 0 3) (Nat.land (pp.color 0) (pp.pieceType 3))
      (Nat.land (pp'.color 0) (pp'.pieceType 3))
      (fun i hi => hsame 0 3 i (by norm_num) (by norm_num) hi (by simp))]
    rw [xorFold_congr (z.pieces 0 4) (Nat.land (pp.color 0) (pp.pieceType 4))
      (Nat.land (pp'.color 0) (pp'.pieceType 4))
      (fun i hi => hsame 0 4 i (by norm_num) (by norm_num) hi (by simp))]
    rw [xorFold_congr (z.pieces 0 5) (Nat.land (pp.color 0) (pp.pieceType 5))
      (Nat.land (pp'.color 0) (pp'.pieceType 5))
      (fun i hi => hsame 0 5 i (by norm_num) (by norm_num) hi (by simp))]
    rw [xorFold_congr (z.pieces 1 0) (Nat.land (pp.color 1) (pp.pieceType 0))
      (Nat.land (pp'.color 1) (pp'.pieceType 0))
      (fun i hi => hsame 1 0 i (by norm_num) (by norm_num) hi (by simp))]
    rw [xorFold_congr (z.pieces 1 1) (Nat.land (pp.color 1) (pp.pieceType 1))
      (Nat.land (pp'.color 1) (pp'.pieceType 1))
      (fun i hi => hsame 1 1 i (by norm_num) (by norm_num) hi (by simp))]
    rw [xorFold_congr (z.pieces 1 2) (Nat.land (pp.color 1) (pp.pieceType 2))
      (Nat.land (pp'.color 1) (pp'.pieceType 2))
      (fun i hi => hsame 1 2 i (by norm_num) (by norm_num) hi (by simp))]
    rw [xorFold_congr (z.pieces 1 3) (Nat.land (pp.color 1) (pp.pieceType 3))
      (Nat.land (pp'.color 1) (pp'.pieceType 3))
      (fun i hi => hsame 1 3 i (by norm_num) (by norm_num) hi (by simp))]
    rw [xorFold_congr (z.pieces 1 4) (Nat.land (pp.color 1) (pp.pieceType 4))
      (Nat.land (pp'.color 1) (pp'.pieceType 4))
      (fun i hi => hsame 1 4 i (by norm_num) (by norm_num) hi (by simp))]
    rw [xorFold_congr (z.pieces 1 5) (Nat.land (pp.color 1) (pp.pieceType 5))
      (Nat.land (pp'.color 1) (pp'.pieceType 5))
      (fun i hi => hsame 1 5 i (by norm_num) (by norm_num) hi (by simp))]
    exact chainF2_3 _ _ _ _ _ _ _ _ _ _ _ _ _ _
  · simp only [placementHash, WHITE, BLACK, KING, QUEEN, ROOK, BISHOP, KNIGHT, PAWN]
    rw [xorFold_flip2 (z.pieces 0 3) (Nat.land (pp.color 0) (pp.pieceType 3))
      (Nat.land (pp'.color 0) (pp'.pieceType 3)) s t hs ht hst
      (fun i hi hne1 hne2 => hsame 0 3 i (by norm_num) (by norm_num) hi (by simp [hne1, hne2]))
      hflips hflipt]
    rw [xorFold_congr (z.pieces 0 0) (Nat.land (pp.color 0) (pp.pieceType 0))
      (Nat.land (pp'.color 0) (pp'.pieceType 0))
      (fun i hi => hsame 0 0 i (by norm_num) (by norm_num) hi (by simp))]
    rw [xorFold_congr (z.pieces 0 1) (Nat.land (pp.color 0) (pp.pieceType 1))
      (Nat.land (pp'.color 0) (pp'.pieceType 1))
      (fun i hi => hsame 0 1 i (by norm_num) (by norm_num) hi (by simp))]
    rw [xorFold_congr (z.pieces 0 2) (Nat.land (pp.color 0) (pp.pieceType 2))
      (Nat.land (pp'.color 0) (pp'.pieceType 2))
      (fun i hi => hsame 0 2 i (by norm_num) (by norm_num) hi (by simp))]
    rw [xorFold_congr (z.pieces 0 4) (Nat.land (pp.color 0) (pp.pieceType 4))
      (Nat.land (pp'.color 0) (pp'.pieceType 4))
      (fun i hi => hsame 0 4 i (by norm_num) (by norm_num) hi (by simp))]
    rw [xorFold_congr (z.pieces 0 5) (Nat.land (pp.color 0) (pp.pieceType 5))
      (Nat.land (pp'.color 0) (pp'.pieceType 5))
      (fun i hi => hsame 0 5 i (by norm_num) (by norm_num) hi (by simp))]
    rw [xorFold_congr (z.pieces 1 0) (Nat.land (pp.color 1) (pp.pieceType 0))
      (Nat.land (pp'.color 1) (pp'.pieceType 0))
      (fun i hi => hsame 1 0 i (by norm_num) (by norm_num) hi (by simp))]
    rw [xorFold_congr (z.pieces 1 1) (Nat.land (pp.color 1) (pp.pieceType 1))
      (Nat.land (pp'.color 1) (pp'.pieceType 1))
      (fun i hi => hsame 1 1 i (by norm_num) (by norm_num) hi (by simp))]
    rw [xorFold_congr (z.pieces 1 2) (Nat.land (pp.color 1) (pp.pieceType 2))
      (Nat.land (pp'.color 1) (pp'.pieceType 2))
      (fun i hi => hsame 1 2 i (by norm_num) (by norm_num) hi (by simp))]
    rw [xorFold_congr (z.pieces 1 3) (Nat.land (pp.color 1) (pp.pieceType 3))
      (Nat.land (pp'.color 1) (pp'.pieceType 3))
      (fun i hi => hsame 1 3 i (by norm_num) (by norm_num) hi (by simp))]
    rw [xorFold_congr (z.pieces 1 4) (Nat.land (pp.color 1) (pp.pieceType 4))
      (Nat.land (pp'.color 1) (pp'.pieceType 4))
      (fun i hi => hsame 1 4 i (by norm_num) (by norm_num) hi (by simp))]
    rw [xorFold_congr (z.pieces 1 5) (Nat.land (pp.color 1) (pp.pieceType 5))
      (Nat.land (pp'.color 1) (pp'.pieceType 5))
      (fun i hi => hsame 1 5 i (by norm_num) (by norm_num) hi (by simp))]
    exact chainF2_4 _ _ _ _ _ _ _ _ _ _ _ _ _ _
  · simp only [placementHash, WHITE, BLACK, KING, QUEEN, ROOK, BISHOP, KNIGHT, PAWN]
    rw [xorFold_flip2 (z.pieces 0 4) (Nat.land (pp.color 0) (pp.pieceType 4))
      (Nat.land (pp'.color 0) (pp'.pieceType 4)) s t hs ht hst
      (fun i hi hne1 hne2 => hsame 0 4 i (by norm_num) (by norm_num) hi (by simp [hne1, hne2]))
      hflips hflipt]
    rw [xorFold_congr (z.pieces 0 0) (Nat.land (pp.color 0) (pp.pieceType 0))
      (Nat.land (pp'.color 0) (pp'.pieceType 0))
      (fun i hi => hsame 0 0 i (by norm_num) (by norm_num) hi (by simp))]
    rw [xorFold_congr (z.pieces 0 1) (Nat.land (pp.color 0) (pp.pieceType 1))
      (Nat.land (pp'.color 0) (pp'.pieceType 1))
      (fun i hi => hsame 0 1 i (by norm_num) (by norm_num) hi (by simp))]
    rw [xorFold_congr (z.pieces 0 2) (Nat.land (pp.color 0) (pp.pieceType 2))
      (Nat.land (pp'.color 0) (pp'.pieceType 2))
      (fun i hi => hsame 0 2 i (by norm_num) (by norm_num) hi (by simp))]
    rw [xorFold_congr (z.pieces 0 3) (Nat.land (pp.color 0) (pp.pieceType 3))
      (Nat.land (pp'.color 0) (pp'.pieceType 3))
      (fun i hi => hsame 0 3 i (by norm_num) (by norm_num) hi (by simp))]
    rw [xorFold_congr (z.pieces 0 5) (Nat.land (pp.color 0) (pp.pieceType 5))
      (Nat.land (pp'.color 0) (pp'.pieceType 5))
      (fun i hi => hsame 0 5 i (by norm_num) (by norm_num) hi (by simp))]
    rw [xorFold_congr (z.pieces 1 0) (Nat.land (pp.color 1) (pp.pieceType 0))
      (Nat.land (pp'.color 1) (pp'.pieceType 0))
      (fun i hi => hsame 1 0 i (by norm_num) (by norm_num) hi (by simp))]
    rw [xorFold_congr (z.pieces 1 1) (Nat.land (pp.color 1) (pp.pieceType 1))
      (Nat.land (pp'.color 1) (pp'.pieceType 1))
      (fun i hi => hsame 1 1 i (by norm_num) (by norm_num) hi (by simp))]
    rw [xorFold_congr (z.pieces 1 2) (Nat.land (pp.color 1) (pp.pieceType 2))
      (Nat.land (pp'.color 1) (pp'.pieceType 2))
      (fun i hi => hsame 1 2 i (by norm_num) (by norm_num) hi (by simp))]
    rw [xorFold_congr (z.pieces 1 3) (Nat.land (pp.color 1) (pp.pieceType 3))
      (Nat.land (pp'.color 1) (pp'.pieceType 3))
      (fun i hi => hsame 1 3 i (by norm_num) (by norm_num) hi (by simp))]
    rw [xorFold_congr (z.pieces 1 4) (Nat.land (pp.color 1) (pp.pieceType 4))
      (Nat.land (pp'.color 1) (pp'.pieceType 4))
      (fun i hi => hsame 1 4 i (by norm_num) (by norm_num) hi (by simp))]
    rw [xorFold_congr (z.pieces 1 5) (Nat.land (pp.color 1) (pp.pieceType 5))
      (Nat.land (pp'.color 1) (pp'.pieceType 5))
      (fun i hi => hsame 1 5 i (by norm_num) (by norm_num) hi (by simp))]
    exact chainF2_5 _ _ _ _ _ _ _ _ _ _ _ _ _ _
  · simp only [placementHash, WHITE, BLACK, KING, QUEEN, ROOK, BISHOP, KNIGHT, PAWN]
    rw [xorFold_flip2 (z.pieces 0 5) (Nat.land (pp.color 0) (pp.pieceType 5))
      (Nat.land (pp'.color 0) (pp'.pieceType 5)) s t hs ht hst
      (fun i hi hne1 hne2 => hsame 0 5 i (by norm_num) (by norm_num) hi (by simp [hne1, hne2]))
      hflips hflipt]
    rw [xorFold_congr (z.pieces 0 0) (Nat.land (pp.color 0) (pp.pieceType 0))
      (Nat.land (pp'.color 0) (pp'.pieceType 0))
      (fun i hi => hsame 0 0 i (by norm_num) (by norm_num) hi (by simp))]
    rw [xorFold_congr (z.pieces 0 1) (Nat.land (pp.color 0) (pp.pieceType 1))
      (Nat.land (pp'.color 0) (pp'.pieceType 1))
      (fun i hi => hsame 0 1 i (by norm_num) (by norm_num) hi (by simp))]
    rw [xorFold_congr (z.pieces 0 2) (Nat.land (pp.color 0) (pp.pieceType 2))
      (Nat.land (pp'.color 0) (pp'.pieceType 2))
      (fun i hi => hsame 0 2 i (by norm_num) (by norm_num) hi (by simp))]
    rw [xorFold_congr (z.pieces 0 3) (Nat.land (pp.color 0) (pp.pieceType 3))
      (Nat.land (pp'.color 0) (pp'.pieceType 3))
      (fun i hi => hsame 0 3 i (by norm_num) (by norm_num) hi (by simp))]
    rw [xorFold_congr (z.pieces 0 4) (Nat.land (pp.color 0) (pp.pieceType 4))
      (Nat.land (pp'.color 0) (pp'.pieceType 4))
      (fun i hi => hsame 0 4 i (by norm_num) (by norm_num) hi (by simp))]
    rw [xorFold_congr (z.pieces 1 0) (Nat.land (pp.color 1) (pp.pieceType 0))
      (Nat.land (pp'.color 1) (pp'.pieceType 0))
      (fun i hi => hsame 1 0 i (by norm_num) (by norm_num) hi (by simp))]
    rw [xorFold_congr (z.pieces 1 1) (Nat.land (pp.color 1) (pp.pieceType 1))
      (Nat.land (pp'.color 1) (pp'.pieceType 1))
      (fun i hi => hsame 1 1 i (by norm_num) (by norm_num) hi (by simp))]
    rw [xorFold_congr (z.pieces 1 2) (Nat.land (pp.color 1) (pp.pieceType 2))
      (Nat.land (pp'.color 1) (pp'.pieceType 2))
      (fun i hi => hsame 1 2 i (by norm_num) (by norm_num) hi (by simp))]
    rw [xorFold_congr (z.pieces 1 3) (Nat.land (pp.color 1) (pp.pieceType 3))
      (Nat.land (pp'.color 1) (pp'.pieceType 3))
      (fun i hi => hsame 1 3 i (by norm_num) (by norm_num) hi (by simp))]
    rw [xorFold_congr (z.pieces 1 4) (Nat.land (pp.color 1) (pp.pieceType 4))
      (Nat.land (pp'.color 1) (pp'.pieceType 4))
      (fun i hi => hsame 1 4 i (by norm_num) (by norm_num) hi (by simp))]
    rw [xorFold_congr (z.pieces 1 5) (Nat.land (pp.color 1) (pp.pieceType 5))
      (Nat.land (pp'.color 1) (pp'.pieceType 5))
      (fun i hi => hsame 1 5 i (by norm_num) (by norm_num) hi (by simp))]
    exact chainF2_6 _ _ _ _ _ _ _ _ _ _ _ _ _ _
  · simp only [placementHash, WHITE, BLACK, KING, QUEEN, ROOK, BISHOP, KNIGHT, PAWN]
    rw [xorFold_flip2 (z.pieces 1 0) (Nat.land (pp.color 1) (pp.pieceType 0))
      (Nat.land (pp'.color 1) (pp'.pieceType 0)) s t hs ht hst
      (fun i hi hne1 hne2 => hsame 1 0 i (by norm_num) (by norm_num) hi (by simp [hne1, hne2]))
      hflips hflipt]
    rw [xorFold_congr (z.pieces 0 0) (Nat.land (pp.color 0) (pp.pieceType 0))
      (Nat.land (pp'.color 0) (pp'.pieceType 0))
      (fun i hi => hsame 0 0 i (by norm_num) (by norm_num) hi (by simp))]
    rw [xorFold_congr (z.pieces 0 1) (Nat.land (pp.color 0) (pp.pieceType 1))
      (Nat.land (pp'.color 0) (pp'.pieceType 1))
      (fun i hi => hsame 0 1 i (by norm_num) (by norm_num) hi (by simp))]
    rw [xorFold_congr (z.pieces 0 2) (Nat.land (pp.color 0) (pp.pieceType 2))
      (Nat.land (pp'.color 0) (pp'.pieceType 2))
      (fun i hi => hsame 0 2 i (by norm_num) (by norm_num) hi (by simp))]
    rw [xorFold_congr (z.pieces 0 3) (Nat.land (pp.color 0) (pp.pieceType 3))
      (Nat.land (pp'.color 0) (pp'.pieceType 3))
      (fun i hi => hsame 0 3 i (by norm_num) (by norm_num) hi (by simp))]
    rw [xorFold_congr (z.pieces 0 4) (Nat.land (pp.color 0) (pp.pieceType 4))
      (Nat.land (pp'.color 0) (pp'.pieceType 4))
      (fun i hi => hsame 0 4 i (by norm_num) (by norm_num) hi (by simp))]
    rw [xorFold_congr (z.pieces 0 5) (Nat.land (pp.color 0) (pp.pieceType 5))
      (Nat.land (pp'.color 0) (pp'.pieceType 5))
      (fun i hi => hsame 0 5 i (by norm_num) (by norm_num) hi (by simp))]
    rw [xorFold_congr (z.pieces 1 1) (Nat.land (pp.color 1) (pp.pieceType 1))
      (Nat.land (pp'.color 1) (pp'.pieceType 1))
      (fun i hi => hsame 1 1 i (by norm_num) (by norm_num) hi (by simp))]
    rw [xorFold_congr (z.pieces 1 2) (Nat.land (pp.color 1) (pp.pieceType 2))
      (Nat.land (pp'.color 1) (pp'.pieceType 2))
      (fun i hi => hsame 1 2 i (by norm_num) (by norm_num) hi (by simp))]
    rw [xorFold_congr (z.pieces 1 3) (Nat.land (pp.color 1) (pp.pieceType 3))
      (Nat.land (pp'.color 1) (pp'.pieceType 3))
      (fun i hi => hsame 1 3 i (by norm_num) (by norm_num) hi (by simp))]
    rw [xorFold_congr (z.pieces 1 4) (Nat.land (pp.color 1) (pp.pieceType 4))
      (Nat.land (pp'.color 1) (pp'.pieceType 4))
      (fun i hi => hsame 1 4 i (by norm_num) (by norm_num) hi (by simp))]
    rw [xorFold_congr (z.pieces 1 5) (Nat.land (pp.color 1) (pp.pieceType 5))
      (Nat.land (pp'.color 1) (pp'.pieceType 5))
      (fun i hi => hsame 1 5 i (by norm_num) (by norm_num) hi (by simp))]
    exact chainF2_7 _ _ _ _ _ _ _ _ _ _ _ _ _ _
  · simp only [placementHash, WHITE, BLACK, KING, QUEEN, ROOK, BISHOP, KNIGHT, PAWN]
    rw [xorFold_flip2 (z.pieces 1 1) (Nat.land (pp.color 1) (pp.pieceType 1))
      (Nat.land (pp'.color 1) (pp'.pieceType 1)) s t hs ht hst
      (fun i hi hne1 hne2 => hsame 1 1 i (by norm_num) (by norm_num) hi (by simp [hne1, hne2]))
      hflips hflipt]
    rw [xorFold_congr (z.pieces 0 0) (Nat.land (pp.color 0) (pp.pieceType 0))
      (Nat.land (pp'.color 0) (pp'.pieceType 0))
      (fun i hi => hsame 0 0 i (by norm_num) (by norm_num) hi (by simp))]
    rw [xorFold_congr (z.pieces 0 1) (Nat.land (pp.color 0) (pp.pieceType 1))
      (Nat.land (pp'.color 0) (pp'.pieceType 1))
      (fun i hi => hsame 0 1 i (by norm_num) (by norm_num) hi (by simp))]
    rw [xorFold_congr (z.pieces 0 2) (Nat.land (pp.color 0) (pp.pieceType 2))
      (Nat.land (pp'.color 0) (pp'.pieceType 2))
      (fun i hi => hsame 0 2 i (by norm_num) (by norm_num) hi (by simp))]
    rw [xorFold_congr (z.pieces 0 3) (Nat.land (pp.color 0) (pp.pieceType 3))
      (Nat.land (pp'.color 0) (pp'.pieceType 3))
      (fun i hi => hsame 0 3 i (by norm_num) (by norm_num) hi (by simp))]
    rw [xorFold_congr (z.pieces 0 4) (Nat.land (pp.color 0) (pp.pieceType 4))
      (Nat.land (pp'.color 0) (pp'.pieceType 4))
      (fun i hi => hsame 0 4 i (by norm_num) (by norm_num) hi (by simp))]
    rw [xorFold_congr (z.pieces 0 5) (Nat.land (pp.color 0) (pp.pieceType 5))
      (Nat.land (pp'.color 0) (pp'.pieceType 5))
      (fun i hi => hsame 0 5 i (by norm_num) (by norm_num) hi (by simp))]
    rw [xorFold_congr (z.pieces 1 0) (Nat.land (pp.color 1) (pp.pieceType 0))
      (Nat.land (pp'.color 1) (pp'.pieceType 0))
      (fun i hi => hsame 1 0 i (by norm_num) (by norm_num) hi (by simp))]
    rw [xorFold_congr (z.pieces 1 2) (Nat.land (pp.color 1) (pp.pieceType 2))
      (Nat.land (pp'.color 1) (pp'.pieceType 2))
      (fun i hi => hsame 1 2 i (by norm_num) (by norm_num) hi (by simp))]
    rw [xorFold_congr (z.pieces 1 3) (Nat.land (pp.color 1) (pp.pieceType 3))
      (Nat.land (pp'.color 1) (pp'.pieceType 3))
      (fun i hi => hsame 1 3 i (by norm_num) (by norm_num) hi (by simp))]
    rw [xorFold_congr (z.pieces 1 4) (Nat.land (pp.color 1) (pp.pieceType 4))
      (Nat.land (pp'.color 1) (pp'.pieceType 4))
      (fun i hi => hsame 1 4 i (by norm_num) (by norm_num) hi (by simp))]
    rw [xorFold_congr (z.pieces 1 5) (Nat.land (pp.color 1) (pp.pieceType 5))
      (Nat.land (pp'.color 1) (pp'.pieceType 5))
      (fun i hi => hsame 1 5 i (by norm_num) (by norm_num) hi (by simp))]
    exact chainF2_8 _ _ _ _ _ _ _ _ _ _ _ _ _ _
  · simp only [placementHash, WHITE, BLACK, KING, QUEEN, ROOK, BISHOP, KNIGHT, PAWN]
    rw [xorFold_flip2 (z.pieces 1 2) (Nat.land (pp.color 1) (pp.pieceType 2))
      (Nat.land (pp'.color 1) (pp'.pieceType 2)) s t hs ht hst
      (fun i hi hne1 hne2 => hsame 1 2 i (by norm_num) (by norm_num) hi (by simp [hne1, hne2]))
      hflips hflipt]
    rw [xorFold_congr (z.pieces 0 0) (Nat.land (pp.color 0) (pp.pieceType 0))
      (Nat.land (pp'.color 0) (pp'.pieceType 0))
      (fun i hi => hsame 0 0 i (by norm_num) (by norm_num) hi (by simp))]
    rw [xorFold_congr (z.pieces 0 1) (Nat.land (pp.color 0) (pp.pieceType 1))
      (Nat.land (pp'.color 0) (pp'.pieceType 1))
      (fun i hi => hsame 0 1 i (by norm_num) (by norm_num) hi (by simp))]
    rw [xorFold_congr (z.pieces 0 2) (Nat.land (pp.color 0) (pp.pieceType 2))
      (Nat.land (pp'.color 0) (pp'.pieceType 2))
      (fun i hi => hsame 0 2 i (by norm_num) (by norm_num) hi (by simp))]
    rw [xorFold_congr (z.pieces 0 3) (Nat.land (pp.color 0) (pp.pieceType 3))
      (Nat.land (pp'.color 0) (pp'.pieceType 3))
      (fun i hi => hsame 0 3 i (by norm_num) (by norm_num) hi (by simp))]
    rw [xorFold_congr (z.pieces 0 4) (Nat.land (pp.color 0) (pp.pieceType 4))
      (Nat.land (pp'.color 0) (pp'.pieceType 4))
      (fun i hi => hsame 0 4 i (by norm_num) (by norm_num) hi (by simp))]
    rw [xorFold_congr (z.pieces 0 5) (Nat.land (pp.color 0) (pp.pieceType 5))
      (Nat.land (pp'.color 0) (pp'.pieceType 5))
      (fun i hi => hsame 0 5 i (by norm_num) (by norm_num) hi (by simp))]
    rw [xorFold_congr (z.pieces 1 0) (Nat.land (pp.color 1) (pp.pieceType 0))
      (Nat.land (pp'.color 1) (pp'.pieceType 0))
      (fun i hi => hsame 1 0 i (by norm_num) (by norm_num) hi (by simp))]
    rw [xorFold_congr (z.pieces 1 1) (Nat.land (pp.color 1) (pp.pieceType 1))
      (Nat.land (pp'.color 1) (pp'.pieceType 1))
      (fun i hi => hsame 1 1 i (by norm_num) (by norm_num) hi (by simp))]
    rw [xorFold_congr (z.pieces 1 3) (Nat.land (pp.color 1) (pp.pieceType 3))
      (Nat.land (pp'.color 1) (pp'.pieceType 3))
      (fun i hi => hsame 1 3 i (by norm_num) (by norm_num) hi (by simp))]
    rw [xorFold_congr (z.pieces 1 4) (Nat.land (pp.color 1) (pp.pieceType 4))
      (Nat.land (pp'.color 1) (pp'.pieceType 4))
      (fun i hi => hsame 1 4 i (by norm_num) (by norm_num) hi (by simp))]
    rw [xorFold_congr (z.pieces 1 5) (Nat.land (pp.color 1) (pp.pieceType 5))
      (Nat.land (pp'.color 1) (pp'.pieceType 5))
      (fun i hi => hsame 1 5 i (by norm_num) (by norm_num) hi (by simp))]
    exact chainF2_9 _ _ _ _ _ _ _ _ _ _ _ _ _ _
  · simp only [placementHash, WHITE, BLACK, KING, QUEEN, ROOK, BISHOP, KNIGHT, PAWN]
    rw [xorFold_flip2 (z.pieces 1 3) (Nat.land (pp.color 1) (pp.pieceType 3))
      (Nat.land (pp'.color 1) (pp'.pieceType 3)) s t hs ht hst
      (fun i hi hne1 hne2 => hsame 1 3 i (by norm_num) (by norm_num) hi (by simp [hne1, hne2]))
      hflips hflipt]
    rw [xorFold_congr (z.pieces 0 0) (Nat.land (pp.color 0) (pp.pieceType 0))
      (Nat.land (pp'.color 0) (pp'.pieceType 0))
      (fun i hi => hsame 0 0 i (by norm_num) (by norm_num) hi (by simp))]
    rw [xorFold_congr (z.pieces 0 1) (Nat.land (pp.color 0) (pp.pieceType 1))
      (Nat.land (pp'.color 0) (pp'.pieceType 1))
      (fun i hi => hsame 0 1 i (by norm_num) (by norm_num) hi (by simp))]
    rw [xorFold_congr (z.pieces 0 2) (Nat.land (pp.color 0) (pp.pieceType 2))
      (Nat.land (pp'.color 0) (pp'.pieceType 2))
      (fun i hi => hsame 0 2 i (by norm_num) (by norm_num) hi (by simp))]
    rw [xorFold_congr (z.pieces 0 3) (Nat.land (pp.color 0) (pp.pieceType 3))
      (Nat.land (pp'.color 0) (pp'.pieceType 3))
      (fun i hi => hsame 0 3 i (by norm_num) (by norm_num) hi (by simp))]
    rw [xorFold_congr (z.pieces 0 4) (Nat.land (pp.color 0) (pp.pieceType 4))
      (Nat.land (pp'.color 0) (pp'.pieceType 4))
      (fun i hi => hsame 0 4 i (by norm_num) (by norm_num) hi (by simp))]
    rw [xorFold_congr (z.pieces 0 5) (Nat.land (pp.color 0) (pp.pieceType 5))
      (Nat.land (pp'.color 0) (pp'.pieceType 5))
      (fun i hi => hsame 0 5 i (by norm_num) (by norm_num) hi (by simp))]
    rw [xorFold_congr (z.pieces 1 0) (Nat.land (pp.color 1) (pp.pieceType 0))
      (Nat.land (pp'.color 1) (pp'.pieceType 0))
      (fun i hi => hsame 1 0 i (by norm_num) (by norm_num) hi (by simp))]
    rw [xorFold_congr (z.pieces 1 1) (Nat.land (pp.color 1) (pp.pieceType 1))
      (Nat.land (pp'.color 1) (pp'.pieceType 1))
      (fun i hi => hsame 1 1 i (by norm_num) (by norm_num) hi (by simp))]
    rw [xorFold_congr (z.pieces 1 2) (Nat.land (pp.color 1) (pp.pieceType 2))
      (Nat.land (pp'.color 1) (pp'.pieceType 2))
      (fun i hi => hsame 1 2 i (by norm_num) (by norm_num) hi (by simp))]
    rw [xorFold_congr (z.pieces 1 4) (Nat.land (pp.color 1) (pp.pieceType 4))
      (Nat.land (pp'.color 1) (pp'.pieceType 4))
      (fun i hi => hsame 1 4 i (by norm_num) (by norm_num) hi (by simp))]
    rw [xorFold_congr (z.pieces 1 5) (Nat.land (pp.color 1) (pp.pieceType 5))
      (Nat.land (pp'.color 1) (pp'.pieceType 5))
      (fun i hi => hsame 1 5 i (by norm_num) (by norm_num) hi (by simp))]
    exact chainF2_10 _ _ _ _ _ _ _ _ _ _ _ _ _ _
  · simp only [placementHash, WHITE, BLACK, KING, QUEEN, ROOK, BISHOP, KNIGHT, PAWN]
    rw [xorFold_flip2 (z.pieces 1 4) (Nat.land (pp.color 1) (pp.pieceType 4))
      (Nat.land (pp'.color 1) (pp'.pieceType 4)) s t hs ht hst
      (fun i hi hne1 hne2 => hsame 1 4 i (by norm_num) (by norm_num) hi (by simp [hne1, hne2]))
      hflips hflipt]
    rw [xorFold_congr (z.pieces 0 0) (Nat.land (pp.color 0) (pp.pieceType 0))
      (Nat.land (pp'.color 0) (pp'.pieceType 0))
      (fun i hi => hsame 0 0 i (by norm_num) (by norm_num) hi (by simp))]
    rw [xorFold_congr (z.pieces 0 1) (Nat.land (pp.color 0) (pp.pieceType 1))
      (Nat.land (pp'.color 0) (pp'.pieceType 1))
      (fun i hi => hsame 0 1 i (by norm_num) (by norm_num) hi (by simp))]
    rw [xorFold_congr (z.pieces 0 2) (Nat.land (pp.color 0) (pp.pieceType 2))
      (Nat.land (pp'.color 0) (pp'.pieceType 2))
      (fun i hi => hsame 0 2 i (by norm_num) (by norm_num) hi (by simp))]
    rw [xorFold_congr (z.pieces 0 3) (Nat.land (pp.color 0) (pp.pieceType 3))
      (Nat.land (pp'.color 0) (pp'.pieceType 3))
      (fun i hi => hsame 0 3 i (by norm_num) (by norm_num) hi (by simp))]
    rw [xorFold_congr (z.pieces 0 4) (Nat.land (pp.color 0) (pp.pieceType 4))
      (Nat.land (pp'.color 0) (pp'.pieceType 4))
      (fun i hi => hsame 0 4 i (by norm_num) (by norm_num) hi (by simp))]
    rw [xorFold_congr (z.pieces 0 5) (Nat.land (pp.color 0) (pp.pieceType 5))
      (Nat.land (pp'.color 0) (pp'.pieceType 5))
      (fun i hi => hsame 0 5 i (by norm_num) (by norm_num) hi (by simp))]
    rw [xorFold_congr (z.pieces 1 0) (Nat.land (pp.color 1) (pp.pieceType 0))
      (Nat.land (pp'.color 1) (pp'.pieceType 0))
      (fun i hi => hsame 1 0 i (by norm_num) (by norm_num) hi (by simp))]
    rw [xorFold_congr (z.pieces 1 1) (Nat.land (pp.color 1) (pp.pieceType 1))
      (Nat.land (pp'.color 1) (pp'.pieceType 1))
      (fun i hi => hsame 1 1 i (by norm_num) (by norm_num) hi (by simp))]
    rw [xorFold_congr (z.pieces 1 2) (Nat.land (pp.color 1) (pp.pieceType 2))
      (Nat.land (pp'.color 1) (pp'.pieceType 2))
      (fun i hi => hsame 1 2 i (by norm_num) (by norm_num) hi (by simp))]
    rw [xorFold_congr (z.pieces 1 3) (Nat.land (pp.color 1) (pp.pieceType 3))
      (Nat.land (pp'.color 1) (pp'.pieceType 3))
      (fun i hi => hsame 1 3 i (by norm_num) (by norm_num) hi (by simp))]
    rw [xorFold_congr (z.pieces 1 5) (Nat.land (pp.color 1) (pp.pieceType 5))
      (Nat.land (pp'.color 1) (pp'.pieceType 5))
      (fun i hi => hsame 1 5 i (by norm_num) (by norm_num) hi (by simp))]
    exact chainF2_11 _ _ _ _ _ _ _ _ _ _ _ _ _ _
  · simp only [placementHash, WHITE, BLACK, KING, QUEEN, ROOK, BISHOP, KNIGHT, PAWN]
    rw [xorFold_flip2 (z.pieces 1 5) (Nat.land (pp.color 1) (pp.pieceType 5))
      (Nat.land (pp'.color 1) (pp'.pieceType 5)) s t hs ht hst
      (fun i hi hne1 hne2 => hsame 1 5 i (by norm_num) (by norm_num) hi (by simp [hne1, hne2]))
      hflips hflipt]
    rw [xorFold_congr (z.pieces 0 0) (Nat.land (pp.color 0) (pp.pieceType 0))
      (Nat.land (pp'.color 0) (pp'.pieceType 0))
      (fun i hi => hsame 0 0 i (by norm_num) (by norm_num) hi (by simp))]
    rw [xorFold_congr (z.pieces 0 1) (Nat.land (pp.color 0) (pp.pieceType 1))
      (Nat.land (pp'.color 0) (pp'.pieceType 1))
      (fun i hi => hsame 0 1 i (by norm_num) (by norm_num) hi (by simp))]
    rw [xorFold_congr (z.pieces 0 2) (Nat.land (pp.color 0) (pp.pieceType 2))
      (Nat.land (pp'.color 0) (pp'.pieceType 2))
      (fun i hi => hsame 0 2 i (by norm_num) (by norm_num) hi (by simp))]
    rw [xorFold_congr (z.pieces 0 3) (Nat.land (pp.color 0) (pp.pieceType 3))
      (Nat.land (pp'.color 0) (pp'.pieceType 3))
      (fun i hi => hsame 0 3 i (by norm_num) (by norm_num) hi (by simp))]
    rw [xorFold_congr (z.pieces 0 4) (Nat.land (pp.color 0) (pp.pieceType 4))
      (Nat.land (pp'.color 0) (pp'.pieceType 4))
      (fun i hi => hsame 0 4 i (by norm_num) (by norm_num) hi (by simp))]
    rw [xorFold_congr (z.pieces 0 5) (Nat.land (pp.color 0) (pp.pieceType 5))
      (Nat.land (pp'.color 0) (pp'.pieceType 5))
      (fun i hi => hsame 0 5 i (by norm_num) (by norm_num) hi (by simp))]
    rw [xorFold_congr (z.pieces 1 0) (Nat.land (pp.color 1) (pp.pieceType 0))
      (Nat.land (pp'.color 1) (pp'.pieceType 0))
      (fun i hi => hsame 1 0 i (by norm_num) (by norm_num) hi (by simp))]
    rw [xorFold_congr (z.pieces 1 1) (Nat.land (pp.color 1) (pp.pieceType 1))
      (Nat.land (pp'.color 1) (pp'.pieceType 1))
      (fun i hi => hsame 1 1 i (by norm_num) (by norm_num) hi (by simp))]
    rw [xorFold_congr (z.pieces 1 2) (Nat.land (pp.color 1) (pp.pieceType 2))
      (Nat.land (pp'.color 1) (pp'.pieceType 2))
      (fun i hi => hsame 1 2 i (by norm_num) (by norm_num) hi (by simp))]
    rw [xorFold_congr (z.pieces 1 3) (Nat.land (pp.color 1) (pp.pieceType 3))
      (Nat.land (pp'.color 1) (pp'.pieceType 3))
      (fun i hi => hsame 1 3 i (by norm_num) (by norm_num) hi (by simp))]
    rw [xorFold_congr (z.pieces 1 4) (Nat.land (pp.color 1) (pp.pieceType 4))
      (Nat.land (pp'.color 1) (pp'.pieceType 4))
      (fun i hi => hsame 1 4 i (by norm_num) (by norm_num) hi (by simp))]
    exact chainF2_12 _ _ _ _ _ _ _ _ _ _ _ _ _ _


theorem testBit_land2 (x y i : Nat) :
    (Nat.land x y).testBit i = ((x.testBit i) && (y.testBit i)) := by
  rw [land_eq, Nat.testBit_land]

theorem enPassantFile8 (z : ZobristArrays) : z.enPassantFile 8 = 0 := rfl

theorem dev_h1 (b : Board) (m : Move)
    (htm : b.toMove < 2)
    (htype : mvType m = MOVE_NORMAL)
    (hcap : mvCaptured m = NO_PIECE)
    (hp6 : mvPiece m < 6)
    (ho64 : mvOrig m < 64) (hd64 : mvDest m < 64)
    (hod : mvOrig m ≠ mvDest m)
    (horig : (b.pieces.pieceType (mvPiece m)).testBit (mvOrig m) = true)
    (horigc : (b.pieces.color b.toMove).testBit (mvOrig m) = true)
    (hdnu : (b.pieces.color b.toMove).testBit (mvDest m) = false)
    (hptd : ∀ q, q < 6 → (b.pieces.pieceType q).testBit (mvDest m) = false)
    (hbo : ∀ q, q < 6 → q ≠ mvPiece m → (b.pieces.pieceType q).testBit (mvOrig m) = false)
    (hthemo : (b.pieces.color (Nat.xor 1 b.toMove)).testBit (mvOrig m) = false)
    (hthemd : (b.pieces.color (Nat.xor 1 b.toMove)).testBit (mvDest m) = false) :
    Nat.xor b.calcHash ((b.doMoveApplied m).1.getD 0) = ((b.doMoveApplied m).2).calcHash := by
  rcases (by omega : b.toMove = 0 ∨ b.toMove = 1) with htmv | htmv
  · have e2 : placementHash b.zobrist
        ((b.pieces.setPieceType (mvPiece m) (Nat.land (b.pieces.pieceType (mvPiece m)) (comp64 (1 <<< mvOrig m)))).setColor
          0 (Nat.land (b.pieces.color 0) (comp64 (1 <<< mvOrig m))))
        = Nat.xor (placementHash b.zobrist b.pieces)
          (b.zobrist.pieces 0 (mvPiece m) (mvOrig m)) := by
      refine placementHash_flip1 b.zobrist b.pieces _ 0 (mvPiece m) (mvOrig m)
        (by norm_num) hp6 ho64 ?_ ?_
      · intro C P i hC hP hi hne
        have hboP := hbo P hP
        have hptdP := hptd P hP
        rcases (by omega : C = 0 ∨ C = 1) with rfl | rfl <;>
          by_cases hPp : P = mvPiece m <;> by_cases hio : mvOrig m = i <;>
          simp_all only [setColor_color, setColor_pieceType, setPieceType_pieceType,
              setPieceType_color, testBit_land2, testBit_comp64, nf_pow, nf_set, xor10,
              xor11, Nat.reduceEqDiff, reduceIte, eq_self_iff_true, if_true, if_false,
              decide_True, decide_False, Bool.xor_true, Bool.xor_false, Bool.true_xor,
              Bool.false_xor, Bool.and_true, Bool.true_and, Bool.and_false, Bool.false_and,
              Bool.or_true, Bool.or_false, Bool.true_or, Bool.false_or, Bool.not_true,
              Bool.not_false, Bool.not_not, and_true, true_and, and_false, false_and,
              not_true, not_false_iff, ne_eq]
      · simp_all only [setColor_color, setColor_pieceType, setPieceType_pieceType,
              setPieceType_color, testBit_land2, testBit_comp64, nf_pow, nf_set, xor10,
              xor11, Nat.reduceEqDiff, reduceIte, eq_self_iff_true, if_true, if_false,
              decide_True, decide_False, Bool.xor_true, Bool.xor_false, Bool.true_xor,
              Bool.false_xor, Bool.and_true, Bool.true_and, Bool.and_false, Bool.false_and,
              Bool.or_true, Bool.or_false, Bool.true_or, Bool.false_or, Bool.not_true,
              Bool.not_false, Bool.not_not, and_true, true_and, and_false, false_and,
              not_true, not_false_iff, ne_eq]
    have e4 : placementHash b.zobrist
        ((((b.pieces.setPieceType (mvPiece m) (Nat.land (b.pieces.pieceType (mvPiece m)) (comp64 (1 <<< mvOrig m)))).setColor
          0 (Nat.land (b.pieces.color 0) (comp64 (1 <<< mvOrig m)))).setPieceType
          (mvPiece m) (Nat.lor (((b.pieces.setPieceType (mvPiece m) (Nat.land (b.pieces.pieceType (mvPiece m)) (comp64 (1 <<< mvOrig m)))).setColor
          0 (Nat.land (b.pieces.color 0) (comp64 (1 <<< mvOrig m)))).pieceType (mvPiece m)) (1 <<< mvDest m))).setColor
          0 (Nat.lor (((b.pieces.setPieceType (mvPiece m) (Nat.land (b.pieces.pieceType (mvPiece m)) (comp64 (1 <<< mvOrig m)))).setColor
          0 (Nat.land (b.pieces.color 0) (comp64 (1 <<< mvOrig m)))).color 0) (1 <<< mvDest m)))
        = Nat.xor (placementHash b.zobrist
          ((b.pieces.setPieceType (mvPiece m) (Nat.land (b.pieces.pieceType (mvPiece m)) (comp64 (1 <<< mvOrig m)))).setColor
          0 (Nat.land (b.pieces.color 0) (comp64 (1 <<< mvOrig m)))))
          (b.zobrist.pieces 0 (mvPiece m) (mvDest m)) := by
      refine placementHash_flip1 b.zobrist _ _ 0 (mvPiece m) (mvDest m)
        (by norm_num) hp6 hd64 ?_ ?_
      · intro C P i hC hP hi hne
        have hboP := hbo P hP
        have hptdP := hptd P hP
        rcases (by omega : C = 0 ∨ C = 1) with rfl | rfl <;>
          by_cases hPp : P = mvPiece m <;> by_cases hio : mvDest m = i <;>
          simp_all only [setColor_color, setColor_pieceType, setPieceType_pieceType,
              setPieceType_color, testBit_land2, testBit_comp64, nf_pow, nf_set, xor10,
              xor11, Nat.reduceEqDiff, reduceIte, eq_self_iff_true, if_true, if_false,
              decide_True, decide_False, Bool.xor_true, Bool.xor_false, Bool.true_xor,
              Bool.false_xor, Bool.and_true, Bool.true_and, Bool.and_false, Bool.false_and,
              Bool.or_true, Bool.or_false, Bool.true_or, Bool.false_or, Bool.not_true,
              Bool.not_false, Bool.not_not, and_true, true_and, and_false, false_and,
              not_true, not_false_iff, ne_eq]
      · simp_all only [setColor_color, setColor_pieceType, setPieceType_pieceType,
              setPieceType_color, testBit_land2, testBit_comp64, nf_pow, nf_set, xor10,
              xor11, Nat.reduceEqDiff, reduceIte, eq_self_iff_true, if_true, if_false,
              decide_True, decide_False, Bool.xor_true, Bool.xor_false, Bool.true_xor,
              Bool.false_xor, Bool.and_true, Bool.true_and, Bool.and_false, Bool.false_and,
              Bool.or_true, Bool.or_false, Bool.true_or, Bool.false_or, Bool.not_true,
              Bool.not_false, Bool.not_not, and_true, true_and, and_false, false_and,
              not_true, not_false_iff, ne_eq]
    simp only [Board.doMoveApplied, calcHash_expand, htype, hcap, htmv, MOVE_NORMAL,
      MOVE_CASTLING, MOVE_PROMOTION, MOVE_ENPASSANT, NO_PIECE, KINGSIDE, QUEENSIDE,
      PAWN, BLACK, xor10, xor11, Nat.reduceEqDiff, Nat.reduceLT, reduceIte,
      Option.getD_some, if_pos hod, apply_ite b.zobrist.enPassantFile,
      NO_ENPASSANT_FILE, enPassantFile8]
    rw [e4, e2]
    simp only [xor_assoc2, xor_comm2, xor_lcomm, xor_zero2, zero_xor2, xor_self2,
      xor_cancel]

  · have e2 : placementHash b.zobrist
        ((b.pieces.setPieceType (mvPiece m) (Nat.land (b.pieces.pieceType (mvPiece m)) (comp64 (1 <<< mvOrig m)))).setColor
          1 (Nat.land (b.pieces.color 1) (comp64 (1 <<< mvOrig m))))
        = Nat.xor (placementHash b.zobrist b.pieces)
          (b.zobrist.pieces 1 (mvPiece m) (mvOrig m)) := by
      refine placementHash_flip1 b.zobrist b.pieces _ 1 (mvPiece m) (mvOrig m)
        (by norm_num) hp6 ho64 ?_ ?_
      · intro C P i hC hP hi hne
        have hboP := hbo P hP
        have hptdP := hptd P hP
        rcases (by omega : C = 0 ∨ C = 1) with rfl | rfl <;>
          by_cases hPp : P = mvPiece m <;> by_cases hio : mvOrig m = i <;>
          simp_all only [setColor_color, setColor_pieceType, setPieceType_pieceType,
              setPieceType_color, testBit_land2, testBit_comp64, nf_pow, nf_set, xor10,
              xor11, Nat.reduceEqDiff, reduceIte, eq_self_iff_true, if_true, if_false,
              decide_True, decide_False, Bool.xor_true, Bool.xor_false, Bool.true_xor,
              Bool.false_xor, Bool.and_true, Bool.true_and, Bool.and_false, Bool.false_and,
              Bool.or_true, Bool.or_false, Bool.true_or, Bool.false_or, Bool.not_true,
              Bool.not_false, Bool.not_not, and_true, true_and, and_false, false_and,
              not_true, not_false_iff, ne_eq]
      · simp_all only [setColor_color, setColor_pieceType, setPieceType_pieceType,
              setPieceType_color, testBit_land2, testBit_comp64, nf_pow, nf_set, xor10,
              xor11, Nat.reduceEqDiff, reduceIte, eq_self_iff_true, if_true, if_false,
              decide_True, decide_False, Bool.xor_true, Bool.xor_false, Bool.true_xor,
              Bool.false_xor, Bool.and_true, Bool.true_and, Bool.and_false, Bool.false_and,
              Bool.or_true, Bool.or_false, Bool.true_or, Bool.false_or, Bool.not_true,
              Bool.not_false, Bool.not_not, and_true, true_and, and_false, false_and,
              not_true, not_false_iff, ne_eq]
    have e4 : placementHash b.zobrist
        ((((b.pieces.setPieceType (mvPiece m) (Nat.land (b.pieces.pieceType (mvPiece m)) (comp64 (1 <<< mvOrig m)))).setColor
          1 (Nat.land (b.pieces.color 1) (comp64 (1 <<< mvOrig m)))).setPieceType
          (mvPiece m) (Nat.lor (((b.pieces.setPieceType (mvPiece m) (Nat.land (b.pieces.pieceType (mvPiece m)) (comp64 (1 <<< mvOrig m)))).setColor
          1 (Nat.land (b.pieces.color 1) (comp64 (1 <<< mvOrig m)))).pieceType (mvPiece m)) (1 <<< mvDest m))).setColor
          1 (Nat.lor (((b.pieces.setPieceType (mvPiece m) (Nat.land (b.pieces.pieceType (mvPiece m)) (comp64 (1 <<< mvOrig m)))).setColor
          1 (Nat.land (b.pieces.color 1) (comp64 (1 <<< mvOrig m)))).color 1) (1 <<< mvDest m)))
        = Nat.xor (placementHash b.zobrist
          ((b.pieces.setPieceType (mvPiece m) (Nat.land (b.pieces.pieceType (mvPiece m)) (comp64 (1 <<< mvOrig m)))).setColor
          1 (Nat.land (b.pieces.color 1) (comp64 (1 <<< mvOrig m)))))
          (b.zobrist.pieces 1 (mvPiece m) (mvDest m)) := by
      refine placementHash_flip1 b.zobrist _ _ 1 (mvPiece m) (mvDest m)
        (by norm_num) hp6 hd64 ?_ ?_
      · intro C P i hC hP hi hne
        have hboP := hbo P hP
        have hptdP := hptd P hP
        rcases (by omega : C = 0 ∨ C = 1) with rfl | rfl <;>
          by_cases hPp : P = mvPiece m <;> by_cases hio : mvDest m = i <;>
          simp_all only [setColor_color, setColor_pieceType, setPieceType_pieceType,
              setPieceType_color, testBit_land2, testBit_comp64, nf_pow, nf_set, xor10,
              xor11, Nat.reduceEqDiff, reduceIte, eq_self_iff_true, if_true, if_false,
              decide_True, decide_False, Bool.xor_true, Bool.xor_false, Bool.true_xor,
              Bool.false_xor, Bool.and_true, Bool.true_and, Bool.and_false, Bool.false_and,
              Bool.or_true, Bool.or_false, Bool.true_or, Bool.false_or, Bool.not_true,
              Bool.not_false, Bool.not_not, and_true, true_and, and_false, false_and,
              not_true, not_false_iff, ne_eq]
      · simp_all only [setColor_color, setColor_pieceType, setPieceType_pieceType,
              setPieceType_color, testBit_land2, testBit_comp64, nf_pow, nf_set, xor10,
              xor11, Nat.reduceEqDiff, reduceIte, eq_self_iff_true, if_true, if_false,
              decide_True, decide_False, Bool.xor_true, Bool.xor_false, Bool.true_xor,
              Bool.false_xor, Bool.and_true, Bool.true_and, Bool.and_false, Bool.false_and,
              Bool.or_true, Bool.or_false, Bool.true_or, Bool.false_or, Bool.not_true,
              Bool.not_false, Bool.not_not, and_true, true_and, and_false, false_and,
              not_true, not_false_iff, ne_eq]
    simp only [Board.doMoveApplied, calcHash_expand, htype, hcap, htmv, MOVE_NORMAL,
      MOVE_CASTLING, MOVE_PROMOTION, MOVE_ENPASSANT, NO_PIECE, KINGSIDE, QUEENSIDE,
      PAWN, BLACK, xor10, xor11, Nat.reduceEqDiff, Nat.reduceLT, reduceIte,
      Option.getD_some, if_pos hod, apply_ite b.zobrist.enPassantFile,
      NO_ENPASSANT_FILE, enPassantFile8]
    rw [e4, e2]
    simp only [xor_assoc2, xor_comm2, xor_lcomm, xor_zero2, zero_xor2, xor_self2,
      xor_cancel]

set_option maxHeartbeats 1600000 in
theorem dev_h2 (b : Board) (m : Move)
    (htm : b.toMove < 2)
    (htype : mvType m = MOVE_NORMAL)
    (hcap6 : mvCaptured m < 6)
    (hp6 : mvPiece m < 6)
    (ho64 : mvOrig m < 64) (hd64 : mvDest m < 64)
    (hod : mvOrig m ≠ mvDest m)
    (horig : (b.pieces.pieceType (mvPiece m)).testBit (mvOrig m) = true)
    (horigc : (b.pieces.color b.toMove).testBit (mvOrig m) = true)
    (hdnu : (b.pieces.color b.toMove).testBit (mvDest m) = false)
    (hcapd : (b.pieces.pieceType (mvCaptured m)).testBit (mvDest m) = true)
    (hcapc : (b.pieces.color (Nat.xor 1 b.toMove)).testBit (mvDest m) = true)
    (hbd : ∀ q, q < 6 → q ≠ mvCaptured m → (b.pieces.pieceType q).testBit (mvDest m) = false)
    (hbo : ∀ q, q < 6 → q ≠ mvPiece m → (b.pieces.pieceType q).testBit (mvOrig m) = false)
    (hthemo : (b.pieces.color (Nat.xor 1 b.toMove)).testBit (mvOrig m) = false) :
    Nat.xor b.calcHash ((b.doMoveApplied m).1.getD 0) = ((b.doMoveApplied m).2).calcHash := by
  rcases (by omega : b.toMove = 0 ∨ b.toMove = 1) with htmv | htmv
  · have e2 : placementHash b.zobrist
        ((b.pieces.setPieceType (mvPiece m) (Nat.land (b.pieces.pieceType (mvPiece m)) (comp64 (1 <<< mvOrig m)))).setColor
          0 (Nat.land (b.pieces.color 0) (comp64 (1 <<< mvOrig m))))
        = Nat.xor (placementHash b.zobrist b.pieces)
          (b.zobrist.pieces 0 (mvPiece m) (mvOrig m)) := by
      refine placementHash_flip1 b.zobrist b.pieces _ 0 (mvPiece m) (mvOrig m)
        (by norm_num) hp6 ho64 ?_ ?_
      · intro C P i hC hP hi hne
        have hboP := hbo P hP
        have hbdP := hbd P hP
        rcases (by omega : C = 0 ∨ C = 1) with rfl | rfl <;>
          by_cases hPp : P = mvPiece m <;> by_cases hio : mvOrig m = i <;>
          simp_all only [setColor_color, setColor_pieceType, setPieceType_pieceType,
              setPieceType_color, testBit_land2, testBit_comp64, nf_pow, nf_set, xor10,
              xor11, Nat.reduceEqDiff, reduceIte, eq_self_iff_true, if_true, if_false,
              decide_True, decide_False, Bool.xor_true, Bool.xor_false, Bool.true_xor,
              Bool.false_xor, Bool.and_true, Bool.true_and, Bool.and_false, Bool.false_and,
              Bool.or_true, Bool.or_false, Bool.true_or, Bool.false_or, Bool.not_true,
              Bool.not_false, Bool.not_not, and_true, true_and, and_false, false_and,
              not_true, not_false_iff, ne_eq]
      · simp_all only [setColor_color, setColor_pieceType, setPieceType_pieceType,
              setPieceType_color, testBit_land2, testBit_comp64, nf_pow, nf_set, xor10,
              xor11, Nat.reduceEqDiff, reduceIte, eq_self_iff_true, if_true, if_false,
              decide_True, decide_False, Bool.xor_true, Bool.xor_false, Bool.true_xor,
              Bool.false_xor, Bool.and_true, Bool.true_and, Bool.and_false, Bool.false_and,
              Bool.or_true, Bool.or_false, Bool.true_or, Bool.false_or, Bool.not_true,
              Bool.not_false, Bool.not_not, and_true, true_and, and_false, false_and,
              not_true, not_false_iff, ne_eq]
    have e3 : placementHash b.zobrist
        ((((b.pieces.setPieceType (mvPiece m) (Nat.land (b.pieces.pieceType (mvPiece m)) (comp64 (1 <<< mvOrig m)))).setColor
          0 (Nat.land (b.pieces.color 0) (comp64 (1 <<< mvOrig m)))).setPieceType
          (mvCaptured m) (Nat.land (((b.pieces.setPieceType (mvPiece m) (Nat.land (b.pieces.pieceType (mvPiece m)) (comp64 (1 <<< mvOrig m)))).setColor
          0 (Nat.land (b.pieces.color 0) (comp64 (1 <<< mvOrig m)))).pieceType (mvCaptured m)) (comp64 (1 <<< mvDest m)))).setColor
          1 (Nat.land (((b.pieces.setPieceType (mvPiece m) (Nat.land (b.pieces.pieceType (mvPiece m)) (comp64 (1 <<< mvOrig m)))).setColor
          0 (Nat.land (b.pieces.color 0) (comp64 (1 <<< mvOrig m)))).color 1) (comp64 (1 <<< mvDest m))))
        = Nat.xor (placementHash b.zobrist
          ((b.pieces.setPieceType (mvPiece m) (Nat.land (b.pieces.pieceType (mvPiece m)) (comp64 (1 <<< mvOrig m)))).setColor
          0 (Nat.land (b.pieces.color 0) (comp64 (1 <<< mvOrig m)))))
          (b.zobrist.pieces 1 (mvCaptured m) (mvDest m)) := by
      refine placementHash_flip1 b.zobrist _ _ 1 (mvCaptured m) (mvDest m)
        (by norm_num) hcap6 hd64 ?_ ?_
      · intro C P i hC hP hi hne
        have hboP := hbo P hP
        have hbdP := hbd P hP
        rcases (by omega : C = 0 ∨ C = 1) with rfl | rfl <;>
          by_cases hPp : P = mvPiece m <;> by_cases hPc : P = mvCaptured m <;>
          by_cases hio : mvDest m = i <;>
          simp_all only [setColor_color, setColor_pieceType, setPieceType_pieceType,
              setPieceType_color, testBit_land2, testBit_comp64, nf_pow, nf_set, xor10,
              xor11, Nat.reduceEqDiff, reduceIte, eq_self_iff_true, if_true, if_false,
              decide_True, decide_False, Bool.xor_true, Bool.xor_false, Bool.true_xor,
              Bool.false_xor, Bool.and_true, Bool.true_and, Bool.and_false, Bool.false_and,
              Bool.or_true, Bool.or_false, Bool.true_or, Bool.false_or, Bool.not_true,
              Bool.not_false, Bool.not_not, and_true, true_and, and_false, false_and,
              not_true, not_false_iff, ne_eq]
      · by_cases hcp : mvCaptured m = mvPiece m <;>
          simp_all only [setColor_color, setColor_pieceType, setPieceType_pieceType,
              setPieceType_color, testBit_land2, testBit_comp64, nf_pow, nf_set, xor10,
              xor11, Nat.reduceEqDiff, reduceIte, eq_self_iff_true, if_true, if_false,
              decide_True, decide_False, Bool.xor_true, Bool.xor_false, Bool.true_xor,
              Bool.false_xor, Bool.and_true, Bool.true_and, Bool.and_false, Bool.false_and,
              Bool.or_true, Bool.or_false, Bool.true_or, Bool.false_or, Bool.not_true,
              Bool.not_false, Bool.not_not, and_true, true_and, and_false, false_and,
              not_true, not_false_iff, ne_eq]
    have e4 : placementHash b.zobrist
        ((((((b.pieces.setPieceType (mvPiece m) (Nat.land (b.pieces.pieceType (mvPiece m)) (comp64 (1 <<< mvOrig m)))).setColor
          0 (Nat.land (b.pieces.color 0) (comp64 (1 <<< mvOrig m)))).setPieceType
          (mvCaptured m) (Nat.land (((b.pieces.setPieceType (mvPiece m) (Nat.land (b.pieces.pieceType (mvPiece m)) (comp64 (1 <<< mvOrig m)))).setColor
          0 (Nat.land (b.pieces.color 0) (comp64 (1 <<< mvOrig m)))).pieceType (mvCaptured m)) (comp64 (1 <<< mvDest m)))).setColor
          1 (Nat.land (((b.pieces.setPieceType (mvPiece m) (Nat.land (b.pieces.pieceType (mvPiece m)) (comp64 (1 <<< mvOrig m)))).setColor
          0 (Nat.land (b.pieces.color 0) (comp64 (1 <<< mvOrig m)))).color 1) (comp64 (1 <<< mvDest m)))).setPieceType
          (mvPiece m) (Nat.lor (((((b.pieces.setPieceType (mvPiece m) (Nat.land (b.pieces.pieceType (mvPiece m)) (comp64 (1 <<< mvOrig m)))).setColor
          0 (Nat.land (b.pieces.color 0) (comp64 (1 <<< mvOrig m)))).setPieceType
          (mvCaptured m) (Nat.land (((b.pieces.setPieceType (mvPiece m) (Nat.land (b.pieces.pieceType (mvPiece m)) (comp64 (1 <<< mvOrig m)))).setColor
          0 (Nat.land (b.pieces.color 0) (comp64 (1 <<< mvOrig m)))).pieceType (mvCaptured m)) (comp64 (1 <<< mvDest m)))).setColor
          1 (Nat.land (((b.pieces.setPieceType (mvPiece m) (Nat.land (b.pieces.pieceType (mvPiece m)) (comp64 (1 <<< mvOrig m)))).setColor
          0 (Nat.land (b.pieces.color 0) (comp64 (1 <<< mvOrig m)))).color 1) (comp64 (1 <<< mvDest m)))).pieceType (mvPiece m)) (1 <<< mvDest m))).setColor
          0 (Nat.lor (((((b.pieces.setPieceType (mvPiece m) (Nat.land (b.pieces.pieceType (mvPiece m)) (comp64 (1 <<< mvOrig m)))).setColor
          0 (Nat.land (b.pieces.color 0) (comp64 (1 <<< mvOrig m)))).setPieceType
          (mvCaptured m) (Nat.land (((b.pieces.setPieceType (mvPiece m) (Nat.land (b.pieces.pieceType (mvPiece m)) (comp64 (1 <<< mvOrig m)))).setColor
          0 (Nat.land (b.pieces.color 0) (comp64 (1 <<< mvOrig m)))).pieceType (mvCaptured m)) (comp64 (1 <<< mvDest m)))).setColor
          1 (Nat.land (((b.pieces.setPieceType (mvPiece m) (Nat.land (b.pieces.pieceType (mvPiece m)) (comp64 (1 <<< mvOrig m)))).setColor
          0 (Nat.land (b.pieces.color 0) (comp64 (1 <<< mvOrig m)))).color 1) (comp64 (1 <<< mvDest m)))).color 0) (1 <<< mvDest m)))
        = Nat.xor (placementHash b.zobrist
          ((((b.pieces.setPieceType (mvPiece m) (Nat.land (b.pieces.pieceType (mvPiece m)) (comp64 (1 <<< mvOrig m)))).setColor
          0 (Nat.land (b.pieces.color 0) (comp64 (1 <<< mvOrig m)))).setPieceType
          (mvCaptured m) (Nat.land (((b.pieces.setPieceType (mvPiece m) (Nat.land (b.pieces.pieceType (mvPiece m)) (comp64 (1 <<< mvOrig m)))).setColor
          0 (Nat.land (b.pieces.color 0) (comp64 (1 <<< mvOrig m)))).pieceType (mvCaptured m)) (comp64 (1 <<< mvDest m)))).setColor
          1 (Nat.land (((b.pieces.setPieceType (mvPiece m) (Nat.land (b.pieces.pieceType (mvPiece m)) (comp64 (1 <<< mvOrig m)))).setColor
          0 (Nat.land (b.pieces.color 0) (comp64 (1 <<< mvOrig m)))).color 1) (comp64 (1 <<< mvDest m)))))
          (b.zobrist.pieces 0 (mvPiece m) (mvDest m)) := by
      refine placementHash_flip1 b.zobrist _ _ 0 (mvPiece m) (mvDest m)
        (by norm_num) hp6 hd64 ?_ ?_
      · intro C P i hC hP hi hne
        have hboP := hbo P hP
        have hbdP := hbd P hP
        rcases (by omega : C = 0 ∨ C = 1) with rfl | rfl <;>
          by_cases hPp : P = mvPiece m <;> by_cases hPc : P = mvCaptured m <;>
          by_cases hio : mvDest m = i <;>
          simp_all only [setColor_color, setColor_pieceType, setPieceType_pieceType,
              setPieceType_color, testBit_land2, testBit_comp64, nf_pow, nf_set, xor10,
              xor11, Nat.reduceEqDiff, reduceIte, eq_self_iff_true, if_true, if_false,
              decide_True, decide_False, Bool.xor_true, Bool.xor_false, Bool.true_xor,
              Bool.false_xor, Bool.and_true, Bool.true_and, Bool.and_false, Bool.false_and,
              Bool.or_true, Bool.or_false, Bool.true_or, Bool.false_or, Bool.not_true,
              Bool.not_false, Bool.not_not, and_true, true_and, and_false, false_and,
              not_true, not_false_iff, ne_eq]
      · by_cases hcp2 : mvPiece m = mvCaptured m <;>
          simp_all only [setColor_color, setColor_pieceType, setPieceType_pieceType,
              setPieceType_color, testBit_land2, testBit_comp64, nf_pow, nf_set, xor10,
              xor11, Nat.reduceEqDiff, reduceIte, eq_self_iff_true, if_true, if_false,
              decide_True, decide_False, Bool.xor_true, Bool.xor_false, Bool.true_xor,
              Bool.false_xor, Bool.and_true, Bool.true_and, Bool.and_false, Bool.false_and,
              Bool.or_true, Bool.or_false, Bool.true_or, Bool.false_or, Bool.not_true,
              Bool.not_false, Bool.not_not, and_true, true_and, and_false, false_and,
              not_true, not_false_iff, ne_eq]
    simp only [Board.doMoveApplied, calcHash_expand, htype, htmv, MOVE_NORMAL,
      MOVE_CASTLING, MOVE_PROMOTION, MOVE_ENPASSANT, NO_PIECE, KINGSIDE, QUEENSIDE,
      PAWN, BLACK, xor10, xor11, Nat.reduceEqDiff, Nat.reduceLT, reduceIte,
      Option.getD_some, if_pos hod, if_pos hcap6, apply_ite b.zobrist.enPassantFile,
      NO_ENPASSANT_FILE, enPassantFile8]
    rw [e4, e3, e2]
    simp only [xor_assoc2, xor_comm2, xor_lcomm, xor_zero2, zero_xor2, xor_self2,
      xor_cancel]

  · have e2 : placementHash b.zobrist
        ((b.pieces.setPieceType (mvPiece m) (Nat.land (b.pieces.pieceType (mvPiece m)) (comp64 (1 <<< mvOrig m)))).setColor
          1 (Nat.land (b.pieces.color 1) (comp64 (1 <<< mvOrig m))))
        = Nat.xor (placementHash b.zobrist b.pieces)
          (b.zobrist.pieces 1 (mvPiece m) (mvOrig m)) := by
      refine placementHash_flip1 b.zobrist b.pieces _ 1 (mvPiece m) (mvOrig m)
        (by norm_num) hp6 ho64 ?_ ?_
      · intro C P i hC hP hi hne
        have hboP := hbo P hP
        have hbdP := hbd P hP
        rcases (by omega : C = 0 ∨ C = 1) with rfl | rfl <;>
          by_cases hPp : P = mvPiece m <;> by_cases hio : mvOrig m = i <;>
          simp_all only [setColor_color, setColor_pieceType, setPieceType_pieceType,
              setPieceType_color, testBit_land2, testBit_comp64, nf_pow, nf_set, xor10,
              xor11, Nat.reduceEqDiff, reduceIte, eq_self_iff_true, if_true, if_false,
              decide_True, decide_False, Bool.xor_true, Bool.xor_false, Bool.true_xor,
              Bool.false_xor, Bool.and_true, Bool.true_and, Bool.and_false, Bool.false_and,
              Bool.or_true, Bool.or_false, Bool.true_or, Bool.false_or, Bool.not_true,
              Bool.not_false, Bool.not_not, and_true, true_and, and_false, false_and,
              not_true, not_false_iff, ne_eq]
      · simp_all only [setColor_color, setColor_pieceType, setPieceType_pieceType,
              setPieceType_color, testBit_land2, testBit_comp64, nf_pow, nf_set, xor10,
              xor11, Nat.reduceEqDiff, reduceIte, eq_self_iff_true, if_true, if_false,
              decide_True, decide_False, Bool.xor_true, Bool.xor_false, Bool.true_xor,
              Bool.false_xor, Bool.and_true, Bool.true_and, Bool.and_false, Bool.false_and,
              Bool.or_true, Bool.or_false, Bool.true_or, Bool.false_or, Bool.not_true,
              Bool.not_false, Bool.not_not, and_true, true_and, and_false, false_and,
              not_true, not_false_iff, ne_eq]
    have e3 : placementHash b.zobrist
        ((((b.pieces.setPieceType (mvPiece m) (Nat.land (b.pieces.pieceType (mvPiece m)) (comp64 (1 <<< mvOrig m)))).setColor
          1 (Nat.land (b.pieces.color 1) (comp64 (1 <<< mvOrig m)))).setPieceType
          (mvCaptured m) (Nat.land (((b.pieces.setPieceType (mvPiece m) (Nat.land (b.pieces.pieceType (mvPiece m)) (comp64 (1 <<< mvOrig m)))).setColor
          1 (Nat.land (b.pieces.color 1) (comp64 (1 <<< mvOrig m)))).pieceType (mvCaptured m)) (comp64 (1 <<< mvDest m)))).setColor
          0 (Nat.land (((b.pieces.setPieceType (mvPiece m) (Nat.land (b.pieces.pieceType (mvPiece m)) (comp64 (1 <<< mvOrig m)))).setColor
          1 (Nat.land (b.pieces.color 1) (comp64 (1 <<< mvOrig m)))).color 0) (comp64 (1 <<< mvDest m))))
        = Nat.xor (placementHash b.zobrist
          ((b.pieces.setPieceType (mvPiece m) (Nat.land (b.pieces.pieceType (mvPiece m)) (comp64 (1 <<< mvOrig m)))).setColor
          1 (Nat.land (b.pieces.color 1) (comp64 (1 <<< mvOrig m)))))
          (b.zobrist.pieces 0 (mvCaptured m) (mvDest m)) := by
      refine placementHash_flip1 b.zobrist _ _ 0 (mvCaptured m) (mvDest m)
        (by norm_num) hcap6 hd64 ?_ ?_
      · intro C P i hC hP hi hne
        have hboP := hbo P hP
        have hbdP := hbd P hP
        rcases (by omega : C = 0 ∨ C = 1) with rfl | rfl <;>
          by_cases hPp : P = mvPiece m <;> by_cases hPc : P = mvCaptured m <;>
          by_cases hio : mvDest m = i <;>
          simp_all only [setColor_color, setColor_pieceType, setPieceType_pieceType,
              setPieceType_color, testBit_land2, testBit_comp64, nf_pow, nf_set, xor10,
              xor11, Nat.reduceEqDiff, reduceIte, eq_self_iff_true, if_true, if_false,
              decide_True, decide_False, Bool.xor_true, Bool.xor_false, Bool.true_xor,
              Bool.false_xor, Bool.and_true, Bool.true_and, Bool.and_false, Bool.false_and,
              Bool.or_true, Bool.or_false, Bool.true_or, Bool.false_or, Bool.not_true,
              Bool.not_false, Bool.not_not, and_true, true_and, and_false, false_and,
              not_true, not_false_iff, ne_eq]
      · by_cases hcp : mvCaptured m = mvPiece m <;>
          simp_all only [setColor_color, setColor_pieceType, setPieceType_pieceType,
              setPieceType_color, testBit_land2, testBit_comp64, nf_pow, nf_set, xor10,
              xor11, Nat.reduceEqDiff, reduceIte, eq_self_iff_true, if_true, if_false,
              decide_True, decide_False, Bool.xor_true, Bool.xor_false, Bool.true_xor,
              Bool.false_xor, Bool.and_true, Bool.true_and, Bool.and_false, Bool.false_and,
              Bool.or_true, Bool.or_false, Bool.true_or, Bool.false_or, Bool.not_true,
              Bool.not_false, Bool.not_not, and_true, true_and, and_false, false_and,
              not_true, not_false_iff, ne_eq]
    have e4 : placementHash b.zobrist
        ((((((b.pieces.setPieceType (mvPiece m) (Nat.land (b.pieces.pieceType (mvPiece m)) (comp64 (1 <<< mvOrig m)))).setColor
          1 (Nat.land (b.pieces.color 1) (comp64 (1 <<< mvOrig m)))).setPieceType
          (mvCaptured m) (Nat.land (((b.pieces.setPieceType (mvPiece m) (Nat.land (b.pieces.pieceType (mvPiece m)) (comp64 (1 <<< mvOrig m)))).setColor
          1 (Nat.land (b.pieces.color 1) (comp64 (1 <<< mvOrig m)))).pieceType (mvCaptured m)) (comp64 (1 <<< mvDest m)))).setColor
          0 (Nat.land (((b.pieces.setPieceType (mvPiece m) (Nat.land (b.pieces.pieceType (mvPiece m)) (comp64 (1 <<< mvOrig m)))).setColor
          1 (Nat.land (b.pieces.color 1) (comp64 (1 <<< mvOrig m)))).color 0) (comp64 (1 <<< mvDest m)))).setPieceType
          (mvPiece m) (Nat.lor (((((b.pieces.setPieceType (mvPiece m) (Nat.land (b.pieces.pieceType (mvPiece m)) (comp64 (1 <<< mvOrig m)))).setColor
          1 (Nat.land (b.pieces.color 1) (comp64 (1 <<< mvOrig m)))).setPieceType
          (mvCaptured m) (Nat.land (((b.pieces.setPieceType (mvPiece m) (Nat.land (b.pieces.pieceType (mvPiece m)) (comp64 (1 <<< mvOrig m)))).setColor
          1 (Nat.land (b.pieces.color 1) (comp64 (1 <<< mvOrig m)))).pieceType (mvCaptured m)) (comp64 (1 <<< mvDest m)))).setColor
          0 (Nat.land (((b.pieces.setPieceType (mvPiece m) (Nat.land (b.pieces.pieceType (mvPiece m)) (comp64 (1 <<< mvOrig m)))).setColor
          1 (Nat.land (b.pieces.color 1) (comp64 (1 <<< mvOrig m)))).color 0) (comp64 (1 <<< mvDest m)))).pieceType (mvPiece m)) (1 <<< mvDest m))).setColor
          1 (Nat.lor (((((b.pieces.setPieceType (mvPiece m) (Nat.land (b.pieces.pieceType (mvPiece m)) (comp64 (1 <<< mvOrig m)))).setColor
          1 (Nat.land (b.pieces.color 1) (comp64 (1 <<< mvOrig m)))).setPieceType
          (mvCaptured m) (Nat.land (((b.pieces.setPieceType (mvPiece m) (Nat.land (b.pieces.pieceType (mvPiece m)) (comp64 (1 <<< mvOrig m)))).setColor
          1 (Nat.land (b.pieces.color 1) (comp64 (1 <<< mvOrig m)))).pieceType (mvCaptured m)) (comp64 (1 <<< mvDest m)))).setColor
          0 (Nat.land (((b.pieces.setPieceType (mvPiece m) (Nat.land (b.pieces.pieceType (mvPiece m)) (comp64 (1 <<< mvOrig m)))).setColor
          1 (Nat.land (b.pieces.color 1) (comp64 (1 <<< mvOrig m)))).color 0) (comp64 (1 <<< mvDest m)))).color 1) (1 <<< mvDest m)))
        = Nat.xor (placementHash b.zobrist
          ((((b.pieces.setPieceType (mvPiece m) (Nat.land (b.pieces.pieceType (mvPiece m)) (comp64 (1 <<< mvOrig m)))).setColor
          1 (Nat.land (b.pieces.color 1) (comp64 (1 <<< mvOrig m)))).setPieceType
          (mvCaptured m) (Nat.land (((b.pieces.setPieceType (mvPiece m) (Nat.land (b.pieces.pieceType (mvPiece m)) (comp64 (1 <<< mvOrig m)))).setColor
          1 (Nat.land (b.pieces.color 1) (comp64 (1 <<< mvOrig m)))).pieceType (mvCaptured m)) (comp64 (1 <<< mvDest m)))).setColor
          0 (Nat.land (((b.pieces.setPieceType (mvPiece m) (Nat.land (b.pieces.pieceType (mvPiece m)) (comp64 (1 <<< mvOrig m)))).setColor
          1 (Nat.land (b.pieces.color 1) (comp64 (1 <<< mvOrig m)))).color 0) (comp64 (1 <<< mvDest m)))))
          (b.zobrist.pieces 1 (mvPiece m) (mvDest m)) := by
      refine placementHash_flip1 b.zobrist _ _ 1 (mvPiece m) (mvDest m)
        (by norm_num) hp6 hd64 ?_ ?_
      · intro C P i hC hP hi hne
        have hboP := hbo P hP
        have hbdP := hbd P hP
        rcases (by omega : C = 0 ∨ C = 1) with rfl | rfl <;>
          by_cases hPp : P = mvPiece m <;> by_cases hPc : P = mvCaptured m <;>
          by_cases hio : mvDest m = i <;>
          simp_all only [setColor_color, setColor_pieceType, setPieceType_pieceType,
              setPieceType_color, testBit_land2, testBit_comp64, nf_pow, nf_set, xor10,
              xor11, Nat.reduceEqDiff, reduceIte, eq_self_iff_true, if_true, if_false,
              decide_True, decide_False, Bool.xor_true, Bool.xor_false, Bool.true_xor,
              Bool.false_xor, Bool.and_true, Bool.true_and, Bool.and_false, Bool.false_and,
              Bool.or_true, Bool.or_false, Bool.true_or, Bool.false_or, Bool.not_true,
              Bool.not_false, Bool.not_not, and_true, true_and, and_false, false_and,
              not_true, not_false_iff, ne_eq]
      · by_cases hcp2 : mvPiece m = mvCaptured m <;>
          simp_all only [setColor_color, setColor_pieceType, setPieceType_pieceType,
              setPieceType_color, testBit_land2, testBit_comp64, nf_pow, nf_set, xor10,
              xor11, Nat.reduceEqDiff, reduceIte, eq_self_iff_true, if_true, if_false,
              decide_True, decide_False, Bool.xor_true, Bool.xor_false, Bool.true_xor,
              Bool.false_xor, Bool.and_true, Bool.true_and, Bool.and_false, Bool.false_and,
              Bool.or_true, Bool.or_false, Bool.true_or, Bool.false_or, Bool.not_true,
              Bool.not_false, Bool.not_not, and_true, true_and, and_false, false_and,
              not_true, not_false_iff, ne_eq]
    simp only [Board.doMoveApplied, calcHash_expand, htype, htmv, MOVE_NORMAL,
      MOVE_CASTLING, MOVE_PROMOTION, MOVE_ENPASSANT, NO_PIECE, KINGSIDE, QUEENSIDE,
      PAWN, BLACK, xor10, xor11, Nat.reduceEqDiff, Nat.reduceLT, reduceIte,
      Option.getD_some, if_pos hod, if_pos hcap6, apply_ite b.zobrist.enPassantFile,
      NO_ENPASSANT_FILE, enPassantFile8]
    rw [e4, e3, e2]
    simp only [xor_assoc2, xor_comm2, xor_lcomm, xor_zero2, zero_xor2, xor_self2,
      xor_cancel]

set_option maxHeartbeats 1600000 in
theorem dev_h3 (b : Board) (m : Move)
    (htm : b.toMove < 2)
    (htype : mvType m = MOVE_PROMOTION)
    (hcap : mvCaptured m = NO_PIECE)
    (hpw : mvPiece m = 5)
    (hdplt : pieceFromAuxData (mvAux m) < 6)
    (ho64 : mvOrig m < 64) (hd64 : mvDest m < 64)
    (hod : mvOrig m ≠ mvDest m)
    (horig : (b.pieces.pieceType 5).testBit (mvOrig m) = true)
    (horigc : (b.pieces.color b.toMove).testBit (mvOrig m) = true)
    (hdnu : (b.pieces.color b.toMove).testBit (mvDest m) = false)
    (hptd : ∀ q, q < 6 → (b.pieces.pieceType q).testBit (mvDest m) = false)
    (hbo : ∀ q, q < 6 → q ≠ 5 → (b.pieces.pieceType q).testBit (mvOrig m) = false)
    (hthemo : (b.pieces.color (Nat.xor 1 b.toMove)).testBit (mvOrig m) = false)
    (hthemd : (b.pieces.color (Nat.xor 1 b.toMove)).testBit (mvDest m) = false) :
    Nat.xor b.calcHash ((b.doMoveApplied m).1.getD 0) = ((b.doMoveApplied m).2).calcHash := by
  rcases (by omega : b.toMove = 0 ∨ b.toMove = 1) with htmv | htmv
  · have e2 : placementHash b.zobrist
        ((b.pieces.setPieceType 5 (Nat.land (b.pieces.pieceType 5) (comp64 (1 <<< mvOrig m)))).setColor
          0 (Nat.land (b.pieces.color 0) (comp64 (1 <<< mvOrig m))))
        = Nat.xor (placementHash b.zobrist b.pieces)
          (b.zobrist.pieces 0 5 (mvOrig m)) := by
      refine placementHash_flip1 b.zobrist b.pieces _ 0 5 (mvOrig m)
        (by norm_num) (by norm_num) ho64 ?_ ?_
      · intro C P i hC hP hi hne
        have hboP := hbo P hP
        have hptdP := hptd P hP
        rcases (by omega : C = 0 ∨ C = 1) with rfl | rfl <;>
          by_cases hP5 : P = 5 <;> by_cases hio : mvOrig m = i <;>
          simp_all only [setColor_color, setColor_pieceType, setPieceType_pieceType,
              setPieceType_color, testBit_land2, testBit_comp64, nf_pow, nf_set, xor10,
              xor11, Nat.reduceEqDiff, reduceIte, eq_self_iff_true, if_true, if_false,
              decide_True, decide_False, Bool.xor_true, Bool.xor_false, Bool.true_xor,
              Bool.false_xor, Bool.and_true, Bool.true_and, Bool.and_false, Bool.false_and,
              Bool.or_true, Bool.or_false, Bool.true_or, Bool.false_or, Bool.not_true,
              Bool.not_false, Bool.not_not, and_true, true_and, and_false, false_and,
              not_true, not_false_iff, ne_eq]
      · simp_all only [setColor_color, setColor_pieceType, setPieceType_pieceType,
              setPieceType_color, testBit_land2, testBit_comp64, nf_pow, nf_set, xor10,
              xor11, Nat.reduceEqDiff, reduceIte, eq_self_iff_true, if_true, if_false,
              decide_True, decide_False, Bool.xor_true, Bool.xor_false, Bool.true_xor,
              Bool.false_xor, Bool.and_true, Bool.true_and, Bool.and_false, Bool.false_and,
              Bool.or_true, Bool.or_false, Bool.true_or, Bool.false_or, Bool.not_true,
              Bool.not_false, Bool.not_not, and_true, true_and, and_false, false_and,
              not_true, not_false_iff, ne_eq]
    have e4 : placementHash b.zobrist
        ((((b.pieces.setPieceType 5 (Nat.land (b.pieces.pieceType 5) (comp64 (1 <<< mvOrig m)))).setColor
          0 (Nat.land (b.pieces.color 0) (comp64 (1 <<< mvOrig m)))).setPieceType
          (pieceFromAuxData (mvAux m)) (Nat.lor (((b.pieces.setPieceType 5 (Nat.land (b.pieces.pieceType 5) (comp64 (1 <<< mvOrig m)))).setColor
          0 (Nat.land (b.pieces.color 0) (comp64 (1 <<< mvOrig m)))).pieceType (pieceFromAuxData (mvAux m))) (1 <<< mvDest m))).setColor
          0 (Nat.lor (((b.pieces.setPieceType 5 (Nat.land (b.pieces.pieceType 5) (comp64 (1 <<< mvOrig m)))).setColor
          0 (Nat.land (b.pieces.color 0) (comp64 (1 <<< mvOrig m)))).color 0) (1 <<< mvDest m)))
        = Nat.xor (placementHash b.zobrist
          ((b.pieces.setPieceType 5 (Nat.land (b.pieces.pieceType 5) (comp64 (1 <<< mvOrig m)))).setColor
          0 (Nat.land (b.pieces.color 0) (comp64 (1 <<< mvOrig m)))))
          (b.zobrist.pieces 0 (pieceFromAuxData (mvAux m)) (mvDest m)) := by
      refine placementHash_flip1 b.zobrist _ _ 0 (pieceFromAuxData (mvAux m)) (mvDest m)
        (by norm_num) hdplt hd64 ?_ ?_
      · intro C P i hC hP hi hne
        have hboP := hbo P hP
        have hptdP := hptd P hP
        rcases (by omega : C = 0 ∨ C = 1) with rfl | rfl <;>
          by_cases hP5 : P = 5 <;> by_cases hPd : P = pieceFromAuxData (mvAux m) <;>
          by_cases hio : mvDest m = i <;>
          simp_all only [setColor_color, setColor_pieceType, setPieceType_pieceType,
              setPieceType_color, testBit_land2, testBit_comp64, nf_pow, nf_set, xor10,
              xor11, Nat.reduceEqDiff, reduceIte, eq_self_iff_true, if_true, if_false,
              decide_True, decide_False, Bool.xor_true, Bool.xor_false, Bool.true_xor,
              Bool.false_xor, Bool.and_true, Bool.true_and, Bool.and_false, Bool.false_and,
              Bool.or_true, Bool.or_false, Bool.true_or, Bool.false_or, Bool.not_true,
              Bool.not_false, Bool.not_not, and_true, true_and, and_false, false_and,
              not_true, not_false_iff, ne_eq]
      · by_cases hdp5 : pieceFromAuxData (mvAux m) = 5 <;>
          simp_all only [setColor_color, setColor_pieceType, setPieceType_pieceType,
              setPieceType_color, testBit_land2, testBit_comp64, nf_pow, nf_set, xor10,
              xor11, Nat.reduceEqDiff, reduceIte, eq_self_iff_true, if_true, if_false,
              decide_True, decide_False, Bool.xor_true, Bool.xor_false, Bool.true_xor,
              Bool.false_xor, Bool.and_true, Bool.true_and, Bool.and_false, Bool.false_and,
              Bool.or_true, Bool.or_false, Bool.true_or, Bool.false_or, Bool.not_true,
              Bool.not_false, Bool.not_not, and_true, true_and, and_false, false_and,
              not_true, not_false_iff, ne_eq]
    simp only [Board.doMoveApplied, calcHash_expand, htype, hcap, hpw, htmv, MOVE_NORMAL,
      MOVE_CASTLING, MOVE_PROMOTION, MOVE_ENPASSANT, NO_PIECE, KINGSIDE, QUEENSIDE,
      PAWN, BLACK, xor10, xor11, Nat.reduceEqDiff, Nat.reduceLT, reduceIte,
      Option.getD_some, if_pos hod, apply_ite b.zobrist.enPassantFile,
      NO_ENPASSANT_FILE, enPassantFile8]
    rw [e4, e2]
    simp only [xor_assoc2, xor_comm2, xor_lcomm, xor_zero2, zero_xor2, xor_self2,
      xor_cancel]

  · have e2 : placementHash b.zobrist
        ((b.pieces.setPieceType 5 (Nat.land (b.pieces.pieceType 5) (comp64 (1 <<< mvOrig m)))).setColor
          1 (Nat.land (b.pieces.color 1) (comp64 (1 <<< mvOrig m))))
        = Nat.xor (placementHash b.zobrist b.pieces)
          (b.zobrist.pieces 1 5 (mvOrig m)) := by
      refine placementHash_flip1 b.zobrist b.pieces _ 1 5 (mvOrig m)
        (by norm_num) (by norm_num) ho64 ?_ ?_
      · intro C P i hC hP hi hne
        have hboP := hbo P hP
        have hptdP := hptd P hP
        rcases (by omega : C = 0 ∨ C = 1) with rfl | rfl <;>
          by_cases hP5 : P = 5 <;> by_cases hio : mvOrig m = i <;>
          simp_all only [setColor_color, setColor_pieceType, setPieceType_pieceType,
              setPieceType_color, testBit_land2, testBit_comp64, nf_pow, nf_set, xor10,
              xor11, Nat.reduceEqDiff, reduceIte, eq_self_iff_true, if_true, if_false,
              decide_True, decide_False, Bool.xor_true, Bool.xor_false, Bool.true_xor,
              Bool.false_xor, Bool.and_true, Bool.true_and, Bool.and_false, Bool.false_and,
              Bool.or_true, Bool.or_false, Bool.true_or, Bool.false_or, Bool.not_true,
              Bool.not_false, Bool.not_not, and_true, true_and, and_false, false_and,
              not_true, not_false_iff, ne_eq]
      · simp_all only [setColor_color, setColor_pieceType, setPieceType_pieceType,
              setPieceType_color, testBit_land2, testBit_comp64, nf_pow, nf_set, xor10,
              xor11, Nat.reduceEqDiff, reduceIte, eq_self_iff_true, if_true, if_false,
              decide_True, decide_False, Bool.xor_true, Bool.xor_false, Bool.true_xor,
              Bool.false_xor, Bool.and_true, Bool.true_and, Bool.and_false, Bool.false_and,
              Bool.or_true, Bool.or_false, Bool.true_or, Bool.false_or, Bool.not_true,
              Bool.not_false, Bool.not_not, and_true, true_and, and_false, false_and,
              not_true, not_false_iff, ne_eq]
    have e4 : placementHash b.zobrist
        ((((b.pieces.setPieceType 5 (Nat.land (b.pieces.pieceType 5) (comp64 (1 <<< mvOrig m)))).setColor
          1 (Nat.land (b.pieces.color 1) (comp64 (1 <<< mvOrig m)))).setPieceType
          (pieceFromAuxData (mvAux m)) (Nat.lor (((b.pieces.setPieceType 5 (Nat.land (b.pieces.pieceType 5) (comp64 (1 <<< mvOrig m)))).setColor
          1 (Nat.land (b.pieces.color 1) (comp64 (1 <<< mvOrig m)))).pieceType (pieceFromAuxData (mvAux m))) (1 <<< mvDest m))).setColor
          1 (Nat.lor (((b.pieces.setPieceType 5 (Nat.land (b.pieces.pieceType 5) (comp64 (1 <<< mvOrig m)))).setColor
          1 (Nat.land (b.pieces.color 1) (comp64 (1 <<< mvOrig m)))).color 1) (1 <<< mvDest m)))
        = Nat.xor (placementHash b.zobrist
          ((b.pieces.setPieceType 5 (Nat.land (b.pieces.pieceType 5) (comp64 (1 <<< mvOrig m)))).setColor
          1 (Nat.land (b.pieces.color 1) (comp64 (1 <<< mvOrig m)))))
          (b.zobrist.pieces 1 (pieceFromAuxData (mvAux m)) (mvDest m)) := by
      refine placementHash_flip1 b.zobrist _ _ 1 (pieceFromAuxData (mvAux m)) (mvDest m)
        (by norm_num) hdplt hd64 ?_ ?_
      · intro C P i hC hP hi hne
        have hboP := hbo P hP
        have hptdP := hptd P hP
        rcases (by omega : C = 0 ∨ C = 1) with rfl | rfl <;>
          by_cases hP5 : P = 5 <;> by_cases hPd : P = pieceFromAuxData (mvAux m) <;>
          by_cases hio : mvDest m = i <;>
          simp_all only [setColor_color, setColor_pieceType, setPieceType_pieceType,
              setPieceType_color, testBit_land2, testBit_comp64, nf_pow, nf_set, xor10,
              xor11, Nat.reduceEqDiff, reduceIte, eq_self_iff_true, if_true, if_false,
              decide_True, decide_False, Bool.xor_true, Bool.xor_false, Bool.true_xor,
              Bool.false_xor, Bool.and_true, Bool.true_and, Bool.and_false, Bool.false_and,
              Bool.or_true, Bool.or_false, Bool.true_or, Bool.false_or, Bool.not_true,
              Bool.not_false, Bool.not_not, and_true, true_and, and_false, false_and,
              not_true, not_false_iff, ne_eq]
      · by_cases hdp5 : pieceFromAuxData (mvAux m) = 5 <;>
          simp_all only [setColor_color, setColor_pieceType, setPieceType_pieceType,
              setPieceType_color, testBit_land2, testBit_comp64, nf_pow, nf_set, xor10,
              xor11, Nat.reduceEqDiff, reduceIte, eq_self_iff_true, if_true, if_false,
              decide_True, decide_False, Bool.xor_true, Bool.xor_false, Bool.true_xor,
              Bool.false_xor, Bool.and_true, Bool.true_and, Bool.and_false, Bool.false_and,
              Bool.or_true, Bool.or_false, Bool.true_or, Bool.false_or, Bool.not_true,
              Bool.not_false, Bool.not_not, and_true, true_and, and_false, false_and,
              not_true, not_false_iff, ne_eq]
    simp only [Board.doMoveApplied, calcHash_expand, htype, hcap, hpw, htmv, MOVE_NORMAL,
      MOVE_CASTLING, MOVE_PROMOTION, MOVE_ENPASSANT, NO_PIECE, KINGSIDE, QUEENSIDE,
      PAWN, BLACK, xor10, xor11, Nat.reduceEqDiff, Nat.reduceLT, reduceIte,
      Option.getD_some, if_pos hod, apply_ite b.zobrist.enPassantFile,
      NO_ENPASSANT_FILE, enPassantFile8]
    rw [e4, e2]
    simp only [xor_assoc2, xor_comm2, xor_lcomm, xor_zero2, zero_xor2, xor_self2,
      xor_cancel]

set_option maxHeartbeats 1600000 in
theorem dev_h4 (b : Board) (m : Move)
    (htm : b.toMove < 2)
    (htype : mvType m = MOVE_PROMOTION)
    (hcap6 : mvCaptured m < 6)
    (hpw : mvPiece m = 5)
    (hdplt : pieceFromAuxData (mvAux m) < 6)
    (ho64 : mvOrig m < 64) (hd64 : mvDest m < 64)
    (hod : mvOrig m ≠ mvDest m)
    (horig : (b.pieces.pieceType 5).testBit (mvOrig m) = true)
    (horigc : (b.pieces.color b.toMove).testBit (mvOrig m) = true)
    (hdnu : (b.pieces.color b.toMove).testBit (mvDest m) = false)
    (hcapd : (b.pieces.pieceType (mvCaptured m)).testBit (mvDest m) = true)
    (hcapc : (b.pieces.color (Nat.xor 1 b.toMove)).testBit (mvDest m) = true)
    (hbd : ∀ q, q < 6 → q ≠ mvCaptured m → (b.pieces.pieceType q).testBit (mvDest m) = false)
    (hbo : ∀ q, q < 6 → q ≠ 5 → (b.pieces.pieceType q).testBit (mvOrig m) = false)
    (hthemo : (b.pieces.color (Nat.xor 1 b.toMove)).testBit (mvOrig m) = false) :
    Nat.xor b.calcHash ((b.doMoveApplied m).1.getD 0) = ((b.doMoveApplied m).2).calcHash := by
  rcases (by omega : b.toMove = 0 ∨ b.toMove = 1) with htmv | htmv
  · have e2 : placementHash b.zobrist
        ((b.pieces.setPieceType 5 (Nat.land (b.pieces.pieceType 5) (comp64 (1 <<< mvOrig m)))).setColor
          0 (Nat.land (b.pieces.color 0) (comp64 (1 <<< mvOrig m))))
        = Nat.xor (placementHash b.zobrist b.pieces)
          (b.zobrist.pieces 0 5 (mvOrig m)) := by
      refine placementHash_flip1 b.zobrist b.pieces _ 0 5 (mvOrig m)
        (by norm_num) (by norm_num) ho64 ?_ ?_
      · intro C P i hC hP hi hne
        have hboP := hbo P hP
        have hbdP := hbd P hP
        rcases (by omega : C = 0 ∨ C = 1) with rfl | rfl <;>
          by_cases hP5 : P = 5 <;> by_cases hio : mvOrig m = i <;>
          simp_all only [setColor_color, setColor_pieceType, setPieceType_pieceType,
              setPieceType_color, testBit_land2, testBit_comp64, nf_pow, nf_set, xor10,
              xor11, Nat.reduceEqDiff, reduceIte, eq_self_iff_true, if_true, if_false,
              decide_True, decide_False, Bool.xor_true, Bool.xor_false, Bool.true_xor,
              Bool.false_xor, Bool.and_true, Bool.true_and, Bool.and_false, Bool.false_and,
              Bool.or_true, Bool.or_false, Bool.true_or, Bool.false_or, Bool.not_true,
              Bool.not_false, Bool.not_not, and_true, true_and, and_false, false_and,
              not_true, not_false_iff, ne_eq]
      · simp_all only [setColor_color, setColor_pieceType, setPieceType_pieceType,
              setPieceType_color, testBit_land2, testBit_comp64, nf_pow, nf_set, xor10,
              xor11, Nat.reduceEqDiff, reduceIte, eq_self_iff_true, if_true, if_false,
              decide_True, decide_False, Bool.xor_true, Bool.xor_false, Bool.true_xor,
              Bool.false_xor, Bool.and_true, Bool.true_and, Bool.and_false, Bool.false_and,
              Bool.or_true, Bool.or_false, Bool.true_or, Bool.false_or, Bool.not_true,
              Bool.not_false, Bool.not_not, and_true, true_and, and_false, false_and,
              not_true, not_false_iff, ne_eq]
    have e3 : placementHash b.zobrist
        ((((b.pieces.setPieceType 5 (Nat.land (b.pieces.pieceType 5) (comp64 (1 <<< mvOrig m)))).setColor
          0 (Nat.land (b.pieces.color 0) (comp64 (1 <<< mvOrig m)))).setPieceType
          (mvCaptured m) (Nat.land (((b.pieces.setPieceType 5 (Nat.land (b.pieces.pieceType 5) (comp64 (1 <<< mvOrig m)))).setColor
          0 (Nat.land (b.pieces.color 0) (comp64 (1 <<< mvOrig m)))).pieceType (mvCaptured m)) (comp64 (1 <<< mvDest m)))).setColor
          1 (Nat.land (((b.pieces.setPieceType 5 (Nat.land (b.pieces.pieceType 5) (comp64 (1 <<< mvOrig m)))).setColor
          0 (Nat.land (b.pieces.color 0) (comp64 (1 <<< mvOrig m)))).color 1) (comp64 (1 <<< mvDest m))))
        = Nat.xor (placementHash b.zobrist
          ((b.pieces.setPieceType 5 (Nat.land (b.pieces.pieceType 5) (comp64 (1 <<< mvOrig m)))).setColor
          0 (Nat.land (b.pieces.color 0) (comp64 (1 <<< mvOrig m)))))
          (b.zobrist.pieces 1 (mvCaptured m) (mvDest m)) := by
      refine placementHash_flip1 b.zobrist _ _ 1 (mvCaptured m) (mvDest m)
        (by norm_num) hcap6 hd64 ?_ ?_
      · intro C P i hC hP hi hne
        have hboP := hbo P hP
        have hbdP := hbd P hP
        rcases (by omega : C = 0 ∨ C = 1) with rfl | rfl <;>
          by_cases hP5 : P = 5 <;> by_cases hPc : P = mvCaptured m <;>
          by_cases hio : mvDest m = i <;>
          simp_all only [setColor_color, setColor_pieceType, setPieceType_pieceType,
              setPieceType_color, testBit_land2, testBit_comp64, nf_pow, nf_set, xor10,
              xor11, Nat.reduceEqDiff, reduceIte, eq_self_iff_true, if_true, if_false,
              decide_True, decide_False, Bool.xor_true, Bool.xor_false, Bool.true_xor,
              Bool.false_xor, Bool.and_true, Bool.true_and, Bool.and_false, Bool.false_and,
              Bool.or_true, Bool.or_false, Bool.true_or, Bool.false_or, Bool.not_true,
              Bool.not_false, Bool.not_not, and_true, true_and, and_false, false_and,
              not_true, not_false_iff, ne_eq]
      · by_cases hc5 : mvCaptured m = 5 <;>
          simp_all only [setColor_color, setColor_pieceType, setPieceType_pieceType,
              setPieceType_color, testBit_land2, testBit_comp64, nf_pow, nf_set, xor10,
              xor11, Nat.reduceEqDiff, reduceIte, eq_self_iff_true, if_true, if_false,
              decide_True, decide_False, Bool.xor_true, Bool.xor_false, Bool.true_xor,
              Bool.false_xor, Bool.and_true, Bool.true_and, Bool.and_false, Bool.false_and,
              Bool.or_true, Bool.or_false, Bool.true_or, Bool.false_or, Bool.not_true,
              Bool.not_false, Bool.not_not, and_true, true_and, and_false, false_and,
              not_true, not_false_iff, ne_eq]
    have e4 : placementHash b.zobrist
        ((((((b.pieces.setPieceType 5 (Nat.land (b.pieces.pieceType 5) (comp64 (1 <<< mvOrig m)))).setColor
          0 (Nat.land (b.pieces.color 0) (comp64 (1 <<< mvOrig m)))).setPieceType
          (mvCaptured m) (Nat.land (((b.pieces.setPieceType 5 (Nat.land (b.pieces.pieceType 5) (comp64 (1 <<< mvOrig m)))).setColor
          0 (Nat.land (b.pieces.color 0) (comp64 (1 <<< mvOrig m)))).pieceType (mvCaptured m)) (comp64 (1 <<< mvDest m)))).setColor
          1 (Nat.land (((b.pieces.setPieceType 5 (Nat.land (b.pieces.pieceType 5) (comp64 (1 <<< mvOrig m)))).setColor
          0 (Nat.land (b.pieces.color 0) (comp64 (1 <<< mvOrig m)))).color 1) (comp64 (1 <<< mvDest m)))).setPieceType
          (pieceFromAuxData (mvAux m)) (Nat.lor (((((b.pieces.setPieceType 5 (Nat.land (b.pieces.pieceType 5) (comp64 (1 <<< mvOrig m)))).setColor
          0 (Nat.land (b.pieces.color 0) (comp64 (1 <<< mvOrig m)))).setPieceType
          (mvCaptured m) (Nat.land (((b.pieces.setPieceType 5 (Nat.land (b.pieces.pieceType 5) (comp64 (1 <<< mvOrig m)))).setColor
          0 (Nat.land (b.pieces.color 0) (comp64 (1 <<< mvOrig m)))).pieceType (mvCaptured m)) (comp64 (1 <<< mvDest m)))).setColor
          1 (Nat.land (((b.pieces.setPieceType 5 (Nat.land (b.pieces.pieceType 5) (comp64 (1 <<< mvOrig m)))).setColor
          0 (Nat.land (b.pieces.color 0) (comp64 (1 <<< mvOrig m)))).color 1) (comp64 (1 <<< mvDest m)))).pieceType (pieceFromAuxData (mvAux m))) (1 <<< mvDest m))).setColor
          0 (Nat.lor (((((b.pieces.setPieceType 5 (Nat.land (b.pieces.pieceType 5) (comp64 (1 <<< mvOrig m)))).setColor
          0 (Nat.land (b.pieces.color 0) (comp64 (1 <<< mvOrig m)))).setPieceType
          (mvCaptured m) (Nat.land (((b.pieces.setPieceType 5 (Nat.land (b.pieces.pieceType 5) (comp64 (1 <<< mvOrig m)))).setColor
          0 (Nat.land (b.pieces.color 0) (comp64 (1 <<< mvOrig m)))).pieceType (mvCaptured m)) (comp64 (1 <<< mvDest m)))).setColor
          1 (Nat.land (((b.pieces.setPieceType 5 (Nat.land (b.pieces.pieceType 5) (comp64 (1 <<< mvOrig m)))).setColor
          0 (Nat.land (b.pieces.color 0) (comp64 (1 <<< mvOrig m)))).color 1) (comp64 (1 <<< mvDest m)))).color 0) (1 <<< mvDest m)))
        = Nat.xor (placementHash b.zobrist
          ((((b.pieces.setPieceType 5 (Nat.land (b.pieces.pieceType 5) (comp64 (1 <<< mvOrig m)))).setColor
          0 (Nat.land (b.pieces.color 0) (comp64 (1 <<< mvOrig m)))).setPieceType
          (mvCaptured m) (Nat.land (((b.pieces.setPieceType 5 (Nat.land (b.pieces.pieceType 5) (comp64 (1 <<< mvOrig m)))).setColor
          0 (Nat.land (b.pieces.color 0) (comp64 (1 <<< mvOrig m)))).pieceType (mvCaptured m)) (comp64 (1 <<< mvDest m)))).setColor
          1 (Nat.land (((b.pieces.setPieceType 5 (Nat.land (b.pieces.pieceType 5) (comp64 (1 <<< mvOrig m)))).setColor
          0 (Nat.land (b.pieces.color 0) (comp64 (1 <<< mvOrig m)))).color 1) (comp64 (1 <<< mvDest m)))))
          (b.zobrist.pieces 0 (pieceFromAuxData (mvAux m)) (mvDest m)) := by
      refine placementHash_flip1 b.zobrist _ _ 0 (pieceFromAuxData (mvAux m)) (mvDest m)
        (by norm_num) hdplt hd64 ?_ ?_
      · intro C P i hC hP hi hne
        have hboP := hbo P hP
        have hbdP := hbd P hP
        rcases (by omega : C = 0 ∨ C = 1) with rfl | rfl <;>
          by_cases hP5 : P = 5 <;> by_cases hPc : P = mvCaptured m <;>
          by_cases hPd : P = pieceFromAuxData (mvAux m) <;>
          by_cases hio : mvDest m = i <;>
          simp_all only [setColor_color, setColor_pieceType, setPieceType_pieceType,
              setPieceType_color, testBit_land2, testBit_comp64, nf_pow, nf_set, xor10,
              xor11, Nat.reduceEqDiff, reduceIte, eq_self_iff_true, if_true, if_false,
              decide_True, decide_False, Bool.xor_true, Bool.xor_false, Bool.true_xor,
              Bool.false_xor, Bool.and_true, Bool.true_and, Bool.and_false, Bool.false_and,
              Bool.or_true, Bool.or_false, Bool.true_or, Bool.false_or, Bool.not_true,
              Bool.not_false, Bool.not_not, and_true, true_and, and_false, false_and,
              not_true, not_false_iff, ne_eq]
      · by_cases hcpdp : pieceFromAuxData (mvAux m) = mvCaptured m <;>
          by_cases hdp5 : pieceFromAuxData (mvAux m) = 5 <;>
          by_cases hc5 : mvCaptured m = 5 <;>
          simp_all only [setColor_color, setColor_pieceType, setPieceType_pieceType,
              setPieceType_color, testBit_land2, testBit_comp64, nf_pow, nf_set, xor10,
              xor11, Nat.reduceEqDiff, reduceIte, eq_self_iff_true, if_true, if_false,
              decide_True, decide_False, Bool.xor_true, Bool.xor_false, Bool.true_xor,
              Bool.false_xor, Bool.and_true, Bool.true_and, Bool.and_false, Bool.false_and,
              Bool.or_true, Bool.or_false, Bool.true_or, Bool.false_or, Bool.not_true,
              Bool.not_false, Bool.not_not, and_true, true_and, and_false, false_and,
              not_true, not_false_iff, ne_eq]
    simp only [Board.doMoveApplied, calcHash_expand, htype, hpw, htmv, MOVE_NORMAL,
      MOVE_CASTLING, MOVE_PROMOTION, MOVE_ENPASSANT, NO_PIECE, KINGSIDE, QUEENSIDE,
      PAWN, BLACK, xor10, xor11, Nat.reduceEqDiff, Nat.reduceLT, reduceIte,
      Option.getD_some, if_pos hod, if_pos hcap6, apply_ite b.zobrist.enPassantFile,
      NO_ENPASSANT_FILE, enPassantFile8]
    rw [e4, e3, e2]
    simp only [xor_assoc2, xor_comm2, xor_lcomm, xor_zero2, zero_xor2, xor_self2,
      xor_cancel]

  · have e2 : placementHash b.zobrist
        ((b.pieces.setPieceType 5 (Nat.land (b.pieces.pieceType 5) (comp64 (1 <<< mvOrig m)))).setColor
          1 (Nat.land (b.pieces.color 1) (comp64 (1 <<< mvOrig m))))
        = Nat.xor (placementHash b.zobrist b.pieces)
          (b.zobrist.pieces 1 5 (mvOrig m)) := by
      refine placementHash_flip1 b.zobrist b.pieces _ 1 5 (mvOrig m)
        (by norm_num) (by norm_num) ho64 ?_ ?_
      · intro C P i hC hP hi hne
        have hboP := hbo P hP
        have hbdP := hbd P hP
        rcases (by omega : C = 0 ∨ C = 1) with rfl | rfl <;>
          by_cases hP5 : P = 5 <;> by_cases hio : mvOrig m = i <;>
          simp_all only [setColor_color, setColor_pieceType, setPieceType_pieceType,
              setPieceType_color, testBit_land2, testBit_comp64, nf_pow, nf_set, xor10,
              xor11, Nat.reduceEqDiff, reduceIte, eq_self_iff_true, if_true, if_false,
              decide_True, decide_False, Bool.xor_true, Bool.xor_false, Bool.true_xor,
              Bool.false_xor, Bool.and_true, Bool.true_and, Bool.and_false, Bool.false_and,
              Bool.or_true, Bool.or_false, Bool.true_or, Bool.false_or, Bool.not_true,
              Bool.not_false, Bool.not_not, and_true, true_and, and_false, false_and,
              not_true, not_false_iff, ne_eq]
      · simp_all only [setColor_color, setColor_pieceType, setPieceType_pieceType,
              setPieceType_color, testBit_land2, testBit_comp64, nf_pow, nf_set, xor10,
              xor11, Nat.reduceEqDiff, reduceIte, eq_self_iff_true, if_true, if_false,
              decide_True, decide_False, Bool.xor_true, Bool.xor_false, Bool.true_xor,
              Bool.false_xor, Bool.and_true, Bool.true_and, Bool.and_false, Bool.false_and,
              Bool.or_true, Bool.or_false, Bool.true_or, Bool.false_or, Bool.not_true,
              Bool.not_false, Bool.not_not, and_true, true_and, and_false, false_and,
              not_true, not_false_iff, ne_eq]
    have e3 : placementHash b.zobrist
        ((((b.pieces.setPieceType 5 (Nat.land (b.pieces.pieceType 5) (comp64 (1 <<< mvOrig m)))).setColor
          1 (Nat.land (b.pieces.color 1) (comp64 (1 <<< mvOrig m)))).setPieceType
          (mvCaptured m) (Nat.land (((b.pieces.setPieceType 5 (Nat.land (b.pieces.pieceType 5) (comp64 (1 <<< mvOrig m)))).setColor
          1 (Nat.land (b.pieces.color 1) (comp64 (1 <<< mvOrig m)))).pieceType (mvCaptured m)) (comp64 (1 <<< mvDest m)))).setColor
          0 (Nat.land (((b.pieces.setPieceType 5 (Nat.land (b.pieces.pieceType 5) (comp64 (1 <<< mvOrig m)))).setColor
          1 (Nat.land (b.pieces.color 1) (comp64 (1 <<< mvOrig m)))).color 0) (comp64 (1 <<< mvDest m))))
        = Nat.xor (placementHash b.zobrist
          ((b.pieces.setPieceType 5 (Nat.land (b.pieces.pieceType 5) (comp64 (1 <<< mvOrig m)))).setColor
          1 (Nat.land (b.pieces.color 1) (comp64 (1 <<< mvOrig m)))))
          (b.zobrist.pieces 0 (mvCaptured m) (mvDest m)) := by
      refine placementHash_flip1 b.zobrist _ _ 0 (mvCaptured m) (mvDest m)
        (by norm_num) hcap6 hd64 ?_ ?_
      · intro C P i hC hP hi hne
        have hboP := hbo P hP
        have hbdP := hbd P hP
        rcases (by omega : C = 0 ∨ C = 1) with rfl | rfl <;>
          by_cases hP5 : P = 5 <;> by_cases hPc : P = mvCaptured m <;>
          by_cases hio : mvDest m = i <;>
          simp_all only [setColor_color, setColor_pieceType, setPieceType_pieceType,
              setPieceType_color, testBit_land2, testBit_comp64, nf_pow, nf_set, xor10,
              xor11, Nat.reduceEqDiff, reduceIte, eq_self_iff_true, if_true, if_false,
              decide_True, decide_False, Bool.xor_true, Bool.xor_false, Bool.true_xor,
              Bool.false_xor, Bool.and_true, Bool.true_and, Bool.and_false, Bool.false_and,
              Bool.or_true, Bool.or_false, Bool.true_or, Bool.false_or, Bool.not_true,
              Bool.not_false, Bool.not_not, and_true, true_and, and_false, false_and,
              not_true, not_false_iff, ne_eq]
      · by_cases hc5 : mvCaptured m = 5 <;>
          simp_all only [setColor_color, setColor_pieceType, setPieceType_pieceType,
              setPieceType_color, testBit_land2, testBit_comp64, nf_pow, nf_set, xor10,
              xor11, Nat.reduceEqDiff, reduceIte, eq_self_iff_true, if_true, if_false,
              decide_True, decide_False, Bool.xor_true, Bool.xor_false, Bool.true_xor,
              Bool.false_xor, Bool.and_true, Bool.true_and, Bool.and_false, Bool.false_and,
              Bool.or_true, Bool.or_false, Bool.true_or, Bool.false_or, Bool.not_true,
              Bool.not_false, Bool.not_not, and_true, true_and, and_false, false_and,
              not_true, not_false_iff, ne_eq]
    have e4 : placementHash b.zobrist
        ((((((b.pieces.setPieceType 5 (Nat.land (b.pieces.pieceType 5) (comp64 (1 <<< mvOrig m)))).setColor
          1 (Nat.land (b.pieces.color 1) (comp64 (1 <<< mvOrig m)))).setPieceType
          (mvCaptured m) (Nat.land (((b.pieces.setPieceType 5 (Nat.land (b.pieces.pieceType 5) (comp64 (1 <<< mvOrig m)))).setColor
          1 (Nat.land (b.pieces.color 1) (comp64 (1 <<< mvOrig m)))).pieceType (mvCaptured m)) (comp64 (1 <<< mvDest m)))).setColor
          0 (Nat.land (((b.pieces.setPieceType 5 (Nat.land (b.pieces.pieceType 5) (comp64 (1 <<< mvOrig m)))).setColor
          1 (Nat.land (b.pieces.color 1) (comp64 (1 <<< mvOrig m)))).color 0) (comp64 (1 <<< mvDest m)))).setPieceType
          (pieceFromAuxData (mvAux m)) (Nat.lor (((((b.pieces.setPieceType 5 (Nat.land (b.pieces.pieceType 5) (comp64 (1 <<< mvOrig m)))).setColor
          1 (Nat.land (b.pieces.color 1) (comp64 (1 <<< mvOrig m)))).setPieceType
          (mvCaptured m) (Nat.land (((b.pieces.setPieceType 5 (Nat.land (b.pieces.pieceType 5) (comp64 (1 <<< mvOrig m)))).setColor
          1 (Nat.land (b.pieces.color 1) (comp64 (1 <<< mvOrig m)))).pieceType (mvCaptured m)) (comp64 (1 <<< mvDest m)))).setColor
          0 (Nat.land (((b.pieces.setPieceType 5 (Nat.land (b.pieces.pieceType 5) (comp64 (1 <<< mvOrig m)))).setColor
          1 (Nat.land (b.pieces.color 1) (comp64 (1 <<< mvOrig m)))).color 0) (comp64 (1 <<< mvDest m)))).pieceType (pieceFromAuxData (mvAux m))) (1 <<< mvDest m))).setColor
          1 (Nat.lor (((((b.pieces.setPieceType 5 (Nat.land (b.pieces.pieceType 5) (comp64 (1 <<< mvOrig m)))).setColor
          1 (Nat.land (b.pieces.color 1) (comp64 (1 <<< mvOrig m)))).setPieceType
          (mvCaptured m) (Nat.land (((b.pieces.setPieceType 5 (Nat.land (b.pieces.pieceType 5) (comp64 (1 <<< mvOrig m)))).setColor
          1 (Nat.land (b.pieces.color 1) (comp64 (1 <<< mvOrig m)))).pieceType (mvCaptured m)) (comp64 (1 <<< mvDest m)))).setColor
          0 (Nat.land (((b.pieces.setPieceType 5 (Nat.land (b.pieces.pieceType 5) (comp64 (1 <<< mvOrig m)))).setColor
          1 (Nat.land (b.pieces.color 1) (comp64 (1 <<< mvOrig m)))).color 0) (comp64 (1 <<< mvDest m)))).color 1) (1 <<< mvDest m)))
        = Nat.xor (placementHash b.zobrist
          ((((b.pieces.setPieceType 5 (Nat.land (b.pieces.pieceType 5) (comp64 (1 <<< mvOrig m)))).setColor
          1 (Nat.land (b.pieces.color 1) (comp64 (1 <<< mvOrig m)))).setPieceType
          (mvCaptured m) (Nat.land (((b.pieces.setPieceType 5 (Nat.land (b.pieces.pieceType 5) (comp64 (1 <<< mvOrig m)))).setColor
          1 (Nat.land (b.pieces.color 1) (comp64 (1 <<< mvOrig m)))).pieceType (mvCaptured m)) (comp64 (1 <<< mvDest m)))).setColor
          0 (Nat.land (((b.pieces.setPieceType 5 (Nat.land (b.pieces.pieceType 5) (comp64 (1 <<< mvOrig m)))).setColor
          1 (Nat.land (b.pieces.color 1) (comp64 (1 <<< mvOrig m)))).color 0) (comp64 (1 <<< mvDest m)))))
          (b.zobrist.pieces 1 (pieceFromAuxData (mvAux m)) (mvDest m)) := by
      refine placementHash_flip1 b.zobrist _ _ 1 (pieceFromAuxData (mvAux m)) (mvDest m)
        (by norm_num) hdplt hd64 ?_ ?_
      · intro C P i hC hP hi hne
        have hboP := hbo P hP
        have hbdP := hbd P hP
        rcases (by omega : C = 0 ∨ C = 1) with rfl | rfl <;>
          by_cases hP5 : P = 5 <;> by_cases hPc : P = mvCaptured m <;>
          by_cases hPd : P = pieceFromAuxData (mvAux m) <;>
          by_cases hio : mvDest m = i <;>
          simp_all only [setColor_color, setColor_pieceType, setPieceType_pieceType,
              setPieceType_color, testBit_land2, testBit_comp64, nf_pow, nf_set, xor10,
              xor11, Nat.reduceEqDiff, reduceIte, eq_self_iff_true, if_true, if_false,
              decide_True, decide_False, Bool.xor_true, Bool.xor_false, Bool.true_xor,
              Bool.false_xor, Bool.and_true, Bool.true_and, Bool.and_false, Bool.false_and,
              Bool.or_true, Bool.or_false, Bool.true_or, Bool.false_or, Bool.not_true,
              Bool.not_false, Bool.not_not, and_true, true_and, and_false, false_and,
              not_true, not_false_iff, ne_eq]
      · by_cases hcpdp : pieceFromAuxData (mvAux m) = mvCaptured m <;>
          by_cases hdp5 : pieceFromAuxData (mvAux m) = 5 <;>
          by_cases hc5 : mvCaptured m = 5 <;>
          simp_all only [setColor_color, setColor_pieceType, setPieceType_pieceType,
              setPieceType_color, testBit_land2, testBit_comp64, nf_pow, nf_set, xor10,
              xor11, Nat.reduceEqDiff, reduceIte, eq_self_iff_true, if_true, if_false,
              decide_True, decide_False, Bool.xor_true, Bool.xor_false, Bool.true_xor,
              Bool.false_xor, Bool.and_true, Bool.true_and, Bool.and_false, Bool.false_and,
              Bool.or_true, Bool.or_false, Bool.true_or, Bool.false_or, Bool.not_true,
              Bool.not_false, Bool.not_not, and_true, true_and, and_false, false_and,
              not_true, not_false_iff, ne_eq]
    simp only [Board.doMoveApplied, calcHash_expand, htype, hpw, htmv, MOVE_NORMAL,
      MOVE_CASTLING, MOVE_PROMOTION, MOVE_ENPASSANT, NO_PIECE, KINGSIDE, QUEENSIDE,
      PAWN, BLACK, xor10, xor11, Nat.reduceEqDiff, Nat.reduceLT, reduceIte,
      Option.getD_some, if_pos hod, if_pos hcap6, apply_ite b.zobrist.enPassantFile,
      NO_ENPASSANT_FILE, enPassantFile8]
    rw [e4, e3, e2]
    simp only [xor_assoc2, xor_comm2, xor_lcomm, xor_zero2, zero_xor2, xor_self2,
      xor_cancel]

theorem testBit_lor2 (x y i : Nat) :
    (Nat.lor x y).testBit i = ((x.testBit i) || (y.testBit i)) := by
  rw [lor_eq, Nat.testBit_lor]

set_option maxHeartbeats 1600000 in
theorem dev_h5 (b : Board) (m : Move)
    (htm : b.toMove < 2)
    (htype : mvType m = MOVE_ENPASSANT)
    (hcapP : mvCaptured m = 5)
    (hpw : mvPiece m = 5)
    (ho64 : mvOrig m < 64) (hd64 : mvDest m < 64)
    (hcs64 : ((mvDest m : Int) + pawnMoveShifts (Nat.xor 1 b.toMove) PAWN_PUSH).toNat < 64)
    (hod : mvOrig m ≠ mvDest m)
    (hoc : mvOrig m ≠ ((mvDest m : Int) + pawnMoveShifts (Nat.xor 1 b.toMove) PAWN_PUSH).toNat)
    (hdc : mvDest m ≠ ((mvDest m : Int) + pawnMoveShifts (Nat.xor 1 b.toMove) PAWN_PUSH).toNat)
    (horig : (b.pieces.pieceType 5).testBit (mvOrig m) = true)
    (horigc : (b.pieces.color b.toMove).testBit (mvOrig m) = true)
    (hdnu : (b.pieces.color b.toMove).testBit (mvDest m) = false)
    (hptd : ∀ q, q < 6 → (b.pieces.pieceType q).testBit (mvDest m) = false)
    (hbo : ∀ q, q < 6 → q ≠ 5 → (b.pieces.pieceType q).testBit (mvOrig m) = false)
    (hthemo : (b.pieces.color (Nat.xor 1 b.toMove)).testBit (mvOrig m) = false)
    (hthemd : (b.pieces.color (Nat.xor 1 b.toMove)).testBit (mvDest m) = false)
    (hepPt : (b.pieces.pieceType 5).testBit
      (((mvDest m : Int) + pawnMoveShifts (Nat.xor 1 b.toMove) PAWN_PUSH).toNat) = true)
    (hepC : (b.pieces.color (Nat.xor 1 b.toMove)).testBit
      (((mvDest m : Int) + pawnMoveShifts (Nat.xor 1 b.toMove) PAWN_PUSH).toNat) = true)
    (hepUs : (b.pieces.color b.toMove).testBit
      (((mvDest m : Int) + pawnMoveShifts (Nat.xor 1 b.toMove) PAWN_PUSH).toNat) = false)
    (hbcap : ∀ q, q < 6 → q ≠ 5 → (b.pieces.pieceType q).testBit
      (((mvDest m : Int) + pawnMoveShifts (Nat.xor 1 b.toMove) PAWN_PUSH).toNat) = false) :
    Nat.xor b.calcHash ((b.doMoveApplied m).1.getD 0) = ((b.doMoveApplied m).2).calcHash := by
  rcases (by omega : b.toMove = 0 ∨ b.toMove = 1) with htmv | htmv
  · simp only [htmv, xor10] at hcs64 hoc hdc hthemo hthemd hepPt hepC hepUs hbcap
    have e2 : placementHash b.zobrist
        ((b.pieces.setPieceType 5 (Nat.land (b.pieces.pieceType 5) (comp64 (1 <<< mvOrig m)))).setColor
          0 (Nat.land (b.pieces.color 0) (comp64 (1 <<< mvOrig m))))
        = Nat.xor (placementHash b.zobrist b.pieces)
          (b.zobrist.pieces 0 5 (mvOrig m)) := by
      refine placementHash_flip1 b.zobrist b.pieces _ 0 5 (mvOrig m)
        (by norm_num) (by norm_num) ho64 ?_ ?_
      · intro C P i hC hP hi hne
        have hboP := hbo P hP
        have hbcP := hbcap P hP
        rcases (by omega : C = 0 ∨ C = 1) with rfl | rfl <;>
          by_cases hP5 : P = 5 <;> by_cases hio : mvOrig m = i <;>
          simp_all only [setColor_color, setColor_pieceType, setPieceType_pieceType,
              setPieceType_color, testBit_land2, testBit_lor2, testBit_comp64, nf_pow,
              nf_set, nf_xor, xor10,
              xor11, Nat.reduceEqDiff, reduceIte, eq_self_iff_true, if_true, if_false,
              decide_True, decide_False, Bool.xor_true, Bool.xor_false, Bool.true_xor,
              Bool.false_xor, Bool.and_true, Bool.true_and, Bool.and_false, Bool.false_and,
              Bool.or_true, Bool.or_false, Bool.true_or, Bool.false_or, Bool.not_true,
              Bool.not_false, Bool.not_not, and_true, true_and, and_false, false_and,
              not_true, not_false_iff, ne_eq]
      · simp_all only [setColor_color, setColor_pieceType, setPieceType_pieceType,
              setPieceType_color, testBit_land2, testBit_lor2, testBit_comp64, nf_pow,
              nf_set, nf_xor, xor10,
              xor11, Nat.reduceEqDiff, reduceIte, eq_self_iff_true, if_true, if_false,
              decide_True, decide_False, Bool.xor_true, Bool.xor_false, Bool.true_xor,
              Bool.false_xor, Bool.and_true, Bool.true_and, Bool.and_false, Bool.false_and,
              Bool.or_true, Bool.or_false, Bool.true_or, Bool.false_or, Bool.not_true,
              Bool.not_false, Bool.not_not, and_true, true_and, and_false, false_and,
              not_true, not_false_iff, ne_eq]
    have e3 : placementHash b.zobrist
        ((((b.pieces.setPieceType 5 (Nat.land (b.pieces.pieceType 5) (comp64 (1 <<< mvOrig m)))).setColor
          0 (Nat.land (b.pieces.color 0) (comp64 (1 <<< mvOrig m)))).setPieceType
          5 (Nat.land (((b.pieces.setPieceType 5 (Nat.land (b.pieces.pieceType 5) (comp64 (1 <<< mvOrig m)))).setColor
          0 (Nat.land (b.pieces.color 0) (comp64 (1 <<< mvOrig m)))).pieceType 5) (comp64 (1 <<< ((mvDest m : Int) + pawnMoveShifts 1 PAWN_PUSH).toNat)))).setColor
          1 (Nat.land (((b.pieces.setPieceType 5 (Nat.land (b.pieces.pieceType 5) (comp64 (1 <<< mvOrig m)))).setColor
          0 (Nat.land (b.pieces.color 0) (comp64 (1 <<< mvOrig m)))).color 1) (comp64 (1 <<< ((mvDest m : Int) + pawnMoveShifts 1 PAWN_PUSH).toNat))))
        = Nat.xor (placementHash b.zobrist
          ((b.pieces.setPieceType 5 (Nat.land (b.pieces.pieceType 5) (comp64 (1 <<< mvOrig m)))).setColor
          0 (Nat.land (b.pieces.color 0) (comp64 (1 <<< mvOrig m)))))
          (b.zobrist.pieces 1 5 ((mvDest m : Int) + pawnMoveShifts 1 PAWN_PUSH).toNat) := by
      refine placementHash_flip1 b.zobrist _ _ 1 5 ((mvDest m : Int) + pawnMoveShifts 1 PAWN_PUSH).toNat
        (by norm_num) (by norm_num) hcs64 ?_ ?_
      · intro C P i hC hP hi hne
        have hboP := hbo P hP
        have hbcP := hbcap P hP
        rcases (by omega : C = 0 ∨ C = 1) with rfl | rfl <;>
          by_cases hP5 : P = 5 <;> by_cases hio : (((mvDest m : Int) + pawnMoveShifts 1 PAWN_PUSH).toNat) = i <;>
          by_cases hio2 : mvOrig m = i <;>
          simp_all only [setColor_color, setColor_pieceType, setPieceType_pieceType,
              setPieceType_color, testBit_land2, testBit_lor2, testBit_comp64, nf_pow,
              nf_set, nf_xor, xor10,
              xor11, Nat.reduceEqDiff, reduceIte, eq_self_iff_true, if_true, if_false,
              decide_True, decide_False, Bool.xor_true, Bool.xor_false, Bool.true_xor,
              Bool.false_xor, Bool.and_true, Bool.true_and, Bool.and_false, Bool.false_and,
              Bool.or_true, Bool.or_false, Bool.true_or, Bool.false_or, Bool.not_true,
              Bool.not_false, Bool.not_not, and_true, true_and, and_false, false_and,
              not_true, not_false_iff, ne_eq]
      · simp_all only [setColor_color, setColor_pieceType, setPieceType_pieceType,
              setPieceType_color, testBit_land2, testBit_lor2, testBit_comp64, nf_pow,
              nf_set, nf_xor, xor10,
              xor11, Nat.reduceEqDiff, reduceIte, eq_self_iff_true, if_true, if_false,
              decide_True, decide_False, Bool.xor_true, Bool.xor_false, Bool.true_xor,
              Bool.false_xor, Bool.and_true, Bool.true_and, Bool.and_false, Bool.false_and,
              Bool.or_true, Bool.or_false, Bool.true_or, Bool.false_or, Bool.not_true,
              Bool.not_false, Bool.not_not, and_true, true_and, and_false, false_and,
              not_true, not_false_iff, ne_eq]
    have e4 : placementHash b.zobrist
        ((((((b.pieces.setPieceType 5 (Nat.land (b.pieces.pieceType 5) (comp64 (1 <<< mvOrig m)))).setColor
          0 (Nat.land (b.pieces.color 0) (comp64 (1 <<< mvOrig m)))).setPieceType
          5 (Nat.land (((b.pieces.setPieceType 5 (Nat.land (b.pieces.pieceType 5) (comp64 (1 <<< mvOrig m)))).setColor
          0 (Nat.land (b.pieces.color 0) (comp64 (1 <<< mvOrig m)))).pieceType 5) (comp64 (1 <<< ((mvDest m : Int) + pawnMoveShifts 1 PAWN_PUSH).toNat)))).setColor
          1 (Nat.land (((b.pieces.setPieceType 5 (Nat.land (b.pieces.pieceType 5) (comp64 (1 <<< mvOrig m)))).setColor
          0 (Nat.land (b.pieces.color 0) (comp64 (1 <<< mvOrig m)))).color 1) (comp64 (1 <<< ((mvDest m : Int) + pawnMoveShifts 1 PAWN_PUSH).toNat)))).setPieceType
          5 (Nat.lor (((((b.pieces.setPieceType 5 (Nat.land (b.pieces.pieceType 5) (comp64 (1 <<< mvOrig m)))).setColor
          0 (Nat.land (b.pieces.color 0) (comp64 (1 <<< mvOrig m)))).setPieceType
          5 (Nat.land (((b.pieces.setPieceType 5 (Nat.land (b.pieces.pieceType 5) (comp64 (1 <<< mvOrig m)))).setColor
          0 (Nat.land (b.pieces.color 0) (comp64 (1 <<< mvOrig m)))).pieceType 5) (comp64 (1 <<< ((mvDest m : Int) + pawnMoveShifts 1 PAWN_PUSH).toNat)))).setColor
          1 (Nat.land (((b.pieces.setPieceType 5 (Nat.land (b.pieces.pieceType 5) (comp64 (1 <<< mvOrig m)))).setColor
          0 (Nat.land (b.pieces.color 0) (comp64 (1 <<< mvOrig m)))).color 1) (comp64 (1 <<< ((mvDest m : Int) + pawnMoveShifts 1 PAWN_PUSH).toNat)))).pieceType 5) (1 <<< mvDest m))).setColor
          0 (Nat.lor (((((b.pieces.setPieceType 5 (Nat.land (b.pieces.pieceType 5) (comp64 (1 <<< mvOrig m)))).setColor
          0 (Nat.land (b.pieces.color 0) (comp64 (1 <<< mvOrig m)))).setPieceType
          5 (Nat.land (((b.pieces.setPieceType 5 (Nat.land (b.pieces.pieceType 5) (comp64 (1 <<< mvOrig m)))).setColor
          0 (Nat.land (b.pieces.color 0) (comp64 (1 <<< mvOrig m)))).pieceType 5) (comp64 (1 <<< ((mvDest m : Int) + pawnMoveShifts 1 PAWN_PUSH).toNat)))).setColor
          1 (Nat.land (((b.pieces.setPieceType 5 (Nat.land (b.pieces.pieceType 5) (comp64 (1 <<< mvOrig m)))).setColor
          0 (Nat.land (b.pieces.color 0) (comp64 (1 <<< mvOrig m)))).color 1) (comp64 (1 <<< ((mvDest m : Int) + pawnMoveShifts 1 PAWN_PUSH).toNat)))).color 0) (1 <<< mvDest m)))
        = Nat.xor (placementHash b.zobrist
          ((((b.pieces.setPieceType 5 (Nat.land (b.pieces.pieceType 5) (comp64 (1 <<< mvOrig m)))).setColor
          0 (Nat.land (b.pieces.color 0) (comp64 (1 <<< mvOrig m)))).setPieceType
          5 (Nat.land (((b.pieces.setPieceType 5 (Nat.land (b.pieces.pieceType 5) (comp64 (1 <<< mvOrig m)))).setColor
          0 (Nat.land (b.pieces.color 0) (comp64 (1 <<< mvOrig m)))).pieceType 5) (comp64 (1 <<< ((mvDest m : Int) + pawnMoveShifts 1 PAWN_PUSH).toNat)))).setColor
          1 (Nat.land (((b.pieces.setPieceType 5 (Nat.land (b.pieces.pieceType 5) (comp64 (1 <<< mvOrig m)))).setColor
          0 (Nat.land (b.pieces.color 0) (comp64 (1 <<< mvOrig m)))).color 1) (comp64 (1 <<< ((mvDest m : Int) + pawnMoveShifts 1 PAWN_PUSH).toNat)))))
          (b.zobrist.pieces 0 5 (mvDest m)) := by
      refine placementHash_flip1 b.zobrist _ _ 0 5 (mvDest m)
        (by norm_num) (by norm_num) hd64 ?_ ?_
      · intro C P i hC hP hi hne
        have hboP := hbo P hP
        have hbcP := hbcap P hP
        have hptdP := hptd P hP
        rcases (by omega : C = 0 ∨ C = 1) with rfl | rfl <;>
          by_cases hP5 : P = 5 <;> by_cases hio : mvDest m = i <;>
          simp_all only [setColor_color, setColor_pieceType, setPieceType_pieceType,
              setPieceType_color, testBit_land2, testBit_lor2, testBit_comp64, nf_pow,
              nf_set, nf_xor, xor10,
              xor11, Nat.reduceEqDiff, reduceIte, eq_self_iff_true, if_true, if_false,
              decide_True, decide_False, Bool.xor_true, Bool.xor_false, Bool.true_xor,
              Bool.false_xor, Bool.and_true, Bool.true_and, Bool.and_false, Bool.false_and,
              Bool.or_true, Bool.or_false, Bool.true_or, Bool.false_or, Bool.not_true,
              Bool.not_false, Bool.not_not, and_true, true_and, and_false, false_and,
              not_true, not_false_iff, ne_eq]
      · simp_all only [setColor_color, setColor_pieceType, setPieceType_pieceType,
              setPieceType_color, testBit_land2, testBit_lor2, testBit_comp64, nf_pow,
              nf_set, nf_xor, xor10,
              xor11, Nat.reduceEqDiff, reduceIte, eq_self_iff_true, if_true, if_false,
              decide_True, decide_False, Bool.xor_true, Bool.xor_false, Bool.true_xor,
              Bool.false_xor, Bool.and_true, Bool.true_and, Bool.and_false, Bool.false_and,
              Bool.or_true, Bool.or_false, Bool.true_or, Bool.false_or, Bool.not_true,
              Bool.not_false, Bool.not_not, and_true, true_and, and_false, false_and,
              not_true, not_false_iff, ne_eq]
    simp only [Board.doMoveApplied, calcHash_expand, htype, hpw, hcapP, htmv, MOVE_NORMAL,
      MOVE_CASTLING, MOVE_PROMOTION, MOVE_ENPASSANT, NO_PIECE, KINGSIDE, QUEENSIDE,
      PAWN, BLACK, xor10, xor11, Nat.reduceEqDiff, Nat.reduceLT, reduceIte,
      Option.getD_some, if_pos hod, apply_ite b.zobrist.enPassantFile,
      NO_ENPASSANT_FILE, enPassantFile8]
    rw [e4, e3, e2]
    simp only [xor_assoc2, xor_comm2, xor_lcomm, xor_zero2, zero_xor2, xor_self2,
      xor_cancel]

  · simp only [htmv, xor11] at hcs64 hoc hdc hthemo hthemd hepPt hepC hepUs hbcap
    have e2 : placementHash b.zobrist
        ((b.pieces.setPieceType 5 (Nat.land (b.pieces.pieceType 5) (comp64 (1 <<< mvOrig m)))).setColor
          1 (Nat.land (b.pieces.color 1) (comp64 (1 <<< mvOrig m))))
        = Nat.xor (placementHash b.zobrist b.pieces)
          (b.zobrist.pieces 1 5 (mvOrig m)) := by
      refine placementHash_flip1 b.zobrist b.pieces _ 1 5 (mvOrig m)
        (by norm_num) (by norm_num) ho64 ?_ ?_
      · intro C P i hC hP hi hne
        have hboP := hbo P hP
        have hbcP := hbcap P hP
        rcases (by omega : C = 0 ∨ C = 1) with rfl | rfl <;>
          by_cases hP5 : P = 5 <;> by_cases hio : mvOrig m = i <;>
          simp_all only [setColor_color, setColor_pieceType, setPieceType_pieceType,
              setPieceType_color, testBit_land2, testBit_lor2, testBit_comp64, nf_pow,
              nf_set, nf_xor, xor10,
              xor11, Nat.reduceEqDiff, reduceIte, eq_self_iff_true, if_true, if_false,
              decide_True, decide_False, Bool.xor_true, Bool.xor_false, Bool.true_xor,
              Bool.false_xor, Bool.and_true, Bool.true_and, Bool.and_false, Bool.false_and,
              Bool.or_true, Bool.or_false, Bool.true_or, Bool.false_or, Bool.not_true,
              Bool.not_false, Bool.not_not, and_true, true_and, and_false, false_and,
              not_true, not_false_iff, ne_eq]
      · simp_all only [setColor_color, setColor_pieceType, setPieceType_pieceType,
              setPieceType_color, testBit_land2, testBit_lor2, testBit_comp64, nf_pow,
              nf_set, nf_xor, xor10,
              xor11, Nat.reduceEqDiff, reduceIte, eq_self_iff_true, if_true, if_false,
              decide_True, decide_False, Bool.xor_true, Bool.xor_false, Bool.true_xor,
              Bool.false_xor, Bool.and_true, Bool.true_and, Bool.and_false, Bool.false_and,
              Bool.or_true, Bool.or_false, Bool.true_or, Bool.false_or, Bool.not_true,
              Bool.not_false, Bool.not_not, and_true, true_and, and_false, false_and,
              not_true, not_false_iff, ne_eq]
    have e3 : placementHash b.zobrist
        ((((b.pieces.setPieceType 5 (Nat.land (b.pieces.pieceType 5) (comp64 (1 <<< mvOrig m)))).setColor
          1 (Nat.land (b.pieces.color 1) (comp64 (1 <<< mvOrig m)))).setPieceType
          5 (Nat.land (((b.pieces.setPieceType 5 (Nat.land (b.pieces.pieceType 5) (comp64 (1 <<< mvOrig m)))).setColor
          1 (Nat.land (b.pieces.color 1) (comp64 (1 <<< mvOrig m)))).pieceType 5) (comp64 (1 <<< ((mvDest m : Int) + pawnMoveShifts 0 PAWN_PUSH).toNat)))).setColor
          0 (Nat.land (((b.pieces.setPieceType 5 (Nat.land (b.pieces.pieceType 5) (comp64 (1 <<< mvOrig m)))).setColor
          1 (Nat.land (b.pieces.color 1) (comp64 (1 <<< mvOrig m)))).color 0) (comp64 (1 <<< ((mvDest m : Int) + pawnMoveShifts 0 PAWN_PUSH).toNat))))
        = Nat.xor (placementHash b.zobrist
          ((b.pieces.setPieceType 5 (Nat.land (b.pieces.pieceType 5) (comp64 (1 <<< mvOrig m)))).setColor
          1 (Nat.land (b.pieces.color 1) (comp64 (1 <<< mvOrig m)))))
          (b.zobrist.pieces 0 5 ((mvDest m : Int) + pawnMoveShifts 0 PAWN_PUSH).toNat) := by
      refine placementHash_flip1 b.zobrist _ _ 0 5 ((mvDest m : Int) + pawnMoveShifts 0 PAWN_PUSH).toNat
        (by norm_num) (by norm_num) hcs64 ?_ ?_
      · intro C P i hC hP hi hne
        have hboP := hbo P hP
        have hbcP := hbcap P hP
        rcases (by omega : C = 0 ∨ C = 1) with rfl | rfl <;>
          by_cases hP5 : P = 5 <;> by_cases hio : (((mvDest m : Int) + pawnMoveShifts 0 PAWN_PUSH).toNat) = i <;>
          by_cases hio2 : mvOrig m = i <;>
          simp_all only [setColor_color, setColor_pieceType, setPieceType_pieceType,
              setPieceType_color, testBit_land2, testBit_lor2, testBit_comp64, nf_pow,
              nf_set, nf_xor, xor10,
              xor11, Nat.reduceEqDiff, reduceIte, eq_self_iff_true, if_true, if_false,
              decide_True, decide_False, Bool.xor_true, Bool.xor_false, Bool.true_xor,
              Bool.false_xor, Bool.and_true, Bool.true_and, Bool.and_false, Bool.false_and,
              Bool.or_true, Bool.or_false, Bool.true_or, Bool.false_or, Bool.not_true,
              Bool.not_false, Bool.not_not, and_true, true_and, and_false, false_and,
              not_true, not_false_iff, ne_eq]
      · simp_all only [setColor_color, setColor_pieceType, setPieceType_pieceType,
              setPieceType_color, testBit_land2, testBit_lor2, testBit_comp64, nf_pow,
              nf_set, nf_xor, xor10,
              xor11, Nat.reduceEqDiff, reduceIte, eq_self_iff_true, if_true, if_false,
              decide_True, decide_False, Bool.xor_true, Bool.xor_false, Bool.true_xor,
              Bool.false_xor, Bool.and_true, Bool.true_and, Bool.and_false, Bool.false_and,
              Bool.or_true, Bool.or_false, Bool.true_or, Bool.false_or, Bool.not_true,
              Bool.not_false, Bool.not_not, and_true, true_and, and_false, false_and,
              not_true, not_false_iff, ne_eq]
    have e4 : placementHash b.zobrist
        ((((((b.pieces.setPieceType 5 (Nat.land (b.pieces.pieceType 5) (comp64 (1 <<< mvOrig m)))).setColor
          1 (Nat.land (b.pieces.color 1) (comp64 (1 <<< mvOrig m)))).setPieceType
          5 (Nat.land (((b.pieces.setPieceType 5 (Nat.land (b.pieces.pieceType 5) (comp64 (1 <<< mvOrig m)))).setColor
          1 (Nat.land (b.pieces.color 1) (comp64 (1 <<< mvOrig m)))).pieceType 5) (comp64 (1 <<< ((mvDest m : Int) + pawnMoveShifts 0 PAWN_PUSH).toNat)))).setColor
          0 (Nat.land (((b.pieces.setPieceType 5 (Nat.land (b.pieces.pieceType 5) (comp64 (1 <<< mvOrig m)))).setColor
          1 (Nat.land (b.pieces.color 1) (comp64 (1 <<< mvOrig m)))).color 0) (comp64 (1 <<< ((mvDest m : Int) + pawnMoveShifts 0 PAWN_PUSH).toNat)))).setPieceType
          5 (Nat.lor (((((b.pieces.setPieceType 5 (Nat.land (b.pieces.pieceType 5) (comp64 (1 <<< mvOrig m)))).setColor
          1 (Nat.land (b.pieces.color 1) (comp64 (1 <<< mvOrig m)))).setPieceType
          5 (Nat.land (((b.pieces.setPieceType 5 (Nat.land (b.pieces.pieceType 5) (comp64 (1 <<< mvOrig m)))).setColor
          1 (Nat.land (b.pieces.color 1) (comp64 (1 <<< mvOrig m)))).pieceType 5) (comp64 (1 <<< ((mvDest m : Int) + pawnMoveShifts 0 PAWN_PUSH).toNat)))).setColor
          0 (Nat.land (((b.pieces.setPieceType 5 (Nat.land (b.pieces.pieceType 5) (comp64 (1 <<< mvOrig m)))).setColor
          1 (Nat.land (b.pieces.color 1) (comp64 (1 <<< mvOrig m)))).color 0) (comp64 (1 <<< ((mvDest m : Int) + pawnMoveShifts 0 PAWN_PUSH).toNat)))).pieceType 5) (1 <<< mvDest m))).setColor
          1 (Nat.lor (((((b.pieces.setPieceType 5 (Nat.land (b.pieces.pieceType 5) (comp64 (1 <<< mvOrig m)))).setColor
          1 (Nat.land (b.pieces.color 1) (comp64 (1 <<< mvOrig m)))).setPieceType
          5 (Nat.land (((b.pieces.setPieceType 5 (Nat.land (b.pieces.pieceType 5) (comp64 (1 <<< mvOrig m)))).setColor
          1 (Nat.land (b.pieces.color 1) (comp64 (1 <<< mvOrig m)))).pieceType 5) (comp64 (1 <<< ((mvDest m : Int) + pawnMoveShifts 0 PAWN_PUSH).toNat)))).setColor
          0 (Nat.land (((b.pieces.setPieceType 5 (Nat.land (b.pieces.pieceType 5) (comp64 (1 <<< mvOrig m)))).setColor
          1 (Nat.land (b.pieces.color 1) (comp64 (1 <<< mvOrig m)))).color 0) (comp64 (1 <<< ((mvDest m : Int) + pawnMoveShifts 0 PAWN_PUSH).toNat)))).color 1) (1 <<< mvDest m)))
        = Nat.xor (placementHash b.zobrist
          ((((b.pieces.setPieceType 5 (Nat.land (b.pieces.pieceType 5) (comp64 (1 <<< mvOrig m)))).setColor
          1 (Nat.land (b.pieces.color 1) (comp64 (1 <<< mvOrig m)))).setPieceType
          5 (Nat.land (((b.pieces.setPieceType 5 (Nat.land (b.pieces.pieceType 5) (comp64 (1 <<< mvOrig m)))).setColor
          1 (Nat.land (b.pieces.color 1) (comp64 (1 <<< mvOrig m)))).pieceType 5) (comp64 (1 <<< ((mvDest m : Int) + pawnMoveShifts 0 PAWN_PUSH).toNat)))).setColor
          0 (Nat.land (((b.pieces.setPieceType 5 (Nat.land (b.pieces.pieceType 5) (comp64 (1 <<< mvOrig m)))).setColor
          1 (Nat.land (b.pieces.color 1) (comp64 (1 <<< mvOrig m)))).color 0) (comp64 (1 <<< ((mvDest m : Int) + pawnMoveShifts 0 PAWN_PUSH).toNat)))))
          (b.zobrist.pieces 1 5 (mvDest m)) := by
      refine placementHash_flip1 b.zobrist _ _ 1 5 (mvDest m)
        (by norm_num) (by norm_num) hd64 ?_ ?_
      · intro C P i hC hP hi hne
        have hboP := hbo P hP
        have hbcP := hbcap P hP
        have hptdP := hptd P hP
        rcases (by omega : C = 0 ∨ C = 1) with rfl | rfl <;>
          by_cases hP5 : P = 5 <;> by_cases hio : mvDest m = i <;>
          simp_all only [setColor_color, setColor_pieceType, setPieceType_pieceType,
              setPieceType_color, testBit_land2, testBit_lor2, testBit_comp64, nf_pow,
              nf_set, nf_xor, xor10,
              xor11, Nat.reduceEqDiff, reduceIte, eq_self_iff_true, if_true, if_false,
              decide_True, decide_False, Bool.xor_true, Bool.xor_false, Bool.true_xor,
              Bool.false_xor, Bool.and_true, Bool.true_and, Bool.and_false, Bool.false_and,
              Bool.or_true, Bool.or_false, Bool.true_or, Bool.false_or, Bool.not_true,
              Bool.not_false, Bool.not_not, and_true, true_and, and_false, false_and,
              not_true, not_false_iff, ne_eq]
      · simp_all only [setColor_color, setColor_pieceType, setPieceType_pieceType,
              setPieceType_color, testBit_land2, testBit_lor2, testBit_comp64, nf_pow,
              nf_set, nf_xor, xor10,
              xor11, Nat.reduceEqDiff, reduceIte, eq_self_iff_true, if_true, if_false,
              decide_True, decide_False, Bool.xor_true, Bool.xor_false, Bool.true_xor,
              Bool.false_xor, Bool.and_true, Bool.true_and, Bool.and_false, Bool.false_and,
              Bool.or_true, Bool.or_false, Bool.true_or, Bool.false_or, Bool.not_true,
              Bool.not_false, Bool.not_not, and_true, true_and, and_false, false_and,
              not_true, not_false_iff, ne_eq]
    simp only [Board.doMoveApplied, calcHash_expand, htype, hpw, hcapP, htmv, MOVE_NORMAL,
      MOVE_CASTLING, MOVE_PROMOTION, MOVE_ENPASSANT, NO_PIECE, KINGSIDE, QUEENSIDE,
      PAWN, BLACK, xor10, xor11, Nat.reduceEqDiff, Nat.reduceLT, reduceIte,
      Option.getD_some, if_pos hod, apply_ite b.zobrist.enPassantFile,
      NO_ENPASSANT_FILE, enPassantFile8]
    rw [e4, e3, e2]
    simp only [xor_assoc2, xor_comm2, xor_lcomm, xor_zero2, zero_xor2, xor_self2,
      xor_cancel]

theorem decide_symm_false {s i : Nat} (h : ¬ i = s) : decide (s = i) = false :=
  decide_eq_false (fun hh => h hh.symm)

set_option maxHeartbeats 1600000 in
theorem dev_h6a (b : Board) (m : Move)
    (htmv : b.toMove = 0)
    (htype : mvType m = MOVE_CASTLING)
    (hcap : mvCaptured m = NO_PIECE)
    (hpk : mvPiece m = 0)
    (ho : mvOrig m = 4) (hd : mvDest m = 2)
    (horig : (b.pieces.pieceType 0).testBit 4 = true)
    (horigc : (b.pieces.color 0).testBit 4 = true)
    (hbo : ∀ q, q < 6 → q ≠ 0 → (b.pieces.pieceType q).testBit 4 = false)
    (hthemo : (b.pieces.color 1).testBit 4 = false)
    (hptd : ∀ q, q < 6 → (b.pieces.pieceType q).testBit 2 = false)
    (hdnu : (b.pieces.color 0).testBit 2 = false)
    (hthemd : (b.pieces.color 1).testBit 2 = false)
    (hcorner : (b.pieces.pieceType 2).testBit 0 = true)
    (hcornerc : (b.pieces.color 0).testBit 0 = true)
    (hbc : ∀ q, q < 6 → q ≠ 2 → (b.pieces.pieceType q).testBit 0 = false)
    (hthemc : (b.pieces.color 1).testBit 0 = false)
    (hrd : ∀ q, q < 6 → (b.pieces.pieceType q).testBit 3 = false)
    (hrdus : (b.pieces.color 0).testBit 3 = false)
    (hrdthem : (b.pieces.color 1).testBit 3 = false) :
    Nat.xor b.calcHash ((b.doMoveApplied m).1.getD 0) = ((b.doMoveApplied m).2).calcHash := by
  have e1 : placementHash b.zobrist
      ((b.pieces.setPieceType 2 (Nat.xor (b.pieces.pieceType 2) (Nat.lor (1 <<< 0) (1 <<< 3)))).setColor
          0 (Nat.xor (b.pieces.color 0) (Nat.lor (1 <<< 0) (1 <<< 3))))
      = Nat.xor (Nat.xor (placementHash b.zobrist b.pieces)
        (b.zobrist.pieces 0 2 0)) (b.zobrist.pieces 0 2 3) := by
    refine placementHash_flip2 b.zobrist b.pieces _ 0 2 0 3
      (by norm_num) (by norm_num) (by norm_num) (by norm_num) (by norm_num) ?_ ?_ ?_
    · intro C P i hC hP hi hne
      have hboP := hbo P hP
      have hbcP := hbc P hP
      have hrdP := hrd P hP
      have hptdP := hptd P hP
      rcases (by omega : C = 0 ∨ C = 1) with rfl | rfl <;>
        by_cases hP2 : P = 2 <;> by_cases hic : i = (0 : Nat) <;>
        by_cases hir : i = (3 : Nat) <;>
        simp_all only [setColor_color, setColor_pieceType, setPieceType_pieceType,
              setPieceType_color, testBit_land2, testBit_lor2, testBit_comp64, nf_pow,
              nf_set, nf_xor, xor10,
              xor11, Nat.reduceEqDiff, Nat.reduceLT, reduceIte, eq_self_iff_true, if_true, if_false,
              decide_True, decide_False, Bool.xor_true, Bool.xor_false, Bool.true_xor,
              Bool.false_xor, Bool.and_true, Bool.true_and, Bool.and_false, Bool.false_and,
              Bool.or_true, Bool.or_false, Bool.true_or, Bool.false_or, Bool.not_true,
              Bool.not_false, Bool.not_not, and_true, true_and, and_false, false_and,
              not_true, not_false_iff, ne_eq, or_true, true_or, or_false, false_or,
              decide_symm_false]
    · have hA := hrd 0 (by norm_num)
      have hB := hrd 2 (by norm_num)
      have hC := hbc 0 (by norm_num) (by norm_num)
      have hD := hptd 0 (by norm_num)
      have hE := hptd 2 (by norm_num)
      have hF := hbo 2 (by norm_num) (by norm_num)
      simp_all only [setColor_color, setColor_pieceType, setPieceType_pieceType,
              setPieceType_color, testBit_land2, testBit_lor2, testBit_comp64, nf_pow,
              nf_set, nf_xor, xor10,
              xor11, Nat.reduceEqDiff, Nat.reduceLT, reduceIte, eq_self_iff_true, if_true, if_false,
              decide_True, decide_False, Bool.xor_true, Bool.xor_false, Bool.true_xor,
              Bool.false_xor, Bool.and_true, Bool.true_and, Bool.and_false, Bool.false_and,
              Bool.or_true, Bool.or_false, Bool.true_or, Bool.false_or, Bool.not_true,
              Bool.not_false, Bool.not_not, and_true, true_and, and_false, false_and,
              not_true, not_false_iff, ne_eq, or_true, true_or, or_false, false_or,
              decide_symm_false]
    · have hA := hrd 0 (by norm_num)
      have hB := hrd 2 (by norm_num)
      have hC := hbc 0 (by norm_num) (by norm_num)
      have hD := hptd 0 (by norm_num)
      have hE := hptd 2 (by norm_num)
      have hF := hbo 2 (by norm_num) (by norm_num)
      simp_all only [setColor_color, setColor_pieceType, setPieceType_pieceType,
              setPieceType_color, testBit_land2, testBit_lor2, testBit_comp64, nf_pow,
              nf_set, nf_xor, xor10,
              xor11, Nat.reduceEqDiff, Nat.reduceLT, reduceIte, eq_self_iff_true, if_true, if_false,
              decide_True, decide_False, Bool.xor_true, Bool.xor_false, Bool.true_xor,
              Bool.false_xor, Bool.and_true, Bool.true_and, Bool.and_false, Bool.false_and,
              Bool.or_true, Bool.or_false, Bool.true_or, Bool.false_or, Bool.not_true,
              Bool.not_false, Bool.not_not, and_true, true_and, and_false, false_and,
              not_true, not_false_iff, ne_eq, or_true, true_or, or_false, false_or,
              decide_symm_false]
  have e2 : placementHash b.zobrist
      ((((b.pieces.setPieceType 2 (Nat.xor (b.pieces.pieceType 2) (Nat.lor (1 <<< 0) (1 <<< 3)))).setColor
          0 (Nat.xor (b.pieces.color 0) (Nat.lor (1 <<< 0) (1 <<< 3)))).setPieceType
          0 (Nat.land (((b.pieces.setPieceType 2 (Nat.xor (b.pieces.pieceType 2) (Nat.lor (1 <<< 0) (1 <<< 3)))).setColor
          0 (Nat.xor (b.pieces.color 0) (Nat.lor (1 <<< 0) (1 <<< 3)))).pieceType 0) (comp64 (1 <<< 4)))).setColor
          0 (Nat.land (((b.pieces.setPieceType 2 (Nat.xor (b.pieces.pieceType 2) (Nat.lor (1 <<< 0) (1 <<< 3)))).setColor
          0 (Nat.xor (b.pieces.color 0) (Nat.lor (1 <<< 0) (1 <<< 3)))).color 0) (comp64 (1 <<< 4))))
      = Nat.xor (placementHash b.zobrist
        ((b.pieces.setPieceType 2 (Nat.xor (b.pieces.pieceType 2) (Nat.lor (1 <<< 0) (1 <<< 3)))).setColor
          0 (Nat.xor (b.pieces.color 0) (Nat.lor (1 <<< 0) (1 <<< 3)))))
        (b.zobrist.pieces 0 0 4) := by
    refine placementHash_flip1 b.zobrist _ _ 0 0 4
      (by norm_num) (by norm_num) (by norm_num) ?_ ?_
    · intro C P i hC hP hi hne
      have hboP := hbo P hP
      have hbcP := hbc P hP
      have hrdP := hrd P hP
      rcases (by omega : C = 0 ∨ C = 1) with rfl | rfl <;>
        by_cases hP0 : P = 0 <;> by_cases hP2 : P = 2 <;>
        by_cases hio : i = (4 : Nat) <;>
        simp_all only [setColor_color, setColor_pieceType, setPieceType_pieceType,
              setPieceType_color, testBit_land2, testBit_lor2, testBit_comp64, nf_pow,
              nf_set, nf_xor, xor10,
              xor11, Nat.reduceEqDiff, Nat.reduceLT, reduceIte, eq_self_iff_true, if_true, if_false,
              decide_True, decide_False, Bool.xor_true, Bool.xor_false, Bool.true_xor,
              Bool.false_xor, Bool.and_true, Bool.true_and, Bool.and_false, Bool.false_and,
              Bool.or_true, Bool.or_false, Bool.true_or, Bool.false_or, Bool.not_true,
              Bool.not_false, Bool.not_not, and_true, true_and, and_false, false_and,
              not_true, not_false_iff, ne_eq, or_true, true_or, or_false, false_or,
              decide_symm_false]
    · have hA := hrd 0 (by norm_num)
      have hB := hrd 2 (by norm_num)
      have hC := hbc 0 (by norm_num) (by norm_num)
      have hD := hptd 0 (by norm_num)
      have hE := hptd 2 (by norm_num)
      have hF := hbo 2 (by norm_num) (by norm_num)
      simp_all only [setColor_color, setColor_pieceType, setPieceType_pieceType,
              setPieceType_color, testBit_land2, testBit_lor2, testBit_comp64, nf_pow,
              nf_set, nf_xor, xor10,
              xor11, Nat.reduceEqDiff, Nat.reduceLT, reduceIte, eq_self_iff_true, if_true, if_false,
              decide_True, decide_False, Bool.xor_true, Bool.xor_false, Bool.true_xor,
              Bool.false_xor, Bool.and_true, Bool.true_and, Bool.and_false, Bool.false_and,
              Bool.or_true, Bool.or_false, Bool.true_or, Bool.false_or, Bool.not_true,
              Bool.not_false, Bool.not_not, and_true, true_and, and_false, false_and,
              not_true, not_false_iff, ne_eq, or_true, true_or, or_false, false_or,
              decide_symm_false]
  have e4 : placementHash b.zobrist
      ((((((b.pieces.setPieceType 2 (Nat.xor (b.pieces.pieceType 2) (Nat.lor (1 <<< 0) (1 <<< 3)))).setColor
          0 (Nat.xor (b.pieces.color 0) (Nat.lor (1 <<< 0) (1 <<< 3)))).setPieceType
          0 (Nat.land (((b.pieces.setPieceType 2 (Nat.xor (b.pieces.pieceType 2) (Nat.lor (1 <<< 0) (1 <<< 3)))).setColor
          0 (Nat.xor (b.pieces.color 0) (Nat.lor (1 <<< 0) (1 <<< 3)))).pieceType 0) (comp64 (1 <<< 4)))).setColor
          0 (Nat.land (((b.pieces.setPieceType 2 (Nat.xor (b.pieces.pieceType 2) (Nat.lor (1 <<< 0) (1 <<< 3)))).setColor
          0 (Nat.xor (b.pieces.color 0) (Nat.lor (1 <<< 0) (1 <<< 3)))).color 0) (comp64 (1 <<< 4)))).setPieceType
          0 (Nat.lor (((((b.pieces.setPieceType 2 (Nat.xor (b.pieces.pieceType 2) (Nat.lor (1 <<< 0) (1 <<< 3)))).setColor
          0 (Nat.xor (b.pieces.color 0) (Nat.lor (1 <<< 0) (1 <<< 3)))).setPieceType
          0 (Nat.land (((b.pieces.setPieceType 2 (Nat.xor (b.pieces.pieceType 2) (Nat.lor (1 <<< 0) (1 <<< 3)))).setColor
          0 (Nat.xor (b.pieces.color 0) (Nat.lor (1 <<< 0) (1 <<< 3)))).pieceType 0) (comp64 (1 <<< 4)))).setColor
          0 (Nat.land (((b.pieces.setPieceType 2 (Nat.xor (b.pieces.pieceType 2) (Nat.lor (1 <<< 0) (1 <<< 3)))).setColor
          0 (Nat.xor (b.pieces.color 0) (Nat.lor (1 <<< 0) (1 <<< 3)))).color 0) (comp64 (1 <<< 4)))).pieceType 0) (1 <<< 2))).setColor
          0 (Nat.lor (((((b.pieces.setPieceType 2 (Nat.xor (b.pieces.pieceType 2) (Nat.lor (1 <<< 0) (1 <<< 3)))).setColor
          0 (Nat.xor (b.pieces.color 0) (Nat.lor (1 <<< 0) (1 <<< 3)))).setPieceType
          0 (Nat.land (((b.pieces.setPieceType 2 (Nat.xor (b.pieces.pieceType 2) (Nat.lor (1 <<< 0) (1 <<< 3)))).setColor
          0 (Nat.xor (b.pieces.color 0) (Nat.lor (1 <<< 0) (1 <<< 3)))).pieceType 0) (comp64 (1 <<< 4)))).setColor
          0 (Nat.land (((b.pieces.setPieceType 2 (Nat.xor (b.pieces.pieceType 2) (Nat.lor (1 <<< 0) (1 <<< 3)))).setColor
          0 (Nat.xor (b.pieces.color 0) (Nat.lor (1 <<< 0) (1 <<< 3)))).color 0) (comp64 (1 <<< 4)))).color 0) (1 <<< 2)))
      = Nat.xor (placementHash b.zobrist
        ((((b.pieces.setPieceType 2 (Nat.xor (b.pieces.pieceType 2) (Nat.lor (1 <<< 0) (1 <<< 3)))).setColor
          0 (Nat.xor (b.pieces.color 0) (Nat.lor (1 <<< 0) (1 <<< 3)))).setPieceType
          0 (Nat.land (((b.pieces.setPieceType 2 (Nat.xor (b.pieces.pieceType 2) (Nat.lor (1 <<< 0) (1 <<< 3)))).setColor
          0 (Nat.xor (b.pieces.color 0) (Nat.lor (1 <<< 0) (1 <<< 3)))).pieceType 0) (comp64 (1 <<< 4)))).setColor
          0 (Nat.land (((b.pieces.setPieceType 2 (Nat.xor (b.pieces.pieceType 2) (Nat.lor (1 <<< 0) (1 <<< 3)))).setColor
          0 (Nat.xor (b.pieces.color 0) (Nat.lor (1 <<< 0) (1 <<< 3)))).color 0) (comp64 (1 <<< 4)))))
        (b.zobrist.pieces 0 0 2) := by
    refine placementHash_flip1 b.zobrist _ _ 0 0 2
      (by norm_num) (by norm_num) (by norm_num) ?_ ?_
    · intro C P i hC hP hi hne
      have hboP := hbo P hP
      have hbcP := hbc P hP
      have hrdP := hrd P hP
      have hptdP := hptd P hP
      rcases (by omega : C = 0 ∨ C = 1) with rfl | rfl <;>
        by_cases hP0 : P = 0 <;> by_cases hP2 : P = 2 <;>
        by_cases hio : i = (2 : Nat) <;>
        simp_all only [setColor_color, setColor_pieceType, setPieceType_pieceType,
              setPieceType_color, testBit_land2, testBit_lor2, testBit_comp64, nf_pow,
              nf_set, nf_xor, xor10,
              xor11, Nat.reduceEqDiff, Nat.reduceLT, reduceIte, eq_self_iff_true, if_true, if_false,
              decide_True, decide_False, Bool.xor_true, Bool.xor_false, Bool.true_xor,
              Bool.false_xor, Bool.and_true, Bool.true_and, Bool.and_false, Bool.false_and,
              Bool.or_true, Bool.or_false, Bool.true_or, Bool.false_or, Bool.not_true,
              Bool.not_false, Bool.not_not, and_true, true_and, and_false, false_and,
              not_true, not_false_iff, ne_eq, or_true, true_or, or_false, false_or,
              decide_symm_false]
    · have hA := hrd 0 (by norm_num)
      have hB := hrd 2 (by norm_num)
      have hC := hbc 0 (by norm_num) (by norm_num)
      have hD := hptd 0 (by norm_num)
      have hE := hptd 2 (by norm_num)
      have hF := hbo 2 (by norm_num) (by norm_num)
      simp_all only [setColor_color, setColor_pieceType, setPieceType_pieceType,
              setPieceType_color, testBit_land2, testBit_lor2, testBit_comp64, nf_pow,
              nf_set, nf_xor, xor10,
              xor11, Nat.reduceEqDiff, Nat.reduceLT, reduceIte, eq_self_iff_true, if_true, if_false,
              decide_True, decide_False, Bool.xor_true, Bool.xor_false, Bool.true_xor,
              Bool.false_xor, Bool.and_true, Bool.true_and, Bool.and_false, Bool.false_and,
              Bool.or_true, Bool.or_false, Bool.true_or, Bool.false_or, Bool.not_true,
              Bool.not_false, Bool.not_not, and_true, true_and, and_false, false_and,
              not_true, not_false_iff, ne_eq, or_true, true_or, or_false, false_or,
              decide_symm_false]
  simp only [Board.doMoveApplied, calcHash_expand, htype, hcap, hpk, ho, hd, htmv,
    MOVE_NORMAL, MOVE_CASTLING, MOVE_PROMOTION, MOVE_ENPASSANT, NO_PIECE, KINGSIDE,
    QUEENSIDE, PAWN, KING, ROOK, WHITE, BLACK, A1, D1, F1, H1, A8, D8, F8, H8,
    castlingRookMask, ZobristArrays.castlingRookMovement, xor10, xor11,
    Nat.reduceEqDiff, Nat.reduceLT, Nat.reduceGT, reduceIte, ne_eq, false_and,
    true_and, if_true, if_false, not_false_iff,
    Option.getD_some, apply_ite b.zobrist.enPassantFile,
    NO_ENPASSANT_FILE, enPassantFile8]
  rw [e4, e2, e1]
  simp only [xor_assoc2, xor_comm2, xor_lcomm, xor_zero2, zero_xor2, xor_self2,
    xor_cancel]

set_option maxHeartbeats 1600000 in
theorem dev_h6b (b : Board) (m : Move)
    (htmv : b.toMove = 0)
    (htype : mvType m = MOVE_CASTLING)
    (hcap : mvCaptured m = NO_PIECE)
    (hpk : mvPiece m = 0)
    (ho : mvOrig m = 4) (hd : mvDest m = 6)
    (horig : (b.pieces.pieceType 0).testBit 4 = true)
    (horigc : (b.pieces.color 0).testBit 4 = true)
    (hbo : ∀ q, q < 6 → q ≠ 0 → (b.pieces.pieceType q).testBit 4 = false)
    (hthemo : (b.pieces.color 1).testBit 4 = false)
    (hptd : ∀ q, q < 6 → (b.pieces.pieceType q).testBit 6 = false)
    (hdnu : (b.pieces.color 0).testBit 6 = false)
    (hthemd : (b.pieces.color 1).testBit 6 = false)
    (hcorner : (b.pieces.pieceType 2).testBit 7 = true)
    (hcornerc : (b.pieces.color 0).testBit 7 = true)
    (hbc : ∀ q, q < 6 → q ≠ 2 → (b.pieces.pieceType q).testBit 7 = false)
    (hthemc : (b.pieces.color 1).testBit 7 = false)
    (hrd : ∀ q, q < 6 → (b.pieces.pieceType q).testBit 5 = false)
    (hrdus : (b.pieces.color 0).testBit 5 = false)
    (hrdthem : (b.pieces.color 1).testBit 5 = false) :
    Nat.xor b.calcHash ((b.doMoveApplied m).1.getD 0) = ((b.doMoveApplied m).2).calcHash := by
  have e1 : placementHash b.zobrist
      ((b.pieces.setPieceType 2 (Nat.xor (b.pieces.pieceType 2) (Nat.lor (1 <<< 7) (1 <<< 5)))).setColor
          0 (Nat.xor (b.pieces.color 0) (Nat.lor (1 <<< 7) (1 <<< 5))))
      = Nat.xor (Nat.xor (placementHash b.zobrist b.pieces)
        (b.zobrist.pieces 0 2 7)) (b.zobrist.pieces 0 2 5) := by
    refine placementHash_flip2 b.zobrist b.pieces _ 0 2 7 5
      (by norm_num) (by norm_num) (by norm_num) (by norm_num) (by norm_num) ?_ ?_ ?_
    · intro C P i hC hP hi hne
      have hboP := hbo P hP
      have hbcP := hbc P hP
      have hrdP := hrd P hP
      have hptdP := hptd P hP
      rcases (by omega : C = 0 ∨ C = 1) with rfl | rfl <;>
        by_cases hP2 : P = 2 <;> by_cases hic : i = (7 : Nat) <;>
        by_cases hir : i = (5 : Nat) <;>
        simp_all only [setColor_color, setColor_pieceType, setPieceType_pieceType,
              setPieceType_color, testBit_land2, testBit_lor2, testBit_comp64, nf_pow,
              nf_set, nf_xor, xor10,
              xor11, Nat.reduceEqDiff, Nat.reduceLT, reduceIte, eq_self_iff_true, if_true, if_false,
              decide_True, decide_False, Bool.xor_true, Bool.xor_false, Bool.true_xor,
              Bool.false_xor, Bool.and_true, Bool.true_and, Bool.and_false, Bool.false_and,
              Bool.or_true, Bool.or_false, Bool.true_or, Bool.false_or, Bool.not_true,
              Bool.not_false, Bool.not_not, and_true, true_and, and_false, false_and,
              not_true, not_false_iff, ne_eq, or_true, true_or, or_false, false_or,
              decide_symm_false]
    · have hA := hrd 0 (by norm_num)
      have hB := hrd 2 (by norm_num)
      have hC := hbc 0 (by norm_num) (by norm_num)
      have hD := hptd 0 (by norm_num)
      have hE := hptd 2 (by norm_num)
      have hF := hbo 2 (by norm_num) (by norm_num)
      simp_all only [setColor_color, setColor_pieceType, setPieceType_pieceType,
              setPieceType_color, testBit_land2, testBit_lor2, testBit_comp64, nf_pow,
              nf_set, nf_xor, xor10,
              xor11, Nat.reduceEqDiff, Nat.reduceLT, reduceIte, eq_self_iff_true, if_true, if_false,
              decide_True, decide_False, Bool.xor_true, Bool.xor_false, Bool.true_xor,
              Bool.false_xor, Bool.and_true, Bool.true_and, Bool.and_false, Bool.false_and,
              Bool.or_true, Bool.or_false, Bool.true_or, Bool.false_or, Bool.not_true,
              Bool.not_false, Bool.not_not, and_true, true_and, and_false, false_and,
              not_true, not_false_iff, ne_eq, or_true, true_or, or_false, false_or,
              decide_symm_false]
    · have hA := hrd 0 (by norm_num)
      have hB := hrd 2 (by norm_num)
      have hC := hbc 0 (by norm_num) (by norm_num)
      have hD := hptd 0 (by norm_num)
      have hE := hptd 2 (by norm_num)
      have hF := hbo 2 (by norm_num) (by norm_num)
      simp_all only [setColor_color, setColor_pieceType, setPieceType_pieceType,
              setPieceType_color, testBit_land2, testBit_lor2, testBit_comp64, nf_pow,
              nf_set, nf_xor, xor10,
              xor11, Nat.reduceEqDiff, Nat.reduceLT, reduceIte, eq_self_iff_true, if_true, if_false,
              decide_True, decide_False, Bool.xor_true, Bool.xor_false, Bool.true_xor,
              Bool.false_xor, Bool.and_true, Bool.true_and, Bool.and_false, Bool.false_and,
              Bool.or_true, Bool.or_false, Bool.true_or, Bool.false_or, Bool.not_true,
              Bool.not_false, Bool.not_not, and_true, true_and, and_false, false_and,
              not_true, not_false_iff, ne_eq, or_true, true_or, or_false, false_or,
              decide_symm_false]
  have e2 : placementHash b.zobrist
      ((((b.pieces.setPieceType 2 (Nat.xor (b.pieces.pieceType 2) (Nat.lor (1 <<< 7) (1 <<< 5)))).setColor
          0 (Nat.xor (b.pieces.color 0) (Nat.lor (1 <<< 7) (1 <<< 5)))).setPieceType
          0 (Nat.land (((b.pieces.setPieceType 2 (Nat.xor (b.pieces.pieceType 2) (Nat.lor (1 <<< 7) (1 <<< 5)))).setColor
          0 (Nat.xor (b.pieces.color 0) (Nat.lor (1 <<< 7) (1 <<< 5)))).pieceType 0) (comp64 (1 <<< 4)))).setColor
          0 (Nat.land (((b.pieces.setPieceType 2 (Nat.xor (b.pieces.pieceType 2) (Nat.lor (1 <<< 7) (1 <<< 5)))).setColor
          0 (Nat.xor (b.pieces.color 0) (Nat.lor (1 <<< 7) (1 <<< 5)))).color 0) (comp64 (1 <<< 4))))
      = Nat.xor (placementHash b.zobrist
        ((b.pieces.setPieceType 2 (Nat.xor (b.pieces.pieceType 2) (Nat.lor (1 <<< 7) (1 <<< 5)))).setColor
          0 (Nat.xor (b.pieces.color 0) (Nat.lor (1 <<< 7) (1 <<< 5)))))
        (b.zobrist.pieces 0 0 4) := by
    refine placementHash_flip1 b.zobrist _ _ 0 0 4
      (by norm_num) (by norm_num) (by norm_num) ?_ ?_
    · intro C P i hC hP hi hne
      have hboP := hbo P hP
      have hbcP := hbc P hP
      have hrdP := hrd P hP
      rcases (by omega : C = 0 ∨ C = 1) with rfl | rfl <;>
        by_cases hP0 : P = 0 <;> by_cases hP2 : P = 2 <;>
        by_cases hio : i = (4 : Nat) <;>
        simp_all only [setColor_color, setColor_pieceType, setPieceType_pieceType,
              setPieceType_color, testBit_land2, testBit_lor2, testBit_comp64, nf_pow,
              nf_set, nf_xor, xor10,
              xor11, Nat.reduceEqDiff, Nat.reduceLT, reduceIte, eq_self_iff_true, if_true, if_false,
              decide_True, decide_False, Bool.xor_true, Bool.xor_false, Bool.true_xor,
              Bool.false_xor, Bool.and_true, Bool.true_and, Bool.and_false, Bool.false_and,
              Bool.or_true, Bool.or_false, Bool.true_or, Bool.false_or, Bool.not_true,
              Bool.not_false, Bool.not_not, and_true, true_and, and_false, false_and,
              not_true, not_false_iff, ne_eq, or_true, true_or, or_false, false_or,
              decide_symm_false]
    · have hA := hrd 0 (by norm_num)
      have hB := hrd 2 (by norm_num)
      have hC := hbc 0 (by norm_num) (by norm_num)
      have hD := hptd 0 (by norm_num)
      have hE := hptd 2 (by norm_num)
      have hF := hbo 2 (by norm_num) (by norm_num)
      simp_all only [setColor_color, setColor_pieceType, setPieceType_pieceType,
              setPieceType_color, testBit_land2, testBit_lor2, testBit_comp64, nf_pow,
              nf_set, nf_xor, xor10,
              xor11, Nat.reduceEqDiff, Nat.reduceLT, reduceIte, eq_self_iff_true, if_true, if_false,
              decide_True, decide_False, Bool.xor_true, Bool.xor_false, Bool.true_xor,
              Bool.false_xor, Bool.and_true, Bool.true_and, Bool.and_false, Bool.false_and,
              Bool.or_true, Bool.or_false, Bool.true_or, Bool.false_or, Bool.not_true,
              Bool.not_false, Bool.not_not, and_true, true_and, and_false, false_and,
              not_true, not_false_iff, ne_eq, or_true, true_or, or_false, false_or,
              decide_symm_false]
  have e4 : placementHash b.zobrist
      ((((((b.pieces.setPieceType 2 (Nat.xor (b.pieces.pieceType 2) (Nat.lor (1 <<< 7) (1 <<< 5)))).setColor
          0 (Nat.xor (b.pieces.color 0) (Nat.lor (1 <<< 7) (1 <<< 5)))).setPieceType
          0 (Nat.land (((b.pieces.setPieceType 2 (Nat.xor (b.pieces.pieceType 2) (Nat.lor (1 <<< 7) (1 <<< 5)))).setColor
          0 (Nat.xor (b.pieces.color 0) (Nat.lor (1 <<< 7) (1 <<< 5)))).pieceType 0) (comp64 (1 <<< 4)))).setColor
          0 (Nat.land (((b.pieces.setPieceType 2 (Nat.xor (b.pieces.pieceType 2) (Nat.lor (1 <<< 7) (1 <<< 5)))).setColor
          0 (Nat.xor (b.pieces.color 0) (Nat.lor (1 <<< 7) (1 <<< 5)))).color 0) (comp64 (1 <<< 4)))).setPieceType
          0 (Nat.lor (((((b.pieces.setPieceType 2 (Nat.xor (b.pieces.pieceType 2) (Nat.lor (1 <<< 7) (1 <<< 5)))).setColor
          0 (Nat.xor (b.pieces.color 0) (Nat.lor (1 <<< 7) (1 <<< 5)))).setPieceType
          0 (Nat.land (((b.pieces.setPieceType 2 (Nat.xor (b.pieces.pieceType 2) (Nat.lor (1 <<< 7) (1 <<< 5)))).setColor
          0 (Nat.xor (b.pieces.color 0) (Nat.lor (1 <<< 7) (1 <<< 5)))).pieceType 0) (comp64 (1 <<< 4)))).setColor
          0 (Nat.land (((b.pieces.setPieceType 2 (Nat.xor (b.pieces.pieceType 2) (Nat.lor (1 <<< 7) (1 <<< 5)))).setColor
          0 (Nat.xor (b.pieces.color 0) (Nat.lor (1 <<< 7) (1 <<< 5)))).color 0) (comp64 (1 <<< 4)))).pieceType 0) (1 <<< 6))).setColor
          0 (Nat.lor (((((b.pieces.setPieceType 2 (Nat.xor (b.pieces.pieceType 2) (Nat.lor (1 <<< 7) (1 <<< 5)))).setColor
          0 (Nat.xor (b.pieces.color 0) (Nat.lor (1 <<< 7) (1 <<< 5)))).setPieceType
          0 (Nat.land (((b.pieces.setPieceType 2 (Nat.xor (b.pieces.pieceType 2) (Nat.lor (1 <<< 7) (1 <<< 5)))).setColor
          0 (Nat.xor (b.pieces.color 0) (Nat.lor (1 <<< 7) (1 <<< 5)))).pieceType 0) (comp64 (1 <<< 4)))).setColor
          0 (Nat.land (((b.pieces.setPieceType 2 (Nat.xor (b.pieces.pieceType 2) (Nat.lor (1 <<< 7) (1 <<< 5)))).setColor
          0 (Nat.xor (b.pieces.color 0) (Nat.lor (1 <<< 7) (1 <<< 5)))).color 0) (comp64 (1 <<< 4)))).color 0) (1 <<< 6)))
      = Nat.xor (placementHash b.zobrist
        ((((b.pieces.setPieceType 2 (Nat.xor (b.pieces.pieceType 2) (Nat.lor (1 <<< 7) (1 <<< 5)))).setColor
          0 (Nat.xor (b.pieces.color 0) (Nat.lor (1 <<< 7) (1 <<< 5)))).setPieceType
          0 (Nat.land (((b.pieces.setPieceType 2 (Nat.xor (b.pieces.pieceType 2) (Nat.lor (1 <<< 7) (1 <<< 5)))).setColor
          0 (Nat.xor (b.pieces.color 0) (Nat.lor (1 <<< 7) (1 <<< 5)))).pieceType 0) (comp64 (1 <<< 4)))).setColor
          0 (Nat.land (((b.pieces.setPieceType 2 (Nat.xor (b.pieces.pieceType 2) (Nat.lor (1 <<< 7) (1 <<< 5)))).setColor
          0 (Nat.xor (b.pieces.color 0) (Nat.lor (1 <<< 7) (1 <<< 5)))).color 0) (comp64 (1 <<< 4)))))
        (b.zobrist.pieces 0 0 6) := by
    refine placementHash_flip1 b.zobrist _ _ 0 0 6
      (by norm_num) (by norm_num) (by norm_num) ?_ ?_
    · intro C P i hC hP hi hne
      have hboP := hbo P hP
      have hbcP := hbc P hP
      have hrdP := hrd P hP
      have hptdP := hptd P hP
      rcases (by omega : C = 0 ∨ C = 1) with rfl | rfl <;>
        by_cases hP0 : P = 0 <;> by_cases hP2 : P = 2 <;>
        by_cases hio : i = (6 : Nat) <;>
        simp_all only [setColor_color, setColor_pieceType, setPieceType_pieceType,
              setPieceType_color, testBit_land2, testBit_lor2, testBit_comp64, nf_pow,
              nf_set, nf_xor, xor10,
              xor11, Nat.reduceEqDiff, Nat.reduceLT, reduceIte, eq_self_iff_true, if_true, if_false,
              decide_True, decide_False, Bool.xor_true, Bool.xor_false, Bool.true_xor,
              Bool.false_xor, Bool.and_true, Bool.true_and, Bool.and_false, Bool.false_and,
              Bool.or_true, Bool.or_false, Bool.true_or, Bool.false_or, Bool.not_true,
              Bool.not_false, Bool.not_not, and_true, true_and, and_false, false_and,
              not_true, not_false_iff, ne_eq, or_true, true_or, or_false, false_or,
              decide_symm_false]
    · have hA := hrd 0 (by norm_num)
      have hB := hrd 2 (by norm_num)
      have hC := hbc 0 (by norm_num) (by norm_num)
      have hD := hptd 0 (by norm_num)
      have hE := hptd 2 (by norm_num)
      have hF := hbo 2 (by norm_num) (by norm_num)
      simp_all only [setColor_color, setColor_pieceType, setPieceType_pieceType,
              setPieceType_color, testBit_land2, testBit_lor2, testBit_comp64, nf_pow,
              nf_set, nf_xor, xor10,
              xor11, Nat.reduceEqDiff, Nat.reduceLT, reduceIte, eq_self_iff_true, if_true, if_false,
              decide_True, decide_False, Bool.xor_true, Bool.xor_false, Bool.true_xor,
              Bool.false_xor, Bool.and_true, Bool.true_and, Bool.and_false, Bool.false_and,
              Bool.or_true, Bool.or_false, Bool.true_or, Bool.false_or, Bool.not_true,
              Bool.not_false, Bool.not_not, and_true, true_and, and_false, false_and,
              not_true, not_false_iff, ne_eq, or_true, true_or, or_false, false_or,
              decide_symm_false]
  simp only [Board.doMoveApplied, calcHash_expand, htype, hcap, hpk, ho, hd, htmv,
    MOVE_NORMAL, MOVE_CASTLING, MOVE_PROMOTION, MOVE_ENPASSANT, NO_PIECE, KINGSIDE,
    QUEENSIDE, PAWN, KING, ROOK, WHITE, BLACK, A1, D1, F1, H1, A8, D8, F8, H8,
    castlingRookMask, ZobristArrays.castlingRookMovement, xor10, xor11,
    Nat.reduceEqDiff, Nat.reduceLT, Nat.reduceGT, reduceIte, ne_eq, false_and,
    true_and, if_true, if_false, not_false_iff,
    Option.getD_some, apply_ite b.zobrist.enPassantFile,
    NO_ENPASSANT_FILE, enPassantFile8]
  rw [e4, e2, e1]
  simp only [xor_assoc2, xor_comm2, xor_lcomm, xor_zero2, zero_xor2, xor_self2,
    xor_cancel]

set_option maxHeartbeats 1600000 in
theorem dev_h6c (b : Board) (m : Move)
    (htmv : b.toMove = 1)
    (htype : mvType m = MOVE_CASTLING)
    (hcap : mvCaptured m = NO_PIECE)
    (hpk : mvPiece m = 0)
    (ho : mvOrig m = 60) (hd : mvDest m = 58)
    (horig : (b.pieces.pieceType 0).testBit 60 = true)
    (horigc : (b.pieces.color 1).testBit 60 = true)
    (hbo : ∀ q, q < 6 → q ≠ 0 → (b.pieces.pieceType q).testBit 60 = false)
    (hthemo : (b.pieces.color 0).testBit 60 = false)
    (hptd : ∀ q, q < 6 → (b.pieces.pieceType q).testBit 58 = false)
    (hdnu : (b.pieces.color 1).testBit 58 = false)
    (hthemd : (b.pieces.color 0).testBit 58 = false)
    (hcorner : (b.pieces.pieceType 2).testBit 56 = true)
    (hcornerc : (b.pieces.color 1).testBit 56 = true)
    (hbc : ∀ q, q < 6 → q ≠ 2 → (b.pieces.pieceType q).testBit 56 = false)
    (hthemc : (b.pieces.color 0).testBit 56 = false)
    (hrd : ∀ q, q < 6 → (b.pieces.pieceType q).testBit 59 = false)
    (hrdus : (b.pieces.color 1).testBit 59 = false)
    (hrdthem : (b.pieces.color 0).testBit 59 = false) :
    Nat.xor b.calcHash ((b.doMoveApplied m).1.getD 0) = ((b.doMoveApplied m).2).calcHash := by
  have e1 : placementHash b.zobrist
      ((b.pieces.setPieceType 2 (Nat.xor (b.pieces.pieceType 2) (Nat.lor (1 <<< 56) (1 <<< 59)))).setColor
          1 (Nat.xor (b.pieces.color 1) (Nat.lor (1 <<< 56) (1 <<< 59))))
      = Nat.xor (Nat.xor (placementHash b.zobrist b.pieces)
        (b.zobrist.pieces 1 2 56)) (b.zobrist.pieces 1 2 59) := by
    refine placementHash_flip2 b.zobrist b.pieces _ 1 2 56 59
      (by norm_num) (by norm_num) (by norm_num) (by norm_num) (by norm_num) ?_ ?_ ?_
    · intro C P i hC hP hi hne
      have hboP := hbo P hP
      have hbcP := hbc P hP
      have hrdP := hrd P hP
      have hptdP := hptd P hP
      rcases (by omega : C = 0 ∨ C = 1) with rfl | rfl <;>
        by_cases hP2 : P = 2 <;> by_cases hic : i = (56 : Nat) <;>
        by_cases hir : i = (59 : Nat) <;>
        simp_all only [setColor_color, setColor_pieceType, setPieceType_pieceType,
              setPieceType_color, testBit_land2, testBit_lor2, testBit_comp64, nf_pow,
              nf_set, nf_xor, xor10,
              xor11, Nat.reduceEqDiff, Nat.reduceLT, reduceIte, eq_self_iff_true, if_true, if_false,
              decide_True, decide_False, Bool.xor_true, Bool.xor_false, Bool.true_xor,
              Bool.false_xor, Bool.and_true, Bool.true_and, Bool.and_false, Bool.false_and,
              Bool.or_true, Bool.or_false, Bool.true_or, Bool.false_or, Bool.not_true,
              Bool.not_false, Bool.not_not, and_true, true_and, and_false, false_and,
              not_true, not_false_iff, ne_eq, or_true, true_or, or_false, false_or,
              decide_symm_false]
    · have hA := hrd 0 (by norm_num)
      have hB := hrd 2 (by norm_num)
      have hC := hbc 0 (by norm_num) (by norm_num)
      have hD := hptd 0 (by norm_num)
      have hE := hptd 2 (by norm_num)
      have hF := hbo 2 (by norm_num) (by norm_num)
      simp_all only [setColor_color, setColor_pieceType, setPieceType_pieceType,
              setPieceType_color, testBit_land2, testBit_lor2, testBit_comp64, nf_pow,
              nf_set, nf_xor, xor10,
              xor11, Nat.reduceEqDiff, Nat.reduceLT, reduceIte, eq_self_iff_true, if_true, if_false,
              decide_True, decide_False, Bool.xor_true, Bool.xor_false, Bool.true_xor,
              Bool.false_xor, Bool.and_true, Bool.true_and, Bool.and_false, Bool.false_and,
              Bool.or_true, Bool.or_false, Bool.true_or, Bool.false_or, Bool.not_true,
              Bool.not_false, Bool.not_not, and_true, true_and, and_false, false_and,
              not_true, not_false_iff, ne_eq, or_true, true_or, or_false, false_or,
              decide_symm_false]
    · have hA := hrd 0 (by norm_num)
      have hB := hrd 2 (by norm_num)
      have hC := hbc 0 (by norm_num) (by norm_num)
      have hD := hptd 0 (by norm_num)
      have hE := hptd 2 (by norm_num)
      have hF := hbo 2 (by norm_num) (by norm_num)
      simp_all only [setColor_color, setColor_pieceType, setPieceType_pieceType,
              setPieceType_color, testBit_land2, testBit_lor2, testBit_comp64, nf_pow,
              nf_set, nf_xor, xor10,
              xor11, Nat.reduceEqDiff, Nat.reduceLT, reduceIte, eq_self_iff_true, if_true, if_false,
              decide_True, decide_False, Bool.xor_true, Bool.xor_false, Bool.true_xor,
              Bool.false_xor, Bool.and_true, Bool.true_and, Bool.and_false, Bool.false_and,
              Bool.or_true, Bool.or_false, Bool.true_or, Bool.false_or, Bool.not_true,
              Bool.not_false, Bool.not_not, and_true, true_and, and_false, false_and,
              not_true, not_false_iff, ne_eq, or_true, true_or, or_false, false_or,
              decide_symm_false]
  have e2 : placementHash b.zobrist
      ((((b.pieces.setPieceType 2 (Nat.xor (b.pieces.pieceType 2) (Nat.lor (1 <<< 56) (1 <<< 59)))).setColor
          1 (Nat.xor (b.pieces.color 1) (Nat.lor (1 <<< 56) (1 <<< 59)))).setPieceType
          0 (Nat.land (((b.pieces.setPieceType 2 (Nat.xor (b.pieces.pieceType 2) (Nat.lor (1 <<< 56) (1 <<< 59)))).setColor
          1 (Nat.xor (b.pieces.color 1) (Nat.lor (1 <<< 56) (1 <<< 59)))).pieceType 0) (comp64 (1 <<< 60)))).setColor
          1 (Nat.land (((b.pieces.setPieceType 2 (Nat.xor (b.pieces.pieceType 2) (Nat.lor (1 <<< 56) (1 <<< 59)))).setColor
          1 (Nat.xor (b.pieces.color 1) (Nat.lor (1 <<< 56) (1 <<< 59)))).color 1) (comp64 (1 <<< 60))))
      = Nat.xor (placementHash b.zobrist
        ((b.pieces.setPieceType 2 (Nat.xor (b.pieces.pieceType 2) (Nat.lor (1 <<< 56) (1 <<< 59)))).setColor
          1 (Nat.xor (b.pieces.color 1) (Nat.lor (1 <<< 56) (1 <<< 59)))))
        (b.zobrist.pieces 1 0 60) := by
    refine placementHash_flip1 b.zobrist _ _ 1 0 60
      (by norm_num) (by norm_num) (by norm_num) ?_ ?_
    · intro C P i hC hP hi hne
      have hboP := hbo P hP
      have hbcP := hbc P hP
      have hrdP := hrd P hP
      rcases (by omega : C = 0 ∨ C = 1) with rfl | rfl <;>
        by_cases hP0 : P = 0 <;> by_cases hP2 : P = 2 <;>
        by_cases hio : i = (60 : Nat) <;>
        simp_all only [setColor_color, setColor_pieceType, setPieceType_pieceType,
              setPieceType_color, testBit_land2, testBit_lor2, testBit_comp64, nf_pow,
              nf_set, nf_xor, xor10,
              xor11, Nat.reduceEqDiff, Nat.reduceLT, reduceIte, eq_self_iff_true, if_true, if_false,
              decide_True, decide_False, Bool.xor_true, Bool.xor_false, Bool.true_xor,
              Bool.false_xor, Bool.and_true, Bool.true_and, Bool.and_false, Bool.false_and,
              Bool.or_true, Bool.or_false, Bool.true_or, Bool.false_or, Bool.not_true,
              Bool.not_false, Bool.not_not, and_true, true_and, and_false, false_and,
              not_true, not_false_iff, ne_eq, or_true, true_or, or_false, false_or,
              decide_symm_false]
    · have hA := hrd 0 (by norm_num)
      have hB := hrd 2 (by norm_num)
      have hC := hbc 0 (by norm_num) (by norm_num)
      have hD := hptd 0 (by norm_num)
      have hE := hptd 2 (by norm_num)
      have hF := hbo 2 (by norm_num) (by norm_num)
      simp_all only [setColor_color, setColor_pieceType, setPieceType_pieceType,
              setPieceType_color, testBit_land2, testBit_lor2, testBit_comp64, nf_pow,
              nf_set, nf_xor, xor10,
              xor11, Nat.reduceEqDiff, Nat.reduceLT, reduceIte, eq_self_iff_true, if_true, if_false,
              decide_True, decide_False, Bool.xor_true, Bool.xor_false, Bool.true_xor,
              Bool.false_xor, Bool.and_true, Bool.true_and, Bool.and_false, Bool.false_and,
              Bool.or_true, Bool.or_false, Bool.true_or, Bool.false_or, Bool.not_true,
              Bool.not_false, Bool.not_not, and_true, true_and, and_false, false_and,
              not_true, not_false_iff, ne_eq, or_true, true_or, or_false, false_or,
              decide_symm_false]
  have e4 : placementHash b.zobrist
      ((((((b.pieces.setPieceType 2 (Nat.xor (b.pieces.pieceType 2) (Nat.lor (1 <<< 56) (1 <<< 59)))).setColor
          1 (Nat.xor (b.pieces.color 1) (Nat.lor (1 <<< 56) (1 <<< 59)))).setPieceType
          0 (Nat.land (((b.pieces.setPieceType 2 (Nat.xor (b.pieces.pieceType 2) (Nat.lor (1 <<< 56) (1 <<< 59)))).setColor
          1 (Nat.xor (b.pieces.color 1) (Nat.lor (1 <<< 56) (1 <<< 59)))).pieceType 0) (comp64 (1 <<< 60)))).setColor
          1 (Nat.land (((b.pieces.setPieceType 2 (Nat.xor (b.pieces.pieceType 2) (Nat.lor (1 <<< 56) (1 <<< 59)))).setColor
          1 (Nat.xor (b.pieces.color 1) (Nat.lor (1 <<< 56) (1 <<< 59)))).color 1) (comp64 (1 <<< 60)))).setPieceType
          0 (Nat.lor (((((b.pieces.setPieceType 2 (Nat.xor (b.pieces.pieceType 2) (Nat.lor (1 <<< 56) (1 <<< 59)))).setColor
          1 (Nat.xor (b.pieces.color 1) (Nat.lor (1 <<< 56) (1 <<< 59)))).setPieceType
          0 (Nat.land (((b.pieces.setPieceType 2 (Nat.xor (b.pieces.pieceType 2) (Nat.lor (1 <<< 56) (1 <<< 59)))).setColor
          1 (Nat.xor (b.pieces.color 1) (Nat.lor (1 <<< 56) (1 <<< 59)))).pieceType 0) (comp64 (1 <<< 60)))).setColor
          1 (Nat.land (((b.pieces.setPieceType 2 (Nat.xor (b.pieces.pieceType 2) (Nat.lor (1 <<< 56) (1 <<< 59)))).setColor
          1 (Nat.xor (b.pieces.color 1) (Nat.lor (1 <<< 56) (1 <<< 59)))).color 1) (comp64 (1 <<< 60)))).pieceType 0) (1 <<< 58))).setColor
          1 (Nat.lor (((((b.pieces.setPieceType 2 (Nat.xor (b.pieces.pieceType 2) (Nat.lor (1 <<< 56) (1 <<< 59)))).setColor
          1 (Nat.xor (b.pieces.color 1) (Nat.lor (1 <<< 56) (1 <<< 59)))).setPieceType
          0 (Nat.land (((b.pieces.setPieceType 2 (Nat.xor (b.pieces.pieceType 2) (Nat.lor (1 <<< 56) (1 <<< 59)))).setColor
          1 (Nat.xor (b.pieces.color 1) (Nat.lor (1 <<< 56) (1 <<< 59)))).pieceType 0) (comp64 (1 <<< 60)))).setColor
          1 (Nat.land (((b.pieces.setPieceType 2 (Nat.xor (b.pieces.pieceType 2) (Nat.lor (1 <<< 56) (1 <<< 59)))).setColor
          1 (Nat.xor (b.pieces.color 1) (Nat.lor (1 <<< 56) (1 <<< 59)))).color 1) (comp64 (1 <<< 60)))).color 1) (1 <<< 58)))
      = Nat.xor (placementHash b.zobrist
        ((((b.pieces.setPieceType 2 (Nat.xor (b.pieces.pieceType 2) (Nat.lor (1 <<< 56) (1 <<< 59)))).setColor
          1 (Nat.xor (b.pieces.color 1) (Nat.lor (1 <<< 56) (1 <<< 59)))).setPieceType
          0 (Nat.land (((b.pieces.setPieceType 2 (Nat.xor (b.pieces.pieceType 2) (Nat.lor (1 <<< 56) (1 <<< 59)))).setColor
          1 (Nat.xor (b.pieces.color 1) (Nat.lor (1 <<< 56) (1 <<< 59)))).pieceType 0) (comp64 (1 <<< 60)))).setColor
          1 (Nat.land (((b.pieces.setPieceType 2 (Nat.xor (b.pieces.pieceType 2) (Nat.lor (1 <<< 56) (1 <<< 59)))).setColor
          1 (Nat.xor (b.pieces.color 1) (Nat.lor (1 <<< 56) (1 <<< 59)))).color 1) (comp64 (1 <<< 60)))))
        (b.zobrist.pieces 1 0 58) := by
    refine placementHash_flip1 b.zobrist _ _ 1 0 58
      (by norm_num) (by norm_num) (by norm_num) ?_ ?_
    · intro C P i hC hP hi hne
      have hboP := hbo P hP
      have hbcP := hbc P hP
      have hrdP := hrd P hP
      have hptdP := hptd P hP
      rcases (by omega : C = 0 ∨ C = 1) with rfl | rfl <;>
        by_cases hP0 : P = 0 <;> by_cases hP2 : P = 2 <;>
        by_cases hio : i = (58 : Nat) <;>
        simp_all only [setColor_color, setColor_pieceType, setPieceType_pieceType,
              setPieceType_color, testBit_land2, testBit_lor2, testBit_comp64, nf_pow,
              nf_set, nf_xor, xor10,
              xor11, Nat.reduceEqDiff, Nat.reduceLT, reduceIte, eq_self_iff_true, if_true, if_false,
              decide_True, decide_False, Bool.xor_true, Bool.xor_false, Bool.true_xor,
              Bool.false_xor, Bool.and_true, Bool.true_and, Bool.and_false, Bool.false_and,
              Bool.or_true, Bool.or_false, Bool.true_or, Bool.false_or, Bool.not_true,
              Bool.not_false, Bool.not_not, and_true, true_and, and_false, false_and,
              not_true, not_false_iff, ne_eq, or_true, true_or, or_false, false_or,
              decide_symm_false]
    · have hA := hrd 0 (by norm_num)
      have hB := hrd 2 (by norm_num)
      have hC := hbc 0 (by norm_num) (by norm_num)
      have hD := hptd 0 (by norm_num)
      have hE := hptd 2 (by norm_num)
      have hF := hbo 2 (by norm_num) (by norm_num)
      simp_all only [setColor_color, setColor_pieceType, setPieceType_pieceType,
              setPieceType_color, testBit_land2, testBit_lor2, testBit_comp64, nf_pow,
              nf_set, nf_xor, xor10,
              xor11, Nat.reduceEqDiff, Nat.reduceLT, reduceIte, eq_self_iff_true, if_true, if_false,
              decide_True, decide_False, Bool.xor_true, Bool.xor_false, Bool.true_xor,
              Bool.false_xor, Bool.and_true, Bool.true_and, Bool.and_false, Bool.false_and,
              Bool.or_true, Bool.or_false, Bool.true_or, Bool.false_or, Bool.not_true,
              Bool.not_false, Bool.not_not, and_true, true_and, and_false, false_and,
              not_true, not_false_iff, ne_eq, or_true, true_or, or_false, false_or,
              decide_symm_false]
  simp only [Board.doMoveApplied, calcHash_expand, htype, hcap, hpk, ho, hd, htmv,
    MOVE_NORMAL, MOVE_CASTLING, MOVE_PROMOTION, MOVE_ENPASSANT, NO_PIECE, KINGSIDE,
    QUEENSIDE, PAWN, KING, ROOK, WHITE, BLACK, A1, D1, F1, H1, A8, D8, F8, H8,
    castlingRookMask, ZobristArrays.castlingRookMovement, xor10, xor11,
    Nat.reduceEqDiff, Nat.reduceLT, Nat.reduceGT, reduceIte, ne_eq, false_and,
    true_and, if_true, if_false, not_false_iff,
    Option.getD_some, apply_ite b.zobrist.enPassantFile,
    NO_ENPASSANT_FILE, enPassantFile8]
  rw [e4, e2, e1]
  simp only [xor_assoc2, xor_comm2, xor_lcomm, xor_zero2, zero_xor2, xor_self2,
    xor_cancel]

set_option maxHeartbeats 1600000 in
theorem dev_h6d (b : Board) (m : Move)
    (htmv : b.toMove = 1)
    (htype : mvType m = MOVE_CASTLING)
    (hcap : mvCaptured m = NO_PIECE)
    (hpk : mvPiece m = 0)
    (ho : mvOrig m = 60) (hd : mvDest m = 62)
    (horig : (b.pieces.pieceType 0).testBit 60 = true)
    (horigc : (b.pieces.color 1).testBit 60 = true)
    (hbo : ∀ q, q < 6 → q ≠ 0 → (b.pieces.pieceType q).testBit 60 = false)
    (hthemo : (b.pieces.color 0).testBit 60 = false)
    (hptd : ∀ q, q < 6 → (b.pieces.pieceType q).testBit 62 = false)
    (hdnu : (b.pieces.color 1).testBit 62 = false)
    (hthemd : (b.pieces.color 0).testBit 62 = false)
    (hcorner : (b.pieces.pieceType 2).testBit 63 = true)
    (hcornerc : (b.pieces.color 1).testBit 63 = true)
    (hbc : ∀ q, q < 6 → q ≠ 2 → (b.pieces.pieceType q).testBit 63 = false)
    (hthemc : (b.pieces.color 0).testBit 63 = false)
    (hrd : ∀ q, q < 6 → (b.pieces.pieceType q).testBit 61 = false)
    (hrdus : (b.pieces.color 1).testBit 61 = false)
    (hrdthem : (b.pieces.color 0).testBit 61 = false) :
    Nat.xor b.calcHash ((b.doMoveApplied m).1.getD 0) = ((b.doMoveApplied m).2).calcHash := by
  have e1 : placementHash b.zobrist
      ((b.pieces.setPieceType 2 (Nat.xor (b.pieces.pieceType 2) (Nat.lor (1 <<< 63) (1 <<< 61)))).setColor
          1 (Nat.xor (b.pieces.color 1) (Nat.lor (1 <<< 63) (1 <<< 61))))
      = Nat.xor (Nat.xor (placementHash b.zobrist b.pieces)
        (b.zobrist.pieces 1 2 63)) (b.zobrist.pieces 1 2 61) := by
    refine placementHash_flip2 b.zobrist b.pieces _ 1 2 63 61
      (by norm_num) (by norm_num) (by norm_num) (by norm_num) (by norm_num) ?_ ?_ ?_
    · intro C P i hC hP hi hne
      have hboP := hbo P hP
      have hbcP := hbc P hP
      have hrdP := hrd P hP
      have hptdP := hptd P hP
      rcases (by omega : C = 0 ∨ C = 1) with rfl | rfl <;>
        by_cases hP2 : P = 2 <;> by_cases hic : i = (63 : Nat) <;>
        by_cases hir : i = (61 : Nat) <;>
        simp_all only [setColor_color, setColor_pieceType, setPieceType_pieceType,
              setPieceType_color, testBit_land2, testBit_lor2, testBit_comp64, nf_pow,
              nf_set, nf_xor, xor10,
              xor11, Nat.reduceEqDiff, Nat.reduceLT, reduceIte, eq_self_iff_true, if_true, if_false,
              decide_True, decide_False, Bool.xor_true, Bool.xor_false, Bool.true_xor,
              Bool.false_xor, Bool.and_true, Bool.true_and, Bool.and_false, Bool.false_and,
              Bool.or_true, Bool.or_false, Bool.true_or, Bool.false_or, Bool.not_true,
              Bool.not_false, Bool.not_not, and_true, true_and, and_false, false_and,
              not_true, not_false_iff, ne_eq, or_true, true_or, or_false, false_or,
              decide_symm_false]
    · have hA := hrd 0 (by norm_num)
      have hB := hrd 2 (by norm_num)
      have hC := hbc 0 (by norm_num) (by norm_num)
      have hD := hptd 0 (by norm_num)
      have hE := hptd 2 (by norm_num)
      have hF := hbo 2 (by norm_num) (by norm_num)
      simp_all only [setColor_color, setColor_pieceType, setPieceType_pieceType,
              setPieceType_color, testBit_land2, testBit_lor2, testBit_comp64, nf_pow,
              nf_set, nf_xor, xor10,
              xor11, Nat.reduceEqDiff, Nat.reduceLT, reduceIte, eq_self_iff_true, if_true, if_false,
              decide_True, decide_False, Bool.xor_true, Bool.xor_false, Bool.true_xor,
              Bool.false_xor, Bool.and_true, Bool.true_and, Bool.and_false, Bool.false_and,
              Bool.or_true, Bool.or_false, Bool.true_or, Bool.false_or, Bool.not_true,
              Bool.not_false, Bool.not_not, and_true, true_and, and_false, false_and,
              not_true, not_false_iff, ne_eq, or_true, true_or, or_false, false_or,
              decide_symm_false]
    · have hA := hrd 0 (by norm_num)
      have hB := hrd 2 (by norm_num)
      have hC := hbc 0 (by norm_num) (by norm_num)
      have hD := hptd 0 (by norm_num)
      have hE := hptd 2 (by norm_num)
      have hF := hbo 2 (by norm_num) (by norm_num)
      simp_all only [setColor_color, setColor_pieceType, setPieceType_pieceType,
              setPieceType_color, testBit_land2, testBit_lor2, testBit_comp64, nf_pow,
              nf_set, nf_xor, xor10,
              xor11, Nat.reduceEqDiff, Nat.reduceLT, reduceIte, eq_self_iff_true, if_true, if_false,
              decide_True, decide_False, Bool.xor_true, Bool.xor_false, Bool.true_xor,
              Bool.false_xor, Bool.and_true, Bool.true_and, Bool.and_false, Bool.false_and,
              Bool.or_true, Bool.or_false, Bool.true_or, Bool.false_or, Bool.not_true,
              Bool.not_false, Bool.not_not, and_true, true_and, and_false, false_and,
              not_true, not_false_iff, ne_eq, or_true, true_or, or_false, false_or,
              decide_symm_false]
  have e2 : placementHash b.zobrist
      ((((b.pieces.setPieceType 2 (Nat.xor (b.pieces.pieceType 2) (Nat.lor (1 <<< 63) (1 <<< 61)))).setColor
          1 (Nat.xor (b.pieces.color 1) (Nat.lor (1 <<< 63) (1 <<< 61)))).setPieceType
          0 (Nat.land (((b.pieces.setPieceType 2 (Nat.xor (b.pieces.pieceType 2) (Nat.lor (1 <<< 63) (1 <<< 61)))).setColor
          1 (Nat.xor (b.pieces.color 1) (Nat.lor (1 <<< 63) (1 <<< 61)))).pieceType 0) (comp64 (1 <<< 60)))).setColor
          1 (Nat.land (((b.pieces.setPieceType 2 (Nat.xor (b.pieces.pieceType 2) (Nat.lor (1 <<< 63) (1 <<< 61)))).setColor
          1 (Nat.xor (b.pieces.color 1) (Nat.lor (1 <<< 63) (1 <<< 61)))).color 1) (comp64 (1 <<< 60))))
      = Nat.xor (placementHash b.zobrist
        ((b.pieces.setPieceType 2 (Nat.xor (b.pieces.pieceType 2) (Nat.lor (1 <<< 63) (1 <<< 61)))).setColor
          1 (Nat.xor (b.pieces.color 1) (Nat.lor (1 <<< 63) (1 <<< 61)))))
        (b.zobrist.pieces 1 0 60) := by
    refine placementHash_flip1 b.zobrist _ _ 1 0 60
      (by norm_num) (by norm_num) (by norm_num) ?_ ?_
    · intro C P i hC hP hi hne
      have hboP := hbo P hP
      have hbcP := hbc P hP
      have hrdP := hrd P hP
      rcases (by omega : C = 0 ∨ C = 1) with rfl | rfl <;>
        by_cases hP0 : P = 0 <;> by_cases hP2 : P = 2 <;>
        by_cases hio : i = (60 : Nat) <;>
        simp_all only [setColor_color, setColor_pieceType, setPieceType_pieceType,
              setPieceType_color, testBit_land2, testBit_lor2, testBit_comp64, nf_pow,
              nf_set, nf_xor, xor10,
              xor11, Nat.reduceEqDiff, Nat.reduceLT, reduceIte, eq_self_iff_true, if_true, if_false,
              decide_True, decide_False, Bool.xor_true, Bool.xor_false, Bool.true_xor,
              Bool.false_xor, Bool.and_true, Bool.true_and, Bool.and_false, Bool.false_and,
              Bool.or_true, Bool.or_false, Bool.true_or, Bool.false_or, Bool.not_true,
              Bool.not_false, Bool.not_not, and_true, true_and, and_false, false_and,
              not_true, not_false_iff, ne_eq, or_true, true_or, or_false, false_or,
              decide_symm_false]
    · have hA := hrd 0 (by norm_num)
      have hB := hrd 2 (by norm_num)
      have hC := hbc 0 (by norm_num) (by norm_num)
      have hD := hptd 0 (by norm_num)
      have hE := hptd 2 (by norm_num)
      have hF := hbo 2 (by norm_num) (by norm_num)
      simp_all only [setColor_color, setColor_pieceType, setPieceType_pieceType,
              setPieceType_color, testBit_land2, testBit_lor2, testBit_comp64, nf_pow,
              nf_set, nf_xor, xor10,
              xor11, Nat.reduceEqDiff, Nat.reduceLT, reduceIte, eq_self_iff_true, if_true, if_false,
              decide_True, decide_False, Bool.xor_true, Bool.xor_false, Bool.true_xor,
              Bool.false_xor, Bool.and_true, Bool.true_and, Bool.and_false, Bool.false_and,
              Bool.or_true, Bool.or_false, Bool.true_or, Bool.false_or, Bool.not_true,
              Bool.not_false, Bool.not_not, and_true, true_and, and_false, false_and,
              not_true, not_false_iff, ne_eq, or_true, true_or, or_false, false_or,
              decide_symm_false]
  have e4 : placementHash b.zobrist
      ((((((b.pieces.setPieceType 2 (Nat.xor (b.pieces.pieceType 2) (Nat.lor (1 <<< 63) (1 <<< 61)))).setColor
          1 (Nat.xor (b.pieces.color 1) (Nat.lor (1 <<< 63) (1 <<< 61)))).setPieceType
          0 (Nat.land (((b.pieces.setPieceType 2 (Nat.xor (b.pieces.pieceType 2) (Nat.lor (1 <<< 63) (1 <<< 61)))).setColor
          1 (Nat.xor (b.pieces.color 1) (Nat.lor (1 <<< 63) (1 <<< 61)))).pieceType 0) (comp64 (1 <<< 60)))).setColor
          1 (Nat.land (((b.pieces.setPieceType 2 (Nat.xor (b.pieces.pieceType 2) (Nat.lor (1 <<< 63) (1 <<< 61)))).setColor
          1 (Nat.xor (b.pieces.color 1) (Nat.lor (1 <<< 63) (1 <<< 61)))).color 1) (comp64 (1 <<< 60)))).setPieceType
          0 (Nat.lor (((((b.pieces.setPieceType 2 (Nat.xor (b.pieces.pieceType 2) (Nat.lor (1 <<< 63) (1 <<< 61)))).setColor
          1 (Nat.xor (b.pieces.color 1) (Nat.lor (1 <<< 63) (1 <<< 61)))).setPieceType
          0 (Nat.land (((b.pieces.setPieceType 2 (Nat.xor (b.pieces.pieceType 2) (Nat.lor (1 <<< 63) (1 <<< 61)))).setColor
          1 (Nat.xor (b.pieces.color 1) (Nat.lor (1 <<< 63) (1 <<< 61)))).pieceType 0) (comp64 (1 <<< 60)))).setColor
          1 (Nat.land (((b.pieces.setPieceType 2 (Nat.xor (b.pieces.pieceType 2) (Nat.lor (1 <<< 63) (1 <<< 61)))).setColor
          1 (Nat.xor (b.pieces.color 1) (Nat.lor (1 <<< 63) (1 <<< 61)))).color 1) (comp64 (1 <<< 60)))).pieceType 0) (1 <<< 62))).setColor
          1 (Nat.lor (((((b.pieces.setPieceType 2 (Nat.xor (b.pieces.pieceType 2) (Nat.lor (1 <<< 63) (1 <<< 61)))).setColor
          1 (Nat.xor (b.pieces.color 1) (Nat.lor (1 <<< 63) (1 <<< 61)))).setPieceType
          0 (Nat.land (((b.pieces.setPieceType 2 (Nat.xor (b.pieces.pieceType 2) (Nat.lor (1 <<< 63) (1 <<< 61)))).setColor
          1 (Nat.xor (b.pieces.color 1) (Nat.lor (1 <<< 63) (1 <<< 61)))).pieceType 0) (comp64 (1 <<< 60)))).setColor
          1 (Nat.land (((b.pieces.setPieceType 2 (Nat.xor (b.pieces.pieceType 2) (Nat.lor (1 <<< 63) (1 <<< 61)))).setColor
          1 (Nat.xor (b.pieces.color 1) (Nat.lor (1 <<< 63) (1 <<< 61)))).color 1) (comp64 (1 <<< 60)))).color 1) (1 <<< 62)))
      = Nat.xor (placementHash b.zobrist
        ((((b.pieces.setPieceType 2 (Nat.xor (b.pieces.pieceType 2) (Nat.lor (1 <<< 63) (1 <<< 61)))).setColor
          1 (Nat.xor (b.pieces.color 1) (Nat.lor (1 <<< 63) (1 <<< 61)))).setPieceType
          0 (Nat.land (((b.pieces.setPieceType 2 (Nat.xor (b.pieces.pieceType 2) (Nat.lor (1 <<< 63) (1 <<< 61)))).setColor
          1 (Nat.xor (b.pieces.color 1) (Nat.lor (1 <<< 63) (1 <<< 61)))).pieceType 0) (comp64 (1 <<< 60)))).setColor
          1 (Nat.land (((b.pieces.setPieceType 2 (Nat.xor (b.pieces.pieceType 2) (Nat.lor (1 <<< 63) (1 <<< 61)))).setColor
          1 (Nat.xor (b.pieces.color 1) (Nat.lor (1 <<< 63) (1 <<< 61)))).color 1) (comp64 (1 <<< 60)))))
        (b.zobrist.pieces 1 0 62) := by
    refine placementHash_flip1 b.zobrist _ _ 1 0 62
      (by norm_num) (by norm_num) (by norm_num) ?_ ?_
    · intro C P i hC hP hi hne
      have hboP := hbo P hP
      have hbcP := hbc P hP
      have hrdP := hrd P hP
      have hptdP := hptd P hP
      rcases (by omega : C = 0 ∨ C = 1) with rfl | rfl <;>
        by_cases hP0 : P = 0 <;> by_cases hP2 : P = 2 <;>
        by_cases hio : i = (62 : Nat) <;>
        simp_all only [setColor_color, setColor_pieceType, setPieceType_pieceType,
              setPieceType_color, testBit_land2, testBit_lor2, testBit_comp64, nf_pow,
              nf_set, nf_xor, xor10,
              xor11, Nat.reduceEqDiff, Nat.reduceLT, reduceIte, eq_self_iff_true, if_true, if_false,
              decide_True, decide_False, Bool.xor_true, Bool.xor_false, Bool.true_xor,
              Bool.false_xor, Bool.and_true, Bool.true_and, Bool.and_false, Bool.false_and,
              Bool.or_true, Bool.or_false, Bool.true_or, Bool.false_or, Bool.not_true,
              Bool.not_false, Bool.not_not, and_true, true_and, and_false, false_and,
              not_true, not_false_iff, ne_eq, or_true, true_or, or_false, false_or,
              decide_symm_false]
    · have hA := hrd 0 (by norm_num)
      have hB := hrd 2 (by norm_num)
      have hC := hbc 0 (by norm_num) (by norm_num)
      have hD := hptd 0 (by norm_num)
      have hE := hptd 2 (by norm_num)
      have hF := hbo 2 (by norm_num) (by norm_num)
      simp_all only [setColor_color, setColor_pieceType, setPieceType_pieceType,
              setPieceType_color, testBit_land2, testBit_lor2, testBit_comp64, nf_pow,
              nf_set, nf_xor, xor10,
              xor11, Nat.reduceEqDiff, Nat.reduceLT, reduceIte, eq_self_iff_true, if_true, if_false,
              decide_True, decide_False, Bool.xor_true, Bool.xor_false, Bool.true_xor,
              Bool.false_xor, Bool.and_true, Bool.true_and, Bool.and_false, Bool.false_and,
              Bool.or_true, Bool.or_false, Bool.true_or, Bool.false_or, Bool.not_true,
              Bool.not_false, Bool.not_not, and_true, true_and, and_false, false_and,
              not_true, not_false_iff, ne_eq, or_true, true_or, or_false, false_or,
              decide_symm_false]
  simp only [Board.doMoveApplied, calcHash_expand, htype, hcap, hpk, ho, hd, htmv,
    MOVE_NORMAL, MOVE_CASTLING, MOVE_PROMOTION, MOVE_ENPASSANT, NO_PIECE, KINGSIDE,
    QUEENSIDE, PAWN, KING, ROOK, WHITE, BLACK, A1, D1, F1, H1, A8, D8, F8, H8,
    castlingRookMask, ZobristArrays.castlingRookMovement, xor10, xor11,
    Nat.reduceEqDiff, Nat.reduceLT, Nat.reduceGT, reduceIte, ne_eq, false_and,
    true_and, if_true, if_false, not_false_iff,
    Option.getD_some, apply_ite b.zobrist.enPassantFile,
    NO_ENPASSANT_FILE, enPassantFile8]
  rw [e4, e2, e1]
  simp only [xor_assoc2, xor_comm2, xor_lcomm, xor_zero2, zero_xor2, xor_self2,
    xor_cancel]

/-- C2.  Hash incrementality: for every legal, in-range board and every
generated move that `do_move` accepts, the returned Zobrist delta xored
into the old from-scratch hash gives exactly the from-scratch hash of
the resulting position. -/
theorem hash_incrementality (b : Board) (m : Move) (hL : b.isLegal = true)
    (hR : b.inRange) (all : Bool) (hm : m ∈ b.generateMoves all) (h : Nat)
    (hsome : (b.doMove m).1 = some h) :
    Nat.xor b.calcHash h = ((b.doMove m).2).calcHash := by
  have hWF := generateMoves_WF b hL hR all m hm
  obtain ⟨htm, hep8, hdisj, hocc, hsub, hptdisj⟩ := isLegal_facts b hL hR
  have key : b.doMove m = b.doMoveApplied m := by
    unfold Board.doMove at hsome ⊢
    split_ifs at hsome ⊢ with h1 h2 h3 <;>
      first
        | rfl
        | exact absurd hsome (fun hx => by simp at hx)
  rw [key] at hsome ⊢
  have hh : (b.doMoveApplied m).1.getD 0 = h := by
    rw [hsome]
    rfl
  rw [← hh]
  have ho64 := mvOrig_lt m
  have hd64 := mvDest_lt m
  have horig := hWF.orig_pt
  have horigc := hWF.orig_col
  have hdnu := hWF.dest_not_us
  have hod := hWF.orig_ne_dest
  have hthemo : (b.pieces.color (Nat.xor 1 b.toMove)).testBit (mvOrig m) = false :=
    land_zero_testBit hdisj _ horigc
  have hdisj2 : Nat.land (b.pieces.color (Nat.xor 1 b.toMove)) (b.pieces.color b.toMove)
      = 0 := by
    rw [land_comm']
    exact hdisj
  have hoccfalse : ∀ s, b.occupied.testBit s = false →
      (∀ q, q < 6 → (b.pieces.pieceType q).testBit s = false) ∧
      (b.pieces.color b.toMove).testBit s = false ∧
      (b.pieces.color (Nat.xor 1 b.toMove)).testBit s = false := by
    intro s hs
    refine ⟨fun q hq => ?_, ?_, ?_⟩
    · cases hbit : (b.pieces.pieceType q).testBit s with
      | false => rfl
      | true =>
        have h2 := hsub q hq s hbit
        rw [hs] at h2
        exact absurd h2 Bool.false_ne_true
    · cases hbit : (b.pieces.color b.toMove).testBit s with
      | false => rfl
      | true =>
        have h2 : b.occupied.testBit s = true := by
          rw [hocc]
          exact testBit_lor_left hbit
        rw [hs] at h2
        exact absurd h2 Bool.false_ne_true
    · cases hbit : (b.pieces.color (Nat.xor 1 b.toMove)).testBit s with
      | false => rfl
      | true =>
        have h2 : b.occupied.testBit s = true := by
          rw [hocc]
          exact testBit_lor_right hbit
        rw [hs] at h2
        exact absurd h2 Bool.false_ne_true
  rcases hWF.shape with ⟨hA, hcapd⟩ | hEP | hCast
  · have hbo : ∀ q, q < 6 → q ≠ mvPiece m →
        (b.pieces.pieceType q).testBit (mvOrig m) = false := fun q hq hqp =>
      land_zero_testBit (hptdisj (mvPiece m) q hWF.piece_lt hq (fun he => hqp he.symm))
        _ horig
    rcases hA with htype | ⟨htype, hpp⟩
    · rcases hcapd with ⟨hcap, hnocc⟩ | ⟨hcap6, hcd, hcc⟩
      · obtain ⟨hptd, -, hthemd⟩ := hoccfalse _ hnocc
        exact dev_h1 b m htm htype hcap hWF.piece_lt ho64 hd64 hod horig horigc hdnu
          hptd hbo hthemo hthemd
      · have hbd : ∀ q, q < 6 → q ≠ mvCaptured m →
            (b.pieces.pieceType q).testBit (mvDest m) = false := fun q hq hqc =>
          land_zero_testBit (hptdisj (mvCaptured m) q hcap6 hq (fun he => hqc he.symm))
            _ hcd
        exact dev_h2 b m htm htype hcap6 hWF.piece_lt ho64 hd64 hod horig horigc hdnu
          hcd hcc hbd hbo hthemo
    · have horig5 : (b.pieces.pieceType 5).testBit (mvOrig m) = true := by
        rw [hpp] at horig
        exact horig
      have hbo5 : ∀ q, q < 6 → q ≠ 5 →
          (b.pieces.pieceType q).testBit (mvOrig m) = false := fun q hq hqp =>
        land_zero_testBit (hptdisj 5 q (by norm_num) hq (fun he => hqp he.symm))
          _ horig5
      have hdplt : pieceFromAuxData (mvAux m) < 6 := by
        have hb2 := pieceFromAuxData_bounds (mvAux m)
        omega
      rcases hcapd with ⟨hcap, hnocc⟩ | ⟨hcap6, hcd, hcc⟩
      · obtain ⟨hptd, -, hthemd⟩ := hoccfalse _ hnocc
        exact dev_h3 b m htm htype hcap hpp hdplt ho64 hd64 hod horig5 horigc hdnu
          hptd hbo5 hthemo hthemd
      · have hbd : ∀ q, q < 6 → q ≠ mvCaptured m →
            (b.pieces.pieceType q).testBit (mvDest m) = false := fun q hq hqc =>
          land_zero_testBit (hptdisj (mvCaptured m) q hcap6 hq (fun he => hqc he.symm))
            _ hcd
        exact dev_h4 b m htm htype hcap6 hpp hdplt ho64 hd64 hod horig5 horigc hdnu
          hcd hcc hbd hbo5 hthemo
  · obtain ⟨htype, hpp, hcap, hnocc, hcs64, hpcs, hccs⟩ := hEP
    obtain ⟨hptd, -, hthemd⟩ := hoccfalse _ hnocc
    have horig5 : (b.pieces.pieceType 5).testBit (mvOrig m) = true := by
      rw [hpp] at horig
      exact horig
    have hbo5 : ∀ q, q < 6 → q ≠ 5 →
        (b.pieces.pieceType q).testBit (mvOrig m) = false := fun q hq hqp =>
      land_zero_testBit (hptdisj 5 q (by norm_num) hq (fun he => hqp he.symm))
        _ horig5
    have hbcap : ∀ q, q < 6 → q ≠ 5 → (b.pieces.pieceType q).testBit
        (((mvDest m : Int) + pawnMoveShifts (Nat.xor 1 b.toMove) PAWN_PUSH).toNat)
        = false := fun q hq hqp =>
      land_zero_testBit (hptdisj 5 q (by norm_num) hq (fun he => hqp he.symm)) _ hpcs
    have hepUs : (b.pieces.color b.toMove).testBit
        (((mvDest m : Int) + pawnMoveShifts (Nat.xor 1 b.toMove) PAWN_PUSH).toNat)
        = false := land_zero_testBit hdisj2 _ hccs
    have hoc : mvOrig m ≠
        ((mvDest m : Int) + pawnMoveShifts (Nat.xor 1 b.toMove) PAWN_PUSH).toNat := by
      intro he
      have h2 := horigc
      rw [he] at h2
      rw [h2] at hepUs
      exact Bool.noConfusion hepUs
    have hdc : mvDest m ≠
        ((mvDest m : Int) + pawnMoveShifts (Nat.xor 1 b.toMove) PAWN_PUSH).toNat := by
      intro he
      have h2 := hsub 5 (by norm_num) _ hpcs
      rw [← he] at h2
      rw [hnocc] at h2
      exact absurd h2 Bool.false_ne_true
    exact dev_h5 b m htm htype (by rw [hcap]; rfl) hpp ho64 hd64 hcs64 hod hoc hdc
      horig5 horigc hdnu hptd hbo5 hthemo hthemd hpcs hccs hepUs hbcap
  · obtain ⟨htype, hpk, hcap, hnocc, hsh, hpass, hcan⟩ := hCast
    obtain ⟨hptdd, -, hthemd⟩ := hoccfalse _ hnocc
    obtain ⟨-, -, hcwq, hcwk, hcbq, hcbk, -⟩ := isLegal_facts2 b hL hR
    have horig0 : (b.pieces.pieceType 0).testBit (mvOrig m) = true := by
      rw [hpk] at horig
      exact horig
    have hbo0 : ∀ q, q < 6 → q ≠ 0 →
        (b.pieces.pieceType q).testBit (mvOrig m) = false := fun q hq hqp =>
      land_zero_testBit (hptdisj 0 q (by norm_num) hq (fun he => hqp he.symm))
        _ horig0
    rcases hsh with ⟨htmv, ho, hd⟩ | ⟨htmv, ho, hd⟩ <;> rcases hd with hd | hd
    · simp only [WHITE, BLACK] at htmv
      rw [ho, hd] at hpass
      obtain ⟨hrdp, hrdus, hrdthem⟩ := hoccfalse _ hpass
      rw [ho] at horig0 hbo0
      rw [ho, htmv] at horigc hthemo
      rw [hd, htmv] at hdnu hthemd
      rw [hd] at hptdd
      rw [htmv] at hrdus hrdthem hdisj
      rw [xor10] at hthemo hthemd hrdthem hdisj
      simp only [ho, hd, htmv, Nat.reduceLT, reduceIte] at hcan
      rcases hcwq with hno | ⟨hrook, -⟩
      · exact absurd hcan hno
      rw [land_comm'] at hrook
      have hrbit := land_singleton_cases hrook
      have hcc := testBit_land_both hrbit
      have hcorner : (b.pieces.pieceType 2).testBit 0 = true := hcc.1
      have hcornerc : (b.pieces.color 0).testBit 0 = true := hcc.2
      have hbc : ∀ q, q < 6 → q ≠ 2 →
          (b.pieces.pieceType q).testBit 0 = false := fun q hq hqp =>
        land_zero_testBit (hptdisj 2 q (by norm_num) hq (fun he => hqp he.symm))
          _ hcorner
      have hthemc : (b.pieces.color 1).testBit 0 = false :=
        land_zero_testBit hdisj _ hcornerc
      exact dev_h6a b m htmv htype hcap hpk ho hd horig0 horigc hbo0 hthemo hptdd hdnu
        hthemd hcorner hcornerc hbc hthemc hrdp hrdus hrdthem
    · simp only [WHITE, BLACK] at htmv
      rw [ho, hd] at hpass
      obtain ⟨hrdp, hrdus, hrdthem⟩ := hoccfalse _ hpass
      rw [ho] at horig0 hbo0
      rw [ho, htmv] at horigc hthemo
      rw [hd, htmv] at hdnu hthemd
      rw [hd] at hptdd
      rw [htmv] at hrdus hrdthem hdisj
      rw [xor10] at hthemo hthemd hrdthem hdisj
      simp only [ho, hd, htmv, Nat.reduceLT, reduceIte] at hcan
      rcases hcwk with hno | ⟨hrook, -⟩
      · exact absurd hcan hno
      rw [land_comm'] at hrook
      have hrbit := land_singleton_cases hrook
      have hcc := testBit_land_both hrbit
      have hcorner : (b.pieces.pieceType 2).testBit 7 = true := hcc.1
      have hcornerc : (b.pieces.color 0).testBit 7 = true := hcc.2
      have hbc : ∀ q, q < 6 → q ≠ 2 →
          (b.pieces.pieceType q).testBit 7 = false := fun q hq hqp =>
        land_zero_testBit (hptdisj 2 q (by norm_num) hq (fun he => hqp he.symm))
          _ hcorner
      have hthemc : (b.pieces.color 1).testBit 7 = false :=
        land_zero_testBit hdisj _ hcornerc
      exact dev_h6b b m htmv htype hcap hpk ho hd horig0 horigc hbo0 hthemo hptdd hdnu
        hthemd hcorner hcornerc hbc hthemc hrdp hrdus hrdthem
    · simp only [WHITE, BLACK] at htmv
      rw [ho, hd] at hpass
      obtain ⟨hrdp, hrdus, hrdthem⟩ := hoccfalse _ hpass
      rw [ho] at horig0 hbo0
      rw [ho, htmv] at horigc hthemo
      rw [hd, htmv] at hdnu hthemd
      rw [hd] at hptdd
      rw [htmv] at hrdus hrdthem hdisj
      rw [xor11] at hthemo hthemd hrdthem hdisj
      simp only [ho, hd, htmv, Nat.reduceLT, reduceIte] at hcan
      rcases hcbq with hno | ⟨hrook, -⟩
      · exact absurd hcan hno
      rw [land_comm'] at hrook
      have hrbit := land_singleton_cases hrook
      have hcc := testBit_land_both hrbit
      have hcorner : (b.pieces.pieceType 2).testBit 56 = true := hcc.1
      have hcornerc : (b.pieces.color 1).testBit 56 = true := hcc.2
      have hbc : ∀ q, q < 6 → q ≠ 2 →
          (b.pieces.pieceType q).testBit 56 = false := fun q hq hqp =>
        land_zero_testBit (hptdisj 2 q (by norm_num) hq (fun he => hqp he.symm))
          _ hcorner
      have hthemc : (b.pieces.color 0).testBit 56 = false :=
        land_zero_testBit hdisj _ hcornerc
      exact dev_h6c b m htmv htype hcap hpk ho hd horig0 horigc hbo0 hthemo hptdd hdnu
        hthemd hcorner hcornerc hbc hthemc hrdp hrdus hrdthem
    · simp only [WHITE, BLACK] at htmv
      rw [ho, hd] at hpass
      obtain ⟨hrdp, hrdus, hrdthem⟩ := hoccfalse _ hpass
      rw [ho] at horig0 hbo0
      rw [ho, htmv] at horigc hthemo
      rw [hd, htmv] at hdnu hthemd
      rw [hd] at hptdd
      rw [htmv] at hrdus hrdthem hdisj
      rw [xor11] at hthemo hthemd hrdthem hdisj
      simp only [ho, hd, htmv, Nat.reduceLT, reduceIte] at hcan
      rcases hcbk with hno | ⟨hrook, -⟩
      · exact absurd hcan hno
      rw [land_comm'] at hrook
      have hrbit := land_singleton_cases hrook
      have hcc := testBit_land_both hrbit
      have hcorner : (b.pieces.pieceType 2).testBit 63 = true := hcc.1
      have hcornerc : (b.pieces.color 1).testBit 63 = true := hcc.2
      have hbc : ∀ q, q < 6 → q ≠ 2 →
          (b.pieces.pieceType q).testBit 63 = false := fun q hq hqp =>
        land_zero_testBit (hptdisj 2 q (by norm_num) hq (fun he => hqp he.symm))
          _ hcorner
      have hthemc : (b.pieces.color 0).testBit 63 = false :=
        land_zero_testBit hdisj _ hcornerc
      exact dev_h6d b m htmv htype hcap hpk ho hd horig0 horigc hbo0 hthemo hptdd hdnu
        hthemd hcorner hcornerc hbc hthemc hrdp hrdus hrdthem

theorem hash_incrementality_witness :
    bFix.isLegal = true ∧ bFix.inRange ∧ mKg1 ∈ bFix.generateMoves true ∧
    (bFix.doMove mKg1).1 = some ((bFix.doMove mKg1).1.getD 0) ∧
    Nat.xor bFix.calcHash ((bFix.doMove mKg1).1.getD 0)
      = ((bFix.doMove mKg1).2).calcHash :=
  ⟨by decide, by decide, by decide, by decide,
   hash_incrementality bFix mKg1 (by decide) (by decide) true (by decide)
     ((bFix.doMove mKg1).1.getD 0) (by decide)⟩

end Socrates